import Mathlib

/-!
# Body descriptors of `src/objects/objects-body-descriptors-inl.h`

A shallow embedding of the tracing primitives of `BodyDescriptorBase` and of the
per-shape body descriptors.  A visitor is modelled by the list of calls it receives, in
order; offsets are C++ `int`s, modelled as `Int` (every layout constant and object size is
far below `2^31`, so no arithmetic here wraps).

Constants, accessors and helper functions that are declared in other headers
(`globals.h`, `js-objects.h`, `map.h`, ...) are not part of this translation unit; they
are collected as fields of `Layout`, `Map` and `HeapObject` and constrained by explicit
hypotheses where a theorem needs a fact about them.

`DCHECK`s are debug-build assertions and do not change control flow; they are not part of
the definitions and appear as hypotheses where a theorem relies on them.  `UNREACHABLE()`
aborts the process: a function whose body is `UNREACHABLE()` returns `none`.
-/

namespace V8

/-- Address of a heap object; identifies the host object of a visitor call. -/
abbrev Address := Nat

/-- The relocation modes named by `Code::BodyDescriptor::kRelocModeMask`. -/
inductive RelocMode
  | CODE_TARGET
  | RELATIVE_CODE_TARGET
  | FULL_EMBEDDED_OBJECT
  | COMPRESSED_EMBEDDED_OBJECT
  | DATA_EMBEDDED_OBJECT
  | EXTERNAL_REFERENCE
  | INTERNAL_REFERENCE
  | INTERNAL_REFERENCE_ENCODED
  | OFF_HEAP_TARGET
  | RUNTIME_ENTRY
  deriving DecidableEq, Repr

/-- The three instantiations of `SmallOrderedHashTable<Derived>`. -/
inductive SmallOrderedDerived
  | SmallOrderedHashSet
  | SmallOrderedHashMap
  | SmallOrderedNameDictionary
  deriving DecidableEq, Repr

set_option genInjectivity false in
/-- Build flags, layout constants and static helper functions that the body descriptors
use and that are declared outside `objects-body-descriptors-inl.h`.  Field names are the
C++ names with `::` written `_`. -/
structure Layout where
  /-- Source: `#ifdef V8_COMPRESS_POINTERS`. -/
  V8_COMPRESS_POINTERS : Bool
  V8_EXTERNAL_CODE_SPACE_BOOL : Bool
  kTaggedSize : Int
  kEmbedderDataSlotSize : Int
  EmbedderDataSlot_kTaggedPayloadOffset : Int
  HeapObject_kHeaderSize : Int
  JSReceiver_kPropertiesOrHashOffset : Int
  JSObject_kHeaderSize : Int
  WeakCell_kTargetOffset : Int
  WeakCell_kUnregisterTokenOffset : Int
  JSWeakRef_kTargetOffset : Int
  JSFinalizationRegistry_kNextDirtyOffset : Int
  AllocationSite_kStartOffset : Int
  AllocationSite_kCommonPointerFieldEndOffset : Int
  AllocationSite_kPretenureDataOffset : Int
  AllocationSite_kPretenureCreateCountOffset : Int
  AllocationSite_kWeakNextOffset : Int
  AllocationSite_kSizeWithWeakNext : Int
  JSFunction_kCodeOffset : Int
  /-- Source: `JSFunction::GetHeaderSize(bool function_has_prototype_slot)`. -/
  JSFunction_GetHeaderSize : Bool → Int
  JSArrayBuffer_kEndOfTaggedFieldsOffset : Int
  JSArrayBuffer_kHeaderSize : Int
  JSTypedArray_kEndOfTaggedFieldsOffset : Int
  JSTypedArray_kBasePointerOffset : Int
  JSTypedArray_kHeaderSize : Int
  JSDataView_kEndOfTaggedFieldsOffset : Int
  JSDataView_kHeaderSize : Int
  /-- Source: `SmallOrderedHashTable<Derived>::DataTableStartOffset()`. -/
  SmallOrderedHashTable_DataTableStartOffset : Int
  /-- Source: `Derived::SizeFor(int capacity)`. -/
  SmallOrderedHashTable_SizeFor : SmallOrderedDerived → Int → Int
  SwissNameDictionary_MetaTablePointerOffset : Int
  SwissNameDictionary_DataTableStartOffset : Int
  /-- Source: `SwissNameDictionary::DataTableEndOffset(int capacity)`. -/
  SwissNameDictionary_DataTableEndOffset : Int → Int
  SwissNameDictionary_SizeFor : Int → Int
  ByteArray_SizeFor : Int → Int
  BytecodeArray_kConstantPoolOffset : Int
  BytecodeArray_kHandlerTableOffset : Int
  BytecodeArray_kSourcePositionTableOffset : Int
  BytecodeArray_SizeFor : Int → Int
  BigInt_SizeFor : Int → Int
  FixedDoubleArray_kHeaderSize : Int
  kDoubleSize : Int
  FeedbackMetadata_SizeFor : Int → Int
  /-- Source: `PreparseData::SizeFor(int data_length, int children_length)`. -/
  PreparseData_SizeFor : Int → Int → Int
  PrototypeInfo_kObjectCreateMapOffset : Int
  Foreign_kForeignAddressOffset : Int
  Foreign_kSize : Int
  WasmTypeInfo_kSupertypesOffset : Int
  WasmTypeInfo_kSubtypesOffset : Int
  WasmTypeInfo_kInstanceOffset : Int
  WasmTypeInfo_kSize : Int
  WasmFunctionData_kStartOfStrongFieldsOffset : Int
  WasmJSFunctionData_kEndOfStrongFieldsOffset : Int
  WasmJSFunctionData_kSize : Int
  WasmExportedFunctionData_kEndOfStrongFieldsOffset : Int
  WasmExportedFunctionData_kSize : Int
  WasmCapiFunctionData_kEndOfStrongFieldsOffset : Int
  WasmCapiFunctionData_kSize : Int
  /-- Source: `WasmInstanceObject::kTaggedFieldOffsets`, an array of `uint16_t`. -/
  WasmInstanceObject_kTaggedFieldOffsets : List Nat
  WasmInstanceObject_kHeaderSize : Int
  WasmArray_kHeaderSize : Int
  /-- Source: `wasm_struct.RawField(offset)`, a member call on a `WasmStruct`; the class is
  declared in `wasm-objects.h`.  The value is the byte offset in the object of the slot
  returned for the argument `offset`. -/
  WasmStruct_RawField : Int → Int
  ExternalOneByteString_kSize : Int
  ExternalTwoByteString_kSize : Int
  CoverageInfo_SizeFor : Int → Int
  Code_kRelocationInfoOffset : Int
  Code_kDeoptimizationDataOffset : Int
  Code_kPositionTableOffset : Int
  Code_kCodeDataContainerOffset : Int
  Code_kDataStart : Int
  /-- Source: `RelocInfo::ModeMask(Mode mode)`. -/
  RelocInfo_ModeMask : RelocMode → Nat
  Map_kStartOfStrongFieldsOffset : Int
  Map_kEndOfStrongFieldsOffset : Int
  Map_kStartOfWeakFieldsOffset : Int
  Map_kEndOfWeakFieldsOffset : Int
  Map_kTransitionsOrPrototypeInfoOffset : Int
  Map_kSize : Int
  DataHandler_kSmiHandlerOffset : Int
  DataHandler_kData1Offset : Int
  DataHandler_kSizeWithData1 : Int
  NativeContext_kStartOfStrongFieldsOffset : Int
  NativeContext_kEndOfStrongFieldsOffset : Int
  NativeContext_kStartOfWeakFieldsOffset : Int
  NativeContext_kEndOfWeakFieldsOffset : Int
  NativeContext_kEndOfTaggedFieldsOffset : Int
  NativeContext_kSize : Int
  CodeDataContainer_kHeaderSize : Int
  CodeDataContainer_kPointerFieldsStrongEndOffset : Int
  CodeDataContainer_kPointerFieldsWeakEndOffset : Int
  CodeDataContainer_kCodeOffset : Int
  CodeDataContainer_kSize : Int
  EmbedderDataArray_kHeaderSize : Int
  /-- Source: `EmbedderDataArray::OffsetOfElementAt(int index)`. -/
  EmbedderDataArray_OffsetOfElementAt : Int → Int
  EphemeronHashTable_kHeaderSize : Int
  EphemeronHashTable_kElementsStartIndex : Int

/-- One field of a `wasm::StructType`: `field(i).is_reference()` and `field_offset(i)`. -/
structure WasmField where
  is_reference : Bool
  field_offset : Nat
  deriving DecidableEq, Repr

/-- The values a body descriptor reads from a `Map`. -/
structure Map where
  instance_type : Nat
  instance_size : Int
  /-- Source: `JSObject::GetHeaderSize(map)`. -/
  JSObject_GetHeaderSize : Int
  /-- Source: `JSObject::GetEmbedderFieldsStartOffset(map)`. -/
  JSObject_GetEmbedderFieldsStartOffset : Int
  /-- Source: `map.GetInObjectPropertyOffset(0)`. -/
  GetInObjectPropertyOffset_0 : Int
  has_prototype_slot : Bool
  /-- Source: `WasmStruct::GcSafeType(map)`: the fields `0 .. field_count()-1` of the struct type. -/
  WasmStruct_GcSafeType : List WasmField
  /-- Source: `WasmStruct::GcSafeSize(map)`. -/
  WasmStruct_GcSafeSize : Int
  /-- Source: `WasmArray::GcSafeType(map)->element_type().is_reference()`. -/
  WasmArray_element_is_reference : Bool
  /-- Source: `WasmArray::SizeFor(map, length)` as a function of `length`. -/
  WasmArray_SizeFor : Int → Int

/-- The values a body descriptor reads from the object it traces. -/
structure HeapObject where
  address : Address
  /-- Source: `map()`, the map of the object. -/
  map : Map
  /-- Source: `object.SizeFromMap(map)`. -/
  SizeFromMap : Map → Int
  /-- Source: `length()` / `length(kAcquireLoad)` of the array-like shapes. -/
  length : Int
  /-- Source: `slot_count()` / `slot_count(kAcquireLoad)`. -/
  slot_count : Int
  /-- Source: `table.Capacity()` of the small ordered and swiss tables. -/
  Capacity : Int
  /-- Source: `table.GetBucketsStartOffset()`. -/
  GetBucketsStartOffset : Int
  inner_start_offset : Int
  children_length : Int
  data_length : Int
  /-- Source: `Code::CodeSize()`. -/
  CodeSize : Int
  /-- Source: `synchronized_unchecked_relocation_info_or_undefined().IsUndefined()`. -/
  relocation_info_IsUndefined : Bool
  /-- The ephemeron table bookkeeping field holding its number of entries in use. -/
  live_entry_count : Nat

/-- Which `RawField` accessor produced the slots of a call: `obj.RawField(offset)` is an
`ObjectSlot`, `obj.RawMaybeWeakField(offset)` a `MaybeObjectSlot`; the visitor has one
`VisitPointers` / `VisitPointer` overload per slot type. -/
inductive SlotKind
  | ObjectSlot
  | MaybeObjectSlot
  deriving DecidableEq, Repr

/-- One call received by the `ObjectVisitor`.  Slots are written as their byte offset in
the host object (`obj.RawField(offset)`). -/
inductive VisitorCall
  | VisitMapPointer (host : Address)
  | VisitPointers (host : Address) (kind : SlotKind) (start end_ : Int)
  | VisitPointer (host : Address) (kind : SlotKind) (offset : Int)
  | VisitCustomWeakPointers (host : Address) (start end_ : Int)
  | VisitCustomWeakPointer (host : Address) (offset : Int)
  | VisitEphemeron (host : Address) (index : Int) (key value : Int)
  | VisitExternalReference (host : Address) (offset : Int)
  | VisitCodePointer (host : Address) (offset : Int)
  | VisitRelocInfo (host : Address) (mode_mask : Nat)
  deriving DecidableEq, Repr

open VisitorCall SlotKind

/-- Source: `HeapObject::kMapOffset`. -/
def HeapObject.kMapOffset : Int := 0

namespace BodyDescriptorBase

/-- Source: `BodyDescriptorBase::IsValidJSObjectSlotImpl`. -/
def IsValidJSObjectSlotImpl (c : Layout) (map : Map) (_obj : HeapObject) (offset : Int) :
    Bool :=
  if c.V8_COMPRESS_POINTERS then
    let embedder_fields_offset := map.JSObject_GetEmbedderFieldsStartOffset
    let inobject_fields_offset := map.GetInObjectPropertyOffset_0
    if embedder_fields_offset ≤ offset ∧ offset < inobject_fields_offset then
      decide (Int.land (offset - embedder_fields_offset) (c.kEmbedderDataSlotSize - 1) =
        c.EmbedderDataSlot_kTaggedPayloadOffset)
    else true
  else true

/-- Source: `BodyDescriptorBase::IteratePointers`. -/
def IteratePointers (c : Layout) (obj : HeapObject) (start_offset end_offset : Int) :
    List VisitorCall :=
  if start_offset = HeapObject.kMapOffset then
    [VisitMapPointer obj.address,
     VisitPointers obj.address ObjectSlot (start_offset + c.kTaggedSize) end_offset]
  else
    [VisitPointers obj.address ObjectSlot start_offset end_offset]

/-- Source: `BodyDescriptorBase::IteratePointer`. -/
def IteratePointer (obj : HeapObject) (offset : Int) : List VisitorCall :=
  [VisitPointer obj.address ObjectSlot offset]

/-- Source: `BodyDescriptorBase::IterateMaybeWeakPointers`. -/
def IterateMaybeWeakPointers (obj : HeapObject) (start_offset end_offset : Int) :
    List VisitorCall :=
  [VisitPointers obj.address MaybeObjectSlot start_offset end_offset]

/-- Source: `BodyDescriptorBase::IterateMaybeWeakPointer`. -/
def IterateMaybeWeakPointer (obj : HeapObject) (offset : Int) : List VisitorCall :=
  [VisitPointer obj.address MaybeObjectSlot offset]

/-- Source: `BodyDescriptorBase::IterateCustomWeakPointers`. -/
def IterateCustomWeakPointers (obj : HeapObject) (start_offset end_offset : Int) :
    List VisitorCall :=
  [VisitCustomWeakPointers obj.address start_offset end_offset]

/-- Source: `BodyDescriptorBase::IterateEphemeron`. -/
def IterateEphemeron (obj : HeapObject) (index key_offset value_offset : Int) :
    List VisitorCall :=
  [VisitEphemeron obj.address index key_offset value_offset]

/-- Source: `BodyDescriptorBase::IterateCustomWeakPointer`. -/
def IterateCustomWeakPointer (obj : HeapObject) (offset : Int) : List VisitorCall :=
  [VisitCustomWeakPointer obj.address offset]

/-- The loop `for (int offset = first; offset < limit; offset += stride)
IteratePointer(obj, offset, v);` used for embedder slots.  `fuel` bounds the number of
iterations; `(limit - first).toNat` iterations are enough whenever `stride ≥ 1`.  The
counter is an integer without bound here; `embedderSlotLoopInt` is the same loop counted
in a C++ `int`, and the two make the same calls whenever no increment leaves the range of
`int`. -/
def embedderSlotLoop (obj : HeapObject) (stride limit : Int) : Nat → Int → List VisitorCall
  | 0, _ => []
  | fuel + 1, offset =>
    if offset < limit then
      IteratePointer obj offset ++ embedderSlotLoop obj stride limit fuel (offset + stride)
    else []

/-- Source: `BodyDescriptorBase::IterateJSObjectBodyImpl`. -/
def IterateJSObjectBodyImpl (c : Layout) (map : Map) (obj : HeapObject)
    (start_offset end_offset : Int) : List VisitorCall :=
  if c.V8_COMPRESS_POINTERS then
    let header_size := map.JSObject_GetHeaderSize
    let inobject_fields_offset := map.GetInObjectPropertyOffset_0
    if header_size < inobject_fields_offset then
      let first := header_size + c.EmbedderDataSlot_kTaggedPayloadOffset
      IteratePointers c obj start_offset header_size ++
        embedderSlotLoop obj c.kEmbedderDataSlotSize inobject_fields_offset
          (inobject_fields_offset - first).toNat first ++
        IteratePointers c obj inobject_fields_offset end_offset
    else
      IteratePointers c obj start_offset end_offset
  else
    IteratePointers c obj start_offset end_offset

end BodyDescriptorBase

open BodyDescriptorBase

/-- Source: `FlexibleBodyDescriptor<start_offset>::SizeOf`. -/
def FlexibleBodyDescriptor.SizeOf (map : Map) (object : HeapObject) : Int :=
  object.SizeFromMap map

/-- Source: `FlexibleWeakBodyDescriptor<start_offset>::SizeOf`. -/
def FlexibleWeakBodyDescriptor.SizeOf (map : Map) (object : HeapObject) : Int :=
  object.SizeFromMap map

namespace JSObject.BodyDescriptor

def kStartOffset (c : Layout) : Int := c.JSReceiver_kPropertiesOrHashOffset

def IsValidSlot (c : Layout) (map : Map) (obj : HeapObject) (offset : Int) : Bool :=
  if offset < kStartOffset c then false
  else IsValidJSObjectSlotImpl c map obj offset

def IterateBody (c : Layout) (map : Map) (obj : HeapObject) (object_size : Int) :
    List VisitorCall :=
  IterateJSObjectBodyImpl c map obj (kStartOffset c) object_size

def SizeOf (map : Map) (_object : HeapObject) : Int := map.instance_size

end JSObject.BodyDescriptor

namespace JSObject.FastBodyDescriptor

def kStartOffset (c : Layout) : Int := c.JSReceiver_kPropertiesOrHashOffset

def IsValidSlot (c : Layout) (_map : Map) (_obj : HeapObject) (offset : Int) : Bool :=
  decide (offset ≥ kStartOffset c)

def IterateBody (c : Layout) (_map : Map) (obj : HeapObject) (object_size : Int) :
    List VisitorCall :=
  IteratePointers c obj (kStartOffset c) object_size

def SizeOf (map : Map) (_object : HeapObject) : Int := map.instance_size

end JSObject.FastBodyDescriptor

namespace WeakCell.BodyDescriptor

def IsValidSlot (c : Layout) (_map : Map) (_obj : HeapObject) (offset : Int) : Bool :=
  decide (offset ≥ c.HeapObject_kHeaderSize)

def IterateBody (c : Layout) (_map : Map) (obj : HeapObject) (object_size : Int) :
    List VisitorCall :=
  IteratePointers c obj c.HeapObject_kHeaderSize c.WeakCell_kTargetOffset ++
  IterateCustomWeakPointer obj c.WeakCell_kTargetOffset ++
  IterateCustomWeakPointer obj c.WeakCell_kUnregisterTokenOffset ++
  IteratePointers c obj (c.WeakCell_kUnregisterTokenOffset + c.kTaggedSize) object_size

def SizeOf (map : Map) (_object : HeapObject) : Int := map.instance_size

end WeakCell.BodyDescriptor

namespace JSWeakRef.BodyDescriptor

def IsValidSlot (c : Layout) (map : Map) (obj : HeapObject) (offset : Int) : Bool :=
  IsValidJSObjectSlotImpl c map obj offset

def IterateBody (c : Layout) (map : Map) (obj : HeapObject) (object_size : Int) :
    List VisitorCall :=
  IteratePointers c obj c.JSReceiver_kPropertiesOrHashOffset c.JSWeakRef_kTargetOffset ++
  IterateCustomWeakPointer obj c.JSWeakRef_kTargetOffset ++
  IterateJSObjectBodyImpl c map obj (c.JSWeakRef_kTargetOffset + c.kTaggedSize) object_size

def SizeOf (map : Map) (_object : HeapObject) : Int := map.instance_size

end JSWeakRef.BodyDescriptor

namespace JSFinalizationRegistry.BodyDescriptor

def IsValidSlot (c : Layout) (map : Map) (obj : HeapObject) (offset : Int) : Bool :=
  IsValidJSObjectSlotImpl c map obj offset

def IterateBody (c : Layout) (map : Map) (obj : HeapObject) (object_size : Int) :
    List VisitorCall :=
  IteratePointers c obj (JSObject.BodyDescriptor.kStartOffset c)
    c.JSFinalizationRegistry_kNextDirtyOffset ++
  IterateCustomWeakPointer obj c.JSFinalizationRegistry_kNextDirtyOffset ++
  IterateJSObjectBodyImpl c map obj (c.JSFinalizationRegistry_kNextDirtyOffset + c.kTaggedSize)
    object_size

def SizeOf (map : Map) (_object : HeapObject) : Int := map.instance_size

end JSFinalizationRegistry.BodyDescriptor

namespace AllocationSite.BodyDescriptor

def IsValidSlot (c : Layout) (map : Map) (_obj : HeapObject) (offset : Int) : Bool :=
  if offset ≥ c.AllocationSite_kStartOffset ∧
      offset < c.AllocationSite_kCommonPointerFieldEndOffset then true
  else if map.instance_size = c.AllocationSite_kSizeWithWeakNext ∧
      offset = c.AllocationSite_kWeakNextOffset then true
  else false

def IterateBody (c : Layout) (_map : Map) (obj : HeapObject) (object_size : Int) :
    List VisitorCall :=
  IteratePointers c obj c.AllocationSite_kStartOffset
    c.AllocationSite_kCommonPointerFieldEndOffset ++
  (if object_size = c.AllocationSite_kSizeWithWeakNext then
    IterateCustomWeakPointers obj c.AllocationSite_kWeakNextOffset
      c.AllocationSite_kSizeWithWeakNext
  else [])

def SizeOf (map : Map) (_object : HeapObject) : Int := map.instance_size

end AllocationSite.BodyDescriptor

namespace JSFunction.BodyDescriptor

def kStartOffset (c : Layout) : Int := JSObject.BodyDescriptor.kStartOffset c

def IsValidSlot (c : Layout) (map : Map) (obj : HeapObject) (offset : Int) : Bool :=
  if offset < kStartOffset c then false
  else IsValidJSObjectSlotImpl c map obj offset

def IterateBody (c : Layout) (map : Map) (obj : HeapObject) (object_size : Int) :
    List VisitorCall :=
  let header_size := c.JSFunction_GetHeaderSize map.has_prototype_slot
  IteratePointers c obj (kStartOffset c) c.JSFunction_kCodeOffset ++
  IterateCustomWeakPointer obj c.JSFunction_kCodeOffset ++
  IteratePointers c obj (c.JSFunction_kCodeOffset + c.kTaggedSize) header_size ++
  IterateJSObjectBodyImpl c map obj header_size object_size

def SizeOf (map : Map) (_object : HeapObject) : Int := map.instance_size

end JSFunction.BodyDescriptor

namespace JSArrayBuffer.BodyDescriptor

def IsValidSlot (c : Layout) (map : Map) (obj : HeapObject) (offset : Int) : Bool :=
  if offset < c.JSArrayBuffer_kEndOfTaggedFieldsOffset then true
  else if offset < c.JSArrayBuffer_kHeaderSize then false
  else IsValidJSObjectSlotImpl c map obj offset

def IterateBody (c : Layout) (map : Map) (obj : HeapObject) (object_size : Int) :
    List VisitorCall :=
  IteratePointers c obj c.JSReceiver_kPropertiesOrHashOffset
    c.JSArrayBuffer_kEndOfTaggedFieldsOffset ++
  IterateJSObjectBodyImpl c map obj c.JSArrayBuffer_kHeaderSize object_size

def SizeOf (map : Map) (_object : HeapObject) : Int := map.instance_size

end JSArrayBuffer.BodyDescriptor

namespace JSTypedArray.BodyDescriptor

def IsValidSlot (c : Layout) (map : Map) (obj : HeapObject) (offset : Int) : Bool :=
  if offset < c.JSTypedArray_kEndOfTaggedFieldsOffset then true
  else if offset = c.JSTypedArray_kBasePointerOffset then true
  else if offset < c.JSTypedArray_kHeaderSize then false
  else IsValidJSObjectSlotImpl c map obj offset

def IterateBody (c : Layout) (map : Map) (obj : HeapObject) (object_size : Int) :
    List VisitorCall :=
  IteratePointers c obj c.JSReceiver_kPropertiesOrHashOffset
    c.JSTypedArray_kEndOfTaggedFieldsOffset ++
  IteratePointer obj c.JSTypedArray_kBasePointerOffset ++
  IterateJSObjectBodyImpl c map obj c.JSTypedArray_kHeaderSize object_size

def SizeOf (map : Map) (_object : HeapObject) : Int := map.instance_size

end JSTypedArray.BodyDescriptor

namespace JSDataView.BodyDescriptor

def IsValidSlot (c : Layout) (map : Map) (obj : HeapObject) (offset : Int) : Bool :=
  if offset < c.JSDataView_kEndOfTaggedFieldsOffset then true
  else if offset < c.JSDataView_kHeaderSize then false
  else IsValidJSObjectSlotImpl c map obj offset

def IterateBody (c : Layout) (map : Map) (obj : HeapObject) (object_size : Int) :
    List VisitorCall :=
  IteratePointers c obj c.JSReceiver_kPropertiesOrHashOffset
    c.JSDataView_kEndOfTaggedFieldsOffset ++
  IterateJSObjectBodyImpl c map obj c.JSDataView_kHeaderSize object_size

def SizeOf (map : Map) (_object : HeapObject) : Int := map.instance_size

end JSDataView.BodyDescriptor

namespace SmallOrderedHashTable.BodyDescriptor

def IsValidSlot (c : Layout) (_map : Map) (obj : HeapObject) (offset : Int) : Bool :=
  let table := obj
  decide (offset ≥ c.SmallOrderedHashTable_DataTableStartOffset) &&
    decide (offset < table.GetBucketsStartOffset)

def IterateBody (c : Layout) (_map : Map) (obj : HeapObject) (_object_size : Int) :
    List VisitorCall :=
  let table := obj
  let start_offset := c.SmallOrderedHashTable_DataTableStartOffset
  let end_offset := table.GetBucketsStartOffset
  IteratePointers c obj start_offset end_offset

def SizeOf (c : Layout) (derived : SmallOrderedDerived) (_map : Map) (obj : HeapObject) :
    Int :=
  let table := obj
  c.SmallOrderedHashTable_SizeFor derived table.Capacity

end SmallOrderedHashTable.BodyDescriptor

namespace SwissNameDictionary.BodyDescriptor

def IsValidSlot (c : Layout) (_map : Map) (obj : HeapObject) (offset : Int) : Bool :=
  let table := obj
  decide (offset ≥ c.SwissNameDictionary_MetaTablePointerOffset) &&
    decide (offset < c.SwissNameDictionary_DataTableEndOffset table.Capacity)

def IterateBody (c : Layout) (_map : Map) (obj : HeapObject) (_object_size : Int) :
    List VisitorCall :=
  let table := obj
  let start_offset := c.SwissNameDictionary_MetaTablePointerOffset
  let end_offset := c.SwissNameDictionary_DataTableEndOffset table.Capacity
  IteratePointers c obj start_offset end_offset

def SizeOf (c : Layout) (_map : Map) (obj : HeapObject) : Int :=
  let table := obj
  c.SwissNameDictionary_SizeFor table.Capacity

end SwissNameDictionary.BodyDescriptor

namespace ByteArray.BodyDescriptor

def IsValidSlot (_c : Layout) (_map : Map) (_obj : HeapObject) (_offset : Int) : Bool :=
  false

def IterateBody (_c : Layout) (_map : Map) (_obj : HeapObject) (_object_size : Int) :
    List VisitorCall := []

def SizeOf (c : Layout) (_map : Map) (obj : HeapObject) : Int :=
  c.ByteArray_SizeFor obj.length

end ByteArray.BodyDescriptor

namespace BytecodeArray.BodyDescriptor

def IsValidSlot (c : Layout) (_map : Map) (_obj : HeapObject) (offset : Int) : Bool :=
  decide (offset ≥ c.BytecodeArray_kConstantPoolOffset) &&
    decide (offset ≤ c.BytecodeArray_kSourcePositionTableOffset)

def IterateBody (c : Layout) (_map : Map) (obj : HeapObject) (_object_size : Int) :
    List VisitorCall :=
  IteratePointer obj c.BytecodeArray_kConstantPoolOffset ++
  IteratePointer obj c.BytecodeArray_kHandlerTableOffset ++
  IteratePointer obj c.BytecodeArray_kSourcePositionTableOffset

def SizeOf (c : Layout) (_map : Map) (obj : HeapObject) : Int :=
  c.BytecodeArray_SizeFor obj.length

end BytecodeArray.BodyDescriptor

namespace BigInt.BodyDescriptor

def IsValidSlot (_c : Layout) (_map : Map) (_obj : HeapObject) (_offset : Int) : Bool :=
  false

def IterateBody (_c : Layout) (_map : Map) (_obj : HeapObject) (_object_size : Int) :
    List VisitorCall := []

def SizeOf (c : Layout) (_map : Map) (obj : HeapObject) : Int :=
  c.BigInt_SizeFor obj.length

end BigInt.BodyDescriptor

/-- Modelled from the spec: `FixedDoubleArray::SizeFor(int length)` is declared in
`fixed-array.h`, which is not among the sources.  The spec describes the shape as a
variable-length raw buffer whose size is the header size plus the stored element count
times the element width (`SizeOf == header_size + 40` for 5 elements of width 8). -/
def FixedDoubleArray.SizeFor (c : Layout) (length : Int) : Int :=
  c.FixedDoubleArray_kHeaderSize + length * c.kDoubleSize

namespace FixedDoubleArray.BodyDescriptor

def IsValidSlot (_c : Layout) (_map : Map) (_obj : HeapObject) (_offset : Int) : Bool :=
  false

def IterateBody (_c : Layout) (_map : Map) (_obj : HeapObject) (_object_size : Int) :
    List VisitorCall := []

def SizeOf (c : Layout) (_map : Map) (obj : HeapObject) : Int :=
  FixedDoubleArray.SizeFor c obj.length

end FixedDoubleArray.BodyDescriptor

namespace FeedbackMetadata.BodyDescriptor

def IsValidSlot (_c : Layout) (_map : Map) (_obj : HeapObject) (_offset : Int) : Bool :=
  false

def IterateBody (_c : Layout) (_map : Map) (_obj : HeapObject) (_object_size : Int) :
    List VisitorCall := []

def SizeOf (c : Layout) (_map : Map) (obj : HeapObject) : Int :=
  c.FeedbackMetadata_SizeFor obj.slot_count

end FeedbackMetadata.BodyDescriptor

namespace PreparseData.BodyDescriptor

def IsValidSlot (_c : Layout) (_map : Map) (obj : HeapObject) (offset : Int) : Bool :=
  decide (offset ≥ obj.inner_start_offset)

def IterateBody (c : Layout) (_map : Map) (obj : HeapObject) (_object_size : Int) :
    List VisitorCall :=
  let data := obj
  let start_offset := data.inner_start_offset
  let end_offset := start_offset + data.children_length * c.kTaggedSize
  IteratePointers c obj start_offset end_offset

def SizeOf (c : Layout) (_map : Map) (obj : HeapObject) : Int :=
  let data := obj
  c.PreparseData_SizeFor data.data_length data.children_length

end PreparseData.BodyDescriptor

namespace PrototypeInfo.BodyDescriptor

def IsValidSlot (c : Layout) (_map : Map) (_obj : HeapObject) (offset : Int) : Bool :=
  decide (offset ≥ c.HeapObject_kHeaderSize)

def IterateBody (c : Layout) (_map : Map) (obj : HeapObject) (object_size : Int) :
    List VisitorCall :=
  IteratePointers c obj c.HeapObject_kHeaderSize c.PrototypeInfo_kObjectCreateMapOffset ++
  IterateMaybeWeakPointer obj c.PrototypeInfo_kObjectCreateMapOffset ++
  IteratePointers c obj (c.PrototypeInfo_kObjectCreateMapOffset + c.kTaggedSize) object_size

def SizeOf (map : Map) (obj : HeapObject) : Int := obj.SizeFromMap map

end PrototypeInfo.BodyDescriptor

namespace JSWeakCollection.BodyDescriptorImpl

def IsValidSlot (c : Layout) (map : Map) (obj : HeapObject) (offset : Int) : Bool :=
  IsValidJSObjectSlotImpl c map obj offset

def IterateBody (c : Layout) (map : Map) (obj : HeapObject) (object_size : Int) :
    List VisitorCall :=
  IterateJSObjectBodyImpl c map obj c.JSReceiver_kPropertiesOrHashOffset object_size

def SizeOf (map : Map) (_object : HeapObject) : Int := map.instance_size

end JSWeakCollection.BodyDescriptorImpl

namespace Foreign.BodyDescriptor

def IsValidSlot (_c : Layout) (_map : Map) (_obj : HeapObject) (_offset : Int) : Bool :=
  false

def IterateBody (c : Layout) (_map : Map) (obj : HeapObject) (_object_size : Int) :
    List VisitorCall :=
  [VisitExternalReference obj.address c.Foreign_kForeignAddressOffset]

def SizeOf (c : Layout) (_map : Map) (_object : HeapObject) : Int := c.Foreign_kSize

end Foreign.BodyDescriptor

namespace WasmTypeInfo.BodyDescriptor

/-- The body is `UNREACHABLE()`: the call aborts and returns no value. -/
def IsValidSlot (_c : Layout) (_map : Map) (_obj : HeapObject) (_offset : Int) :
    Option Bool := none

def IterateBody (c : Layout) (map : Map) (obj : HeapObject) (object_size : Int) :
    List VisitorCall :=
  Foreign.BodyDescriptor.IterateBody c map obj object_size ++
  IteratePointer obj c.WasmTypeInfo_kSupertypesOffset ++
  IteratePointer obj c.WasmTypeInfo_kSubtypesOffset ++
  IteratePointer obj c.WasmTypeInfo_kInstanceOffset

def SizeOf (c : Layout) (_map : Map) (_object : HeapObject) : Int := c.WasmTypeInfo_kSize

end WasmTypeInfo.BodyDescriptor

namespace WasmJSFunctionData.BodyDescriptor

/-- The body is `UNREACHABLE()`: the call aborts and returns no value. -/
def IsValidSlot (_c : Layout) (_map : Map) (_obj : HeapObject) (_offset : Int) :
    Option Bool := none

def IterateBody (c : Layout) (map : Map) (obj : HeapObject) (object_size : Int) :
    List VisitorCall :=
  Foreign.BodyDescriptor.IterateBody c map obj object_size ++
  IteratePointers c obj c.WasmFunctionData_kStartOfStrongFieldsOffset
    c.WasmJSFunctionData_kEndOfStrongFieldsOffset

def SizeOf (c : Layout) (_map : Map) (_object : HeapObject) : Int :=
  c.WasmJSFunctionData_kSize

end WasmJSFunctionData.BodyDescriptor

namespace WasmExportedFunctionData.BodyDescriptor

/-- The body is `UNREACHABLE()`: the call aborts and returns no value. -/
def IsValidSlot (_c : Layout) (_map : Map) (_obj : HeapObject) (_offset : Int) :
    Option Bool := none

def IterateBody (c : Layout) (map : Map) (obj : HeapObject) (object_size : Int) :
    List VisitorCall :=
  Foreign.BodyDescriptor.IterateBody c map obj object_size ++
  IteratePointers c obj c.WasmFunctionData_kStartOfStrongFieldsOffset
    c.WasmExportedFunctionData_kEndOfStrongFieldsOffset

def SizeOf (c : Layout) (_map : Map) (_object : HeapObject) : Int :=
  c.WasmExportedFunctionData_kSize

end WasmExportedFunctionData.BodyDescriptor

namespace WasmCapiFunctionData.BodyDescriptor

/-- The body is `UNREACHABLE()`: the call aborts and returns no value. -/
def IsValidSlot (_c : Layout) (_map : Map) (_obj : HeapObject) (_offset : Int) :
    Option Bool := none

def IterateBody (c : Layout) (map : Map) (obj : HeapObject) (object_size : Int) :
    List VisitorCall :=
  Foreign.BodyDescriptor.IterateBody c map obj object_size ++
  IteratePointers c obj c.WasmFunctionData_kStartOfStrongFieldsOffset
    c.WasmCapiFunctionData_kEndOfStrongFieldsOffset

def SizeOf (c : Layout) (_map : Map) (_object : HeapObject) : Int :=
  c.WasmCapiFunctionData_kSize

end WasmCapiFunctionData.BodyDescriptor

namespace WasmInstanceObject.BodyDescriptor

/-- Membership stands for `std::binary_search` over the sorted `kTaggedFieldOffsets`;
`static_cast<uint16_t>(offset)` is `offset mod 2^16` and
`int{8 * sizeof(*kTaggedFieldOffsets)}` is `16`. -/
def IsValidSlot (c : Layout) (map : Map) (obj : HeapObject) (offset : Int) : Bool :=
  if offset < 8 * 2 ∧ (offset % 65536).toNat ∈ c.WasmInstanceObject_kTaggedFieldOffsets then
    true
  else IsValidJSObjectSlotImpl c map obj offset

def IterateBody (c : Layout) (map : Map) (obj : HeapObject) (object_size : Int) :
    List VisitorCall :=
  IteratePointers c obj c.JSReceiver_kPropertiesOrHashOffset c.JSObject_kHeaderSize ++
  c.WasmInstanceObject_kTaggedFieldOffsets.flatMap
    (fun offset => IteratePointer obj (offset : Int)) ++
  IterateJSObjectBodyImpl c map obj c.WasmInstanceObject_kHeaderSize object_size

def SizeOf (map : Map) (_object : HeapObject) : Int := map.instance_size

end WasmInstanceObject.BodyDescriptor

namespace WasmArray.BodyDescriptor

/-- The body is `UNREACHABLE()`: the call aborts and returns no value. -/
def IsValidSlot (_c : Layout) (_map : Map) (_obj : HeapObject) (_offset : Int) :
    Option Bool := none

def IterateBody (c : Layout) (map : Map) (obj : HeapObject) (object_size : Int) :
    List VisitorCall :=
  if !map.WasmArray_element_is_reference then []
  else IteratePointers c obj c.WasmArray_kHeaderSize object_size

def SizeOf (map : Map) (object : HeapObject) : Int :=
  map.WasmArray_SizeFor object.length

end WasmArray.BodyDescriptor

namespace WasmStruct.BodyDescriptor

/-- The body is `UNREACHABLE()`: the call aborts and returns no value. -/
def IsValidSlot (_c : Layout) (_map : Map) (_obj : HeapObject) (_offset : Int) :
    Option Bool := none

def IterateBody (c : Layout) (map : Map) (obj : HeapObject) (_object_size : Int) :
    List VisitorCall :=
  let wasm_struct := obj
  let type := map.WasmStruct_GcSafeType
  type.flatMap (fun field =>
    if !field.is_reference then []
    else
      let offset : Int := field.field_offset
      [VisitPointer wasm_struct.address ObjectSlot (c.WasmStruct_RawField offset)])

def SizeOf (map : Map) (_object : HeapObject) : Int := map.WasmStruct_GcSafeSize

end WasmStruct.BodyDescriptor

namespace ExternalOneByteString.BodyDescriptor

def IsValidSlot (_c : Layout) (_map : Map) (_obj : HeapObject) (_offset : Int) : Bool :=
  false

def IterateBody (_c : Layout) (_map : Map) (_obj : HeapObject) (_object_size : Int) :
    List VisitorCall := []

def SizeOf (c : Layout) (_map : Map) (_object : HeapObject) : Int :=
  c.ExternalOneByteString_kSize

end ExternalOneByteString.BodyDescriptor

namespace ExternalTwoByteString.BodyDescriptor

def IsValidSlot (_c : Layout) (_map : Map) (_obj : HeapObject) (_offset : Int) : Bool :=
  false

def IterateBody (_c : Layout) (_map : Map) (_obj : HeapObject) (_object_size : Int) :
    List VisitorCall := []

def SizeOf (c : Layout) (_map : Map) (_object : HeapObject) : Int :=
  c.ExternalTwoByteString_kSize

end ExternalTwoByteString.BodyDescriptor

namespace CoverageInfo.BodyDescriptor

def IsValidSlot (_c : Layout) (_map : Map) (_obj : HeapObject) (_offset : Int) : Bool :=
  false

def IterateBody (_c : Layout) (_map : Map) (_obj : HeapObject) (_object_size : Int) :
    List VisitorCall := []

def SizeOf (c : Layout) (_map : Map) (object : HeapObject) : Int :=
  let info := object
  c.CoverageInfo_SizeFor info.slot_count

end CoverageInfo.BodyDescriptor

namespace Code.BodyDescriptor

def IsValidSlot (_c : Layout) (_map : Map) (_obj : HeapObject) (_offset : Int) : Bool :=
  true

def kRelocModeMask (c : Layout) : Nat :=
  c.RelocInfo_ModeMask RelocMode.CODE_TARGET |||
  c.RelocInfo_ModeMask RelocMode.RELATIVE_CODE_TARGET |||
  c.RelocInfo_ModeMask RelocMode.FULL_EMBEDDED_OBJECT |||
  c.RelocInfo_ModeMask RelocMode.COMPRESSED_EMBEDDED_OBJECT |||
  c.RelocInfo_ModeMask RelocMode.DATA_EMBEDDED_OBJECT |||
  c.RelocInfo_ModeMask RelocMode.EXTERNAL_REFERENCE |||
  c.RelocInfo_ModeMask RelocMode.INTERNAL_REFERENCE |||
  c.RelocInfo_ModeMask RelocMode.INTERNAL_REFERENCE_ENCODED |||
  c.RelocInfo_ModeMask RelocMode.OFF_HEAP_TARGET |||
  c.RelocInfo_ModeMask RelocMode.RUNTIME_ENTRY

/-- The overload `IterateBody(Map map, HeapObject obj, ObjectVisitor* v)`. -/
def IterateBodyNoSize (c : Layout) (_map : Map) (obj : HeapObject) : List VisitorCall :=
  let code := obj
  IteratePointers c obj c.Code_kRelocationInfoOffset c.Code_kDataStart ++
  (if !code.relocation_info_IsUndefined then
    [VisitRelocInfo code.address (kRelocModeMask c)]
  else [])

def IterateBody (c : Layout) (map : Map) (obj : HeapObject) (_object_size : Int) :
    List VisitorCall :=
  IterateBodyNoSize c map obj

def SizeOf (_map : Map) (object : HeapObject) : Int := object.CodeSize

end Code.BodyDescriptor

namespace Map.BodyDescriptor

def IsValidSlot (c : Layout) (_map : Map) (_obj : HeapObject) (offset : Int) : Bool :=
  decide (offset ≥ c.Map_kStartOfStrongFieldsOffset) &&
    decide (offset < c.Map_kEndOfWeakFieldsOffset)

def IterateBody (c : Layout) (_map : Map) (obj : HeapObject) (_object_size : Int) :
    List VisitorCall :=
  IteratePointers c obj c.Map_kStartOfStrongFieldsOffset c.Map_kEndOfStrongFieldsOffset ++
  IterateMaybeWeakPointer obj c.Map_kTransitionsOrPrototypeInfoOffset

def SizeOf (c : Layout) (_map : Map) (_obj : HeapObject) : Int := c.Map_kSize

end Map.BodyDescriptor

namespace DataHandler.BodyDescriptor

def IsValidSlot (c : Layout) (_map : Map) (_obj : HeapObject) (offset : Int) : Bool :=
  decide (offset ≥ c.HeapObject_kHeaderSize)

def IterateBody (c : Layout) (_map : Map) (obj : HeapObject) (object_size : Int) :
    List VisitorCall :=
  IteratePointers c obj c.DataHandler_kSmiHandlerOffset c.DataHandler_kData1Offset ++
  IterateMaybeWeakPointers obj c.DataHandler_kData1Offset object_size

def SizeOf (map : Map) (object : HeapObject) : Int := object.SizeFromMap map

end DataHandler.BodyDescriptor

namespace NativeContext.BodyDescriptor

def IsValidSlot (c : Layout) (_map : Map) (_obj : HeapObject) (offset : Int) : Bool :=
  decide (offset < c.NativeContext_kEndOfTaggedFieldsOffset)

def IterateBody (c : Layout) (_map : Map) (obj : HeapObject) (_object_size : Int) :
    List VisitorCall :=
  IteratePointers c obj c.NativeContext_kStartOfStrongFieldsOffset
    c.NativeContext_kEndOfStrongFieldsOffset ++
  IterateCustomWeakPointers obj c.NativeContext_kStartOfWeakFieldsOffset
    c.NativeContext_kEndOfWeakFieldsOffset

def SizeOf (c : Layout) (_map : Map) (_object : HeapObject) : Int := c.NativeContext_kSize

end NativeContext.BodyDescriptor

namespace CodeDataContainer.BodyDescriptor

def IsValidSlot (c : Layout) (_map : Map) (_obj : HeapObject) (offset : Int) : Bool :=
  decide (offset ≥ c.CodeDataContainer_kHeaderSize) &&
    decide (offset ≤ c.CodeDataContainer_kPointerFieldsWeakEndOffset)

def IterateBody (c : Layout) (_map : Map) (obj : HeapObject) (_object_size : Int) :
    List VisitorCall :=
  IteratePointers c obj c.CodeDataContainer_kHeaderSize
    c.CodeDataContainer_kPointerFieldsStrongEndOffset ++
  IterateCustomWeakPointers obj c.CodeDataContainer_kPointerFieldsStrongEndOffset
    c.CodeDataContainer_kPointerFieldsWeakEndOffset ++
  (if c.V8_EXTERNAL_CODE_SPACE_BOOL then
    [VisitCodePointer obj.address c.CodeDataContainer_kCodeOffset]
  else [])

def SizeOf (c : Layout) (_map : Map) (_object : HeapObject) : Int :=
  c.CodeDataContainer_kSize

end CodeDataContainer.BodyDescriptor

namespace EmbedderDataArray.BodyDescriptor

def IsValidSlot (c : Layout) (_map : Map) (_obj : HeapObject) (offset : Int) : Bool :=
  if c.V8_COMPRESS_POINTERS then
    decide (offset < c.EmbedderDataArray_kHeaderSize) ||
      decide (Int.land (offset - c.EmbedderDataArray_kHeaderSize)
          (c.kEmbedderDataSlotSize - 1) = c.EmbedderDataSlot_kTaggedPayloadOffset)
  else true

def IterateBody (c : Layout) (_map : Map) (obj : HeapObject) (object_size : Int) :
    List VisitorCall :=
  if c.V8_COMPRESS_POINTERS then
    let first := c.EmbedderDataArray_OffsetOfElementAt 0 +
      c.EmbedderDataSlot_kTaggedPayloadOffset
    embedderSlotLoop obj c.kEmbedderDataSlotSize object_size (object_size - first).toNat
      first
  else
    IteratePointers c obj c.EmbedderDataArray_kHeaderSize object_size

def SizeOf (map : Map) (object : HeapObject) : Int := object.SizeFromMap map

end EmbedderDataArray.BodyDescriptor

namespace EphemeronHashTable

/-- Modelled from the spec: `HashTable::IterateEntries()` is declared in `hash-table.h`,
which is not among the sources.  The spec says the pairs are enumerated "across all live
entries" and that the "number of entries is read from the object's own bookkeeping
field"; entries are numbered from 0 in ascending order. -/
def IterateEntries (table : HeapObject) : List Int :=
  (List.range table.live_entry_count).map Int.ofNat

/-- Modelled from the spec: `EntryToIndex` is declared in `hash-table.h`, which is not
among the sources.  The spec lays the table out as a "fixed strong header, then repeated
(key,value) pairs", so entry `i` starts two elements after entry `i - 1`, the first one
at element `kElementsStartIndex`. -/
def EntryToIndex (c : Layout) (entry : Int) : Int :=
  entry * 2 + c.EphemeronHashTable_kElementsStartIndex

/-- Modelled from the spec: `EntryToValueIndex` is declared in `hash-table.h`, which is
not among the sources.  In a "(key,value) pair" the value is the element after the key. -/
def EntryToValueIndex (c : Layout) (entry : Int) : Int :=
  EntryToIndex c entry + 1

/-- Modelled from the spec: `OffsetOfElementAt` is declared in `fixed-array.h`, which is
not among the sources.  Elements are the tagged slots that follow the fixed header. -/
def OffsetOfElementAt (c : Layout) (index : Int) : Int :=
  c.EphemeronHashTable_kHeaderSize + index * c.kTaggedSize

namespace BodyDescriptor

def IsValidSlot (c : Layout) (_map : Map) (_obj : HeapObject) (offset : Int) : Bool :=
  decide (offset ≥ c.EphemeronHashTable_kHeaderSize)

def IterateBody (c : Layout) (_map : Map) (obj : HeapObject) (_object_size : Int) :
    List VisitorCall :=
  let entries_start := c.EphemeronHashTable_kHeaderSize +
    c.EphemeronHashTable_kElementsStartIndex * c.kTaggedSize
  let table := obj
  IteratePointers c obj c.EphemeronHashTable_kHeaderSize entries_start ++
  (IterateEntries table).flatMap (fun i =>
    let key_index := EntryToIndex c i
    let value_index := EntryToValueIndex c i
    IterateEphemeron obj i (OffsetOfElementAt c key_index) (OffsetOfElementAt c value_index))

def SizeOf (map : Map) (object : HeapObject) : Int := object.SizeFromMap map

end BodyDescriptor

end EphemeronHashTable

/-- The body descriptor classes defined in `objects-body-descriptors-inl.h`. -/
inductive Descriptor
  | JSObject
  | JSObject_Fast
  | WeakCell
  | JSWeakRef
  | JSFinalizationRegistry
  | AllocationSite
  | JSFunction
  | JSArrayBuffer
  | JSTypedArray
  | JSDataView
  | SmallOrderedHashTable (derived : SmallOrderedDerived)
  | SwissNameDictionary
  | ByteArray
  | BytecodeArray
  | BigInt
  | FixedDoubleArray
  | FeedbackMetadata
  | PreparseData
  | PrototypeInfo
  | JSWeakCollection
  | Foreign
  | WasmTypeInfo
  | WasmJSFunctionData
  | WasmExportedFunctionData
  | WasmCapiFunctionData
  | WasmInstanceObject
  | WasmArray
  | WasmStruct
  | ExternalOneByteString
  | ExternalTwoByteString
  | CoverageInfo
  | Code
  | Map
  | DataHandler
  | NativeContext
  | CodeDataContainer
  | EmbedderDataArray
  | EphemeronHashTable
  deriving DecidableEq, Repr

namespace Descriptor

/-- The static member `BodyDescriptor::IsValidSlot(map, obj, offset)` of descriptor `d`;
`none` when the call reaches `UNREACHABLE()`. -/
def IsValidSlot (d : Descriptor) (c : Layout) (map : V8.Map) (obj : HeapObject)
    (offset : Int) : Option Bool :=
  match d with
  | JSObject => some (JSObject.BodyDescriptor.IsValidSlot c map obj offset)
  | JSObject_Fast => some (JSObject.FastBodyDescriptor.IsValidSlot c map obj offset)
  | WeakCell => some (WeakCell.BodyDescriptor.IsValidSlot c map obj offset)
  | JSWeakRef => some (JSWeakRef.BodyDescriptor.IsValidSlot c map obj offset)
  | JSFinalizationRegistry =>
    some (JSFinalizationRegistry.BodyDescriptor.IsValidSlot c map obj offset)
  | AllocationSite => some (AllocationSite.BodyDescriptor.IsValidSlot c map obj offset)
  | JSFunction => some (JSFunction.BodyDescriptor.IsValidSlot c map obj offset)
  | JSArrayBuffer => some (JSArrayBuffer.BodyDescriptor.IsValidSlot c map obj offset)
  | JSTypedArray => some (JSTypedArray.BodyDescriptor.IsValidSlot c map obj offset)
  | JSDataView => some (JSDataView.BodyDescriptor.IsValidSlot c map obj offset)
  | SmallOrderedHashTable _ =>
    some (SmallOrderedHashTable.BodyDescriptor.IsValidSlot c map obj offset)
  | SwissNameDictionary =>
    some (SwissNameDictionary.BodyDescriptor.IsValidSlot c map obj offset)
  | ByteArray => some (ByteArray.BodyDescriptor.IsValidSlot c map obj offset)
  | BytecodeArray => some (BytecodeArray.BodyDescriptor.IsValidSlot c map obj offset)
  | BigInt => some (BigInt.BodyDescriptor.IsValidSlot c map obj offset)
  | FixedDoubleArray => some (FixedDoubleArray.BodyDescriptor.IsValidSlot c map obj offset)
  | FeedbackMetadata => some (FeedbackMetadata.BodyDescriptor.IsValidSlot c map obj offset)
  | PreparseData => some (PreparseData.BodyDescriptor.IsValidSlot c map obj offset)
  | PrototypeInfo => some (PrototypeInfo.BodyDescriptor.IsValidSlot c map obj offset)
  | JSWeakCollection => some (JSWeakCollection.BodyDescriptorImpl.IsValidSlot c map obj offset)
  | Foreign => some (Foreign.BodyDescriptor.IsValidSlot c map obj offset)
  | WasmTypeInfo => WasmTypeInfo.BodyDescriptor.IsValidSlot c map obj offset
  | WasmJSFunctionData => WasmJSFunctionData.BodyDescriptor.IsValidSlot c map obj offset
  | WasmExportedFunctionData =>
    WasmExportedFunctionData.BodyDescriptor.IsValidSlot c map obj offset
  | WasmCapiFunctionData => WasmCapiFunctionData.BodyDescriptor.IsValidSlot c map obj offset
  | WasmInstanceObject =>
    some (WasmInstanceObject.BodyDescriptor.IsValidSlot c map obj offset)
  | WasmArray => WasmArray.BodyDescriptor.IsValidSlot c map obj offset
  | WasmStruct => WasmStruct.BodyDescriptor.IsValidSlot c map obj offset
  | ExternalOneByteString =>
    some (ExternalOneByteString.BodyDescriptor.IsValidSlot c map obj offset)
  | ExternalTwoByteString =>
    some (ExternalTwoByteString.BodyDescriptor.IsValidSlot c map obj offset)
  | CoverageInfo => some (CoverageInfo.BodyDescriptor.IsValidSlot c map obj offset)
  | Code => some (Code.BodyDescriptor.IsValidSlot c map obj offset)
  | Map => some (Map.BodyDescriptor.IsValidSlot c map obj offset)
  | DataHandler => some (DataHandler.BodyDescriptor.IsValidSlot c map obj offset)
  | NativeContext => some (NativeContext.BodyDescriptor.IsValidSlot c map obj offset)
  | CodeDataContainer => some (CodeDataContainer.BodyDescriptor.IsValidSlot c map obj offset)
  | EmbedderDataArray => some (EmbedderDataArray.BodyDescriptor.IsValidSlot c map obj offset)
  | EphemeronHashTable =>
    some (EphemeronHashTable.BodyDescriptor.IsValidSlot c map obj offset)

/-- The static member `BodyDescriptor::IterateBody(map, obj, object_size, v)` of
descriptor `d`, as the list of calls made on `v`. -/
def IterateBody (d : Descriptor) (c : Layout) (map : V8.Map) (obj : HeapObject)
    (object_size : Int) : List VisitorCall :=
  match d with
  | JSObject => JSObject.BodyDescriptor.IterateBody c map obj object_size
  | JSObject_Fast => JSObject.FastBodyDescriptor.IterateBody c map obj object_size
  | WeakCell => WeakCell.BodyDescriptor.IterateBody c map obj object_size
  | JSWeakRef => JSWeakRef.BodyDescriptor.IterateBody c map obj object_size
  | JSFinalizationRegistry =>
    JSFinalizationRegistry.BodyDescriptor.IterateBody c map obj object_size
  | AllocationSite => AllocationSite.BodyDescriptor.IterateBody c map obj object_size
  | JSFunction => JSFunction.BodyDescriptor.IterateBody c map obj object_size
  | JSArrayBuffer => JSArrayBuffer.BodyDescriptor.IterateBody c map obj object_size
  | JSTypedArray => JSTypedArray.BodyDescriptor.IterateBody c map obj object_size
  | JSDataView => JSDataView.BodyDescriptor.IterateBody c map obj object_size
  | SmallOrderedHashTable _ =>
    SmallOrderedHashTable.BodyDescriptor.IterateBody c map obj object_size
  | SwissNameDictionary => SwissNameDictionary.BodyDescriptor.IterateBody c map obj object_size
  | ByteArray => ByteArray.BodyDescriptor.IterateBody c map obj object_size
  | BytecodeArray => BytecodeArray.BodyDescriptor.IterateBody c map obj object_size
  | BigInt => BigInt.BodyDescriptor.IterateBody c map obj object_size
  | FixedDoubleArray => FixedDoubleArray.BodyDescriptor.IterateBody c map obj object_size
  | FeedbackMetadata => FeedbackMetadata.BodyDescriptor.IterateBody c map obj object_size
  | PreparseData => PreparseData.BodyDescriptor.IterateBody c map obj object_size
  | PrototypeInfo => PrototypeInfo.BodyDescriptor.IterateBody c map obj object_size
  | JSWeakCollection => JSWeakCollection.BodyDescriptorImpl.IterateBody c map obj object_size
  | Foreign => Foreign.BodyDescriptor.IterateBody c map obj object_size
  | WasmTypeInfo => WasmTypeInfo.BodyDescriptor.IterateBody c map obj object_size
  | WasmJSFunctionData => WasmJSFunctionData.BodyDescriptor.IterateBody c map obj object_size
  | WasmExportedFunctionData =>
    WasmExportedFunctionData.BodyDescriptor.IterateBody c map obj object_size
  | WasmCapiFunctionData =>
    WasmCapiFunctionData.BodyDescriptor.IterateBody c map obj object_size
  | WasmInstanceObject => WasmInstanceObject.BodyDescriptor.IterateBody c map obj object_size
  | WasmArray => WasmArray.BodyDescriptor.IterateBody c map obj object_size
  | WasmStruct => WasmStruct.BodyDescriptor.IterateBody c map obj object_size
  | ExternalOneByteString =>
    ExternalOneByteString.BodyDescriptor.IterateBody c map obj object_size
  | ExternalTwoByteString =>
    ExternalTwoByteString.BodyDescriptor.IterateBody c map obj object_size
  | CoverageInfo => CoverageInfo.BodyDescriptor.IterateBody c map obj object_size
  | Code => Code.BodyDescriptor.IterateBody c map obj object_size
  | Map => Map.BodyDescriptor.IterateBody c map obj object_size
  | DataHandler => DataHandler.BodyDescriptor.IterateBody c map obj object_size
  | NativeContext => NativeContext.BodyDescriptor.IterateBody c map obj object_size
  | CodeDataContainer => CodeDataContainer.BodyDescriptor.IterateBody c map obj object_size
  | EmbedderDataArray => EmbedderDataArray.BodyDescriptor.IterateBody c map obj object_size
  | EphemeronHashTable => EphemeronHashTable.BodyDescriptor.IterateBody c map obj object_size

/-- The static member `BodyDescriptor::SizeOf(map, obj)` of descriptor `d`. -/
def SizeOf (d : Descriptor) (c : Layout) (map : V8.Map) (obj : HeapObject) : Int :=
  match d with
  | JSObject => JSObject.BodyDescriptor.SizeOf map obj
  | JSObject_Fast => JSObject.FastBodyDescriptor.SizeOf map obj
  | WeakCell => WeakCell.BodyDescriptor.SizeOf map obj
  | JSWeakRef => JSWeakRef.BodyDescriptor.SizeOf map obj
  | JSFinalizationRegistry => JSFinalizationRegistry.BodyDescriptor.SizeOf map obj
  | AllocationSite => AllocationSite.BodyDescriptor.SizeOf map obj
  | JSFunction => JSFunction.BodyDescriptor.SizeOf map obj
  | JSArrayBuffer => JSArrayBuffer.BodyDescriptor.SizeOf map obj
  | JSTypedArray => JSTypedArray.BodyDescriptor.SizeOf map obj
  | JSDataView => JSDataView.BodyDescriptor.SizeOf map obj
  | SmallOrderedHashTable derived =>
    SmallOrderedHashTable.BodyDescriptor.SizeOf c derived map obj
  | SwissNameDictionary => SwissNameDictionary.BodyDescriptor.SizeOf c map obj
  | ByteArray => ByteArray.BodyDescriptor.SizeOf c map obj
  | BytecodeArray => BytecodeArray.BodyDescriptor.SizeOf c map obj
  | BigInt => BigInt.BodyDescriptor.SizeOf c map obj
  | FixedDoubleArray => FixedDoubleArray.BodyDescriptor.SizeOf c map obj
  | FeedbackMetadata => FeedbackMetadata.BodyDescriptor.SizeOf c map obj
  | PreparseData => PreparseData.BodyDescriptor.SizeOf c map obj
  | PrototypeInfo => PrototypeInfo.BodyDescriptor.SizeOf map obj
  | JSWeakCollection => JSWeakCollection.BodyDescriptorImpl.SizeOf map obj
  | Foreign => Foreign.BodyDescriptor.SizeOf c map obj
  | WasmTypeInfo => WasmTypeInfo.BodyDescriptor.SizeOf c map obj
  | WasmJSFunctionData => WasmJSFunctionData.BodyDescriptor.SizeOf c map obj
  | WasmExportedFunctionData => WasmExportedFunctionData.BodyDescriptor.SizeOf c map obj
  | WasmCapiFunctionData => WasmCapiFunctionData.BodyDescriptor.SizeOf c map obj
  | WasmInstanceObject => WasmInstanceObject.BodyDescriptor.SizeOf map obj
  | WasmArray => WasmArray.BodyDescriptor.SizeOf map obj
  | WasmStruct => WasmStruct.BodyDescriptor.SizeOf map obj
  | ExternalOneByteString => ExternalOneByteString.BodyDescriptor.SizeOf c map obj
  | ExternalTwoByteString => ExternalTwoByteString.BodyDescriptor.SizeOf c map obj
  | CoverageInfo => CoverageInfo.BodyDescriptor.SizeOf c map obj
  | Code => Code.BodyDescriptor.SizeOf map obj
  | Map => Map.BodyDescriptor.SizeOf c map obj
  | DataHandler => DataHandler.BodyDescriptor.SizeOf map obj
  | NativeContext => NativeContext.BodyDescriptor.SizeOf c map obj
  | CodeDataContainer => CodeDataContainer.BodyDescriptor.SizeOf c map obj
  | EmbedderDataArray => EmbedderDataArray.BodyDescriptor.SizeOf map obj
  | EphemeronHashTable => EphemeronHashTable.BodyDescriptor.SizeOf map obj

end Descriptor

/-! ## Shape dispatch -/

set_option genInjectivity false in
/-- Build flags and the values of the `InstanceType` enumeration and of the string type
tags that `BodyDescriptorApply` uses.  They are declared in `instance-type.h`,
`objects.h` and generated headers, outside this translation unit.  The three macro
lists are the case labels that `TYPED_ARRAYS(TYPED_ARRAY_CONSTRUCTORS_SWITCH)`,
`STRUCT_LIST(MAKE_STRUCT_CASE)` and `TORQUE_INSTANCE_TYPE_TO_BODY_DESCRIPTOR_LIST` expand
to, in order. -/
structure InstanceTypes where
  V8_ENABLE_WEBASSEMBLY : Bool
  V8_INTL_SUPPORT : Bool
  FIRST_NONSTRING_TYPE : Nat
  kStringRepresentationMask : Nat
  kSeqStringTag : Nat
  kConsStringTag : Nat
  kThinStringTag : Nat
  kSlicedStringTag : Nat
  kExternalStringTag : Nat
  kStringEncodingMask : Nat
  kOneByteStringTag : Nat
  /-- `InstanceTypeChecker::IsJSApiObject(type)`. -/
  IsJSApiObject : Nat → Bool
  EMBEDDER_DATA_ARRAY_TYPE : Nat
  OBJECT_BOILERPLATE_DESCRIPTION_TYPE : Nat
  CLOSURE_FEEDBACK_CELL_ARRAY_TYPE : Nat
  HASH_TABLE_TYPE : Nat
  ORDERED_HASH_MAP_TYPE : Nat
  ORDERED_HASH_SET_TYPE : Nat
  ORDERED_NAME_DICTIONARY_TYPE : Nat
  NAME_DICTIONARY_TYPE : Nat
  GLOBAL_DICTIONARY_TYPE : Nat
  NUMBER_DICTIONARY_TYPE : Nat
  SIMPLE_NUMBER_DICTIONARY_TYPE : Nat
  SCRIPT_CONTEXT_TABLE_TYPE : Nat
  EPHEMERON_HASH_TABLE_TYPE : Nat
  AWAIT_CONTEXT_TYPE : Nat
  BLOCK_CONTEXT_TYPE : Nat
  CATCH_CONTEXT_TYPE : Nat
  DEBUG_EVALUATE_CONTEXT_TYPE : Nat
  EVAL_CONTEXT_TYPE : Nat
  FUNCTION_CONTEXT_TYPE : Nat
  MODULE_CONTEXT_TYPE : Nat
  SCRIPT_CONTEXT_TYPE : Nat
  WITH_CONTEXT_TYPE : Nat
  NATIVE_CONTEXT_TYPE : Nat
  FIXED_DOUBLE_ARRAY_TYPE : Nat
  FEEDBACK_METADATA_TYPE : Nat
  PROPERTY_ARRAY_TYPE : Nat
  TRANSITION_ARRAY_TYPE : Nat
  FEEDBACK_CELL_TYPE : Nat
  COVERAGE_INFO_TYPE : Nat
  WASM_ARRAY_TYPE : Nat
  WASM_CAPI_FUNCTION_DATA_TYPE : Nat
  WASM_EXPORTED_FUNCTION_DATA_TYPE : Nat
  WASM_JS_FUNCTION_DATA_TYPE : Nat
  WASM_STRUCT_TYPE : Nat
  WASM_TYPE_INFO_TYPE : Nat
  JS_API_OBJECT_TYPE : Nat
  JS_ARGUMENTS_OBJECT_TYPE : Nat
  JS_ARRAY_ITERATOR_PROTOTYPE_TYPE : Nat
  JS_ARRAY_ITERATOR_TYPE : Nat
  JS_ARRAY_TYPE : Nat
  JS_ASYNC_FROM_SYNC_ITERATOR_TYPE : Nat
  JS_ASYNC_FUNCTION_OBJECT_TYPE : Nat
  JS_ASYNC_GENERATOR_OBJECT_TYPE : Nat
  JS_BOUND_FUNCTION_TYPE : Nat
  JS_CONTEXT_EXTENSION_OBJECT_TYPE : Nat
  JS_DATE_TYPE : Nat
  JS_ERROR_TYPE : Nat
  JS_FINALIZATION_REGISTRY_TYPE : Nat
  JS_GENERATOR_OBJECT_TYPE : Nat
  JS_GLOBAL_OBJECT_TYPE : Nat
  JS_GLOBAL_PROXY_TYPE : Nat
  JS_ITERATOR_PROTOTYPE_TYPE : Nat
  JS_MAP_ITERATOR_PROTOTYPE_TYPE : Nat
  JS_MAP_KEY_ITERATOR_TYPE : Nat
  JS_MAP_KEY_VALUE_ITERATOR_TYPE : Nat
  JS_MAP_TYPE : Nat
  JS_MAP_VALUE_ITERATOR_TYPE : Nat
  JS_MESSAGE_OBJECT_TYPE : Nat
  JS_MODULE_NAMESPACE_TYPE : Nat
  JS_OBJECT_PROTOTYPE_TYPE : Nat
  JS_OBJECT_TYPE : Nat
  JS_PRIMITIVE_WRAPPER_TYPE : Nat
  JS_PROMISE_PROTOTYPE_TYPE : Nat
  JS_PROMISE_TYPE : Nat
  JS_REG_EXP_PROTOTYPE_TYPE : Nat
  JS_REG_EXP_STRING_ITERATOR_TYPE : Nat
  JS_REG_EXP_TYPE : Nat
  JS_SET_ITERATOR_PROTOTYPE_TYPE : Nat
  JS_SET_KEY_VALUE_ITERATOR_TYPE : Nat
  JS_SET_PROTOTYPE_TYPE : Nat
  JS_SET_TYPE : Nat
  JS_SET_VALUE_ITERATOR_TYPE : Nat
  JS_SPECIAL_API_OBJECT_TYPE : Nat
  JS_STRING_ITERATOR_PROTOTYPE_TYPE : Nat
  JS_STRING_ITERATOR_TYPE : Nat
  JS_TYPED_ARRAY_PROTOTYPE_TYPE : Nat
  JS_FUNCTION_TYPE : Nat
  JS_PROMISE_CONSTRUCTOR_TYPE : Nat
  JS_REG_EXP_CONSTRUCTOR_TYPE : Nat
  JS_ARRAY_CONSTRUCTOR_TYPE : Nat
  JS_V8_BREAK_ITERATOR_TYPE : Nat
  JS_COLLATOR_TYPE : Nat
  JS_DATE_TIME_FORMAT_TYPE : Nat
  JS_DISPLAY_NAMES_TYPE : Nat
  JS_LIST_FORMAT_TYPE : Nat
  JS_LOCALE_TYPE : Nat
  JS_NUMBER_FORMAT_TYPE : Nat
  JS_PLURAL_RULES_TYPE : Nat
  JS_RELATIVE_TIME_FORMAT_TYPE : Nat
  JS_SEGMENT_ITERATOR_TYPE : Nat
  JS_SEGMENTER_TYPE : Nat
  JS_SEGMENTS_TYPE : Nat
  WASM_TAG_OBJECT_TYPE : Nat
  WASM_GLOBAL_OBJECT_TYPE : Nat
  WASM_MEMORY_OBJECT_TYPE : Nat
  WASM_MODULE_OBJECT_TYPE : Nat
  WASM_TABLE_OBJECT_TYPE : Nat
  WASM_VALUE_OBJECT_TYPE : Nat
  WASM_INSTANCE_OBJECT_TYPE : Nat
  JS_WEAK_MAP_TYPE : Nat
  JS_WEAK_SET_TYPE : Nat
  JS_ARRAY_BUFFER_TYPE : Nat
  JS_DATA_VIEW_TYPE : Nat
  JS_TYPED_ARRAY_TYPE : Nat
  WEAK_CELL_TYPE : Nat
  JS_WEAK_REF_TYPE : Nat
  JS_PROXY_TYPE : Nat
  FOREIGN_TYPE : Nat
  MAP_TYPE : Nat
  CODE_TYPE : Nat
  CELL_TYPE : Nat
  PROPERTY_CELL_TYPE : Nat
  SYMBOL_TYPE : Nat
  BYTECODE_ARRAY_TYPE : Nat
  SMALL_ORDERED_HASH_SET_TYPE : Nat
  SMALL_ORDERED_HASH_MAP_TYPE : Nat
  SMALL_ORDERED_NAME_DICTIONARY_TYPE : Nat
  SWISS_NAME_DICTIONARY_TYPE : Nat
  CODE_DATA_CONTAINER_TYPE : Nat
  PREPARSE_DATA_TYPE : Nat
  HEAP_NUMBER_TYPE : Nat
  FILLER_TYPE : Nat
  BYTE_ARRAY_TYPE : Nat
  FREE_SPACE_TYPE : Nat
  BIGINT_TYPE : Nat
  ALLOCATION_SITE_TYPE : Nat
  CALL_HANDLER_INFO_TYPE : Nat
  LOAD_HANDLER_TYPE : Nat
  STORE_HANDLER_TYPE : Nat
  SOURCE_TEXT_MODULE_TYPE : Nat
  SYNTHETIC_MODULE_TYPE : Nat
  PROTOTYPE_INFO_TYPE : Nat
  WASM_INDIRECT_FUNCTION_TABLE_TYPE : Nat
  /-- The labels `TYPE##_TYPED_ARRAY_CONSTRUCTOR_TYPE` generated by `TYPED_ARRAYS`. -/
  TYPED_ARRAY_CONSTRUCTOR_TYPES : List Nat
  /-- The labels generated by `STRUCT_LIST(MAKE_STRUCT_CASE)`. -/
  STRUCT_LIST : List Nat
  /-- The pairs `(TYPE, TypeName)` of `TORQUE_INSTANCE_TYPE_TO_BODY_DESCRIPTOR_LIST`. -/
  TORQUE_INSTANCE_TYPE_TO_BODY_DESCRIPTOR_LIST : List (Nat × String)

/-- The descriptor classes that `BodyDescriptorApply` can instantiate `Op::apply` with:
those defined in this file, those declared in other headers, and the generated
`TypeName::BodyDescriptor` of the Torque list.  `JSWeakCollection::BodyDescriptor` is the
alias of `JSWeakCollection::BodyDescriptorImpl`. -/
inductive DescriptorClass
  | inFile (d : Descriptor)
  | ConsString
  | ThinString
  | SlicedString
  | FixedArray
  | Context
  | PropertyArray
  | TransitionArray
  | FeedbackCell
  | JSProxy
  | Cell
  | PropertyCell
  | Symbol
  | WasmIndirectFunctionTable
  | StructBodyDescriptor
  | SourceTextModule
  | SyntheticModule
  | torque (typeName : String)
  deriving DecidableEq, Repr

/-- The statement that ends a case group of the switch in `BodyDescriptorApply`. -/
inductive CaseBody
  /-- Source: `return Op::template apply<D>(p1, p2, p3, p4);`. -/
  | apply (descriptor : DescriptorClass)
  /-- Source: `return ReturnType();`. -/
  | returnDefault
  /-- The statements after `STRUCT_LIST(MAKE_STRUCT_CASE)`, which test `type` again. -/
  | structList
  deriving DecidableEq, Repr

/-- The case groups of `switch (type)` in `BodyDescriptorApply`, in source order: the
labels of the group and the statement they fall into.  Labels under `#if` are present
only when the flag is set. -/
def switchCases (t : InstanceTypes) : List (List Nat × CaseBody) :=
  [
    ([t.EMBEDDER_DATA_ARRAY_TYPE],
      CaseBody.apply (DescriptorClass.inFile Descriptor.EmbedderDataArray)),
    ([t.OBJECT_BOILERPLATE_DESCRIPTION_TYPE, t.CLOSURE_FEEDBACK_CELL_ARRAY_TYPE,
      t.HASH_TABLE_TYPE, t.ORDERED_HASH_MAP_TYPE, t.ORDERED_HASH_SET_TYPE,
      t.ORDERED_NAME_DICTIONARY_TYPE, t.NAME_DICTIONARY_TYPE, t.GLOBAL_DICTIONARY_TYPE,
      t.NUMBER_DICTIONARY_TYPE, t.SIMPLE_NUMBER_DICTIONARY_TYPE,
      t.SCRIPT_CONTEXT_TABLE_TYPE],
      CaseBody.apply DescriptorClass.FixedArray),
    ([t.EPHEMERON_HASH_TABLE_TYPE],
      CaseBody.apply (DescriptorClass.inFile Descriptor.EphemeronHashTable)),
    ([t.AWAIT_CONTEXT_TYPE, t.BLOCK_CONTEXT_TYPE, t.CATCH_CONTEXT_TYPE,
      t.DEBUG_EVALUATE_CONTEXT_TYPE, t.EVAL_CONTEXT_TYPE, t.FUNCTION_CONTEXT_TYPE,
      t.MODULE_CONTEXT_TYPE, t.SCRIPT_CONTEXT_TYPE, t.WITH_CONTEXT_TYPE],
      CaseBody.apply DescriptorClass.Context),
    ([t.NATIVE_CONTEXT_TYPE],
      CaseBody.apply (DescriptorClass.inFile Descriptor.NativeContext)),
    ([t.FIXED_DOUBLE_ARRAY_TYPE],
      CaseBody.returnDefault),
    ([t.FEEDBACK_METADATA_TYPE],
      CaseBody.apply (DescriptorClass.inFile Descriptor.FeedbackMetadata)),
    ([t.PROPERTY_ARRAY_TYPE],
      CaseBody.apply DescriptorClass.PropertyArray),
    ([t.TRANSITION_ARRAY_TYPE],
      CaseBody.apply DescriptorClass.TransitionArray),
    ([t.FEEDBACK_CELL_TYPE],
      CaseBody.apply DescriptorClass.FeedbackCell),
    ([t.COVERAGE_INFO_TYPE],
      CaseBody.apply (DescriptorClass.inFile Descriptor.CoverageInfo)),
    ((if t.V8_ENABLE_WEBASSEMBLY then [t.WASM_ARRAY_TYPE] else []),
      CaseBody.apply (DescriptorClass.inFile Descriptor.WasmArray)),
    ((if t.V8_ENABLE_WEBASSEMBLY then [t.WASM_CAPI_FUNCTION_DATA_TYPE] else []),
      CaseBody.apply (DescriptorClass.inFile Descriptor.WasmCapiFunctionData)),
    ((if t.V8_ENABLE_WEBASSEMBLY then [t.WASM_EXPORTED_FUNCTION_DATA_TYPE] else []),
      CaseBody.apply (DescriptorClass.inFile Descriptor.WasmExportedFunctionData)),
    ((if t.V8_ENABLE_WEBASSEMBLY then [t.WASM_JS_FUNCTION_DATA_TYPE] else []),
      CaseBody.apply (DescriptorClass.inFile Descriptor.WasmJSFunctionData)),
    ((if t.V8_ENABLE_WEBASSEMBLY then [t.WASM_STRUCT_TYPE] else []),
      CaseBody.apply (DescriptorClass.inFile Descriptor.WasmStruct)),
    ((if t.V8_ENABLE_WEBASSEMBLY then [t.WASM_TYPE_INFO_TYPE] else []),
      CaseBody.apply (DescriptorClass.inFile Descriptor.WasmTypeInfo)),
    ([t.JS_API_OBJECT_TYPE, t.JS_ARGUMENTS_OBJECT_TYPE, t.JS_ARRAY_ITERATOR_PROTOTYPE_TYPE,
      t.JS_ARRAY_ITERATOR_TYPE, t.JS_ARRAY_TYPE, t.JS_ASYNC_FROM_SYNC_ITERATOR_TYPE,
      t.JS_ASYNC_FUNCTION_OBJECT_TYPE, t.JS_ASYNC_GENERATOR_OBJECT_TYPE,
      t.JS_BOUND_FUNCTION_TYPE, t.JS_CONTEXT_EXTENSION_OBJECT_TYPE, t.JS_DATE_TYPE,
      t.JS_ERROR_TYPE, t.JS_FINALIZATION_REGISTRY_TYPE, t.JS_GENERATOR_OBJECT_TYPE,
      t.JS_GLOBAL_OBJECT_TYPE, t.JS_GLOBAL_PROXY_TYPE, t.JS_ITERATOR_PROTOTYPE_TYPE,
      t.JS_MAP_ITERATOR_PROTOTYPE_TYPE, t.JS_MAP_KEY_ITERATOR_TYPE,
      t.JS_MAP_KEY_VALUE_ITERATOR_TYPE, t.JS_MAP_TYPE, t.JS_MAP_VALUE_ITERATOR_TYPE,
      t.JS_MESSAGE_OBJECT_TYPE, t.JS_MODULE_NAMESPACE_TYPE, t.JS_OBJECT_PROTOTYPE_TYPE,
      t.JS_OBJECT_TYPE, t.JS_PRIMITIVE_WRAPPER_TYPE, t.JS_PROMISE_PROTOTYPE_TYPE,
      t.JS_PROMISE_TYPE, t.JS_REG_EXP_PROTOTYPE_TYPE, t.JS_REG_EXP_STRING_ITERATOR_TYPE,
      t.JS_REG_EXP_TYPE, t.JS_SET_ITERATOR_PROTOTYPE_TYPE,
      t.JS_SET_KEY_VALUE_ITERATOR_TYPE, t.JS_SET_PROTOTYPE_TYPE, t.JS_SET_TYPE,
      t.JS_SET_VALUE_ITERATOR_TYPE, t.JS_SPECIAL_API_OBJECT_TYPE,
      t.JS_STRING_ITERATOR_PROTOTYPE_TYPE, t.JS_STRING_ITERATOR_TYPE,
      t.JS_TYPED_ARRAY_PROTOTYPE_TYPE, t.JS_FUNCTION_TYPE, t.JS_PROMISE_CONSTRUCTOR_TYPE,
      t.JS_REG_EXP_CONSTRUCTOR_TYPE, t.JS_ARRAY_CONSTRUCTOR_TYPE] ++
      t.TYPED_ARRAY_CONSTRUCTOR_TYPES ++ (if t.V8_INTL_SUPPORT then
      [t.JS_V8_BREAK_ITERATOR_TYPE, t.JS_COLLATOR_TYPE, t.JS_DATE_TIME_FORMAT_TYPE,
      t.JS_DISPLAY_NAMES_TYPE, t.JS_LIST_FORMAT_TYPE, t.JS_LOCALE_TYPE,
      t.JS_NUMBER_FORMAT_TYPE, t.JS_PLURAL_RULES_TYPE, t.JS_RELATIVE_TIME_FORMAT_TYPE,
      t.JS_SEGMENT_ITERATOR_TYPE, t.JS_SEGMENTER_TYPE, t.JS_SEGMENTS_TYPE] else []) ++ (if
      t.V8_ENABLE_WEBASSEMBLY then [t.WASM_TAG_OBJECT_TYPE, t.WASM_GLOBAL_OBJECT_TYPE,
      t.WASM_MEMORY_OBJECT_TYPE, t.WASM_MODULE_OBJECT_TYPE, t.WASM_TABLE_OBJECT_TYPE,
      t.WASM_VALUE_OBJECT_TYPE] else []),
      CaseBody.apply (DescriptorClass.inFile Descriptor.JSObject)),
    ((if t.V8_ENABLE_WEBASSEMBLY then [t.WASM_INSTANCE_OBJECT_TYPE] else []),
      CaseBody.apply (DescriptorClass.inFile Descriptor.WasmInstanceObject)),
    ([t.JS_WEAK_MAP_TYPE, t.JS_WEAK_SET_TYPE],
      CaseBody.apply (DescriptorClass.inFile Descriptor.JSWeakCollection)),
    ([t.JS_ARRAY_BUFFER_TYPE],
      CaseBody.apply (DescriptorClass.inFile Descriptor.JSArrayBuffer)),
    ([t.JS_DATA_VIEW_TYPE],
      CaseBody.apply (DescriptorClass.inFile Descriptor.JSDataView)),
    ([t.JS_TYPED_ARRAY_TYPE],
      CaseBody.apply (DescriptorClass.inFile Descriptor.JSTypedArray)),
    ([t.WEAK_CELL_TYPE],
      CaseBody.apply (DescriptorClass.inFile Descriptor.WeakCell)),
    ([t.JS_WEAK_REF_TYPE],
      CaseBody.apply (DescriptorClass.inFile Descriptor.JSWeakRef)),
    ([t.JS_PROXY_TYPE],
      CaseBody.apply DescriptorClass.JSProxy),
    ([t.FOREIGN_TYPE],
      CaseBody.apply (DescriptorClass.inFile Descriptor.Foreign)),
    ([t.MAP_TYPE],
      CaseBody.apply (DescriptorClass.inFile Descriptor.Map)),
    ([t.CODE_TYPE],
      CaseBody.apply (DescriptorClass.inFile Descriptor.Code)),
    ([t.CELL_TYPE],
      CaseBody.apply DescriptorClass.Cell),
    ([t.PROPERTY_CELL_TYPE],
      CaseBody.apply DescriptorClass.PropertyCell),
    ([t.SYMBOL_TYPE],
      CaseBody.apply DescriptorClass.Symbol),
    ([t.BYTECODE_ARRAY_TYPE],
      CaseBody.apply (DescriptorClass.inFile Descriptor.BytecodeArray)),
    ([t.SMALL_ORDERED_HASH_SET_TYPE],
      CaseBody.apply (DescriptorClass.inFile (Descriptor.SmallOrderedHashTable
        SmallOrderedDerived.SmallOrderedHashSet))),
    ([t.SMALL_ORDERED_HASH_MAP_TYPE],
      CaseBody.apply (DescriptorClass.inFile (Descriptor.SmallOrderedHashTable
        SmallOrderedDerived.SmallOrderedHashMap))),
    ([t.SMALL_ORDERED_NAME_DICTIONARY_TYPE],
      CaseBody.apply (DescriptorClass.inFile (Descriptor.SmallOrderedHashTable
        SmallOrderedDerived.SmallOrderedNameDictionary))),
    ([t.SWISS_NAME_DICTIONARY_TYPE],
      CaseBody.apply (DescriptorClass.inFile Descriptor.SwissNameDictionary)),
    ([t.CODE_DATA_CONTAINER_TYPE],
      CaseBody.apply (DescriptorClass.inFile Descriptor.CodeDataContainer)),
    ([t.PREPARSE_DATA_TYPE],
      CaseBody.apply (DescriptorClass.inFile Descriptor.PreparseData)),
    ([t.HEAP_NUMBER_TYPE, t.FILLER_TYPE, t.BYTE_ARRAY_TYPE, t.FREE_SPACE_TYPE,
      t.BIGINT_TYPE],
      CaseBody.returnDefault),
    ([t.ALLOCATION_SITE_TYPE],
      CaseBody.apply (DescriptorClass.inFile Descriptor.AllocationSite)),
    (t.STRUCT_LIST,
      CaseBody.structList),
    ([t.CALL_HANDLER_INFO_TYPE],
      CaseBody.apply DescriptorClass.StructBodyDescriptor),
    ([t.LOAD_HANDLER_TYPE, t.STORE_HANDLER_TYPE],
      CaseBody.apply (DescriptorClass.inFile Descriptor.DataHandler)),
    ([t.SOURCE_TEXT_MODULE_TYPE],
      CaseBody.apply DescriptorClass.SourceTextModule),
    ([t.SYNTHETIC_MODULE_TYPE],
      CaseBody.apply DescriptorClass.SyntheticModule)
  ] ++
  t.TORQUE_INSTANCE_TYPE_TO_BODY_DESCRIPTOR_LIST.map
    (fun entry => ([entry.1], CaseBody.apply (DescriptorClass.torque entry.2)))

/-- The case group a `switch` selects: the group that has `type` among its labels (the
labels of a C++ switch are pairwise distinct, so at most one group has), `none` when the
`default:` label is taken. -/
def findCase : List (List Nat × CaseBody) → Nat → Option CaseBody
  | [], _ => none
  | (labels, body) :: rest, type => if type ∈ labels then some body else findCase rest type

/-- All case labels of `switch (type)` in `BodyDescriptorApply`. -/
def allCaseLabels (t : InstanceTypes) : List Nat :=
  (switchCases t).flatMap (fun group => group.1)

/-- What one call of `BodyDescriptorApply` does: it returns the result of the one
invocation `Op::apply<descriptor>(p1, p2, p3, p4)`, or returns `ReturnType()` without
invoking `Op::apply`, or aborts in `UNREACHABLE()`, in the `default:` case after printing
`Unknown type: <type>`. -/
inductive ApplyOutcome (R T1 T2 T3 T4 : Type)
  | applied (descriptor : DescriptorClass) (p1 : T1) (p2 : T2) (p3 : T3) (p4 : T4) (result : R)
  | returnedDefault (result : R)
  | unreachable
  | unknownType (type : Nat)

/-- Source: `BodyDescriptorApply<Op, ReturnType>(type, p1, p2, p3, p4)`; `Op_apply d` is
`Op::template apply<d>` and `ReturnType_default` is `ReturnType()`. -/
def BodyDescriptorApply {R T1 T2 T3 T4 : Type} (t : InstanceTypes)
    (Op_apply : DescriptorClass → T1 → T2 → T3 → T4 → R) (ReturnType_default : R)
    (type : Nat) (p1 : T1) (p2 : T2) (p3 : T3) (p4 : T4) : ApplyOutcome R T1 T2 T3 T4 :=
  let apply := fun (d : DescriptorClass) =>
    ApplyOutcome.applied d p1 p2 p3 p4 (Op_apply d p1 p2 p3 p4)
  if type < t.FIRST_NONSTRING_TYPE then
    let representation := type &&& t.kStringRepresentationMask
    if representation = t.kSeqStringTag then ApplyOutcome.returnedDefault ReturnType_default
    else if representation = t.kConsStringTag then apply DescriptorClass.ConsString
    else if representation = t.kThinStringTag then apply DescriptorClass.ThinString
    else if representation = t.kSlicedStringTag then apply DescriptorClass.SlicedString
    else if representation = t.kExternalStringTag then
      if type &&& t.kStringEncodingMask = t.kOneByteStringTag then
        apply (DescriptorClass.inFile Descriptor.ExternalOneByteString)
      else
        apply (DescriptorClass.inFile Descriptor.ExternalTwoByteString)
    else ApplyOutcome.unreachable
  else if t.IsJSApiObject type then apply (DescriptorClass.inFile Descriptor.JSObject)
  else
    match findCase (switchCases t) type with
    | some (CaseBody.apply d) => apply d
    | some CaseBody.returnDefault => ApplyOutcome.returnedDefault ReturnType_default
    | some CaseBody.structList =>
      if type = t.PROTOTYPE_INFO_TYPE then
        apply (DescriptorClass.inFile Descriptor.PrototypeInfo)
      else if t.V8_ENABLE_WEBASSEMBLY ∧ type = t.WASM_INDIRECT_FUNCTION_TABLE_TYPE then
        apply DescriptorClass.WasmIndirectFunctionTable
      else apply DescriptorClass.StructBodyDescriptor
    | none => ApplyOutcome.unknownType type

/-! ## Front-end entry points -/

/-- The visitor handle `ObjectVisitor* v`; the calls made on it are what the functions
return. -/
abbrev ObjectVisitor := Unit

/-- Source: `CallIterateBody::apply<BodyDescriptor>(map, obj, object_size, v)`, which is
`BodyDescriptor::IterateBody(map, obj, object_size, v)`.  `external` gives the
`IterateBody` of the descriptor classes that are not defined in this file. -/
def CallIterateBody.apply (c : Layout)
    (external : DescriptorClass → Map → HeapObject → Int → List VisitorCall)
    (descriptor : DescriptorClass) (map : Map) (obj : HeapObject) (object_size : Int)
    (_v : ObjectVisitor) : List VisitorCall :=
  match descriptor with
  | DescriptorClass.inFile d => d.IterateBody c map obj object_size
  | other => external other map obj object_size

/-- Source: `HeapObject::IterateBodyFast(Map map, int object_size, ObjectVisitor* v)`.
The operation returns `void`; its result here is the list of visitor calls it made, and
`ReturnType()` makes none. -/
def HeapObject.IterateBodyFastWithMap (c : Layout) (t : InstanceTypes)
    (external : DescriptorClass → Map → HeapObject → Int → List VisitorCall)
    (self : HeapObject) (map : Map) (object_size : Int) (v : ObjectVisitor) :
    ApplyOutcome (List VisitorCall) Map HeapObject Int ObjectVisitor :=
  BodyDescriptorApply t (CallIterateBody.apply c external) [] map.instance_type map self
    object_size v

/-- Source: `HeapObject::IterateBodyFast(ObjectVisitor* v)`. -/
def HeapObject.IterateBodyFast (c : Layout) (t : InstanceTypes)
    (external : DescriptorClass → Map → HeapObject → Int → List VisitorCall)
    (self : HeapObject) (v : ObjectVisitor) :
    ApplyOutcome (List VisitorCall) Map HeapObject Int ObjectVisitor :=
  let m := self.map
  HeapObject.IterateBodyFastWithMap c t external self m (self.SizeFromMap m) v

/-- The visitor calls made during a call of `BodyDescriptorApply` whose operation reports
its visitor calls: those of the one `Op::apply`, none otherwise. -/
def ApplyOutcome.calls {T1 T2 T3 T4 : Type} :
    ApplyOutcome (List VisitorCall) T1 T2 T3 T4 → List VisitorCall
  | ApplyOutcome.applied _ _ _ _ _ result => result
  | ApplyOutcome.returnedDefault result => result
  | ApplyOutcome.unreachable => []
  | ApplyOutcome.unknownType _ => []

/-- Whether a call of `BodyDescriptorApply` aborted instead of returning. -/
def ApplyOutcome.isFatal {R T1 T2 T3 T4 : Type} : ApplyOutcome R T1 T2 T3 T4 → Bool
  | ApplyOutcome.unreachable => true
  | ApplyOutcome.unknownType _ => true
  | _ => false

/-- The number of `Op::apply` invocations made by one call of `BodyDescriptorApply`. -/
def ApplyOutcome.applications {R T1 T2 T3 T4 : Type} : ApplyOutcome R T1 T2 T3 T4 → Nat
  | ApplyOutcome.applied _ _ _ _ _ _ => 1
  | _ => 0

/-- The visitor calls of one front-end call and whether it ran to its end. -/
structure Run where
  calls : List VisitorCall
  completed : Bool
  deriving DecidableEq, Repr

/-- Source: `HeapObject::IterateFast(ObjectVisitor* v)`. -/
def HeapObject.IterateFast (c : Layout) (t : InstanceTypes)
    (external : DescriptorClass → Map → HeapObject → Int → List VisitorCall)
    (self : HeapObject) (v : ObjectVisitor) : Run :=
  let body := HeapObject.IterateBodyFast c t external self v
  { calls := VisitMapPointer self.address :: body.calls
    completed := !body.isFatal }

/-- The pairing that the dispatch contract speaks of, written from its words and not from
the switch: every instance type whose object kind has a body descriptor of its own in this
file, with that descriptor.  `BodyDescriptorApply` is compared with it. -/
def ownDescriptorOfKind (t : InstanceTypes) : List (Nat × Descriptor) :=
  [(t.JS_OBJECT_TYPE, Descriptor.JSObject),
   (t.WEAK_CELL_TYPE, Descriptor.WeakCell),
   (t.JS_WEAK_REF_TYPE, Descriptor.JSWeakRef),
   (t.JS_FINALIZATION_REGISTRY_TYPE, Descriptor.JSFinalizationRegistry),
   (t.ALLOCATION_SITE_TYPE, Descriptor.AllocationSite),
   (t.JS_FUNCTION_TYPE, Descriptor.JSFunction),
   (t.JS_ARRAY_BUFFER_TYPE, Descriptor.JSArrayBuffer),
   (t.JS_TYPED_ARRAY_TYPE, Descriptor.JSTypedArray),
   (t.JS_DATA_VIEW_TYPE, Descriptor.JSDataView),
   (t.SMALL_ORDERED_HASH_MAP_TYPE,
     Descriptor.SmallOrderedHashTable SmallOrderedDerived.SmallOrderedHashMap),
   (t.SMALL_ORDERED_HASH_SET_TYPE,
     Descriptor.SmallOrderedHashTable SmallOrderedDerived.SmallOrderedHashSet),
   (t.SMALL_ORDERED_NAME_DICTIONARY_TYPE,
     Descriptor.SmallOrderedHashTable SmallOrderedDerived.SmallOrderedNameDictionary),
   (t.SWISS_NAME_DICTIONARY_TYPE, Descriptor.SwissNameDictionary),
   (t.BYTE_ARRAY_TYPE, Descriptor.ByteArray),
   (t.BYTECODE_ARRAY_TYPE, Descriptor.BytecodeArray),
   (t.BIGINT_TYPE, Descriptor.BigInt),
   (t.FIXED_DOUBLE_ARRAY_TYPE, Descriptor.FixedDoubleArray),
   (t.FEEDBACK_METADATA_TYPE, Descriptor.FeedbackMetadata),
   (t.PREPARSE_DATA_TYPE, Descriptor.PreparseData),
   (t.PROTOTYPE_INFO_TYPE, Descriptor.PrototypeInfo),
   (t.FOREIGN_TYPE, Descriptor.Foreign),
   (t.COVERAGE_INFO_TYPE, Descriptor.CoverageInfo),
   (t.CODE_TYPE, Descriptor.Code),
   (t.MAP_TYPE, Descriptor.Map),
   (t.NATIVE_CONTEXT_TYPE, Descriptor.NativeContext),
   (t.CODE_DATA_CONTAINER_TYPE, Descriptor.CodeDataContainer),
   (t.EMBEDDER_DATA_ARRAY_TYPE, Descriptor.EmbedderDataArray),
   (t.EPHEMERON_HASH_TABLE_TYPE, Descriptor.EphemeronHashTable)] ++
  (if t.V8_ENABLE_WEBASSEMBLY then
    [(t.WASM_TYPE_INFO_TYPE, Descriptor.WasmTypeInfo),
     (t.WASM_JS_FUNCTION_DATA_TYPE, Descriptor.WasmJSFunctionData),
     (t.WASM_EXPORTED_FUNCTION_DATA_TYPE, Descriptor.WasmExportedFunctionData),
     (t.WASM_CAPI_FUNCTION_DATA_TYPE, Descriptor.WasmCapiFunctionData),
     (t.WASM_INSTANCE_OBJECT_TYPE, Descriptor.WasmInstanceObject),
     (t.WASM_ARRAY_TYPE, Descriptor.WasmArray),
     (t.WASM_STRUCT_TYPE, Descriptor.WasmStruct)]
  else [])

/-! ## What a visitor call hands to the visitor -/

/-- The tagged slots of the half-open slot range `[start, end_)`, in ascending order:
the offsets `start`, `start + kTaggedSize`, ... that lie below `end_`. -/
def rangeSlots (kTaggedSize start end_ : Int) : List Int :=
  ((List.range (end_ - start).toNat).map (fun (j : Nat) => start + (j : Int))).filter
    (fun offset => decide ((offset - start) % kTaggedSize = 0))

/-- The slot offsets a call delivers through a pointer operation: the members of a
`VisitPointers` / `VisitCustomWeakPointers` range, the slot of `VisitPointer` /
`VisitCustomWeakPointer`, and the key and value slots of `VisitEphemeron`. -/
def VisitorCall.pointerSlots (kTaggedSize : Int) : VisitorCall → List Int
  | VisitPointers _ _ start end_ => rangeSlots kTaggedSize start end_
  | VisitPointer _ _ offset => [offset]
  | VisitCustomWeakPointers _ start end_ => rangeSlots kTaggedSize start end_
  | VisitCustomWeakPointer _ offset => [offset]
  | VisitEphemeron _ _ key value => [key, value]
  | _ => []

/-- Whether byte `b` of the host object lies in a tagged slot that the call hands to the
visitor.  `VisitExternalReference` and `VisitRelocInfo` hand over no tagged slot. -/
def VisitorCall.coversByte (kTaggedSize : Int) (call : VisitorCall) (b : Int) : Bool :=
  match call with
  | VisitMapPointer _ => decide (HeapObject.kMapOffset ≤ b ∧ b < HeapObject.kMapOffset + kTaggedSize)
  | VisitPointers _ _ start end_ => decide (start ≤ b ∧ b < end_)
  | VisitPointer _ _ offset => decide (offset ≤ b ∧ b < offset + kTaggedSize)
  | VisitCustomWeakPointers _ start end_ => decide (start ≤ b ∧ b < end_)
  | VisitCustomWeakPointer _ offset => decide (offset ≤ b ∧ b < offset + kTaggedSize)
  | VisitEphemeron _ _ key value =>
    decide ((key ≤ b ∧ b < key + kTaggedSize) ∨ (value ≤ b ∧ b < value + kTaggedSize))
  | VisitCodePointer _ offset => decide (offset ≤ b ∧ b < offset + kTaggedSize)
  | VisitExternalReference _ _ => false
  | VisitRelocInfo _ _ => false

/-- The offsets of the single-slot calls `VisitPointer(obj, slot)` of a trace, in call
order. -/
def visitPointerOffsets : List VisitorCall → List Int
  | [] => []
  | VisitPointer _ _ offset :: rest => offset :: visitPointerOffsets rest
  | _ :: rest => visitPointerOffsets rest

/-- The number of `VisitEphemeron` calls of a trace. -/
def countVisitEphemeron : List VisitorCall → Nat
  | [] => 0
  | VisitEphemeron _ _ _ _ :: rest => countVisitEphemeron rest + 1
  | _ :: rest => countVisitEphemeron rest

/-! ## Sample configurations -/

/-- A pointer-compression layout (4-byte tagged slots, 8-byte embedder slots) used to
evaluate the definitions on concrete inputs. -/
def compressedLayout : Layout where
  V8_COMPRESS_POINTERS := true
  V8_EXTERNAL_CODE_SPACE_BOOL := false
  kTaggedSize := 4
  kEmbedderDataSlotSize := 8
  EmbedderDataSlot_kTaggedPayloadOffset := 0
  HeapObject_kHeaderSize := 4
  JSReceiver_kPropertiesOrHashOffset := 4
  JSObject_kHeaderSize := 12
  WeakCell_kTargetOffset := 8
  WeakCell_kUnregisterTokenOffset := 12
  JSWeakRef_kTargetOffset := 12
  JSFinalizationRegistry_kNextDirtyOffset := 32
  AllocationSite_kStartOffset := 4
  AllocationSite_kCommonPointerFieldEndOffset := 16
  AllocationSite_kPretenureDataOffset := 16
  AllocationSite_kPretenureCreateCountOffset := 20
  AllocationSite_kWeakNextOffset := 24
  AllocationSite_kSizeWithWeakNext := 28
  JSFunction_kCodeOffset := 24
  JSFunction_GetHeaderSize := fun has_prototype_slot => if has_prototype_slot then 32 else 28
  JSArrayBuffer_kEndOfTaggedFieldsOffset := 12
  JSArrayBuffer_kHeaderSize := 40
  JSTypedArray_kEndOfTaggedFieldsOffset := 16
  JSTypedArray_kBasePointerOffset := 48
  JSTypedArray_kHeaderSize := 56
  JSDataView_kEndOfTaggedFieldsOffset := 16
  JSDataView_kHeaderSize := 40
  SmallOrderedHashTable_DataTableStartOffset := 8
  SmallOrderedHashTable_SizeFor := fun derived capacity =>
    match derived with
    | SmallOrderedDerived.SmallOrderedHashSet => 8 + capacity * 4 + capacity / 2 + capacity
    | SmallOrderedDerived.SmallOrderedHashMap => 8 + capacity * 8 + capacity / 2 + capacity
    | SmallOrderedDerived.SmallOrderedNameDictionary =>
      12 + capacity * 12 + capacity / 2 + capacity
  SwissNameDictionary_MetaTablePointerOffset := 12
  SwissNameDictionary_DataTableStartOffset := 16
  SwissNameDictionary_DataTableEndOffset := fun capacity => 16 + capacity * 8
  SwissNameDictionary_SizeFor := fun capacity => 16 + capacity * 8 + capacity + 16 + capacity
  ByteArray_SizeFor := fun length => (8 + length + 3) / 4 * 4
  BytecodeArray_kConstantPoolOffset := 8
  BytecodeArray_kHandlerTableOffset := 12
  BytecodeArray_kSourcePositionTableOffset := 16
  BytecodeArray_SizeFor := fun length => (40 + length + 3) / 4 * 4
  BigInt_SizeFor := fun length => 8 + length * 8
  FixedDoubleArray_kHeaderSize := 8
  kDoubleSize := 8
  FeedbackMetadata_SizeFor := fun slot_count => 12 + (slot_count + 5) / 6 * 4
  PreparseData_SizeFor := fun data_length children_length =>
    (12 + data_length + 3) / 4 * 4 + children_length * 4
  PrototypeInfo_kObjectCreateMapOffset := 24
  Foreign_kForeignAddressOffset := 4
  Foreign_kSize := 12
  WasmTypeInfo_kSupertypesOffset := 12
  WasmTypeInfo_kSubtypesOffset := 16
  WasmTypeInfo_kInstanceOffset := 24
  WasmTypeInfo_kSize := 28
  WasmFunctionData_kStartOfStrongFieldsOffset := 12
  WasmJSFunctionData_kEndOfStrongFieldsOffset := 32
  WasmJSFunctionData_kSize := 32
  WasmExportedFunctionData_kEndOfStrongFieldsOffset := 36
  WasmExportedFunctionData_kSize := 52
  WasmCapiFunctionData_kEndOfStrongFieldsOffset := 32
  WasmCapiFunctionData_kSize := 32
  WasmInstanceObject_kTaggedFieldOffsets := [140, 144, 148, 152, 156, 160]
  WasmInstanceObject_kHeaderSize := 164
  WasmArray_kHeaderSize := 12
  WasmStruct_RawField := fun raw_offset => 8 + raw_offset
  ExternalOneByteString_kSize := 28
  ExternalTwoByteString_kSize := 28
  CoverageInfo_SizeFor := fun slot_count => 8 + slot_count * 16
  Code_kRelocationInfoOffset := 4
  Code_kDeoptimizationDataOffset := 8
  Code_kPositionTableOffset := 12
  Code_kCodeDataContainerOffset := 16
  Code_kDataStart := 20
  RelocInfo_ModeMask := fun mode =>
    match mode with
    | RelocMode.CODE_TARGET => 1
    | RelocMode.RELATIVE_CODE_TARGET => 2
    | RelocMode.COMPRESSED_EMBEDDED_OBJECT => 4
    | RelocMode.FULL_EMBEDDED_OBJECT => 8
    | RelocMode.DATA_EMBEDDED_OBJECT => 16
    | RelocMode.RUNTIME_ENTRY => 128
    | RelocMode.EXTERNAL_REFERENCE => 256
    | RelocMode.INTERNAL_REFERENCE => 512
    | RelocMode.INTERNAL_REFERENCE_ENCODED => 1024
    | RelocMode.OFF_HEAP_TARGET => 2048
  Map_kStartOfStrongFieldsOffset := 16
  Map_kEndOfStrongFieldsOffset := 36
  Map_kStartOfWeakFieldsOffset := 36
  Map_kEndOfWeakFieldsOffset := 40
  Map_kTransitionsOrPrototypeInfoOffset := 36
  Map_kSize := 40
  DataHandler_kSmiHandlerOffset := 4
  DataHandler_kData1Offset := 12
  DataHandler_kSizeWithData1 := 16
  NativeContext_kStartOfStrongFieldsOffset := 8
  NativeContext_kEndOfStrongFieldsOffset := 1000
  NativeContext_kStartOfWeakFieldsOffset := 1000
  NativeContext_kEndOfWeakFieldsOffset := 1004
  NativeContext_kEndOfTaggedFieldsOffset := 1004
  NativeContext_kSize := 1012
  CodeDataContainer_kHeaderSize := 4
  CodeDataContainer_kPointerFieldsStrongEndOffset := 4
  CodeDataContainer_kPointerFieldsWeakEndOffset := 8
  CodeDataContainer_kCodeOffset := 8
  CodeDataContainer_kSize := 16
  EmbedderDataArray_kHeaderSize := 8
  EmbedderDataArray_OffsetOfElementAt := fun index => 8 + index * 8
  EphemeronHashTable_kHeaderSize := 8
  EphemeronHashTable_kElementsStartIndex := 3

/-- The 8-byte-slot configuration of the spec's concrete scenarios: no pointer
compression, `kTaggedSize = kEmbedderDataSlotSize = 8`.  It is used with the tracing
primitives only, which read no other constant. -/
def fullPointerLayout : Layout :=
  { compressedLayout with
    V8_COMPRESS_POINTERS := false
    kTaggedSize := 8
    kEmbedderDataSlotSize := 8 }

/-- A JS object map with a 12-byte header, two embedder slots in `[12, 28)` and
in-object properties in `[28, 36)`. -/
def sampleMap : Map where
  instance_type := 1057
  instance_size := 36
  JSObject_GetHeaderSize := 12
  JSObject_GetEmbedderFieldsStartOffset := 12
  GetInObjectPropertyOffset_0 := 28
  has_prototype_slot := false
  WasmStruct_GcSafeType := [⟨false, 0⟩, ⟨true, 8⟩]
  WasmStruct_GcSafeSize := 20
  WasmArray_element_is_reference := true
  WasmArray_SizeFor := fun length => 12 + length * 4

/-- An object whose size is its map's instance size, holding 5 elements / 3 live table
entries. -/
def sampleObject : HeapObject where
  address := 4096
  map := sampleMap
  SizeFromMap := fun map => map.instance_size
  length := 5
  slot_count := 2
  Capacity := 4
  GetBucketsStartOffset := 40
  inner_start_offset := 16
  children_length := 2
  data_length := 3
  CodeSize := 64
  relocation_info_IsUndefined := false
  live_entry_count := 3

/-- Instance type values used to evaluate the dispatch on concrete inputs: the string
tags of `objects.h`, consecutive numbers for the named types, and short macro lists. -/
def sampleInstanceTypes : InstanceTypes where
  V8_ENABLE_WEBASSEMBLY := true
  V8_INTL_SUPPORT := true
  FIRST_NONSTRING_TYPE := 64
  kStringRepresentationMask := 7
  kSeqStringTag := 0
  kConsStringTag := 1
  kThinStringTag := 5
  kSlicedStringTag := 3
  kExternalStringTag := 2
  kStringEncodingMask := 8
  kOneByteStringTag := 8
  IsJSApiObject := fun type => decide (1000 ≤ type ∧ type ≤ 1100)
  EMBEDDER_DATA_ARRAY_TYPE := 100
  OBJECT_BOILERPLATE_DESCRIPTION_TYPE := 101
  CLOSURE_FEEDBACK_CELL_ARRAY_TYPE := 102
  HASH_TABLE_TYPE := 103
  ORDERED_HASH_MAP_TYPE := 104
  ORDERED_HASH_SET_TYPE := 105
  ORDERED_NAME_DICTIONARY_TYPE := 106
  NAME_DICTIONARY_TYPE := 107
  GLOBAL_DICTIONARY_TYPE := 108
  NUMBER_DICTIONARY_TYPE := 109
  SIMPLE_NUMBER_DICTIONARY_TYPE := 110
  SCRIPT_CONTEXT_TABLE_TYPE := 111
  EPHEMERON_HASH_TABLE_TYPE := 112
  AWAIT_CONTEXT_TYPE := 113
  BLOCK_CONTEXT_TYPE := 114
  CATCH_CONTEXT_TYPE := 115
  DEBUG_EVALUATE_CONTEXT_TYPE := 116
  EVAL_CONTEXT_TYPE := 117
  FUNCTION_CONTEXT_TYPE := 118
  MODULE_CONTEXT_TYPE := 119
  SCRIPT_CONTEXT_TYPE := 120
  WITH_CONTEXT_TYPE := 121
  NATIVE_CONTEXT_TYPE := 122
  FIXED_DOUBLE_ARRAY_TYPE := 123
  FEEDBACK_METADATA_TYPE := 124
  PROPERTY_ARRAY_TYPE := 125
  TRANSITION_ARRAY_TYPE := 126
  FEEDBACK_CELL_TYPE := 127
  COVERAGE_INFO_TYPE := 128
  WASM_ARRAY_TYPE := 129
  WASM_CAPI_FUNCTION_DATA_TYPE := 130
  WASM_EXPORTED_FUNCTION_DATA_TYPE := 131
  WASM_JS_FUNCTION_DATA_TYPE := 132
  WASM_STRUCT_TYPE := 133
  WASM_TYPE_INFO_TYPE := 134
  JS_API_OBJECT_TYPE := 135
  JS_ARGUMENTS_OBJECT_TYPE := 136
  JS_ARRAY_ITERATOR_PROTOTYPE_TYPE := 137
  JS_ARRAY_ITERATOR_TYPE := 138
  JS_ARRAY_TYPE := 139
  JS_ASYNC_FROM_SYNC_ITERATOR_TYPE := 140
  JS_ASYNC_FUNCTION_OBJECT_TYPE := 141
  JS_ASYNC_GENERATOR_OBJECT_TYPE := 142
  JS_BOUND_FUNCTION_TYPE := 143
  JS_CONTEXT_EXTENSION_OBJECT_TYPE := 144
  JS_DATE_TYPE := 145
  JS_ERROR_TYPE := 146
  JS_FINALIZATION_REGISTRY_TYPE := 147
  JS_GENERATOR_OBJECT_TYPE := 148
  JS_GLOBAL_OBJECT_TYPE := 149
  JS_GLOBAL_PROXY_TYPE := 150
  JS_ITERATOR_PROTOTYPE_TYPE := 151
  JS_MAP_ITERATOR_PROTOTYPE_TYPE := 152
  JS_MAP_KEY_ITERATOR_TYPE := 153
  JS_MAP_KEY_VALUE_ITERATOR_TYPE := 154
  JS_MAP_TYPE := 155
  JS_MAP_VALUE_ITERATOR_TYPE := 156
  JS_MESSAGE_OBJECT_TYPE := 157
  JS_MODULE_NAMESPACE_TYPE := 158
  JS_OBJECT_PROTOTYPE_TYPE := 159
  JS_OBJECT_TYPE := 160
  JS_PRIMITIVE_WRAPPER_TYPE := 161
  JS_PROMISE_PROTOTYPE_TYPE := 162
  JS_PROMISE_TYPE := 163
  JS_REG_EXP_PROTOTYPE_TYPE := 164
  JS_REG_EXP_STRING_ITERATOR_TYPE := 165
  JS_REG_EXP_TYPE := 166
  JS_SET_ITERATOR_PROTOTYPE_TYPE := 167
  JS_SET_KEY_VALUE_ITERATOR_TYPE := 168
  JS_SET_PROTOTYPE_TYPE := 169
  JS_SET_TYPE := 170
  JS_SET_VALUE_ITERATOR_TYPE := 171
  JS_SPECIAL_API_OBJECT_TYPE := 172
  JS_STRING_ITERATOR_PROTOTYPE_TYPE := 173
  JS_STRING_ITERATOR_TYPE := 174
  JS_TYPED_ARRAY_PROTOTYPE_TYPE := 175
  JS_FUNCTION_TYPE := 176
  JS_PROMISE_CONSTRUCTOR_TYPE := 177
  JS_REG_EXP_CONSTRUCTOR_TYPE := 178
  JS_ARRAY_CONSTRUCTOR_TYPE := 179
  JS_V8_BREAK_ITERATOR_TYPE := 180
  JS_COLLATOR_TYPE := 181
  JS_DATE_TIME_FORMAT_TYPE := 182
  JS_DISPLAY_NAMES_TYPE := 183
  JS_LIST_FORMAT_TYPE := 184
  JS_LOCALE_TYPE := 185
  JS_NUMBER_FORMAT_TYPE := 186
  JS_PLURAL_RULES_TYPE := 187
  JS_RELATIVE_TIME_FORMAT_TYPE := 188
  JS_SEGMENT_ITERATOR_TYPE := 189
  JS_SEGMENTER_TYPE := 190
  JS_SEGMENTS_TYPE := 191
  WASM_TAG_OBJECT_TYPE := 192
  WASM_GLOBAL_OBJECT_TYPE := 193
  WASM_MEMORY_OBJECT_TYPE := 194
  WASM_MODULE_OBJECT_TYPE := 195
  WASM_TABLE_OBJECT_TYPE := 196
  WASM_VALUE_OBJECT_TYPE := 197
  WASM_INSTANCE_OBJECT_TYPE := 198
  JS_WEAK_MAP_TYPE := 199
  JS_WEAK_SET_TYPE := 200
  JS_ARRAY_BUFFER_TYPE := 201
  JS_DATA_VIEW_TYPE := 202
  JS_TYPED_ARRAY_TYPE := 203
  WEAK_CELL_TYPE := 204
  JS_WEAK_REF_TYPE := 205
  JS_PROXY_TYPE := 206
  FOREIGN_TYPE := 207
  MAP_TYPE := 208
  CODE_TYPE := 209
  CELL_TYPE := 210
  PROPERTY_CELL_TYPE := 211
  SYMBOL_TYPE := 212
  BYTECODE_ARRAY_TYPE := 213
  SMALL_ORDERED_HASH_SET_TYPE := 214
  SMALL_ORDERED_HASH_MAP_TYPE := 215
  SMALL_ORDERED_NAME_DICTIONARY_TYPE := 216
  SWISS_NAME_DICTIONARY_TYPE := 217
  CODE_DATA_CONTAINER_TYPE := 218
  PREPARSE_DATA_TYPE := 219
  HEAP_NUMBER_TYPE := 220
  FILLER_TYPE := 221
  BYTE_ARRAY_TYPE := 222
  FREE_SPACE_TYPE := 223
  BIGINT_TYPE := 224
  ALLOCATION_SITE_TYPE := 225
  CALL_HANDLER_INFO_TYPE := 226
  LOAD_HANDLER_TYPE := 227
  STORE_HANDLER_TYPE := 228
  SOURCE_TEXT_MODULE_TYPE := 229
  SYNTHETIC_MODULE_TYPE := 230
  PROTOTYPE_INFO_TYPE := 300
  WASM_INDIRECT_FUNCTION_TABLE_TYPE := 301
  TYPED_ARRAY_CONSTRUCTOR_TYPES := [400, 401, 402, 403, 404, 405, 406, 407, 408, 409, 410]
  STRUCT_LIST := [300, 301, 302, 303, 304, 305, 306, 307]
  TORQUE_INSTANCE_TYPE_TO_BODY_DESCRIPTOR_LIST :=
    [(500, "Oddball"), (501, "SharedFunctionInfo"), (502, "ScopeInfo")]

/-- A sample `IterateBody` for the descriptor classes declared in other headers: one
strong range over the whole body after the map word. -/
def sampleExternal (_d : DescriptorClass) (_map : Map) (obj : HeapObject)
    (object_size : Int) : List VisitorCall :=
  [VisitPointers obj.address ObjectSlot 4 object_size]

/-- A function object: `sampleObject` with a map of instance type `JS_FUNCTION_TYPE`. -/
def sampleFunctionObject : HeapObject :=
  { sampleObject with
    map := { sampleMap with instance_type := sampleInstanceTypes.JS_FUNCTION_TYPE } }

/-- A layout whose `JSFunction::GetHeaderSize` returns `JSFunction::kCodeOffset` (24), the
least header size that passes `DCHECK_GE(header_size, kCodeOffset)`. -/
def codeHeaderLayout : Layout :=
  { compressedLayout with JSFunction_GetHeaderSize := fun _ => 24 }

/-- A map without embedder fields whose header ends at offset 24, where its in-object
properties start. -/
def codeHeaderMap : Map :=
  { sampleMap with
    JSObject_GetHeaderSize := 24
    JSObject_GetEmbedderFieldsStartOffset := 24
    GetInObjectPropertyOffset_0 := 24 }

/-- A function map: header of 28 bytes, no embedder fields, in-object properties from
offset 44, instance size 52. -/
def functionMap : Map :=
  { sampleMap with
    instance_size := 52
    JSObject_GetHeaderSize := 28
    JSObject_GetEmbedderFieldsStartOffset := 28
    GetInObjectPropertyOffset_0 := 44 }

/-- A map without embedder fields: header and embedder fields start at offset 12, where
the in-object properties start too. -/
def plainObjectMap : Map :=
  { sampleMap with
    JSObject_GetHeaderSize := 12
    JSObject_GetEmbedderFieldsStartOffset := 12
    GetInObjectPropertyOffset_0 := 12 }

/-- A byte array map: the sample map with instance type `BYTE_ARRAY_TYPE`. -/
def byteArrayMap : Map :=
  { sampleMap with instance_type := sampleInstanceTypes.BYTE_ARRAY_TYPE }

/-- The facts about the embedder slot constants that hold in a pointer-compression build:
the two `STATIC_ASSERT`s of the source (`kEmbedderDataSlotSize == 2 * kTaggedSize`,
`IsPowerOfTwo(kEmbedderDataSlotSize)`), and that the tagged payload is the first or the
second half of the slot. -/
def Layout.EmbedderSlotsOK (c : Layout) : Prop :=
  c.kEmbedderDataSlotSize = 2 * c.kTaggedSize ∧
  (∃ m : Nat, c.kEmbedderDataSlotSize = 2 ^ m) ∧
  (c.EmbedderDataSlot_kTaggedPayloadOffset = 0 ∨
    c.EmbedderDataSlot_kTaggedPayloadOffset = c.kTaggedSize)

/-- Basic facts about a layout: tagged slots have positive size, and under pointer
compression the embedder slot constants are as asserted by the source. -/
def Layout.Basic (c : Layout) : Prop :=
  0 < c.kTaggedSize ∧ (c.V8_COMPRESS_POINTERS = true → c.EmbedderSlotsOK)

/-- A map is fit for `IterateJSObjectBodyImpl(map, obj, start_offset, ...)`: its embedder
fields start at its header size (the `DCHECK_EQ` of the source) and the body is entered
at or before the end of the header. -/
def JSBodyWellFormed (map : Map) (start_offset : Int) : Prop :=
  map.JSObject_GetEmbedderFieldsStartOffset = map.JSObject_GetHeaderSize ∧
  start_offset ≤ map.JSObject_GetHeaderSize

/-- The descriptors whose `IsValidSlot` is `UNREACHABLE()`. -/
def Descriptor.isValidSlotUnreachable : Descriptor → Bool
  | Descriptor.WasmTypeInfo => true
  | Descriptor.WasmJSFunctionData => true
  | Descriptor.WasmExportedFunctionData => true
  | Descriptor.WasmCapiFunctionData => true
  | Descriptor.WasmArray => true
  | Descriptor.WasmStruct => true
  | _ => false

/-- Well-formedness of the layout constants of the shape traced by `d` and of a map of
that shape: the order of the named field offsets of the shape, and for shapes with a JS
object body that the map's header size is the header size of the shape. -/
def Descriptor.WellFormed (d : Descriptor) (c : Layout) (map : V8.Map) : Prop :=
  match d with
  | Descriptor.JSObject => JSBodyWellFormed map (JSObject.BodyDescriptor.kStartOffset c)
  | Descriptor.WeakCell =>
    c.HeapObject_kHeaderSize ≤ c.WeakCell_kTargetOffset ∧
    c.HeapObject_kHeaderSize ≤ c.WeakCell_kUnregisterTokenOffset
  | Descriptor.JSWeakRef => JSBodyWellFormed map (c.JSWeakRef_kTargetOffset + c.kTaggedSize)
  | Descriptor.JSFinalizationRegistry =>
    JSBodyWellFormed map (c.JSFinalizationRegistry_kNextDirtyOffset + c.kTaggedSize)
  | Descriptor.AllocationSite =>
    c.AllocationSite_kSizeWithWeakNext = c.AllocationSite_kWeakNextOffset + c.kTaggedSize
  | Descriptor.JSFunction =>
    JSFunction.BodyDescriptor.kStartOffset c ≤ c.JSFunction_kCodeOffset ∧
    c.JSFunction_kCodeOffset + c.kTaggedSize ≤
      c.JSFunction_GetHeaderSize map.has_prototype_slot ∧
    JSBodyWellFormed map (c.JSFunction_GetHeaderSize map.has_prototype_slot)
  | Descriptor.JSArrayBuffer => JSBodyWellFormed map c.JSArrayBuffer_kHeaderSize
  | Descriptor.JSTypedArray => JSBodyWellFormed map c.JSTypedArray_kHeaderSize
  | Descriptor.JSDataView => JSBodyWellFormed map c.JSDataView_kHeaderSize
  | Descriptor.BytecodeArray =>
    c.BytecodeArray_kConstantPoolOffset ≤ c.BytecodeArray_kHandlerTableOffset ∧
    c.BytecodeArray_kHandlerTableOffset ≤ c.BytecodeArray_kSourcePositionTableOffset
  | Descriptor.PrototypeInfo =>
    c.HeapObject_kHeaderSize ≤ c.PrototypeInfo_kObjectCreateMapOffset
  | Descriptor.JSWeakCollection => JSBodyWellFormed map c.JSReceiver_kPropertiesOrHashOffset
  | Descriptor.WasmInstanceObject =>
    c.JSObject_kHeaderSize ≤ c.WasmInstanceObject_kHeaderSize ∧
    (∀ offset ∈ c.WasmInstanceObject_kTaggedFieldOffsets,
      (offset : Int) < c.WasmInstanceObject_kHeaderSize) ∧
    JSBodyWellFormed map c.WasmInstanceObject_kHeaderSize
  | Descriptor.Map =>
    c.Map_kEndOfStrongFieldsOffset = c.Map_kStartOfWeakFieldsOffset ∧
    c.Map_kStartOfWeakFieldsOffset ≤ c.Map_kEndOfWeakFieldsOffset ∧
    c.Map_kStartOfStrongFieldsOffset ≤ c.Map_kTransitionsOrPrototypeInfoOffset ∧
    c.Map_kTransitionsOrPrototypeInfoOffset < c.Map_kEndOfWeakFieldsOffset
  | Descriptor.DataHandler =>
    c.HeapObject_kHeaderSize ≤ c.DataHandler_kSmiHandlerOffset ∧
    c.DataHandler_kSmiHandlerOffset < c.DataHandler_kData1Offset
  | Descriptor.NativeContext =>
    c.NativeContext_kEndOfStrongFieldsOffset ≤ c.NativeContext_kEndOfTaggedFieldsOffset ∧
    c.NativeContext_kEndOfWeakFieldsOffset ≤ c.NativeContext_kEndOfTaggedFieldsOffset
  | Descriptor.CodeDataContainer =>
    c.CodeDataContainer_kHeaderSize ≤ c.CodeDataContainer_kPointerFieldsStrongEndOffset ∧
    c.CodeDataContainer_kPointerFieldsStrongEndOffset ≤
      c.CodeDataContainer_kPointerFieldsWeakEndOffset
  | Descriptor.EmbedderDataArray =>
    c.EmbedderDataArray_OffsetOfElementAt 0 = c.EmbedderDataArray_kHeaderSize
  | Descriptor.EphemeronHashTable => 0 ≤ c.EphemeronHashTable_kElementsStartIndex
  | _ => True

/-- Every slot that a trace delivers through a pointer operation satisfies `P`. -/
def SlotsSatisfy (kTaggedSize : Int) (trace : List VisitorCall) (P : Int → Prop) : Prop :=
  ∀ call ∈ trace, ∀ offset ∈ call.pointerSlots kTaggedSize, P offset

/-! ## Ascending traces -/

/-- The spans `[start, end)` of the host object that a call hands to the visitor, in the
order of its arguments.  `VisitExternalReference` hands over a raw address field whose
width is not that of a tagged slot: only its start is recorded (an empty span there).
`VisitRelocInfo` hands over no field of the object. -/
def VisitorCall.spans (kTaggedSize : Int) : VisitorCall → List (Int × Int)
  | VisitMapPointer _ => [(HeapObject.kMapOffset, HeapObject.kMapOffset + kTaggedSize)]
  | VisitPointers _ _ start end_ => [(start, end_)]
  | VisitPointer _ _ offset => [(offset, offset + kTaggedSize)]
  | VisitCustomWeakPointers _ start end_ => [(start, end_)]
  | VisitCustomWeakPointer _ offset => [(offset, offset + kTaggedSize)]
  | VisitEphemeron _ _ key value => [(key, key + kTaggedSize), (value, value + kTaggedSize)]
  | VisitExternalReference _ offset => [(offset, offset)]
  | VisitCodePointer _ offset => [(offset, offset + kTaggedSize)]
  | VisitRelocInfo _ _ => []

/-- The slot offsets a call delivers to the visitor: the map slot for `VisitMapPointer`,
the code slot for `VisitCodePointer`, and the pointer slots of the other calls. -/
def VisitorCall.deliveredSlots (kTaggedSize : Int) : VisitorCall → List Int
  | VisitMapPointer _ => [HeapObject.kMapOffset]
  | VisitCodePointer _ offset => [offset]
  | call => call.pointerSlots kTaggedSize

/-- The spans walk up the object from `lo` to `hi`: each one starts at or after `lo` and
at or after the start and the end of the one before it, and the last one ends at or
before `hi`.  (A span whose end lies before its start holds no slot.) -/
def SpansAscending : Int → List (Int × Int) → Int → Prop
  | lo, [], hi => lo ≤ hi
  | lo, span :: rest, hi => lo ≤ span.1 ∧ SpansAscending (max span.1 span.2) rest hi

/-- The calls of a trace walk up the object from `lo` to `hi`. -/
def TraceAscending (kTaggedSize lo : Int) (trace : List VisitorCall) (hi : Int) : Prop :=
  SpansAscending lo (trace.flatMap (VisitorCall.spans kTaggedSize)) hi

/-- The facts about a map that make `IterateJSObjectBodyImpl(map, obj, start_offset, ...)`
walk up the object: the body is entered after the map word, and, in a pointer-compression
build with embedder fields, at or before the header end, the embedder fields filling a
whole number of embedder slots between the header and the first in-object property. -/
def JSBodyOrdered (c : Layout) (map : Map) (start_offset : Int) : Prop :=
  c.kTaggedSize ≤ start_offset ∧
  (c.V8_COMPRESS_POINTERS = true →
    map.JSObject_GetHeaderSize < map.GetInObjectPropertyOffset_0 →
    start_offset ≤ map.JSObject_GetHeaderSize ∧
    ∃ n : Nat, map.GetInObjectPropertyOffset_0 =
      map.JSObject_GetHeaderSize + n * c.kEmbedderDataSlotSize)

/-- The order of the layout constants of the shape traced by `d`, for a map and an object
of that shape: the body starts after the map word (`kTaggedSize ≤` the first offset), and
the fields that `IterateBody` names lie in the object in the order in which it visits
them, each one after the end of the one before it. -/
def Descriptor.LayoutOrdered (d : Descriptor) (c : Layout) (map : V8.Map) (obj : HeapObject) :
    Prop :=
  match d with
  | Descriptor.JSObject => JSBodyOrdered c map (JSObject.BodyDescriptor.kStartOffset c)
  | Descriptor.JSObject_Fast => c.kTaggedSize ≤ JSObject.FastBodyDescriptor.kStartOffset c
  | Descriptor.WeakCell =>
    c.kTaggedSize ≤ c.HeapObject_kHeaderSize ∧
    c.HeapObject_kHeaderSize ≤ c.WeakCell_kTargetOffset ∧
    c.WeakCell_kTargetOffset + c.kTaggedSize ≤ c.WeakCell_kUnregisterTokenOffset
  | Descriptor.JSWeakRef =>
    c.kTaggedSize ≤ c.JSReceiver_kPropertiesOrHashOffset ∧
    c.JSReceiver_kPropertiesOrHashOffset ≤ c.JSWeakRef_kTargetOffset ∧
    JSBodyOrdered c map (c.JSWeakRef_kTargetOffset + c.kTaggedSize)
  | Descriptor.JSFinalizationRegistry =>
    c.kTaggedSize ≤ JSObject.BodyDescriptor.kStartOffset c ∧
    JSObject.BodyDescriptor.kStartOffset c ≤ c.JSFinalizationRegistry_kNextDirtyOffset ∧
    JSBodyOrdered c map (c.JSFinalizationRegistry_kNextDirtyOffset + c.kTaggedSize)
  | Descriptor.AllocationSite =>
    c.kTaggedSize ≤ c.AllocationSite_kStartOffset ∧
    c.AllocationSite_kStartOffset ≤ c.AllocationSite_kWeakNextOffset ∧
    c.AllocationSite_kCommonPointerFieldEndOffset ≤ c.AllocationSite_kWeakNextOffset
  | Descriptor.JSFunction =>
    c.kTaggedSize ≤ JSFunction.BodyDescriptor.kStartOffset c ∧
    JSFunction.BodyDescriptor.kStartOffset c ≤ c.JSFunction_kCodeOffset ∧
    c.JSFunction_kCodeOffset + c.kTaggedSize ≤
      c.JSFunction_GetHeaderSize map.has_prototype_slot ∧
    JSBodyOrdered c map (c.JSFunction_GetHeaderSize map.has_prototype_slot)
  | Descriptor.JSArrayBuffer =>
    c.kTaggedSize ≤ c.JSReceiver_kPropertiesOrHashOffset ∧
    c.JSReceiver_kPropertiesOrHashOffset ≤ c.JSArrayBuffer_kHeaderSize ∧
    c.JSArrayBuffer_kEndOfTaggedFieldsOffset ≤ c.JSArrayBuffer_kHeaderSize ∧
    JSBodyOrdered c map c.JSArrayBuffer_kHeaderSize
  | Descriptor.JSTypedArray =>
    c.kTaggedSize ≤ c.JSReceiver_kPropertiesOrHashOffset ∧
    c.JSReceiver_kPropertiesOrHashOffset ≤ c.JSTypedArray_kBasePointerOffset ∧
    c.JSTypedArray_kEndOfTaggedFieldsOffset ≤ c.JSTypedArray_kBasePointerOffset ∧
    c.JSTypedArray_kBasePointerOffset + c.kTaggedSize ≤ c.JSTypedArray_kHeaderSize ∧
    JSBodyOrdered c map c.JSTypedArray_kHeaderSize
  | Descriptor.JSDataView =>
    c.kTaggedSize ≤ c.JSReceiver_kPropertiesOrHashOffset ∧
    c.JSReceiver_kPropertiesOrHashOffset ≤ c.JSDataView_kHeaderSize ∧
    c.JSDataView_kEndOfTaggedFieldsOffset ≤ c.JSDataView_kHeaderSize ∧
    JSBodyOrdered c map c.JSDataView_kHeaderSize
  | Descriptor.SmallOrderedHashTable _ =>
    c.kTaggedSize ≤ c.SmallOrderedHashTable_DataTableStartOffset
  | Descriptor.SwissNameDictionary =>
    c.kTaggedSize ≤ c.SwissNameDictionary_MetaTablePointerOffset
  | Descriptor.BytecodeArray =>
    c.kTaggedSize ≤ c.BytecodeArray_kConstantPoolOffset ∧
    c.BytecodeArray_kConstantPoolOffset + c.kTaggedSize ≤
      c.BytecodeArray_kHandlerTableOffset ∧
    c.BytecodeArray_kHandlerTableOffset + c.kTaggedSize ≤
      c.BytecodeArray_kSourcePositionTableOffset
  | Descriptor.PreparseData => c.kTaggedSize ≤ obj.inner_start_offset
  | Descriptor.PrototypeInfo =>
    c.kTaggedSize ≤ c.HeapObject_kHeaderSize ∧
    c.HeapObject_kHeaderSize ≤ c.PrototypeInfo_kObjectCreateMapOffset
  | Descriptor.JSWeakCollection => JSBodyOrdered c map c.JSReceiver_kPropertiesOrHashOffset
  | Descriptor.Foreign => c.kTaggedSize ≤ c.Foreign_kForeignAddressOffset
  | Descriptor.WasmTypeInfo =>
    c.kTaggedSize ≤ c.Foreign_kForeignAddressOffset ∧
    c.Foreign_kForeignAddressOffset ≤ c.WasmTypeInfo_kSupertypesOffset ∧
    c.WasmTypeInfo_kSupertypesOffset + c.kTaggedSize ≤ c.WasmTypeInfo_kSubtypesOffset ∧
    c.WasmTypeInfo_kSubtypesOffset + c.kTaggedSize ≤ c.WasmTypeInfo_kInstanceOffset
  | Descriptor.WasmJSFunctionData =>
    c.kTaggedSize ≤ c.Foreign_kForeignAddressOffset ∧
    c.Foreign_kForeignAddressOffset ≤ c.WasmFunctionData_kStartOfStrongFieldsOffset
  | Descriptor.WasmExportedFunctionData =>
    c.kTaggedSize ≤ c.Foreign_kForeignAddressOffset ∧
    c.Foreign_kForeignAddressOffset ≤ c.WasmFunctionData_kStartOfStrongFieldsOffset
  | Descriptor.WasmCapiFunctionData =>
    c.kTaggedSize ≤ c.Foreign_kForeignAddressOffset ∧
    c.Foreign_kForeignAddressOffset ≤ c.WasmFunctionData_kStartOfStrongFieldsOffset
  | Descriptor.WasmInstanceObject =>
    c.kTaggedSize ≤ c.JSReceiver_kPropertiesOrHashOffset ∧
    c.JSReceiver_kPropertiesOrHashOffset ≤ c.WasmInstanceObject_kHeaderSize ∧
    c.JSObject_kHeaderSize ≤ c.WasmInstanceObject_kHeaderSize ∧
    (∀ offset ∈ c.WasmInstanceObject_kTaggedFieldOffsets,
      c.JSReceiver_kPropertiesOrHashOffset ≤ (offset : Int) ∧
      c.JSObject_kHeaderSize ≤ (offset : Int) ∧
      (offset : Int) + c.kTaggedSize ≤ c.WasmInstanceObject_kHeaderSize) ∧
    List.Pairwise (fun (a b : Nat) => (a : Int) + c.kTaggedSize ≤ (b : Int))
      c.WasmInstanceObject_kTaggedFieldOffsets ∧
    JSBodyOrdered c map c.WasmInstanceObject_kHeaderSize
  | Descriptor.WasmArray =>
    map.WasmArray_element_is_reference = true → c.kTaggedSize ≤ c.WasmArray_kHeaderSize
  | Descriptor.WasmStruct =>
    (∀ field ∈ map.WasmStruct_GcSafeType, field.is_reference = true →
      c.kTaggedSize ≤ c.WasmStruct_RawField field.field_offset) ∧
    List.Pairwise (fun (a b : WasmField) => a.is_reference = true → b.is_reference = true →
        c.WasmStruct_RawField a.field_offset + c.kTaggedSize ≤
          c.WasmStruct_RawField b.field_offset)
      map.WasmStruct_GcSafeType
  | Descriptor.Code => c.kTaggedSize ≤ c.Code_kRelocationInfoOffset
  | Descriptor.Map =>
    c.kTaggedSize ≤ c.Map_kStartOfStrongFieldsOffset ∧
    c.Map_kStartOfStrongFieldsOffset ≤ c.Map_kTransitionsOrPrototypeInfoOffset ∧
    c.Map_kEndOfStrongFieldsOffset ≤ c.Map_kTransitionsOrPrototypeInfoOffset
  | Descriptor.DataHandler =>
    c.kTaggedSize ≤ c.DataHandler_kSmiHandlerOffset ∧
    c.DataHandler_kSmiHandlerOffset ≤ c.DataHandler_kData1Offset
  | Descriptor.NativeContext =>
    c.kTaggedSize ≤ c.NativeContext_kStartOfStrongFieldsOffset ∧
    c.NativeContext_kStartOfStrongFieldsOffset ≤ c.NativeContext_kStartOfWeakFieldsOffset ∧
    c.NativeContext_kEndOfStrongFieldsOffset ≤ c.NativeContext_kStartOfWeakFieldsOffset
  | Descriptor.CodeDataContainer =>
    c.kTaggedSize ≤ c.CodeDataContainer_kHeaderSize ∧
    c.CodeDataContainer_kHeaderSize ≤ c.CodeDataContainer_kPointerFieldsStrongEndOffset ∧
    (c.V8_EXTERNAL_CODE_SPACE_BOOL = true →
      c.CodeDataContainer_kPointerFieldsStrongEndOffset ≤ c.CodeDataContainer_kCodeOffset ∧
      c.CodeDataContainer_kPointerFieldsWeakEndOffset ≤ c.CodeDataContainer_kCodeOffset)
  | Descriptor.EmbedderDataArray =>
    (c.V8_COMPRESS_POINTERS = true → c.kTaggedSize ≤ c.EmbedderDataArray_OffsetOfElementAt 0) ∧
    (c.V8_COMPRESS_POINTERS = false → c.kTaggedSize ≤ c.EmbedderDataArray_kHeaderSize)
  | Descriptor.EphemeronHashTable =>
    c.kTaggedSize ≤ c.EphemeronHashTable_kHeaderSize ∧
    0 ≤ c.EphemeronHashTable_kElementsStartIndex
  | _ => True

/-- The largest value of the C++ `int` in which the source counts offsets (32 bits). -/
def kMaxInt : Int := 2147483647

/-- The least value of the C++ `int`. -/
def kMinInt : Int := -2147483648

/-- How a run of a counting loop ends: through its exit test; in a signed overflow of
`offset += stride`, which is undefined behaviour in C++; or cut off by the fuel of the
model before either happened. -/
inductive LoopEnding
  | exited
  | overflowed
  | outOfFuel
  deriving DecidableEq, Repr

/-- The visitor calls made by a run of a counting loop and how the run ended. -/
structure LoopRun where
  calls : List VisitorCall
  ending : LoopEnding
  deriving DecidableEq, Repr

/-- The loop `for (int offset = first; offset < limit; offset += stride)
IteratePointer(obj, offset, v);` with `offset` a C++ `int`: the increment is carried out
only when its result is a value of `int`.  `fuel` bounds the number of iterations. -/
def embedderSlotLoopInt (obj : HeapObject) (stride limit : Int) : Nat → Int → LoopRun
  | 0, offset =>
    if offset < limit then { calls := [], ending := LoopEnding.outOfFuel }
    else { calls := [], ending := LoopEnding.exited }
  | fuel + 1, offset =>
    if offset < limit then
      if kMinInt ≤ offset + stride ∧ offset + stride ≤ kMaxInt then
        let rest := embedderSlotLoopInt obj stride limit fuel (offset + stride)
        { calls := IteratePointer obj offset ++ rest.calls, ending := rest.ending }
      else { calls := IteratePointer obj offset, ending := LoopEnding.overflowed }
    else { calls := [], ending := LoopEnding.exited }

/-- The iteration count `ceil((limit - first) / stride)` of a loop that counts from
`first` up to `limit` by `stride`, zero when `limit` is not above `first`. -/
def loopTripCount (stride limit first : Int) : Nat :=
  ((limit - first + stride - 1) / stride).toNat

/-! ## What a body trace reads -/

/-- Two maps agree on what `IterateJSObjectBodyImpl` reads from a map:
`JSObject::GetHeaderSize(map)` and `map.GetInObjectPropertyOffset(0)`. -/
def JSBodySameInputs (map1 map2 : Map) : Prop :=
  map1.JSObject_GetHeaderSize = map2.JSObject_GetHeaderSize ∧
  map1.GetInObjectPropertyOffset_0 = map2.GetInObjectPropertyOffset_0

/-- Two (map, object) pairs name the same object and agree on every value that the
`IterateBody` of `d` reads from the map and from the object: the accessor calls in its
body (`map.has_prototype_slot()`, `table.Capacity()`, ...) and in the primitives it
calls. -/
def Descriptor.SameBodyInputs (d : Descriptor) (map1 : V8.Map) (obj1 : HeapObject)
    (map2 : V8.Map) (obj2 : HeapObject) : Prop :=
  obj1.address = obj2.address ∧
  match d with
  | Descriptor.JSObject => JSBodySameInputs map1 map2
  | Descriptor.JSWeakRef => JSBodySameInputs map1 map2
  | Descriptor.JSFinalizationRegistry => JSBodySameInputs map1 map2
  | Descriptor.JSFunction =>
    map1.has_prototype_slot = map2.has_prototype_slot ∧ JSBodySameInputs map1 map2
  | Descriptor.JSArrayBuffer => JSBodySameInputs map1 map2
  | Descriptor.JSTypedArray => JSBodySameInputs map1 map2
  | Descriptor.JSDataView => JSBodySameInputs map1 map2
  | Descriptor.JSWeakCollection => JSBodySameInputs map1 map2
  | Descriptor.WasmInstanceObject => JSBodySameInputs map1 map2
  | Descriptor.SmallOrderedHashTable _ =>
    obj1.GetBucketsStartOffset = obj2.GetBucketsStartOffset
  | Descriptor.SwissNameDictionary => obj1.Capacity = obj2.Capacity
  | Descriptor.PreparseData =>
    obj1.inner_start_offset = obj2.inner_start_offset ∧
    obj1.children_length = obj2.children_length
  | Descriptor.WasmArray =>
    map1.WasmArray_element_is_reference = map2.WasmArray_element_is_reference
  | Descriptor.WasmStruct => map1.WasmStruct_GcSafeType = map2.WasmStruct_GcSafeType
  | Descriptor.Code => obj1.relocation_info_IsUndefined = obj2.relocation_info_IsUndefined
  | Descriptor.EphemeronHashTable => obj1.live_entry_count = obj2.live_entry_count
  | _ => True

/-! ## Memory order of the reads of `SizeOf` -/

/-- The memory-order argument of an accessor call in the source: `kAcquireLoad`, as in
`length(kAcquireLoad)`, or none, as in `length()`. -/
inductive LoadTag
  | untagged
  | kAcquireLoad
  deriving DecidableEq, Repr

/-- One accessor call on the object: the accessor and the memory-order argument passed. -/
structure FieldLoad where
  accessor : String
  tag : LoadTag
  deriving DecidableEq, Repr

/-- The accessor calls that the body of `BodyDescriptor::SizeOf(map, object)` makes on the
object, in source order, each with the memory-order argument written at the call. Reads
of the map (`map.instance_size()`, `GcSafeSize(map)`) and constants are not listed. -/
def Descriptor.SizeOfLoads : Descriptor → List FieldLoad
  | Descriptor.SmallOrderedHashTable _ => [⟨"Capacity", LoadTag.untagged⟩]
  | Descriptor.SwissNameDictionary => [⟨"Capacity", LoadTag.untagged⟩]
  | Descriptor.ByteArray => [⟨"length", LoadTag.kAcquireLoad⟩]
  | Descriptor.BytecodeArray => [⟨"length", LoadTag.kAcquireLoad⟩]
  | Descriptor.BigInt => [⟨"length", LoadTag.kAcquireLoad⟩]
  | Descriptor.FixedDoubleArray => [⟨"length", LoadTag.kAcquireLoad⟩]
  | Descriptor.FeedbackMetadata => [⟨"slot_count", LoadTag.kAcquireLoad⟩]
  | Descriptor.PreparseData =>
    [⟨"data_length", LoadTag.untagged⟩, ⟨"children_length", LoadTag.untagged⟩]
  | Descriptor.PrototypeInfo => [⟨"SizeFromMap", LoadTag.untagged⟩]
  | Descriptor.WasmArray => [⟨"length", LoadTag.untagged⟩]
  | Descriptor.CoverageInfo => [⟨"slot_count", LoadTag.untagged⟩]
  | Descriptor.Code => [⟨"CodeSize", LoadTag.untagged⟩]
  | Descriptor.DataHandler => [⟨"SizeFromMap", LoadTag.untagged⟩]
  | Descriptor.EmbedderDataArray => [⟨"SizeFromMap", LoadTag.untagged⟩]
  | Descriptor.EphemeronHashTable => [⟨"SizeFromMap", LoadTag.untagged⟩]
  | _ => []

/-- The value that an accessor call of `SizeOf` returns, in the model of the object. -/
def HeapObject.loadValue (obj : HeapObject) (map : Map) (accessor : String) : Int :=
  if accessor = "length" then obj.length
  else if accessor = "slot_count" then obj.slot_count
  else if accessor = "Capacity" then obj.Capacity
  else if accessor = "data_length" then obj.data_length
  else if accessor = "children_length" then obj.children_length
  else if accessor = "CodeSize" then obj.CodeSize
  else if accessor = "SizeFromMap" then obj.SizeFromMap map
  else 0

/-! ## Well-formedness of the instance type values -/

/-- The instance type values are consistent with the switch of `BodyDescriptorApply`: its
case labels are pairwise distinct (as C++ requires), none of them is a string type, and
the API object types, which are dispatched before the switch, are not labels of a group
other than the `JSObject::BodyDescriptor` group. -/
def InstanceTypes.WellFormed (t : InstanceTypes) : Prop :=
  (allCaseLabels t).Nodup ∧
  (∀ label ∈ allCaseLabels t, t.FIRST_NONSTRING_TYPE ≤ label) ∧
  (∀ group ∈ switchCases t,
    group.2 ≠ CaseBody.apply (DescriptorClass.inFile Descriptor.JSObject) →
    ∀ label ∈ group.1, t.IsJSApiObject label = false)

/-- The string representation tags are pairwise distinct (they are the case labels of
the string switch). -/
def InstanceTypes.StringTagsDistinct (t : InstanceTypes) : Prop :=
  [t.kSeqStringTag, t.kConsStringTag, t.kThinStringTag, t.kSlicedStringTag,
    t.kExternalStringTag].Nodup

/-! # Theorems -/

open BodyDescriptorBase VisitorCall SlotKind

/-! ## Arithmetic and slot-range lemmas -/

/-- Masking a non-negative `int` with `2^n - 1` is reduction modulo `2^n`. -/
theorem land_mask_eq_emod (x : Int) (n : Nat) (hx : 0 ≤ x) :
    Int.land x (2 ^ n - 1) = x % 2 ^ n := by
  obtain ⟨k, rfl⟩ := Int.eq_ofNat_of_zero_le hx
  have h1 : ((2 : Int) ^ n - 1) = ((2 ^ n - 1 : Nat) : Int) := by
    have : 1 ≤ 2 ^ n := Nat.one_le_two_pow
    push_cast [Nat.cast_sub this]
    rfl
  rw [h1]
  show ((k &&& (2 ^ n - 1) : Nat) : Int) = _
  rw [Nat.and_pow_two_sub_one_eq_mod]
  push_cast
  rfl

/-- Membership in a slot range. -/
theorem mem_rangeSlots (ts s e o : Int) :
    o ∈ rangeSlots ts s e ↔ s ≤ o ∧ o < e ∧ (o - s) % ts = 0 := by
  unfold rangeSlots
  simp only [List.mem_map, List.mem_filter, List.mem_range, decide_eq_true_eq]
  constructor
  · rintro ⟨⟨j, hj, rfl⟩, hmod⟩
    exact ⟨by omega, by omega, hmod⟩
  · rintro ⟨h1, h2, h3⟩
    exact ⟨⟨(o - s).toNat, by omega, by omega⟩, h3⟩

/-! ## The JS object slot validity check -/

/-- C4: under pointer compression `IsValidJSObjectSlotImpl` returns false exactly for the
offsets inside the embedder region `[embedder_fields_offset, inobject_fields_offset)` whose
position modulo `kEmbedderDataSlotSize` is not `kTaggedPayloadOffset` (and true
otherwise); it is true everywhere when the embedder region is empty, and true everywhere
without pointer compression. -/
theorem isValidJSObjectSlotImpl_false_iff (c : Layout) (map : Map) (obj : HeapObject)
    (offset : Int) :
    (c.V8_COMPRESS_POINTERS = true → (∃ n : Nat, c.kEmbedderDataSlotSize = 2 ^ n) →
      (IsValidJSObjectSlotImpl c map obj offset = false ↔
        (map.JSObject_GetEmbedderFieldsStartOffset ≤ offset ∧
          offset < map.GetInObjectPropertyOffset_0 ∧
          (offset - map.JSObject_GetEmbedderFieldsStartOffset) % c.kEmbedderDataSlotSize ≠
            c.EmbedderDataSlot_kTaggedPayloadOffset))) ∧
    (c.V8_COMPRESS_POINTERS = true →
      map.JSObject_GetEmbedderFieldsStartOffset ≥ map.GetInObjectPropertyOffset_0 →
      IsValidJSObjectSlotImpl c map obj offset = true) ∧
    (c.V8_COMPRESS_POINTERS = false → IsValidJSObjectSlotImpl c map obj offset = true) := by
  refine ⟨?_, ?_, ?_⟩
  · rintro hc ⟨n, hn⟩
    unfold IsValidJSObjectSlotImpl
    simp only [hc, if_true]
    by_cases hr : map.JSObject_GetEmbedderFieldsStartOffset ≤ offset ∧
        offset < map.GetInObjectPropertyOffset_0
    · rw [if_pos hr, hn, land_mask_eq_emod _ n (by omega)]
      simp only [decide_eq_false_iff_not]
      exact ⟨fun h => ⟨hr.1, hr.2, h⟩, fun h => h.2.2⟩
    · rw [if_neg hr]
      constructor
      · intro h; exact absurd h (by decide)
      · rintro ⟨h1, h2, _⟩; exact absurd ⟨h1, h2⟩ hr
  · intro hc hge
    unfold IsValidJSObjectSlotImpl
    simp only [hc, if_true]
    rw [if_neg (by omega)]
  · intro hc
    unfold IsValidJSObjectSlotImpl
    simp [hc]

/-- C4 at a concrete input: the raw half (offset 16) of the first embedder slot of
`sampleMap` is invalid, the tagged half (offset 12) is valid. -/
theorem isValidJSObjectSlotImpl_false_iff_witness :
    IsValidJSObjectSlotImpl compressedLayout sampleMap sampleObject 16 = false ∧
    (IsValidJSObjectSlotImpl fullPointerLayout sampleMap sampleObject 16 = true) :=
  ⟨((isValidJSObjectSlotImpl_false_iff compressedLayout sampleMap sampleObject 16).1 rfl
      ⟨3, rfl⟩).mpr ⟨by decide, by decide, by decide⟩,
   (isValidJSObjectSlotImpl_false_iff fullPointerLayout sampleMap sampleObject 16).2.2 rfl⟩

/-! ## The strong range primitive -/

/-- C5: `IteratePointers` issues the single call `VisitPointers(obj, start, end)` when
`start` is not `HeapObject::kMapOffset`, and `VisitMapPointer(obj)` followed by
`VisitPointers(obj, kTaggedSize, end)` when it is; for the 24-byte object with strong range
`[8,16)` and opaque range `[16,24)` the trace is the one call `VisitPointers(obj, 8, 16)`
and no call covers a byte of `[16,24)`. -/
theorem iteratePointers_calls (c : Layout) (obj : HeapObject) (start end_ : Int) :
    (start ≠ HeapObject.kMapOffset →
      IteratePointers c obj start end_ = [VisitPointers obj.address ObjectSlot start end_]) ∧
    (start = HeapObject.kMapOffset →
      IteratePointers c obj start end_ =
        [VisitMapPointer obj.address,
         VisitPointers obj.address ObjectSlot c.kTaggedSize end_]) ∧
    (IteratePointers c obj 8 16 = [VisitPointers obj.address ObjectSlot 8 16] ∧
      ∀ call ∈ IteratePointers c obj 8 16, ∀ b : Int, 16 ≤ b → b < 24 →
        call.coversByte c.kTaggedSize b = false) := by
  refine ⟨?_, ?_, ?_, ?_⟩
  · intro h
    simp [IteratePointers, h]
  · intro h
    subst h
    simp [IteratePointers, HeapObject.kMapOffset]
  · simp [IteratePointers, HeapObject.kMapOffset]
  · intro call hcall b hb1 hb2
    simp only [IteratePointers, HeapObject.kMapOffset] at hcall
    rw [if_neg (by decide)] at hcall
    simp only [List.mem_singleton] at hcall
    subst hcall
    simp only [VisitorCall.coversByte, decide_eq_false_iff_not]
    omega

/-- C5 at concrete inputs: a range starting at offset 4 and one starting at the map slot. -/
theorem iteratePointers_calls_witness :
    IteratePointers compressedLayout sampleObject 4 12 = [VisitPointers 4096 ObjectSlot 4 12] ∧
    IteratePointers compressedLayout sampleObject 0 12 =
      [VisitMapPointer 4096, VisitPointers 4096 ObjectSlot 4 12] :=
  ⟨(iteratePointers_calls compressedLayout sampleObject 4 12).1 (by decide),
   (iteratePointers_calls compressedLayout sampleObject 0 12).2.1 rfl⟩

/-! ## The weak-collection scenario -/

/-- C6, as stated, fails: with 8-byte slots the strong range `[0,8)` starts at the map
slot, so the trace for `size = 24` begins with `VisitMapPointer` and is not
`VisitPointers(0,8), VisitCustomWeakPointer(8), VisitPointers(16,24)`. -/
theorem weakCollectionScenario_counterexample :
    IteratePointers fullPointerLayout sampleObject 0 8 ++
      IterateCustomWeakPointer sampleObject 8 ++
      IteratePointers fullPointerLayout sampleObject 16 24 ≠
    [VisitPointers sampleObject.address ObjectSlot 0 8,
     VisitCustomWeakPointer sampleObject.address 8,
     VisitPointers sampleObject.address ObjectSlot 16 24] := by
  decide

/-- C6, amended: the composition `IteratePointers(0,8)`, `IterateCustomWeakPointer(8)`,
`IteratePointers(16,size)` issues `VisitMapPointer(obj)`, `VisitPointers(obj, kTaggedSize,
8)`, `VisitCustomWeakPointer(obj, 8)`, `VisitPointers(obj, 16, size)`, in that order, for
every size. -/
theorem weakCollectionScenario_calls (c : Layout) (obj : HeapObject) (size : Int) :
    IteratePointers c obj 0 8 ++ IterateCustomWeakPointer obj 8 ++
      IteratePointers c obj 16 size =
    [VisitMapPointer obj.address,
     VisitPointers obj.address ObjectSlot c.kTaggedSize 8,
     VisitCustomWeakPointer obj.address 8,
     VisitPointers obj.address ObjectSlot 16 size] := by
  simp [IteratePointers, IterateCustomWeakPointer, HeapObject.kMapOffset]

/-! ## Pure-raw descriptors -/

/-- C9: the pure-raw descriptors (ByteArray, BigInt, FixedDoubleArray, FeedbackMetadata,
CoverageInfo, ExternalOneByteString, ExternalTwoByteString) reject every offset and issue
no visitor call, for every map, object, object size and offset; the size of the first five
is `SizeFor` applied to the length or slot count stored in the object. -/
theorem pureRaw_descriptors (c : Layout) (map : Map) (obj : HeapObject)
    (object_size offset : Int) :
    (∀ d ∈ [Descriptor.ByteArray, Descriptor.BigInt, Descriptor.FixedDoubleArray,
        Descriptor.FeedbackMetadata, Descriptor.CoverageInfo,
        Descriptor.ExternalOneByteString, Descriptor.ExternalTwoByteString],
      d.IsValidSlot c map obj offset = some false ∧ d.IterateBody c map obj object_size = []) ∧
    ByteArray.BodyDescriptor.SizeOf c map obj = c.ByteArray_SizeFor obj.length ∧
    BigInt.BodyDescriptor.SizeOf c map obj = c.BigInt_SizeFor obj.length ∧
    FixedDoubleArray.BodyDescriptor.SizeOf c map obj = FixedDoubleArray.SizeFor c obj.length ∧
    FeedbackMetadata.BodyDescriptor.SizeOf c map obj = c.FeedbackMetadata_SizeFor obj.slot_count ∧
    CoverageInfo.BodyDescriptor.SizeOf c map obj = c.CoverageInfo_SizeFor obj.slot_count := by
  refine ⟨?_, rfl, rfl, rfl, rfl, rfl⟩
  intro d hd
  simp only [List.mem_cons, List.mem_singleton, List.not_mem_nil, or_false] at hd
  rcases hd with rfl | rfl | rfl | rfl | rfl | rfl | rfl <;> exact ⟨rfl, rfl⟩

/-! ## FixedDoubleArray size -/

/-- C10: with element width `kDoubleSize = 8`, `FixedDoubleArray::BodyDescriptor::SizeOf`
is `header_size + 8 * length` for every stored length; for length 5 it is
`header_size + 40`; and `IterateBody` issues no visitor call. -/
theorem fixedDoubleArray_sizeOf (c : Layout) (map : Map) (obj : HeapObject)
    (object_size : Int) (hw : c.kDoubleSize = 8) :
    FixedDoubleArray.BodyDescriptor.SizeOf c map obj =
      c.FixedDoubleArray_kHeaderSize + 8 * obj.length ∧
    (obj.length = 5 →
      FixedDoubleArray.BodyDescriptor.SizeOf c map obj = c.FixedDoubleArray_kHeaderSize + 40) ∧
    FixedDoubleArray.BodyDescriptor.IterateBody c map obj object_size = [] := by
  refine ⟨?_, ?_, rfl⟩
  · simp only [FixedDoubleArray.BodyDescriptor.SizeOf, FixedDoubleArray.SizeFor, hw]
    omega
  · intro h5
    simp only [FixedDoubleArray.BodyDescriptor.SizeOf, FixedDoubleArray.SizeFor, hw, h5]
    omega

/-- C10 at the spec's scenario: an array reporting 5 elements has size `8 + 40` and an
empty trace. -/
theorem fixedDoubleArray_sizeOf_witness :
    compressedLayout.kDoubleSize = 8 ∧ sampleObject.length = 5 ∧
    FixedDoubleArray.BodyDescriptor.SizeOf compressedLayout sampleMap sampleObject = 8 + 40 ∧
    FixedDoubleArray.BodyDescriptor.IterateBody compressedLayout sampleMap sampleObject 48 = [] :=
  ⟨rfl, rfl,
   (fixedDoubleArray_sizeOf compressedLayout sampleMap sampleObject 48 rfl).2.1 rfl,
   (fixedDoubleArray_sizeOf compressedLayout sampleMap sampleObject 48 rfl).2.2⟩

/-! ## The ephemeron hash table -/

/-- A `flatMap` of singletons is a `map`. -/
theorem flatMap_singleton_eq_map {α β : Type} (f : α → β) (l : List α) :
    l.flatMap (fun x => [f x]) = l.map f := by
  induction l with
  | nil => rfl
  | cons a t ih => simp [List.flatMap_cons, ih]

/-- Counting `VisitEphemeron` calls distributes over concatenation. -/
theorem countVisitEphemeron_append (l1 l2 : List VisitorCall) :
    countVisitEphemeron (l1 ++ l2) = countVisitEphemeron l1 + countVisitEphemeron l2 := by
  induction l1 with
  | nil => simp [countVisitEphemeron]
  | cons a t ih =>
    cases a <;> simp [countVisitEphemeron, ih]
    omega

/-- A strong range contains no `VisitEphemeron` call. -/
theorem countVisitEphemeron_iteratePointers (c : Layout) (obj : HeapObject) (s e : Int) :
    countVisitEphemeron (IteratePointers c obj s e) = 0 := by
  unfold IteratePointers
  split <;> rfl

/-- A list of ephemeron calls, one per entry, counts as many calls as entries. -/
theorem countVisitEphemeron_map (obj : HeapObject) (k v : Int → Int) (l : List Int) :
    countVisitEphemeron (l.map (fun i => VisitEphemeron obj.address i (k i) (v i))) =
      l.length := by
  induction l with
  | nil => rfl
  | cons a t ih => simp [countVisitEphemeron, ih]

/-- The trace of the ephemeron table descriptor: the strong header range, then one
`VisitEphemeron` per entry of `IterateEntries`, in its order. -/
theorem ephemeron_iterateBody_eq (c : Layout) (map : Map) (obj : HeapObject)
    (object_size : Int) :
    EphemeronHashTable.BodyDescriptor.IterateBody c map obj object_size =
      IteratePointers c obj c.EphemeronHashTable_kHeaderSize
        (c.EphemeronHashTable_kHeaderSize +
          c.EphemeronHashTable_kElementsStartIndex * c.kTaggedSize) ++
      (EphemeronHashTable.IterateEntries obj).map (fun i =>
        VisitEphemeron obj.address i
          (EphemeronHashTable.OffsetOfElementAt c (EphemeronHashTable.EntryToIndex c i))
          (EphemeronHashTable.OffsetOfElementAt c
            (EphemeronHashTable.EntryToValueIndex c i))) := by
  unfold EphemeronHashTable.BodyDescriptor.IterateBody IterateEphemeron
  simp only []
  rw [flatMap_singleton_eq_map]

/-- Membership in `IterateEntries`. -/
theorem mem_iterateEntries (obj : HeapObject) (i : Int) :
    i ∈ EphemeronHashTable.IterateEntries obj ↔ 0 ≤ i ∧ i < obj.live_entry_count := by
  unfold EphemeronHashTable.IterateEntries
  simp only [List.mem_map, List.mem_range]
  constructor
  · rintro ⟨k, hk, rfl⟩
    exact ⟨Int.ofNat_nonneg k, Int.ofNat_lt.mpr hk⟩
  · rintro ⟨h0, h1⟩
    exact ⟨i.toNat, by omega, by simp [Int.toNat_of_nonneg h0]⟩

/-- C7: the number of `VisitEphemeron` calls issued by
`EphemeronHashTable::BodyDescriptor::IterateBody` equals the live-entry count recorded in
the table's bookkeeping field. -/
theorem ephemeron_call_count (c : Layout) (map : Map) (obj : HeapObject)
    (object_size : Int) :
    countVisitEphemeron (EphemeronHashTable.BodyDescriptor.IterateBody c map obj object_size) =
      obj.live_entry_count := by
  rw [ephemeron_iterateBody_eq, countVisitEphemeron_append,
    countVisitEphemeron_iteratePointers, countVisitEphemeron_map]
  simp [EphemeronHashTable.IterateEntries]

/-- Offsets of the key and value slots of entry `i`, in terms of `i * kTaggedSize`. -/
theorem ephemeron_offsets (c : Layout) (i : Int) :
    EphemeronHashTable.OffsetOfElementAt c (EphemeronHashTable.EntryToIndex c i) =
      c.EphemeronHashTable_kHeaderSize +
        c.EphemeronHashTable_kElementsStartIndex * c.kTaggedSize + 2 * (i * c.kTaggedSize) ∧
    EphemeronHashTable.OffsetOfElementAt c (EphemeronHashTable.EntryToValueIndex c i) =
      c.EphemeronHashTable_kHeaderSize +
        c.EphemeronHashTable_kElementsStartIndex * c.kTaggedSize + 2 * (i * c.kTaggedSize) +
        c.kTaggedSize := by
  unfold EphemeronHashTable.OffsetOfElementAt EphemeronHashTable.EntryToValueIndex
    EphemeronHashTable.EntryToIndex
  constructor <;> ring

/-- C8: `EphemeronHashTable::BodyDescriptor::IterateBody` issues the strong range
`[kHeaderSize, kHeaderSize + kElementsStartIndex * kTaggedSize)` and then, for each entry
`i` of `IterateEntries` in ascending order, one `VisitEphemeron(obj, i, key offset, value
offset)`; the key and value slots of an entry are covered by no other call of the trace,
in particular not by the strong header range. -/
theorem ephemeron_trace (c : Layout) (map : Map) (obj : HeapObject) (object_size : Int)
    (hts : 0 < c.kTaggedSize)
    (hhdr : c.EphemeronHashTable_kHeaderSize ≠ HeapObject.kMapOffset) :
    EphemeronHashTable.BodyDescriptor.IterateBody c map obj object_size =
      VisitPointers obj.address ObjectSlot c.EphemeronHashTable_kHeaderSize
        (c.EphemeronHashTable_kHeaderSize +
          c.EphemeronHashTable_kElementsStartIndex * c.kTaggedSize) ::
      (EphemeronHashTable.IterateEntries obj).map (fun i =>
        VisitEphemeron obj.address i
          (EphemeronHashTable.OffsetOfElementAt c (EphemeronHashTable.EntryToIndex c i))
          (EphemeronHashTable.OffsetOfElementAt c
            (EphemeronHashTable.EntryToValueIndex c i))) ∧
    (EphemeronHashTable.IterateEntries obj).Pairwise (fun i j => i < j) ∧
    ∀ i ∈ EphemeronHashTable.IterateEntries obj,
      ∀ call ∈ EphemeronHashTable.BodyDescriptor.IterateBody c map obj object_size,
        call ≠ VisitEphemeron obj.address i
          (EphemeronHashTable.OffsetOfElementAt c (EphemeronHashTable.EntryToIndex c i))
          (EphemeronHashTable.OffsetOfElementAt c
            (EphemeronHashTable.EntryToValueIndex c i)) →
        call.coversByte c.kTaggedSize
          (EphemeronHashTable.OffsetOfElementAt c (EphemeronHashTable.EntryToIndex c i)) =
            false ∧
        call.coversByte c.kTaggedSize
          (EphemeronHashTable.OffsetOfElementAt c
            (EphemeronHashTable.EntryToValueIndex c i)) = false := by
  have htrace : EphemeronHashTable.BodyDescriptor.IterateBody c map obj object_size =
      VisitPointers obj.address ObjectSlot c.EphemeronHashTable_kHeaderSize
        (c.EphemeronHashTable_kHeaderSize +
          c.EphemeronHashTable_kElementsStartIndex * c.kTaggedSize) ::
      (EphemeronHashTable.IterateEntries obj).map (fun i =>
        VisitEphemeron obj.address i
          (EphemeronHashTable.OffsetOfElementAt c (EphemeronHashTable.EntryToIndex c i))
          (EphemeronHashTable.OffsetOfElementAt c
            (EphemeronHashTable.EntryToValueIndex c i))) := by
    rw [ephemeron_iterateBody_eq]
    unfold IteratePointers
    rw [if_neg hhdr]
    rfl
  refine ⟨htrace, ?_, ?_⟩
  · unfold EphemeronHashTable.IterateEntries
    rw [List.pairwise_map]
    exact List.Pairwise.imp (fun h => Int.ofNat_lt.mpr h) (List.pairwise_lt_range _)
  · intro i hi call hcall hne
    rw [htrace] at hcall
    have hi0 : 0 ≤ i := ((mem_iterateEntries obj i).mp hi).1
    have hit : 0 ≤ i * c.kTaggedSize := Int.mul_nonneg hi0 (le_of_lt hts)
    obtain ⟨hki, hvi⟩ := ephemeron_offsets c i
    rcases List.mem_cons.mp hcall with hc | hc
    · subst hc
      simp only [VisitorCall.coversByte, decide_eq_false_iff_not]
      rw [hki, hvi]
      constructor <;> omega
    · obtain ⟨j, hj, rfl⟩ := List.mem_map.mp hc
      have hj0 : 0 ≤ j := ((mem_iterateEntries obj j).mp hj).1
      have hij : i ≠ j := by
        rintro rfl
        exact hne rfl
      obtain ⟨hkj, hvj⟩ := ephemeron_offsets c j
      have hlt : i < j → i * c.kTaggedSize + c.kTaggedSize ≤ j * c.kTaggedSize := by
        intro h
        have : (i + 1) * c.kTaggedSize ≤ j * c.kTaggedSize :=
          Int.mul_le_mul_of_nonneg_right (by omega) (le_of_lt hts)
        rw [Int.add_mul, Int.one_mul] at this
        exact this
      have hgt : j < i → j * c.kTaggedSize + c.kTaggedSize ≤ i * c.kTaggedSize := by
        intro h
        have : (j + 1) * c.kTaggedSize ≤ i * c.kTaggedSize :=
          Int.mul_le_mul_of_nonneg_right (by omega) (le_of_lt hts)
        rw [Int.add_mul, Int.one_mul] at this
        exact this
      simp only [VisitorCall.coversByte, decide_eq_false_iff_not]
      rw [hki, hvi, hkj, hvj]
      rcases lt_or_gt_of_ne hij with h | h
      · have := hlt h
        constructor <;> omega
      · have := hgt h
        constructor <;> omega

/-- C8 at a concrete input: a table with three live entries after an 8-byte header and
three bookkeeping elements. -/
theorem ephemeron_trace_witness :
    EphemeronHashTable.BodyDescriptor.IterateBody compressedLayout sampleMap sampleObject 44 =
      [VisitPointers 4096 ObjectSlot 8 20, VisitEphemeron 4096 0 20 24,
       VisitEphemeron 4096 1 28 32, VisitEphemeron 4096 2 36 40] :=
  (ephemeron_trace compressedLayout sampleMap sampleObject 44 (by decide) (by decide)).1

/-! ## The embedder slot loop and the JS object body -/

/-- Closed form of the embedder slot loop: when exactly `m` offsets
`first, first + stride, ...` lie below `limit` and the fuel covers them, the loop issues
one `VisitPointer` per such offset, in ascending order. -/
theorem embedderSlotLoop_eq (obj : HeapObject) (stride limit : Int) :
    ∀ (m fuel : Nat) (first : Int), m ≤ fuel → limit ≤ first + stride * m →
      (m = 0 ∨ first + stride * (m - 1 : Nat) < limit) → 0 < stride →
      embedderSlotLoop obj stride limit fuel first =
        (List.range m).map
          (fun (k : Nat) => VisitPointer obj.address ObjectSlot (first + stride * (k : Int))) := by
  intro m
  induction m with
  | zero =>
    intro fuel first _ hlim _ _
    cases fuel with
    | zero => rfl
    | succ f =>
      simp only [embedderSlotLoop]
      rw [if_neg (by simpa using hlim)]
      rfl
  | succ m ih =>
    intro fuel first hfuel hlim hlast hs
    cases fuel with
    | zero => omega
    | succ f =>
      have hlast' : first + stride * (m : Int) < limit := by
        rcases hlast with h | h
        · omega
        · simpa using h
      have hm0 : 0 ≤ stride * (m : Int) := Int.mul_nonneg (le_of_lt hs) (Int.ofNat_nonneg m)
      have hfirst : first < limit := by omega
      have hlim' : limit ≤ first + stride + stride * (m : Int) := by
        have : stride * ((m + 1 : Nat) : Int) = stride * (m : Int) + stride := by
          push_cast; ring
        omega
      have hrec := ih f (first + stride) (by omega) hlim'
        (by
          cases m with
          | zero => exact Or.inl rfl
          | succ k =>
            right
            have : stride * (((k + 1 : Nat) : Int)) =
                stride + stride * (((k + 1 - 1 : Nat)) : Int) := by
              simp only [Nat.add_sub_cancel]; push_cast; ring
            omega) hs
      simp only [embedderSlotLoop, IteratePointer]
      rw [if_pos hfirst, hrec, List.range_succ_eq_map, List.map_cons, List.map_map]
      simp only [List.singleton_append, Nat.cast_zero, mul_zero, add_zero]
      congr 1
      apply List.map_congr_left
      intro k _
      simp only [Function.comp, Nat.succ_eq_add_one]
      congr 1
      push_cast
      ring

/-- Every call of the embedder slot loop is a `VisitPointer` at an offset
`first + stride * k` below `limit`. -/
theorem mem_embedderSlotLoop (obj : HeapObject) (stride limit : Int) :
    ∀ (fuel : Nat) (first : Int) (call : VisitorCall),
      call ∈ embedderSlotLoop obj stride limit fuel first →
      ∃ k : Nat, call = VisitPointer obj.address ObjectSlot (first + stride * k) ∧
        first + stride * k < limit := by
  intro fuel
  induction fuel with
  | zero =>
    intro first call h
    simp [embedderSlotLoop] at h
  | succ f ih =>
    intro first call h
    simp only [embedderSlotLoop] at h
    by_cases hlt : first < limit
    · rw [if_pos hlt] at h
      simp only [IteratePointer, List.singleton_append, List.mem_cons] at h
      rcases h with h | h
      · exact ⟨0, by simpa using h, by simpa using hlt⟩
      · obtain ⟨k, hk, hk2⟩ := ih (first + stride) call h
        refine ⟨k + 1, ?_, ?_⟩
        · rw [hk]; congr 1; push_cast; ring
        · have : first + stride * ((k + 1 : Nat) : Int) = first + stride + stride * k := by
            push_cast; ring
          omega
    · rw [if_neg hlt] at h
      simp at h

/-- The single-slot offsets of a concatenation. -/
theorem visitPointerOffsets_append (l1 l2 : List VisitorCall) :
    visitPointerOffsets (l1 ++ l2) = visitPointerOffsets l1 ++ visitPointerOffsets l2 := by
  induction l1 with
  | nil => rfl
  | cons a t ih =>
    cases a <;> simp [visitPointerOffsets, ih]

/-- A strong range issues no single-slot call. -/
theorem visitPointerOffsets_iteratePointers (c : Layout) (obj : HeapObject) (s e : Int) :
    visitPointerOffsets (IteratePointers c obj s e) = [] := by
  unfold IteratePointers
  split <;> rfl

/-- The single-slot offsets of a list of `VisitPointer` calls. -/
theorem visitPointerOffsets_map (host : Address) (f : Nat → Int) (l : List Nat) :
    visitPointerOffsets (l.map (fun k => VisitPointer host ObjectSlot (f k))) = l.map f := by
  induction l with
  | nil => rfl
  | cons a t ih => simp [visitPointerOffsets, ih]

/-- Every call of a strong range is `VisitMapPointer` (only when the range starts at the
map slot) or a `VisitPointers` call ending at `end_offset` and starting at or after
`start_offset`. -/
theorem mem_iteratePointers (c : Layout) (obj : HeapObject) (s e : Int) (call : VisitorCall)
    (hts : 0 < c.kTaggedSize) (h : call ∈ IteratePointers c obj s e) :
    (call = VisitMapPointer obj.address ∧ s = 0) ∨
    (∃ s', call = VisitPointers obj.address ObjectSlot s' e ∧ s ≤ s') := by
  unfold IteratePointers at h
  by_cases h0 : s = HeapObject.kMapOffset
  · rw [if_pos h0] at h
    simp only [List.mem_cons, List.mem_singleton, List.not_mem_nil, or_false] at h
    rcases h with h | h
    · exact Or.inl ⟨h, h0⟩
    · exact Or.inr ⟨s + c.kTaggedSize, h, by omega⟩
  · rw [if_neg h0] at h
    simp only [List.mem_singleton] at h
    exact Or.inr ⟨s, h, le_refl s⟩

/-- Closed form of `IterateJSObjectBodyImpl` for a map with `n` embedder slots under
pointer compression. -/
theorem iterateJSObjectBodyImpl_eq (c : Layout) (map : Map) (obj : HeapObject)
    (start_offset end_offset : Int) (n : Nat)
    (hc : c.V8_COMPRESS_POINTERS = true)
    (hp0 : 0 ≤ c.EmbedderDataSlot_kTaggedPayloadOffset)
    (hp1 : c.EmbedderDataSlot_kTaggedPayloadOffset < c.kEmbedderDataSlotSize)
    (hlt : map.JSObject_GetHeaderSize < map.GetInObjectPropertyOffset_0)
    (hn : map.GetInObjectPropertyOffset_0 - map.JSObject_GetHeaderSize =
      c.kEmbedderDataSlotSize * n) :
    IterateJSObjectBodyImpl c map obj start_offset end_offset =
      IteratePointers c obj start_offset map.JSObject_GetHeaderSize ++
      (List.range n).map (fun (k : Nat) => VisitPointer obj.address ObjectSlot
        (map.JSObject_GetHeaderSize + c.EmbedderDataSlot_kTaggedPayloadOffset +
          c.kEmbedderDataSlotSize * (k : Int))) ++
      IteratePointers c obj map.GetInObjectPropertyOffset_0 end_offset := by
  have hS : 0 < c.kEmbedderDataSlotSize := by omega
  have hn1 : 1 ≤ n := by
    rcases Nat.eq_zero_or_pos n with h | h
    · subst h
      simp at hn
      omega
    · exact h
  have hprod : c.kEmbedderDataSlotSize * ((n - 1 : Nat) : Int) =
      c.kEmbedderDataSlotSize * n - c.kEmbedderDataSlotSize := by
    rw [Nat.cast_sub hn1]; push_cast; ring
  have hge : ((n - 1 : Nat) : Int) ≤ c.kEmbedderDataSlotSize * ((n - 1 : Nat) : Int) := by
    have h1 : (0 : Int) ≤ ((n - 1 : Nat) : Int) := Int.ofNat_nonneg _
    nlinarith
  have hcast : ((n - 1 : Nat) : Int) = (n : Int) - 1 := by
    rw [Nat.cast_sub hn1]; simp
  unfold IterateJSObjectBodyImpl
  simp only [hc, if_true]
  rw [if_pos hlt]
  rw [embedderSlotLoop_eq obj c.kEmbedderDataSlotSize map.GetInObjectPropertyOffset_0 n _ _
    (by omega) (by omega) (Or.inr (by omega)) hS]

/-- C2: under pointer compression, for a map whose embedder region
`[header_size, inobject_fields_offset)` consists of `n` whole embedder slots and for
every `start_offset` and `end_offset` (in particular `start_offset ≤ header_size` and
`end_offset ≥ inobject_fields_offset`), `IterateJSObjectBodyImpl` delivers through `VisitPointer` exactly the offsets
`header_size + kTaggedPayloadOffset + k * kEmbedderDataSlotSize`, `k = 0 .. n-1`, each
once, and no call of the body covers a byte of the raw half of an embedder slot. -/
theorem iterateJSObjectBodyImpl_embedder_slots (c : Layout) (map : Map) (obj : HeapObject)
    (start_offset end_offset : Int) (n : Nat)
    (hc : c.V8_COMPRESS_POINTERS = true)
    (hslot : c.kEmbedderDataSlotSize = 2 * c.kTaggedSize)
    (hts : 0 < c.kTaggedSize)
    (hpay : c.EmbedderDataSlot_kTaggedPayloadOffset = 0 ∨
      c.EmbedderDataSlot_kTaggedPayloadOffset = c.kTaggedSize)
    (hmapword : HeapObject.kMapOffset + c.kTaggedSize ≤ map.JSObject_GetHeaderSize)
    (hlt : map.JSObject_GetHeaderSize < map.GetInObjectPropertyOffset_0)
    (hn : map.GetInObjectPropertyOffset_0 - map.JSObject_GetHeaderSize =
      c.kEmbedderDataSlotSize * n) :
    visitPointerOffsets (IterateJSObjectBodyImpl c map obj start_offset end_offset) =
      (List.range n).map (fun (k : Nat) =>
        map.JSObject_GetHeaderSize + c.EmbedderDataSlot_kTaggedPayloadOffset +
          (k : Int) * c.kEmbedderDataSlotSize) ∧
    ((List.range n).map (fun (k : Nat) =>
        map.JSObject_GetHeaderSize + c.EmbedderDataSlot_kTaggedPayloadOffset +
          (k : Int) * c.kEmbedderDataSlotSize)).Nodup ∧
    ∀ call ∈ IterateJSObjectBodyImpl c map obj start_offset end_offset,
      ∀ k : Nat, k < n → ∀ b : Int,
        map.JSObject_GetHeaderSize + (k : Int) * c.kEmbedderDataSlotSize ≤ b →
        b < map.JSObject_GetHeaderSize + ((k : Int) + 1) * c.kEmbedderDataSlotSize →
        ¬ (map.JSObject_GetHeaderSize + (k : Int) * c.kEmbedderDataSlotSize +
              c.EmbedderDataSlot_kTaggedPayloadOffset ≤ b ∧
            b < map.JSObject_GetHeaderSize + (k : Int) * c.kEmbedderDataSlotSize +
              c.EmbedderDataSlot_kTaggedPayloadOffset + c.kTaggedSize) →
        call.coversByte c.kTaggedSize b = false := by
  have hS : 0 < c.kEmbedderDataSlotSize := by omega
  have heq := iterateJSObjectBodyImpl_eq c map obj start_offset end_offset n hc
    (by omega) (by omega) hlt hn
  refine ⟨?_, ?_, ?_⟩
  · rw [heq, visitPointerOffsets_append, visitPointerOffsets_append,
      visitPointerOffsets_iteratePointers, visitPointerOffsets_iteratePointers,
      visitPointerOffsets_map]
    simp only [List.nil_append, List.append_nil]
    apply List.map_congr_left
    intro k _
    ring
  · apply List.Nodup.map _ (List.nodup_range n)
    intro a b hab
    simp only at hab
    have h1 : (a : Int) * c.kEmbedderDataSlotSize = (b : Int) * c.kEmbedderDataSlotSize := by
      omega
    have h2 : (a : Int) = (b : Int) := Int.eq_of_mul_eq_mul_right (by omega) h1
    exact_mod_cast h2
  · intro call hcall k hk b hb1 hb2 hraw
    have hkn : (k : Int) + 1 ≤ (n : Int) := by exact_mod_cast hk
    have hkS : ((k : Int) + 1) * c.kEmbedderDataSlotSize ≤ (n : Int) * c.kEmbedderDataSlotSize :=
      Int.mul_le_mul_of_nonneg_right hkn (le_of_lt hS)
    have hk0 : 0 ≤ (k : Int) * c.kEmbedderDataSlotSize :=
      Int.mul_nonneg (Int.ofNat_nonneg k) (le_of_lt hS)
    have hexp : ((k : Int) + 1) * c.kEmbedderDataSlotSize =
        (k : Int) * c.kEmbedderDataSlotSize + c.kEmbedderDataSlotSize := by ring
    have hcomm : c.kEmbedderDataSlotSize * (n : Int) = (n : Int) * c.kEmbedderDataSlotSize := by
      ring
    rw [heq] at hcall
    simp only [List.mem_append] at hcall
    rcases hcall with (hcall | hcall) | hcall
    · rcases mem_iteratePointers c obj _ _ call hts hcall with ⟨rfl, _⟩ | ⟨s', rfl, _⟩
      · simp only [VisitorCall.coversByte, decide_eq_false_iff_not, HeapObject.kMapOffset] at *
        omega
      · simp only [VisitorCall.coversByte, decide_eq_false_iff_not]
        omega
    · obtain ⟨j, _, rfl⟩ := List.mem_map.mp hcall
      simp only [VisitorCall.coversByte, decide_eq_false_iff_not]
      have hj0 : c.kEmbedderDataSlotSize * (j : Int) = (j : Int) * c.kEmbedderDataSlotSize := by
        ring
      rw [hj0]
      rcases Nat.lt_trichotomy j k with h | h | h
      · have h' : (j : Int) + 1 ≤ (k : Int) := by exact_mod_cast h
        have := Int.mul_le_mul_of_nonneg_right h' (le_of_lt hS)
        have hexp' : ((j : Int) + 1) * c.kEmbedderDataSlotSize =
            (j : Int) * c.kEmbedderDataSlotSize + c.kEmbedderDataSlotSize := by ring
        omega
      · subst h
        omega
      · have h' : (k : Int) + 1 ≤ (j : Int) := by exact_mod_cast h
        have := Int.mul_le_mul_of_nonneg_right h' (le_of_lt hS)
        omega
    · rcases mem_iteratePointers c obj _ _ call hts hcall with ⟨rfl, h0⟩ | ⟨s', rfl, hs'⟩
      · simp only [VisitorCall.coversByte, decide_eq_false_iff_not, HeapObject.kMapOffset] at *
        omega
      · simp only [VisitorCall.coversByte, decide_eq_false_iff_not]
        omega

/-- C2 at a concrete input: `sampleMap` has two embedder slots in `[12, 28)`; their
tagged halves at 12 and 20 are the only single-slot calls. -/
theorem iterateJSObjectBodyImpl_embedder_slots_witness :
    visitPointerOffsets (IterateJSObjectBodyImpl compressedLayout sampleMap sampleObject 4 36) =
      [12, 20] :=
  (iterateJSObjectBodyImpl_embedder_slots compressedLayout sampleMap sampleObject 4 36 2
    rfl rfl (by decide) (Or.inl rfl) (by decide) (by decide) (by decide)).1

/-! ## Validation and enumeration of a JS object body -/

/-- `IsValidJSObjectSlotImpl` under pointer compression, with the mask written as a
remainder. -/
theorem isValidJSObjectSlotImpl_compressed (c : Layout) (map : Map) (obj : HeapObject)
    (offset : Int) (hc : c.V8_COMPRESS_POINTERS = true)
    (hpow : ∃ m : Nat, c.kEmbedderDataSlotSize = 2 ^ m) :
    IsValidJSObjectSlotImpl c map obj offset = true ↔
      (¬ (map.JSObject_GetEmbedderFieldsStartOffset ≤ offset ∧
          offset < map.GetInObjectPropertyOffset_0) ∨
        (offset - map.JSObject_GetEmbedderFieldsStartOffset) % c.kEmbedderDataSlotSize =
          c.EmbedderDataSlot_kTaggedPayloadOffset) := by
  obtain ⟨m, hm⟩ := hpow
  unfold IsValidJSObjectSlotImpl
  simp only [hc, if_true]
  by_cases hr : map.JSObject_GetEmbedderFieldsStartOffset ≤ offset ∧
      offset < map.GetInObjectPropertyOffset_0
  · rw [if_pos hr, hm, land_mask_eq_emod _ m (by omega)]
    simp only [decide_eq_true_eq]
    exact ⟨fun h => Or.inr h, fun h => h.resolve_left (fun hn => hn hr)⟩
  · rw [if_neg hr]
    exact ⟨fun _ => Or.inl hr, fun _ => rfl⟩

/-- A slot range has no repeated member. -/
theorem nodup_rangeSlots (ts s e : Int) : (rangeSlots ts s e).Nodup := by
  unfold rangeSlots
  apply List.Nodup.filter
  apply List.Nodup.map _ (List.nodup_range _)
  intro a b hab
  simp only at hab
  omega

/-- The pointer slots of a strong range. -/
theorem slots_iteratePointers (c : Layout) (obj : HeapObject) (s e : Int) :
    (IteratePointers c obj s e).flatMap (VisitorCall.pointerSlots c.kTaggedSize) =
      rangeSlots c.kTaggedSize (if s = HeapObject.kMapOffset then s + c.kTaggedSize else s) e := by
  unfold IteratePointers
  split <;> simp [List.flatMap_cons, VisitorCall.pointerSlots]

/-- How often a tagged-aligned positive offset occurs among the slots of a strong range
with aligned start: once if it lies in the range, else never. -/
theorem count_slots_iteratePointers (c : Layout) (obj : HeapObject) (s e o : Int)
    (hts : 0 < c.kTaggedSize) (ho : 0 < o) (hal : c.kTaggedSize ∣ o)
    (hs : c.kTaggedSize ∣ s) :
    ((IteratePointers c obj s e).flatMap (VisitorCall.pointerSlots c.kTaggedSize)).count o =
      if s ≤ o ∧ o < e then 1 else 0 := by
  rw [slots_iteratePointers]
  have hge : c.kTaggedSize ≤ o := Int.le_of_dvd ho hal
  by_cases h0 : s = HeapObject.kMapOffset
  · rw [if_pos h0]
    have hs0 : s = 0 := h0
    by_cases hin : s ≤ o ∧ o < e
    · rw [if_pos hin]
      apply List.count_eq_one_of_mem (nodup_rangeSlots _ _ _)
      rw [mem_rangeSlots]
      refine ⟨by omega, hin.2, ?_⟩
      apply Int.emod_eq_zero_of_dvd
      rw [hs0]
      exact Int.dvd_sub hal (by simp)
    · rw [if_neg hin]
      apply List.count_eq_zero_of_not_mem
      rw [mem_rangeSlots]
      rintro ⟨_, h2, _⟩
      exact hin ⟨by omega, h2⟩
  · rw [if_neg h0]
    by_cases hin : s ≤ o ∧ o < e
    · rw [if_pos hin]
      apply List.count_eq_one_of_mem (nodup_rangeSlots _ _ _)
      rw [mem_rangeSlots]
      exact ⟨hin.1, hin.2, Int.emod_eq_zero_of_dvd (Int.dvd_sub hal hs)⟩
    · rw [if_neg hin]
      apply List.count_eq_zero_of_not_mem
      rw [mem_rangeSlots]
      rintro ⟨h1, h2, _⟩
      exact hin ⟨h1, h2⟩

/-- The pointer slots of a list of `VisitPointer` calls. -/
theorem slots_map_visitPointer (ts : Int) (host : Address) (f : Nat → Int) (l : List Nat) :
    (l.map (fun k => VisitPointer host ObjectSlot (f k))).flatMap
      (VisitorCall.pointerSlots ts) = l.map f := by
  induction l with
  | nil => rfl
  | cons a t ih =>
    simp only [List.map_cons, List.flatMap_cons, VisitorCall.pointerSlots, ih]
    rfl

/-- C3: for `JSObject::BodyDescriptor` under pointer compression and a well-formed map
(embedder fields start at the tagged-aligned header size, the embedder region is a whole
number of embedder slots), every `kTaggedSize`-aligned offset in
`[kStartOffset, object_size)` for which `IsValidSlot` returns true occurs exactly once
among the slots delivered by `IterateBody`. -/
theorem jsObject_valid_slot_delivered_once (c : Layout) (map : Map) (obj : HeapObject)
    (object_size offset : Int)
    (hc : c.V8_COMPRESS_POINTERS = true)
    (hslot : c.kEmbedderDataSlotSize = 2 * c.kTaggedSize)
    (hpow : ∃ m : Nat, c.kEmbedderDataSlotSize = 2 ^ m)
    (hts : 0 < c.kTaggedSize)
    (hpay : c.EmbedderDataSlot_kTaggedPayloadOffset = 0 ∨
      c.EmbedderDataSlot_kTaggedPayloadOffset = c.kTaggedSize)
    (hstart0 : 0 < JSObject.BodyDescriptor.kStartOffset c)
    (hstartal : c.kTaggedSize ∣ JSObject.BodyDescriptor.kStartOffset c)
    (hemb : map.JSObject_GetEmbedderFieldsStartOffset = map.JSObject_GetHeaderSize)
    (hhal : c.kTaggedSize ∣ map.JSObject_GetHeaderSize)
    (hwhole : map.JSObject_GetHeaderSize < map.GetInObjectPropertyOffset_0 →
      c.kEmbedderDataSlotSize ∣ map.GetInObjectPropertyOffset_0 - map.JSObject_GetHeaderSize)
    (h1 : JSObject.BodyDescriptor.kStartOffset c ≤ offset) (h2 : offset < object_size)
    (hal : c.kTaggedSize ∣ offset)
    (hv : JSObject.BodyDescriptor.IsValidSlot c map obj offset = true) :
    ((JSObject.BodyDescriptor.IterateBody c map obj object_size).flatMap
      (VisitorCall.pointerSlots c.kTaggedSize)).count offset = 1 := by
  have ho : 0 < offset := by omega
  have hS : 0 < c.kEmbedderDataSlotSize := by omega
  have hv' : IsValidJSObjectSlotImpl c map obj offset = true := by
    unfold JSObject.BodyDescriptor.IsValidSlot at hv
    rw [if_neg (by omega)] at hv
    exact hv
  unfold JSObject.BodyDescriptor.IterateBody
  by_cases hlt : map.JSObject_GetHeaderSize < map.GetInObjectPropertyOffset_0
  · obtain ⟨q, hq⟩ := hwhole hlt
    have hq0 : 0 ≤ q := by
      by_contra hneg
      have : c.kEmbedderDataSlotSize * q ≤ c.kEmbedderDataSlotSize * 0 :=
        Int.mul_le_mul_of_nonneg_left (by omega) (le_of_lt hS)
      simp at this
      omega
    obtain ⟨n, rfl⟩ := Int.eq_ofNat_of_zero_le hq0
    rw [iterateJSObjectBodyImpl_eq c map obj _ _ n hc (by omega) (by omega) hlt hq]
    have hIal : c.kTaggedSize ∣ map.GetInObjectPropertyOffset_0 := by
      have : map.GetInObjectPropertyOffset_0 =
          map.JSObject_GetHeaderSize + c.kTaggedSize * (2 * (n : Int)) := by
        have := hq
        rw [hslot] at this
        have h3 : 2 * c.kTaggedSize * (n : Int) = c.kTaggedSize * (2 * (n : Int)) := by ring
        omega
      rw [this]
      exact Int.dvd_add hhal (Dvd.intro _ rfl)
    rw [List.flatMap_append, List.flatMap_append, List.count_append, List.count_append,
      count_slots_iteratePointers c obj _ _ offset hts ho hal hstartal,
      count_slots_iteratePointers c obj _ _ offset hts ho hal hIal,
      slots_map_visitPointer]
    have hnodup : ((List.range n).map (fun (k : Nat) =>
        map.JSObject_GetHeaderSize + c.EmbedderDataSlot_kTaggedPayloadOffset +
          c.kEmbedderDataSlotSize * (k : Int))).Nodup := by
      apply List.Nodup.map _ (List.nodup_range n)
      intro a b hab
      simp only at hab
      have h3 : c.kEmbedderDataSlotSize * (a : Int) = c.kEmbedderDataSlotSize * (b : Int) := by
        omega
      have h4 : (a : Int) = (b : Int) := Int.eq_of_mul_eq_mul_left (by omega) h3
      exact_mod_cast h4
    have hmem : ∀ x, x ∈ (List.range n).map (fun (k : Nat) =>
        map.JSObject_GetHeaderSize + c.EmbedderDataSlot_kTaggedPayloadOffset +
          c.kEmbedderDataSlotSize * (k : Int)) →
        map.JSObject_GetHeaderSize ≤ x ∧ x < map.GetInObjectPropertyOffset_0 := by
      intro x hx
      obtain ⟨k, hk, rfl⟩ := List.mem_map.mp hx
      have hk' : (k : Int) + 1 ≤ (n : Int) := by
        have := List.mem_range.mp hk
        exact_mod_cast this
      have h5 := Int.mul_le_mul_of_nonneg_left hk' (le_of_lt hS)
      have h6 : c.kEmbedderDataSlotSize * ((k : Int) + 1) =
          c.kEmbedderDataSlotSize * (k : Int) + c.kEmbedderDataSlotSize := by ring
      have h7 : 0 ≤ c.kEmbedderDataSlotSize * (k : Int) :=
        Int.mul_nonneg (le_of_lt hS) (Int.ofNat_nonneg k)
      constructor <;> omega
    by_cases hA : offset < map.JSObject_GetHeaderSize
    · rw [if_pos ⟨h1, hA⟩, if_neg (by omega),
        List.count_eq_zero_of_not_mem (fun hx => by have := hmem _ hx; omega)]
    · by_cases hB : offset < map.GetInObjectPropertyOffset_0
      · rw [if_neg (by omega), if_neg (by omega)]
        have hmod := ((isValidJSObjectSlotImpl_compressed c map obj offset hc hpow).mp
          hv').resolve_left (fun hn => hn ⟨by omega, hB⟩)
        rw [hemb] at hmod
        have hdiv := Int.emod_add_ediv (offset - map.JSObject_GetHeaderSize)
          c.kEmbedderDataSlotSize
        rw [hmod] at hdiv
        have hk0 : 0 ≤ (offset - map.JSObject_GetHeaderSize) / c.kEmbedderDataSlotSize :=
          Int.ediv_nonneg (by omega) (le_of_lt hS)
        obtain ⟨k, hk⟩ := Int.eq_ofNat_of_zero_le hk0
        rw [hk] at hdiv
        have hkn : k < n := by
          have h8 : c.kEmbedderDataSlotSize * (k : Int) < c.kEmbedderDataSlotSize * (n : Int) := by
            omega
          have h9 : (k : Int) < (n : Int) := Int.lt_of_mul_lt_mul_left h8 (le_of_lt hS)
          exact_mod_cast h9
        rw [List.count_eq_one_of_mem hnodup
          (List.mem_map.mpr ⟨k, List.mem_range.mpr hkn, by omega⟩)]
      · rw [if_neg (by omega), if_pos ⟨by omega, h2⟩,
          List.count_eq_zero_of_not_mem (fun hx => by have := hmem _ hx; omega)]
  · unfold IterateJSObjectBodyImpl
    simp only [hc, if_true]
    rw [if_neg hlt, count_slots_iteratePointers c obj _ _ offset hts ho hal hstartal,
      if_pos ⟨h1, h2⟩]

/-- C3 at a concrete input: offset 20, the tagged half of the second embedder slot of
`sampleMap`, is valid and delivered once. -/
theorem jsObject_valid_slot_delivered_once_witness :
    ((JSObject.BodyDescriptor.IterateBody compressedLayout sampleMap sampleObject 36).flatMap
      (VisitorCall.pointerSlots compressedLayout.kTaggedSize)).count 20 = 1 :=
  jsObject_valid_slot_delivered_once compressedLayout sampleMap sampleObject 36 20
    rfl rfl ⟨3, rfl⟩ (by decide) (Or.inl rfl) (by decide) ⟨1, rfl⟩ rfl ⟨3, rfl⟩
    (fun _ => ⟨2, rfl⟩) (by decide) (by decide) ⟨5, rfl⟩ (by decide)

/-! ## Enumeration agrees with validation -/

theorem slotsSatisfy_nil (ts : Int) (P : Int → Prop) : SlotsSatisfy ts [] P := by
  intro call h
  simp at h

theorem slotsSatisfy_append (ts : Int) (l1 l2 : List VisitorCall) (P : Int → Prop) :
    SlotsSatisfy ts (l1 ++ l2) P ↔ SlotsSatisfy ts l1 P ∧ SlotsSatisfy ts l2 P := by
  unfold SlotsSatisfy
  constructor
  · intro h
    exact ⟨fun call hc => h call (List.mem_append.mpr (Or.inl hc)),
      fun call hc => h call (List.mem_append.mpr (Or.inr hc))⟩
  · rintro ⟨h1, h2⟩ call hc
    rcases List.mem_append.mp hc with h | h
    · exact h1 call h
    · exact h2 call h

theorem slotsSatisfy_mono (ts : Int) (l : List VisitorCall) (P Q : Int → Prop)
    (h : SlotsSatisfy ts l P) (hpq : ∀ o, P o → Q o) : SlotsSatisfy ts l Q :=
  fun call hc o ho => hpq o (h call hc o ho)

theorem slotsSatisfy_flatMap {α : Type} (ts : Int) (l : List α) (f : α → List VisitorCall)
    (P : Int → Prop) (h : ∀ x ∈ l, SlotsSatisfy ts (f x) P) :
    SlotsSatisfy ts (l.flatMap f) P := by
  intro call hc
  obtain ⟨x, hx, hcx⟩ := List.mem_flatMap.mp hc
  exact h x hx call hcx

theorem slotsSatisfy_iteratePointers (c : Layout) (obj : HeapObject) (s e : Int)
    (hts : 0 < c.kTaggedSize) :
    SlotsSatisfy c.kTaggedSize (IteratePointers c obj s e) (fun o => s ≤ o ∧ o < e) := by
  intro call hc o ho
  rcases mem_iteratePointers c obj s e call hts hc with ⟨rfl, _⟩ | ⟨s', rfl, hs'⟩
  · simp [VisitorCall.pointerSlots] at ho
  · simp only [VisitorCall.pointerSlots, mem_rangeSlots] at ho
    exact ⟨by omega, ho.2.1⟩

theorem slotsSatisfy_iteratePointer (ts : Int) (obj : HeapObject) (offset : Int) :
    SlotsSatisfy ts (IteratePointer obj offset) (fun o => o = offset) := by
  intro call hc o ho
  simp only [IteratePointer, List.mem_singleton] at hc
  subst hc
  simpa [VisitorCall.pointerSlots] using ho

theorem slotsSatisfy_iterateMaybeWeakPointer (ts : Int) (obj : HeapObject) (offset : Int) :
    SlotsSatisfy ts (IterateMaybeWeakPointer obj offset) (fun o => o = offset) := by
  intro call hc o ho
  simp only [IterateMaybeWeakPointer, List.mem_singleton] at hc
  subst hc
  simpa [VisitorCall.pointerSlots] using ho

theorem slotsSatisfy_iterateCustomWeakPointer (ts : Int) (obj : HeapObject) (offset : Int) :
    SlotsSatisfy ts (IterateCustomWeakPointer obj offset) (fun o => o = offset) := by
  intro call hc o ho
  simp only [IterateCustomWeakPointer, List.mem_singleton] at hc
  subst hc
  simpa [VisitorCall.pointerSlots] using ho

theorem slotsSatisfy_iterateMaybeWeakPointers (ts : Int) (obj : HeapObject) (s e : Int) :
    SlotsSatisfy ts (IterateMaybeWeakPointers obj s e)
      (fun o => s ≤ o ∧ o < e ∧ (o - s) % ts = 0) := by
  intro call hc o ho
  simp only [IterateMaybeWeakPointers, List.mem_singleton] at hc
  subst hc
  simpa [VisitorCall.pointerSlots, mem_rangeSlots] using ho

theorem slotsSatisfy_iterateCustomWeakPointers (ts : Int) (obj : HeapObject) (s e : Int) :
    SlotsSatisfy ts (IterateCustomWeakPointers obj s e)
      (fun o => s ≤ o ∧ o < e ∧ (o - s) % ts = 0) := by
  intro call hc o ho
  simp only [IterateCustomWeakPointers, List.mem_singleton] at hc
  subst hc
  simpa [VisitorCall.pointerSlots, mem_rangeSlots] using ho

theorem slotsSatisfy_embedderSlotLoop (ts : Int) (obj : HeapObject) (stride limit : Int)
    (fuel : Nat) (first : Int) :
    SlotsSatisfy ts (embedderSlotLoop obj stride limit fuel first)
      (fun o => ∃ k : Nat, o = first + stride * k ∧ o < limit) := by
  intro call hc o ho
  obtain ⟨k, rfl, hk⟩ := mem_embedderSlotLoop obj stride limit fuel first call hc
  simp only [VisitorCall.pointerSlots, List.mem_singleton] at ho
  subst ho
  exact ⟨k, rfl, hk⟩

/-- An offset outside the embedder region is a valid JS object slot. -/
theorem isValidJSObjectSlotImpl_of_outside (c : Layout) (map : Map) (obj : HeapObject)
    (offset : Int)
    (h : offset < map.JSObject_GetEmbedderFieldsStartOffset ∨
      map.GetInObjectPropertyOffset_0 ≤ offset) :
    IsValidJSObjectSlotImpl c map obj offset = true := by
  unfold IsValidJSObjectSlotImpl
  split
  · simp only []
    rw [if_neg (by omega)]
  · rfl

/-- Every slot delivered by `IterateJSObjectBodyImpl` lies at or after `start_offset` and
passes `IsValidJSObjectSlotImpl`. -/
theorem slotsSatisfy_iterateJSObjectBodyImpl (c : Layout) (map : Map) (obj : HeapObject)
    (s e : Int) (hb : c.Basic) (hwf : JSBodyWellFormed map s) :
    SlotsSatisfy c.kTaggedSize (IterateJSObjectBodyImpl c map obj s e)
      (fun o => s ≤ o ∧ IsValidJSObjectSlotImpl c map obj o = true) := by
  obtain ⟨hts, hcomp⟩ := hb
  obtain ⟨hemb, hstart⟩ := hwf
  unfold IterateJSObjectBodyImpl
  by_cases hc : c.V8_COMPRESS_POINTERS = true
  · obtain ⟨hslot, hpow, hpay⟩ := hcomp hc
    simp only [hc, if_true]
    by_cases hlt : map.JSObject_GetHeaderSize < map.GetInObjectPropertyOffset_0
    · rw [if_pos hlt, slotsSatisfy_append, slotsSatisfy_append]
      refine ⟨⟨?_, ?_⟩, ?_⟩
      · refine slotsSatisfy_mono _ _ _ _ (slotsSatisfy_iteratePointers c obj _ _ hts) ?_
        rintro o ⟨h1, h2⟩
        exact ⟨h1, isValidJSObjectSlotImpl_of_outside c map obj o (Or.inl (by omega))⟩
      · refine slotsSatisfy_mono _ _ _ _ (slotsSatisfy_embedderSlotLoop _ obj _ _ _ _) ?_
        rintro o ⟨k, hk, hlim⟩
        have hk0 : 0 ≤ c.kEmbedderDataSlotSize * (k : Int) :=
          Int.mul_nonneg (by omega) (Int.ofNat_nonneg k)
        refine ⟨by omega, ?_⟩
        rw [isValidJSObjectSlotImpl_compressed c map obj o hc hpow]
        right
        have : o - map.JSObject_GetEmbedderFieldsStartOffset =
            c.EmbedderDataSlot_kTaggedPayloadOffset + c.kEmbedderDataSlotSize * (k : Int) := by
          omega
        rw [this, Int.add_mul_emod_self_left]
        exact Int.emod_eq_of_lt (by omega) (by omega)
      · refine slotsSatisfy_mono _ _ _ _ (slotsSatisfy_iteratePointers c obj _ _ hts) ?_
        rintro o ⟨h1, h2⟩
        exact ⟨by omega, isValidJSObjectSlotImpl_of_outside c map obj o (Or.inr h1)⟩
    · rw [if_neg hlt]
      refine slotsSatisfy_mono _ _ _ _ (slotsSatisfy_iteratePointers c obj _ _ hts) ?_
      rintro o ⟨h1, h2⟩
      refine ⟨h1, ?_⟩
      by_cases ho : o < map.JSObject_GetEmbedderFieldsStartOffset
      · exact isValidJSObjectSlotImpl_of_outside c map obj o (Or.inl ho)
      · exact isValidJSObjectSlotImpl_of_outside c map obj o (Or.inr (by omega))
  · have hc' : c.V8_COMPRESS_POINTERS = false := by simpa using hc
    simp only [hc', Bool.false_eq_true, if_false]
    refine slotsSatisfy_mono _ _ _ _ (slotsSatisfy_iteratePointers c obj _ _ hts) ?_
    rintro o ⟨h1, h2⟩
    refine ⟨h1, ?_⟩
    unfold IsValidJSObjectSlotImpl
    simp [hc']

theorem slotsSatisfy_strongRange (c : Layout) (obj : HeapObject) (s e : Int)
    (hts : 0 < c.kTaggedSize) (P : Int → Prop) (h : ∀ o, s ≤ o → o < e → P o) :
    SlotsSatisfy c.kTaggedSize (IteratePointers c obj s e) P :=
  slotsSatisfy_mono _ _ _ _ (slotsSatisfy_iteratePointers c obj s e hts)
    (fun o ho => h o ho.1 ho.2)

theorem slotsSatisfy_strongSlot (ts : Int) (obj : HeapObject) (offset : Int) (P : Int → Prop)
    (h : P offset) : SlotsSatisfy ts (IteratePointer obj offset) P :=
  slotsSatisfy_mono _ _ _ _ (slotsSatisfy_iteratePointer ts obj offset)
    (fun o ho => by rw [ho]; exact h)

theorem slotsSatisfy_maybeWeakSlot (ts : Int) (obj : HeapObject) (offset : Int)
    (P : Int → Prop) (h : P offset) : SlotsSatisfy ts (IterateMaybeWeakPointer obj offset) P :=
  slotsSatisfy_mono _ _ _ _ (slotsSatisfy_iterateMaybeWeakPointer ts obj offset)
    (fun o ho => by rw [ho]; exact h)

theorem slotsSatisfy_customWeakSlot (ts : Int) (obj : HeapObject) (offset : Int)
    (P : Int → Prop) (h : P offset) : SlotsSatisfy ts (IterateCustomWeakPointer obj offset) P :=
  slotsSatisfy_mono _ _ _ _ (slotsSatisfy_iterateCustomWeakPointer ts obj offset)
    (fun o ho => by rw [ho]; exact h)

theorem slotsSatisfy_maybeWeakRange (ts : Int) (obj : HeapObject) (s e : Int) (P : Int → Prop)
    (h : ∀ o, s ≤ o → o < e → (o - s) % ts = 0 → P o) :
    SlotsSatisfy ts (IterateMaybeWeakPointers obj s e) P :=
  slotsSatisfy_mono _ _ _ _ (slotsSatisfy_iterateMaybeWeakPointers ts obj s e)
    (fun o ho => h o ho.1 ho.2.1 ho.2.2)

theorem slotsSatisfy_customWeakRange (ts : Int) (obj : HeapObject) (s e : Int) (P : Int → Prop)
    (h : ∀ o, s ≤ o → o < e → (o - s) % ts = 0 → P o) :
    SlotsSatisfy ts (IterateCustomWeakPointers obj s e) P :=
  slotsSatisfy_mono _ _ _ _ (slotsSatisfy_iterateCustomWeakPointers ts obj s e)
    (fun o ho => h o ho.1 ho.2.1 ho.2.2)

theorem slotsSatisfy_jsBody (c : Layout) (map : Map) (obj : HeapObject) (s e : Int)
    (hb : c.Basic) (hwf : JSBodyWellFormed map s) (P : Int → Prop)
    (h : ∀ o, s ≤ o → IsValidJSObjectSlotImpl c map obj o = true → P o) :
    SlotsSatisfy c.kTaggedSize (IterateJSObjectBodyImpl c map obj s e) P :=
  slotsSatisfy_mono _ _ _ _ (slotsSatisfy_iterateJSObjectBodyImpl c map obj s e hb hwf)
    (fun o ho => h o ho.1 ho.2)

/-- A trace whose calls deliver no pointer slot satisfies every slot property. -/
theorem slotsSatisfy_of_no_slots (ts : Int) (l : List VisitorCall) (P : Int → Prop)
    (h : ∀ call ∈ l, call.pointerSlots ts = []) : SlotsSatisfy ts l P := by
  intro call hc o ho
  rw [h call hc] at ho
  simp at ho

/-- C1, as stated, fails for the WebAssembly descriptors whose `IsValidSlot` is
`UNREACHABLE()`: `WasmStruct::BodyDescriptor::IterateBody` delivers the reference field at
offset 16 of `sampleMap` through `VisitPointer`, and `IsValidSlot` does not return true
for it (the call aborts). -/
theorem iterateBody_slots_valid_counterexample :
    VisitPointer 4096 ObjectSlot 16 ∈
      Descriptor.WasmStruct.IterateBody compressedLayout sampleMap sampleObject
        (Descriptor.WasmStruct.SizeOf compressedLayout sampleMap sampleObject) ∧
    (16 : Int) ∈ (VisitPointer 4096 ObjectSlot 16).pointerSlots compressedLayout.kTaggedSize ∧
    Descriptor.WasmStruct.IsValidSlot compressedLayout sampleMap sampleObject 16 ≠ some true := by
  decide

/-- C1, amended: for every body descriptor of the file whose `IsValidSlot` is not
`UNREACHABLE()`, every well-formed layout and map of that shape, `object_size =
SizeOf(map, obj)`, and every slot offset that `IterateBody` delivers through a pointer
operation, `IsValidSlot(map, obj, offset)` returns true. -/
theorem iterateBody_slots_valid (d : Descriptor) (c : Layout) (map : Map) (obj : HeapObject)
    (hU : d.isValidSlotUnreachable = false) (hb : c.Basic) (hwf : d.WellFormed c map) :
    ∀ call ∈ d.IterateBody c map obj (d.SizeOf c map obj),
      ∀ offset ∈ call.pointerSlots c.kTaggedSize,
        d.IsValidSlot c map obj offset = some true := by
  have hts : 0 < c.kTaggedSize := hb.1
  show SlotsSatisfy c.kTaggedSize (d.IterateBody c map obj (d.SizeOf c map obj))
    (fun o => d.IsValidSlot c map obj o = some true)
  cases d
  case JSObject =>
    refine slotsSatisfy_jsBody c map obj _ _ hb hwf _ (fun o h1 h2 => ?_)
    simp only [Descriptor.IsValidSlot, JSObject.BodyDescriptor.IsValidSlot]
    rw [if_neg (by omega), h2]
  case JSObject_Fast =>
    refine slotsSatisfy_strongRange c obj _ _ hts _ (fun o h1 h2 => ?_)
    simp only [Descriptor.IsValidSlot, JSObject.FastBodyDescriptor.IsValidSlot,
      Option.some.injEq, decide_eq_true_eq]
    omega
  case WeakCell =>
    obtain ⟨hw1, hw2⟩ := hwf
    have hval : ∀ o, c.HeapObject_kHeaderSize ≤ o →
        Descriptor.WeakCell.IsValidSlot c map obj o = some true := by
      intro o ho
      simp only [Descriptor.IsValidSlot, WeakCell.BodyDescriptor.IsValidSlot,
        Option.some.injEq, decide_eq_true_eq]
      omega
    show SlotsSatisfy _ (WeakCell.BodyDescriptor.IterateBody c map obj _) _
    unfold WeakCell.BodyDescriptor.IterateBody
    rw [slotsSatisfy_append, slotsSatisfy_append, slotsSatisfy_append]
    exact ⟨⟨⟨slotsSatisfy_strongRange c obj _ _ hts _ (fun o h1 _ => hval o h1),
      slotsSatisfy_customWeakSlot _ obj _ _ (hval _ hw1)⟩,
      slotsSatisfy_customWeakSlot _ obj _ _ (hval _ hw2)⟩,
      slotsSatisfy_strongRange c obj _ _ hts _ (fun o h1 _ => hval o (by omega))⟩
  case JSWeakRef =>
    obtain ⟨hemb, hst⟩ := id hwf
    have hval : ∀ o, IsValidJSObjectSlotImpl c map obj o = true →
        Descriptor.JSWeakRef.IsValidSlot c map obj o = some true := by
      intro o h
      simp only [Descriptor.IsValidSlot, JSWeakRef.BodyDescriptor.IsValidSlot, h]
    have hlow : ∀ o, o ≤ c.JSWeakRef_kTargetOffset →
        IsValidJSObjectSlotImpl c map obj o = true :=
      fun o ho => isValidJSObjectSlotImpl_of_outside c map obj o (Or.inl (by omega))
    show SlotsSatisfy _ (JSWeakRef.BodyDescriptor.IterateBody c map obj _) _
    unfold JSWeakRef.BodyDescriptor.IterateBody
    rw [slotsSatisfy_append, slotsSatisfy_append]
    exact ⟨⟨slotsSatisfy_strongRange c obj _ _ hts _
        (fun o _ h2 => hval o (hlow o (by omega))),
      slotsSatisfy_customWeakSlot _ obj _ _ (hval _ (hlow _ (le_refl _)))⟩,
      slotsSatisfy_jsBody c map obj _ _ hb hwf _ (fun o _ h2 => hval o h2)⟩
  case JSFinalizationRegistry =>
    obtain ⟨hemb, hst⟩ := id hwf
    have hval : ∀ o, IsValidJSObjectSlotImpl c map obj o = true →
        Descriptor.JSFinalizationRegistry.IsValidSlot c map obj o = some true := by
      intro o h
      simp only [Descriptor.IsValidSlot, JSFinalizationRegistry.BodyDescriptor.IsValidSlot, h]
    have hlow : ∀ o, o ≤ c.JSFinalizationRegistry_kNextDirtyOffset →
        IsValidJSObjectSlotImpl c map obj o = true :=
      fun o ho => isValidJSObjectSlotImpl_of_outside c map obj o (Or.inl (by omega))
    show SlotsSatisfy _ (JSFinalizationRegistry.BodyDescriptor.IterateBody c map obj _) _
    unfold JSFinalizationRegistry.BodyDescriptor.IterateBody
    rw [slotsSatisfy_append, slotsSatisfy_append]
    exact ⟨⟨slotsSatisfy_strongRange c obj _ _ hts _
        (fun o _ h2 => hval o (hlow o (by omega))),
      slotsSatisfy_customWeakSlot _ obj _ _ (hval _ (hlow _ (le_refl _)))⟩,
      slotsSatisfy_jsBody c map obj _ _ hb hwf _ (fun o _ h2 => hval o h2)⟩
  case AllocationSite =>
    have hw : c.AllocationSite_kSizeWithWeakNext =
        c.AllocationSite_kWeakNextOffset + c.kTaggedSize := hwf
    show SlotsSatisfy _ (AllocationSite.BodyDescriptor.IterateBody c map obj
      (AllocationSite.BodyDescriptor.SizeOf map obj)) _
    unfold AllocationSite.BodyDescriptor.IterateBody AllocationSite.BodyDescriptor.SizeOf
    rw [slotsSatisfy_append]
    refine ⟨slotsSatisfy_strongRange c obj _ _ hts _ (fun o h1 h2 => ?_), ?_⟩
    · simp only [Descriptor.IsValidSlot, AllocationSite.BodyDescriptor.IsValidSlot]
      rw [if_pos ⟨h1, h2⟩]
    · by_cases hsz : map.instance_size = c.AllocationSite_kSizeWithWeakNext
      · rw [if_pos hsz]
        refine slotsSatisfy_customWeakRange _ obj _ _ _ (fun o h1 h2 h3 => ?_)
        have ho : o = c.AllocationSite_kWeakNextOffset := by
          have := Int.emod_eq_of_lt (show 0 ≤ o - c.AllocationSite_kWeakNextOffset by omega)
            (show o - c.AllocationSite_kWeakNextOffset < c.kTaggedSize by omega)
          omega
        simp only [Descriptor.IsValidSlot, AllocationSite.BodyDescriptor.IsValidSlot]
        by_cases hA : o ≥ c.AllocationSite_kStartOffset ∧
            o < c.AllocationSite_kCommonPointerFieldEndOffset
        · rw [if_pos hA]
        · rw [if_neg hA, if_pos ⟨hsz, ho⟩]
      · rw [if_neg hsz]
        exact slotsSatisfy_nil _ _
  case JSFunction =>
    obtain ⟨hw1, hw2, hw3⟩ := hwf
    obtain ⟨hemb, hst⟩ := id hw3
    have hval : ∀ o, JSFunction.BodyDescriptor.kStartOffset c ≤ o →
        IsValidJSObjectSlotImpl c map obj o = true →
        Descriptor.JSFunction.IsValidSlot c map obj o = some true := by
      intro o h1 h2
      simp only [Descriptor.IsValidSlot, JSFunction.BodyDescriptor.IsValidSlot]
      rw [if_neg (by omega), h2]
    have hlow : ∀ o, o < c.JSFunction_GetHeaderSize map.has_prototype_slot →
        IsValidJSObjectSlotImpl c map obj o = true :=
      fun o ho => isValidJSObjectSlotImpl_of_outside c map obj o (Or.inl (by omega))
    show SlotsSatisfy _ (JSFunction.BodyDescriptor.IterateBody c map obj _) _
    unfold JSFunction.BodyDescriptor.IterateBody
    simp only []
    rw [slotsSatisfy_append, slotsSatisfy_append, slotsSatisfy_append]
    exact ⟨⟨⟨slotsSatisfy_strongRange c obj _ _ hts _
          (fun o h1 h2 => hval o h1 (hlow o (by omega))),
        slotsSatisfy_customWeakSlot _ obj _ _ (hval _ hw1 (hlow _ (by omega)))⟩,
      slotsSatisfy_strongRange c obj _ _ hts _
        (fun o h1 h2 => hval o (by omega) (hlow o h2))⟩,
      slotsSatisfy_jsBody c map obj _ _ hb hw3 _ (fun o h1 h2 => hval o (by omega) h2)⟩
  case JSArrayBuffer =>
    have hval1 : ∀ o, o < c.JSArrayBuffer_kEndOfTaggedFieldsOffset →
        Descriptor.JSArrayBuffer.IsValidSlot c map obj o = some true := by
      intro o h
      simp only [Descriptor.IsValidSlot, JSArrayBuffer.BodyDescriptor.IsValidSlot]
      rw [if_pos h]
    have hval2 : ∀ o, c.JSArrayBuffer_kHeaderSize ≤ o →
        IsValidJSObjectSlotImpl c map obj o = true →
        Descriptor.JSArrayBuffer.IsValidSlot c map obj o = some true := by
      intro o h1 h2
      simp only [Descriptor.IsValidSlot, JSArrayBuffer.BodyDescriptor.IsValidSlot]
      by_cases hA : o < c.JSArrayBuffer_kEndOfTaggedFieldsOffset
      · rw [if_pos hA]
      · rw [if_neg hA, if_neg (by omega), h2]
    show SlotsSatisfy _ (JSArrayBuffer.BodyDescriptor.IterateBody c map obj _) _
    unfold JSArrayBuffer.BodyDescriptor.IterateBody
    rw [slotsSatisfy_append]
    exact ⟨slotsSatisfy_strongRange c obj _ _ hts _ (fun o _ h2 => hval1 o h2),
      slotsSatisfy_jsBody c map obj _ _ hb hwf _ (fun o h1 h2 => hval2 o h1 h2)⟩
  case JSTypedArray =>
    have hval1 : ∀ o, o < c.JSTypedArray_kEndOfTaggedFieldsOffset →
        Descriptor.JSTypedArray.IsValidSlot c map obj o = some true := by
      intro o h
      simp only [Descriptor.IsValidSlot, JSTypedArray.BodyDescriptor.IsValidSlot]
      rw [if_pos h]
    have hvalB : Descriptor.JSTypedArray.IsValidSlot c map obj
        c.JSTypedArray_kBasePointerOffset = some true := by
      simp only [Descriptor.IsValidSlot, JSTypedArray.BodyDescriptor.IsValidSlot]
      by_cases hA : c.JSTypedArray_kBasePointerOffset < c.JSTypedArray_kEndOfTaggedFieldsOffset
      · rw [if_pos hA]
      · rw [if_neg hA]
        simp
    have hval2 : ∀ o, c.JSTypedArray_kHeaderSize ≤ o →
        IsValidJSObjectSlotImpl c map obj o = true →
        Descriptor.JSTypedArray.IsValidSlot c map obj o = some true := by
      intro o h1 h2
      simp only [Descriptor.IsValidSlot, JSTypedArray.BodyDescriptor.IsValidSlot]
      by_cases hA : o < c.JSTypedArray_kEndOfTaggedFieldsOffset
      · rw [if_pos hA]
      · by_cases hB : o = c.JSTypedArray_kBasePointerOffset
        · rw [if_neg hA, if_pos hB]
        · rw [if_neg hA, if_neg hB, if_neg (by omega), h2]
    show SlotsSatisfy _ (JSTypedArray.BodyDescriptor.IterateBody c map obj _) _
    unfold JSTypedArray.BodyDescriptor.IterateBody
    rw [slotsSatisfy_append, slotsSatisfy_append]
    exact ⟨⟨slotsSatisfy_strongRange c obj _ _ hts _ (fun o _ h2 => hval1 o h2),
      slotsSatisfy_strongSlot _ obj _ _ hvalB⟩,
      slotsSatisfy_jsBody c map obj _ _ hb hwf _ (fun o h1 h2 => hval2 o h1 h2)⟩
  case JSDataView =>
    have hval1 : ∀ o, o < c.JSDataView_kEndOfTaggedFieldsOffset →
        Descriptor.JSDataView.IsValidSlot c map obj o = some true := by
      intro o h
      simp only [Descriptor.IsValidSlot, JSDataView.BodyDescriptor.IsValidSlot]
      rw [if_pos h]
    have hval2 : ∀ o, c.JSDataView_kHeaderSize ≤ o →
        IsValidJSObjectSlotImpl c map obj o = true →
        Descriptor.JSDataView.IsValidSlot c map obj o = some true := by
      intro o h1 h2
      simp only [Descriptor.IsValidSlot, JSDataView.BodyDescriptor.IsValidSlot]
      by_cases hA : o < c.JSDataView_kEndOfTaggedFieldsOffset
      · rw [if_pos hA]
      · rw [if_neg hA, if_neg (by omega), h2]
    show SlotsSatisfy _ (JSDataView.BodyDescriptor.IterateBody c map obj _) _
    unfold JSDataView.BodyDescriptor.IterateBody
    rw [slotsSatisfy_append]
    exact ⟨slotsSatisfy_strongRange c obj _ _ hts _ (fun o _ h2 => hval1 o h2),
      slotsSatisfy_jsBody c map obj _ _ hb hwf _ (fun o h1 h2 => hval2 o h1 h2)⟩
  case SmallOrderedHashTable derived =>
    refine slotsSatisfy_strongRange c obj _ _ hts _ (fun o h1 h2 => ?_)
    simp only [Descriptor.IsValidSlot, SmallOrderedHashTable.BodyDescriptor.IsValidSlot,
      Option.some.injEq, Bool.and_eq_true, decide_eq_true_eq]
    exact ⟨h1, h2⟩
  case SwissNameDictionary =>
    refine slotsSatisfy_strongRange c obj _ _ hts _ (fun o h1 h2 => ?_)
    simp only [Descriptor.IsValidSlot, SwissNameDictionary.BodyDescriptor.IsValidSlot,
      Option.some.injEq, Bool.and_eq_true, decide_eq_true_eq]
    exact ⟨h1, h2⟩
  case ByteArray => exact slotsSatisfy_nil _ _
  case BytecodeArray =>
    obtain ⟨hw1, hw2⟩ := hwf
    have hval : ∀ o, c.BytecodeArray_kConstantPoolOffset ≤ o →
        o ≤ c.BytecodeArray_kSourcePositionTableOffset →
        Descriptor.BytecodeArray.IsValidSlot c map obj o = some true := by
      intro o h1 h2
      simp only [Descriptor.IsValidSlot, BytecodeArray.BodyDescriptor.IsValidSlot,
        Option.some.injEq, Bool.and_eq_true, decide_eq_true_eq]
      exact ⟨h1, h2⟩
    show SlotsSatisfy _ (BytecodeArray.BodyDescriptor.IterateBody c map obj
      (BytecodeArray.BodyDescriptor.SizeOf c map obj)) _
    unfold BytecodeArray.BodyDescriptor.IterateBody
    rw [slotsSatisfy_append, slotsSatisfy_append]
    exact ⟨⟨slotsSatisfy_strongSlot _ obj _ _ (hval _ (le_refl _) (by omega)),
      slotsSatisfy_strongSlot _ obj _ _ (hval _ hw1 hw2)⟩,
      slotsSatisfy_strongSlot _ obj _ _ (hval _ (by omega) (le_refl _))⟩
  case BigInt => exact slotsSatisfy_nil _ _
  case FixedDoubleArray => exact slotsSatisfy_nil _ _
  case FeedbackMetadata => exact slotsSatisfy_nil _ _
  case PreparseData =>
    refine slotsSatisfy_strongRange c obj _ _ hts _ (fun o h1 h2 => ?_)
    simp only [Descriptor.IsValidSlot, PreparseData.BodyDescriptor.IsValidSlot,
      Option.some.injEq, decide_eq_true_eq]
    exact h1
  case PrototypeInfo =>
    have hw : c.HeapObject_kHeaderSize ≤ c.PrototypeInfo_kObjectCreateMapOffset := hwf
    have hval : ∀ o, c.HeapObject_kHeaderSize ≤ o →
        Descriptor.PrototypeInfo.IsValidSlot c map obj o = some true := by
      intro o ho
      simp only [Descriptor.IsValidSlot, PrototypeInfo.BodyDescriptor.IsValidSlot,
        Option.some.injEq, decide_eq_true_eq]
      omega
    show SlotsSatisfy _ (PrototypeInfo.BodyDescriptor.IterateBody c map obj _) _
    unfold PrototypeInfo.BodyDescriptor.IterateBody
    rw [slotsSatisfy_append, slotsSatisfy_append]
    exact ⟨⟨slotsSatisfy_strongRange c obj _ _ hts _ (fun o h1 _ => hval o h1),
      slotsSatisfy_maybeWeakSlot _ obj _ _ (hval _ hw)⟩,
      slotsSatisfy_strongRange c obj _ _ hts _ (fun o h1 _ => hval o (by omega))⟩
  case JSWeakCollection =>
    refine slotsSatisfy_jsBody c map obj _ _ hb hwf _ (fun o _ h2 => ?_)
    simp only [Descriptor.IsValidSlot, JSWeakCollection.BodyDescriptorImpl.IsValidSlot, h2]
  case Foreign =>
    refine slotsSatisfy_of_no_slots _ _ _ (fun call hc => ?_)
    have hc' : call ∈ Foreign.BodyDescriptor.IterateBody c map obj
      (Foreign.BodyDescriptor.SizeOf c map obj) := hc
    simp only [Foreign.BodyDescriptor.IterateBody, List.mem_singleton] at hc'
    subst hc'
    rfl
  case WasmTypeInfo => exact absurd hU (by decide)
  case WasmJSFunctionData => exact absurd hU (by decide)
  case WasmExportedFunctionData => exact absurd hU (by decide)
  case WasmCapiFunctionData => exact absurd hU (by decide)
  case WasmInstanceObject =>
    obtain ⟨hw1, hw2, hw3⟩ := hwf
    obtain ⟨hemb, hst⟩ := id hw3
    have hval : ∀ o, IsValidJSObjectSlotImpl c map obj o = true →
        Descriptor.WasmInstanceObject.IsValidSlot c map obj o = some true := by
      intro o h
      simp only [Descriptor.IsValidSlot, WasmInstanceObject.BodyDescriptor.IsValidSlot]
      split
      · rfl
      · rw [h]
    have hlow : ∀ o, o < c.WasmInstanceObject_kHeaderSize →
        IsValidJSObjectSlotImpl c map obj o = true :=
      fun o ho => isValidJSObjectSlotImpl_of_outside c map obj o (Or.inl (by omega))
    show SlotsSatisfy _ (WasmInstanceObject.BodyDescriptor.IterateBody c map obj _) _
    unfold WasmInstanceObject.BodyDescriptor.IterateBody
    rw [slotsSatisfy_append, slotsSatisfy_append]
    exact ⟨⟨slotsSatisfy_strongRange c obj _ _ hts _
        (fun o _ h2 => hval o (hlow o (by omega))),
      slotsSatisfy_flatMap _ _ _ _
        (fun x hx => slotsSatisfy_strongSlot _ obj _ _ (hval _ (hlow _ (hw2 x hx))))⟩,
      slotsSatisfy_jsBody c map obj _ _ hb hw3 _ (fun o _ h2 => hval o h2)⟩
  case WasmArray => exact absurd hU (by decide)
  case WasmStruct => exact absurd hU (by decide)
  case ExternalOneByteString => exact slotsSatisfy_nil _ _
  case ExternalTwoByteString => exact slotsSatisfy_nil _ _
  case CoverageInfo => exact slotsSatisfy_nil _ _
  case Code => exact fun call _ o _ => rfl
  case Map =>
    obtain ⟨hw1, hw2, hw3, hw4⟩ := hwf
    have hval : ∀ o, c.Map_kStartOfStrongFieldsOffset ≤ o → o < c.Map_kEndOfWeakFieldsOffset →
        Descriptor.Map.IsValidSlot c map obj o = some true := by
      intro o h1 h2
      simp only [Descriptor.IsValidSlot, Map.BodyDescriptor.IsValidSlot,
        Option.some.injEq, Bool.and_eq_true, decide_eq_true_eq]
      exact ⟨h1, h2⟩
    show SlotsSatisfy _ (Map.BodyDescriptor.IterateBody c map obj
      (Map.BodyDescriptor.SizeOf c map obj)) _
    unfold Map.BodyDescriptor.IterateBody
    rw [slotsSatisfy_append]
    exact ⟨slotsSatisfy_strongRange c obj _ _ hts _ (fun o h1 h2 => hval o h1 (by omega)),
      slotsSatisfy_maybeWeakSlot _ obj _ _ (hval _ hw3 hw4)⟩
  case DataHandler =>
    obtain ⟨hw1, hw2⟩ := hwf
    have hval : ∀ o, c.HeapObject_kHeaderSize ≤ o →
        Descriptor.DataHandler.IsValidSlot c map obj o = some true := by
      intro o ho
      simp only [Descriptor.IsValidSlot, DataHandler.BodyDescriptor.IsValidSlot,
        Option.some.injEq, decide_eq_true_eq]
      omega
    show SlotsSatisfy _ (DataHandler.BodyDescriptor.IterateBody c map obj _) _
    unfold DataHandler.BodyDescriptor.IterateBody
    rw [slotsSatisfy_append]
    exact ⟨slotsSatisfy_strongRange c obj _ _ hts _ (fun o h1 _ => hval o (by omega)),
      slotsSatisfy_maybeWeakRange _ obj _ _ _ (fun o h1 _ _ => hval o (by omega))⟩
  case NativeContext =>
    obtain ⟨hw1, hw2⟩ := hwf
    have hval : ∀ o, o < c.NativeContext_kEndOfTaggedFieldsOffset →
        Descriptor.NativeContext.IsValidSlot c map obj o = some true := by
      intro o ho
      simp only [Descriptor.IsValidSlot, NativeContext.BodyDescriptor.IsValidSlot,
        Option.some.injEq, decide_eq_true_eq]
      exact ho
    show SlotsSatisfy _ (NativeContext.BodyDescriptor.IterateBody c map obj
      (NativeContext.BodyDescriptor.SizeOf c map obj)) _
    unfold NativeContext.BodyDescriptor.IterateBody
    rw [slotsSatisfy_append]
    exact ⟨slotsSatisfy_strongRange c obj _ _ hts _ (fun o _ h2 => hval o (by omega)),
      slotsSatisfy_customWeakRange _ obj _ _ _ (fun o _ h2 _ => hval o (by omega))⟩
  case CodeDataContainer =>
    obtain ⟨hw1, hw2⟩ := hwf
    have hval : ∀ o, c.CodeDataContainer_kHeaderSize ≤ o →
        o ≤ c.CodeDataContainer_kPointerFieldsWeakEndOffset →
        Descriptor.CodeDataContainer.IsValidSlot c map obj o = some true := by
      intro o h1 h2
      simp only [Descriptor.IsValidSlot, CodeDataContainer.BodyDescriptor.IsValidSlot,
        Option.some.injEq, Bool.and_eq_true, decide_eq_true_eq]
      exact ⟨h1, h2⟩
    show SlotsSatisfy _ (CodeDataContainer.BodyDescriptor.IterateBody c map obj
      (CodeDataContainer.BodyDescriptor.SizeOf c map obj)) _
    unfold CodeDataContainer.BodyDescriptor.IterateBody
    rw [slotsSatisfy_append, slotsSatisfy_append]
    refine ⟨⟨slotsSatisfy_strongRange c obj _ _ hts _ (fun o h1 h2 => hval o h1 (by omega)),
      slotsSatisfy_customWeakRange _ obj _ _ _ (fun o h1 h2 _ => hval o (by omega) (by omega))⟩,
      slotsSatisfy_of_no_slots _ _ _ (fun call hc => ?_)⟩
    by_cases hx : c.V8_EXTERNAL_CODE_SPACE_BOOL = true
    · rw [if_pos hx, List.mem_singleton] at hc
      subst hc
      rfl
    · rw [if_neg hx] at hc
      simp at hc
  case EmbedderDataArray =>
    have hw : c.EmbedderDataArray_OffsetOfElementAt 0 = c.EmbedderDataArray_kHeaderSize := hwf
    show SlotsSatisfy _ (EmbedderDataArray.BodyDescriptor.IterateBody c map obj _) _
    unfold EmbedderDataArray.BodyDescriptor.IterateBody
    by_cases hc : c.V8_COMPRESS_POINTERS = true
    · obtain ⟨hslot, ⟨m, hm⟩, hpay⟩ := hb.2 hc
      simp only [hc, if_true]
      refine slotsSatisfy_mono _ _ _ _ (slotsSatisfy_embedderSlotLoop _ obj _ _ _ _) ?_
      rintro o ⟨k, hk, _⟩
      simp only [Descriptor.IsValidSlot, EmbedderDataArray.BodyDescriptor.IsValidSlot, hc,
        if_true]
      have hk0 : 0 ≤ c.kEmbedderDataSlotSize * (k : Int) :=
        Int.mul_nonneg (by omega) (Int.ofNat_nonneg k)
      have hd : o - c.EmbedderDataArray_kHeaderSize =
          c.EmbedderDataSlot_kTaggedPayloadOffset + c.kEmbedderDataSlotSize * (k : Int) := by
        omega
      have hland : Int.land (o - c.EmbedderDataArray_kHeaderSize)
          (c.kEmbedderDataSlotSize - 1) = c.EmbedderDataSlot_kTaggedPayloadOffset := by
        rw [hm, land_mask_eq_emod _ m (by omega), ← hm, hd, Int.add_mul_emod_self_left]
        exact Int.emod_eq_of_lt (by omega) (by omega)
      simp [hland]
    · have hc' : c.V8_COMPRESS_POINTERS = false := by simpa using hc
      simp only [hc', Bool.false_eq_true, if_false]
      refine slotsSatisfy_strongRange c obj _ _ hts _ (fun o _ _ => ?_)
      simp [Descriptor.IsValidSlot, EmbedderDataArray.BodyDescriptor.IsValidSlot, hc']
  case EphemeronHashTable =>
    have hE : 0 ≤ c.EphemeronHashTable_kElementsStartIndex := hwf
    have hEt : 0 ≤ c.EphemeronHashTable_kElementsStartIndex * c.kTaggedSize :=
      Int.mul_nonneg hE (le_of_lt hts)
    have hval : ∀ o, c.EphemeronHashTable_kHeaderSize ≤ o →
        Descriptor.EphemeronHashTable.IsValidSlot c map obj o = some true := by
      intro o ho
      simp only [Descriptor.IsValidSlot, EphemeronHashTable.BodyDescriptor.IsValidSlot,
        Option.some.injEq, decide_eq_true_eq]
      omega
    show SlotsSatisfy _ (EphemeronHashTable.BodyDescriptor.IterateBody c map obj
      (EphemeronHashTable.BodyDescriptor.SizeOf map obj)) _
    unfold EphemeronHashTable.BodyDescriptor.IterateBody
    simp only []
    rw [slotsSatisfy_append]
    refine ⟨slotsSatisfy_strongRange c obj _ _ hts _ (fun o h1 _ => hval o h1),
      slotsSatisfy_flatMap _ _ _ _ (fun i hi => ?_)⟩
    intro call hc o ho
    simp only [IterateEphemeron, List.mem_singleton] at hc
    subst hc
    simp only [VisitorCall.pointerSlots, List.mem_cons, List.mem_singleton, List.not_mem_nil,
      or_false] at ho
    have hi0 : 0 ≤ i := ((mem_iterateEntries obj i).mp hi).1
    have hit : 0 ≤ i * c.kTaggedSize := Int.mul_nonneg hi0 (le_of_lt hts)
    obtain ⟨hk, hv⟩ := ephemeron_offsets c i
    apply hval
    rcases ho with h | h
    · rw [h, hk]; omega
    · rw [h, hv]; omega

/-- C1 (amended) at a concrete input: the tagged half of the second embedder slot of
`sampleMap`, delivered by `JSObject::BodyDescriptor::IterateBody`, is a valid slot. -/
theorem iterateBody_slots_valid_witness :
    Descriptor.JSObject.IsValidSlot compressedLayout sampleMap sampleObject 20 = some true :=
  iterateBody_slots_valid Descriptor.JSObject compressedLayout sampleMap sampleObject rfl
    ⟨by decide, fun _ => ⟨rfl, ⟨3, rfl⟩, Or.inl rfl⟩⟩ ⟨rfl, by decide⟩
    (VisitPointer 4096 ObjectSlot 20) (by decide) 20 (by decide)

/-- The well-formedness hypotheses are satisfiable for every descriptor of the catalog:
in the sample layout, a map whose header size is 200 is well-formed for each of them. -/
theorem wellFormed_satisfiable (d : Descriptor) :
    compressedLayout.Basic ∧
    d.WellFormed compressedLayout
      { sampleMap with JSObject_GetHeaderSize := 200,
                       JSObject_GetEmbedderFieldsStartOffset := 200 } := by
  refine ⟨⟨by decide, fun _ => ⟨rfl, ⟨3, rfl⟩, Or.inl rfl⟩⟩, ?_⟩
  cases d <;> simp only [Descriptor.WellFormed, JSBodyWellFormed] <;> decide

/-! ## The code object descriptor -/

/-- C11: `Code::BodyDescriptor::IterateBody` issues the strong range `VisitPointers` over
`[kRelocationInfoOffset, kDataStart)`, followed by one `VisitRelocInfo` call with an
iterator restricted to `kRelocModeMask` when the relocation info is not undefined and by
nothing when it is; no call covers a byte at or above `kDataStart`; and the overload
taking `object_size` issues the same sequence for every `object_size`. -/
theorem code_iterateBody (c : Layout) (map : Map) (obj : HeapObject) (object_size : Int)
    (hreloc : c.Code_kRelocationInfoOffset ≠ HeapObject.kMapOffset) :
    Code.BodyDescriptor.IterateBodyNoSize c map obj =
      VisitPointers obj.address ObjectSlot c.Code_kRelocationInfoOffset c.Code_kDataStart ::
        (if obj.relocation_info_IsUndefined then []
         else [VisitRelocInfo obj.address (Code.BodyDescriptor.kRelocModeMask c)]) ∧
    (∀ call ∈ Code.BodyDescriptor.IterateBodyNoSize c map obj, ∀ b : Int,
      c.Code_kDataStart ≤ b → call.coversByte c.kTaggedSize b = false) ∧
    Code.BodyDescriptor.IterateBody c map obj object_size =
      Code.BodyDescriptor.IterateBodyNoSize c map obj := by
  have heq : Code.BodyDescriptor.IterateBodyNoSize c map obj =
      VisitPointers obj.address ObjectSlot c.Code_kRelocationInfoOffset c.Code_kDataStart ::
        (if obj.relocation_info_IsUndefined then []
         else [VisitRelocInfo obj.address (Code.BodyDescriptor.kRelocModeMask c)]) := by
    unfold Code.BodyDescriptor.IterateBodyNoSize IteratePointers
    rw [if_neg hreloc]
    cases hu : obj.relocation_info_IsUndefined <;> simp [hu]
  refine ⟨heq, ?_, rfl⟩
  intro call hcall b hb
  rw [heq] at hcall
  rcases List.mem_cons.mp hcall with h | h
  · subst h
    simp only [VisitorCall.coversByte, decide_eq_false_iff_not]
    omega
  · cases hu : obj.relocation_info_IsUndefined
    · rw [hu] at h
      simp only [Bool.false_eq_true, if_false, List.mem_singleton] at h
      subst h
      rfl
    · rw [hu] at h
      simp at h

/-- C11 at a concrete input: a code object with relocation info. -/
theorem code_iterateBody_witness :
    Code.BodyDescriptor.IterateBody compressedLayout sampleMap sampleObject 64 =
      [VisitPointers 4096 ObjectSlot 4 20, VisitRelocInfo 4096 3999] := by
  have h := code_iterateBody compressedLayout sampleMap sampleObject 64 (by decide)
  rw [h.2.2, h.1]
  decide

/-! ## The map descriptor -/

/-- C19: `Map::BodyDescriptor::IterateBody` issues the strong range
`[kStartOfStrongFieldsOffset, kEndOfStrongFieldsOffset)` followed by one maybe-weak
`VisitPointer` at `kTransitionsOrPrototypeInfoOffset`; `IsValidSlot` holds exactly for
`kStartOfStrongFieldsOffset ≤ offset < kEndOfWeakFieldsOffset`; when the weak region is
the one slot at `kEndOfStrongFieldsOffset = kStartOfWeakFieldsOffset =
kTransitionsOrPrototypeInfoOffset`, the tagged-aligned offsets accepted by `IsValidSlot`
are exactly the offsets visited; and `SizeOf` is `Map::kSize`. -/
theorem map_bodyDescriptor (c : Layout) (map : Map) (obj : HeapObject)
    (object_size offset : Int) :
    (c.Map_kStartOfStrongFieldsOffset ≠ HeapObject.kMapOffset →
      Map.BodyDescriptor.IterateBody c map obj object_size =
        [VisitPointers obj.address ObjectSlot c.Map_kStartOfStrongFieldsOffset
           c.Map_kEndOfStrongFieldsOffset,
         VisitPointer obj.address MaybeObjectSlot c.Map_kTransitionsOrPrototypeInfoOffset]) ∧
    (Map.BodyDescriptor.IsValidSlot c map obj offset = true ↔
      c.Map_kStartOfStrongFieldsOffset ≤ offset ∧ offset < c.Map_kEndOfWeakFieldsOffset) ∧
    (0 < c.kTaggedSize → c.Map_kStartOfStrongFieldsOffset ≠ HeapObject.kMapOffset →
      c.Map_kStartOfStrongFieldsOffset ≤ c.Map_kEndOfStrongFieldsOffset →
      c.kTaggedSize ∣ c.Map_kStartOfStrongFieldsOffset →
      c.kTaggedSize ∣ c.Map_kEndOfStrongFieldsOffset →
      c.Map_kEndOfStrongFieldsOffset = c.Map_kStartOfWeakFieldsOffset →
      c.Map_kStartOfWeakFieldsOffset = c.Map_kTransitionsOrPrototypeInfoOffset →
      c.Map_kEndOfWeakFieldsOffset = c.Map_kStartOfWeakFieldsOffset + c.kTaggedSize →
      ((c.kTaggedSize ∣ offset ∧ Map.BodyDescriptor.IsValidSlot c map obj offset = true) ↔
        offset ∈ (Map.BodyDescriptor.IterateBody c map obj object_size).flatMap
          (VisitorCall.pointerSlots c.kTaggedSize))) ∧
    Map.BodyDescriptor.SizeOf c map obj = c.Map_kSize := by
  have htrace : c.Map_kStartOfStrongFieldsOffset ≠ HeapObject.kMapOffset →
      Map.BodyDescriptor.IterateBody c map obj object_size =
        [VisitPointers obj.address ObjectSlot c.Map_kStartOfStrongFieldsOffset
           c.Map_kEndOfStrongFieldsOffset,
         VisitPointer obj.address MaybeObjectSlot c.Map_kTransitionsOrPrototypeInfoOffset] := by
    intro h
    unfold Map.BodyDescriptor.IterateBody IteratePointers IterateMaybeWeakPointer
    rw [if_neg h]
    rfl
  have hvalid : Map.BodyDescriptor.IsValidSlot c map obj offset = true ↔
      c.Map_kStartOfStrongFieldsOffset ≤ offset ∧ offset < c.Map_kEndOfWeakFieldsOffset := by
    unfold Map.BodyDescriptor.IsValidSlot
    simp only [Bool.and_eq_true, decide_eq_true_eq, ge_iff_le]
  refine ⟨htrace, hvalid, ?_, rfl⟩
  intro hts h0 hle hal1 hal2 he1 he2 he3
  rw [htrace h0, hvalid]
  simp only [List.flatMap_cons, List.flatMap_nil, VisitorCall.pointerSlots, List.append_nil,
    List.mem_append, mem_rangeSlots, List.mem_singleton]
  constructor
  · rintro ⟨hal, h1, h2⟩
    by_cases hlt : offset < c.Map_kEndOfStrongFieldsOffset
    · exact Or.inl ⟨h1, hlt, Int.emod_eq_zero_of_dvd (Int.dvd_sub hal hal1)⟩
    · right
      have hd : c.kTaggedSize ∣ offset - c.Map_kEndOfStrongFieldsOffset := Int.dvd_sub hal hal2
      have hm := Int.emod_eq_zero_of_dvd hd
      have hm2 := Int.emod_eq_of_lt
        (show 0 ≤ offset - c.Map_kEndOfStrongFieldsOffset by omega)
        (show offset - c.Map_kEndOfStrongFieldsOffset < c.kTaggedSize by omega)
      omega
  · rintro (⟨h1, h2, h3⟩ | h)
    · refine ⟨?_, h1, by omega⟩
      have hd := Int.dvd_of_emod_eq_zero h3
      have := Int.dvd_add hd hal1
      simpa using this
    · refine ⟨?_, by omega, by omega⟩
      rw [h, ← he2, ← he1]
      exact hal2

/-- C19 at a concrete input: the map layout of `compressedLayout`, strong fields in
`[16, 36)` and the weak slot at 36. -/
theorem map_bodyDescriptor_witness :
    Map.BodyDescriptor.IterateBody compressedLayout sampleMap sampleObject 40 =
      [VisitPointers 4096 ObjectSlot 16 36, VisitPointer 4096 MaybeObjectSlot 36] ∧
    (36 : Int) ∈ (Map.BodyDescriptor.IterateBody compressedLayout sampleMap sampleObject 40).flatMap
      (VisitorCall.pointerSlots compressedLayout.kTaggedSize) :=
  ⟨(map_bodyDescriptor compressedLayout sampleMap sampleObject 40 36).1 (by decide),
   ((map_bodyDescriptor compressedLayout sampleMap sampleObject 40 36).2.2.1 (by decide)
      (by decide) (by decide) ⟨4, rfl⟩ ⟨9, rfl⟩ rfl rfl rfl).mp ⟨⟨9, rfl⟩, by decide⟩⟩

/-! ## Termination of the loops -/

/-- The number of iterations of `for (o = first; o < limit; o += stride)`:
`ceil((limit - first) / stride)`, and zero when `limit` is not above `first`. -/
theorem loop_iterations_spec (stride limit first : Int) (hs : 0 < stride) :
    let m := ((limit - first + stride - 1) / stride).toNat
    m ≤ (limit - first).toNat ∧ limit ≤ first + stride * (m : Int) ∧
      (m = 0 ∨ first + stride * ((m - 1 : Nat) : Int) < limit) ∧ (limit ≤ first → m = 0) := by
  intro m
  have h1 := Int.emod_add_ediv (limit - first + stride - 1) stride
  have h2 := Int.emod_nonneg (limit - first + stride - 1) (ne_of_gt hs)
  have h3 := Int.emod_lt_of_pos (limit - first + stride - 1) hs
  by_cases hd : limit ≤ first
  · have hq : (limit - first + stride - 1) / stride ≤ 0 := by
      by_contra hneg
      have : stride * 1 ≤ stride * ((limit - first + stride - 1) / stride) :=
        Int.mul_le_mul_of_nonneg_left (by omega) (le_of_lt hs)
      omega
    have hm : m = 0 := by
      show ((limit - first + stride - 1) / stride).toNat = 0
      omega
    rw [hm]
    exact ⟨by omega, by simp; omega, Or.inl rfl, fun _ => rfl⟩
  · have hq : 1 ≤ (limit - first + stride - 1) / stride := by
      by_contra hneg
      have : stride * ((limit - first + stride - 1) / stride) ≤ stride * 0 :=
        Int.mul_le_mul_of_nonneg_left (by omega) (le_of_lt hs)
      omega
    have hmq : (m : Int) = (limit - first + stride - 1) / stride := by
      show (((limit - first + stride - 1) / stride).toNat : Int) = _
      omega
    have hprod : 0 ≤ (stride - 1) * ((limit - first + stride - 1) / stride - 1) :=
      Int.mul_nonneg (by omega) (by omega)
    have hexp : (stride - 1) * ((limit - first + stride - 1) / stride - 1) =
        stride * ((limit - first + stride - 1) / stride) - stride -
          (limit - first + stride - 1) / stride + 1 := by ring
    have hm1 : ((m - 1 : Nat) : Int) = (m : Int) - 1 := by omega
    have hexp2 : stride * ((m : Int) - 1) = stride * (m : Int) - stride := by ring
    refine ⟨by omega, by rw [hmq]; omega, Or.inr ?_, fun h => absurd h hd⟩
    rw [hm1, hexp2, hmq]
    omega

/-- Closed form of the embedder slot loop for a positive stride and any fuel at or above
the default `(limit - first).toNat`: the loop leaves through its exit test. -/
theorem embedderSlotLoop_closed (obj : HeapObject) (stride limit first : Int) (fuel : Nat)
    (hs : 0 < stride) (hfuel : (limit - first).toNat ≤ fuel) :
    embedderSlotLoop obj stride limit fuel first =
      (List.range ((limit - first + stride - 1) / stride).toNat).map
        (fun (k : Nat) => VisitPointer obj.address ObjectSlot (first + stride * (k : Int))) := by
  obtain ⟨h1, h2, h3, _⟩ := loop_iterations_spec stride limit first hs
  exact embedderSlotLoop_eq obj stride limit _ fuel first (le_trans h1 hfuel) h2 h3 hs

/-- A `flatMap` whose pieces have at most one element is no longer than its list. -/
theorem length_flatMap_le {α β : Type} (l : List α) (f : α → List β)
    (h : ∀ x, (f x).length ≤ 1) : (l.flatMap f).length ≤ l.length := by
  induction l with
  | nil => simp
  | cons a t ih =>
    rw [List.flatMap_cons, List.length_append, List.length_cons]
    have := h a
    omega

/-- While no increment leaves the range of `int` before the exit test fails, the loop
counted in `int` leaves through its exit test with the calls of `embedderSlotLoop`. -/
theorem embedderSlotLoopInt_exits (obj : HeapObject) (stride limit : Int) (hs : 0 < stride) :
    ∀ (fuel m : Nat) (first : Int), m ≤ fuel → limit ≤ first + stride * (m : Int) →
      first + stride * (m : Int) ≤ kMaxInt → kMinInt ≤ first →
      embedderSlotLoopInt obj stride limit fuel first =
        { calls := embedderSlotLoop obj stride limit fuel first,
          ending := LoopEnding.exited } := by
  intro fuel
  induction fuel with
  | zero =>
    intro m first hm hlim _ _
    have hm0 : m = 0 := by omega
    subst hm0
    simp only [embedderSlotLoopInt, embedderSlotLoop]
    rw [if_neg (by simpa using hlim)]
  | succ f ih =>
    intro m first hm hlim hmax hmin
    simp only [embedderSlotLoopInt, embedderSlotLoop]
    by_cases hlt : first < limit
    · rw [if_pos hlt, if_pos hlt]
      cases m with
      | zero => simp at hlim; omega
      | succ k =>
        have hk0 : 0 ≤ stride * (k : Int) := Int.mul_nonneg (le_of_lt hs) (Int.ofNat_nonneg k)
        have hexp : stride * ((k + 1 : Nat) : Int) = stride * (k : Int) + stride := by
          push_cast; ring
        rw [hexp] at hlim hmax
        have hrange : kMinInt ≤ first + stride ∧ first + stride ≤ kMaxInt := by
          constructor <;> omega
        rw [if_pos hrange]
        rw [ih k (first + stride) (by omega) (by omega) (by omega) (by omega)]
    · rw [if_neg hlt, if_neg hlt]

/-- When every value of `int` that the counter can take lies below the bound, no run of
the loop counted in `int` leaves through its exit test. -/
theorem embedderSlotLoopInt_never_exits (obj : HeapObject) (stride limit : Int) :
    ∀ (fuel : Nat) (offset : Int), offset < limit →
      (∀ j : Nat, offset + stride * (j : Int) ≤ kMaxInt → offset + stride * (j : Int) < limit) →
      (embedderSlotLoopInt obj stride limit fuel offset).ending ≠ LoopEnding.exited := by
  intro fuel
  induction fuel with
  | zero =>
    intro offset hlt _
    simp only [embedderSlotLoopInt]
    rw [if_pos hlt]
    exact fun h => (nomatch h)
  | succ f ih =>
    intro offset hlt hall
    simp only [embedderSlotLoopInt]
    rw [if_pos hlt]
    by_cases hrange : kMinInt ≤ offset + stride ∧ offset + stride ≤ kMaxInt
    · rw [if_pos hrange]
      have h1 := hall 1
      simp only [Nat.cast_one, mul_one] at h1
      refine ih (offset + stride) (h1 hrange.2) ?_
      intro j hj
      have hexp : offset + stride + stride * (j : Int) =
          offset + stride * ((j + 1 : Nat) : Int) := by
        push_cast; ring
      rw [hexp] at hj ⊢
      exact hall (j + 1) hj
    · rw [if_neg hrange]
      exact fun h => (nomatch h)

/-- The exit offset of a counting loop lies beyond `kMaxInt`: every value the counter can
take in `int` is below the bound. -/
theorem below_limit_of_exit_beyond (stride limit first : Int) (hs : 0 < stride)
    (hm : 0 < loopTripCount stride limit first)
    (hover : kMaxInt < first + stride * (loopTripCount stride limit first : Int)) :
    first < limit ∧
    ∀ j : Nat, first + stride * (j : Int) ≤ kMaxInt → first + stride * (j : Int) < limit := by
  obtain ⟨_, h2, h3, h4⟩ := loop_iterations_spec stride limit first hs
  have hlast : first + stride * ((loopTripCount stride limit first - 1 : Nat) : Int) < limit := by
    rcases h3 with h | h
    · unfold loopTripCount at hm
      omega
    · exact h
  have hfirst : first < limit := by
    by_contra hge
    have := h4 (by omega)
    unfold loopTripCount at hm
    omega
  refine ⟨hfirst, ?_⟩
  intro j hj
  have hjm : j < loopTripCount stride limit first := by
    by_contra hge
    have hle : stride * (loopTripCount stride limit first : Int) ≤ stride * (j : Int) :=
      Int.mul_le_mul_of_nonneg_left (by exact_mod_cast Nat.le_of_not_lt hge) (le_of_lt hs)
    omega
  have hle : stride * (j : Int) ≤
      stride * ((loopTripCount stride limit first - 1 : Nat) : Int) :=
    Int.mul_le_mul_of_nonneg_left (by exact_mod_cast Nat.le_sub_one_of_lt hjm) (le_of_lt hs)
  omega

/-- C20 as stated fails for a bound within one stride of `kMaxInt`: the loop of
`EmbedderDataArray::BodyDescriptor::IterateBody` in the sample layout (first offset 8,
stride 8) with `object_size = kMaxInt` never leaves through its exit test, because every
multiple of 8 that is a value of `int` lies below the bound; started two slots before the
end it makes two calls and then overflows in `offset += kEmbedderDataSlotSize`. -/
theorem loops_terminate_counterexample :
    compressedLayout.V8_COMPRESS_POINTERS = true ∧
    compressedLayout.kEmbedderDataSlotSize = 8 ∧
    compressedLayout.EmbedderDataArray_OffsetOfElementAt 0 +
      compressedLayout.EmbedderDataSlot_kTaggedPayloadOffset = 8 ∧
    (∀ fuel : Nat,
      (embedderSlotLoopInt sampleObject 8 kMaxInt fuel 8).ending ≠ LoopEnding.exited) ∧
    embedderSlotLoopInt sampleObject 8 kMaxInt 5 2147483632 =
      { calls := [VisitPointer 4096 ObjectSlot 2147483632,
                  VisitPointer 4096 ObjectSlot 2147483640],
        ending := LoopEnding.overflowed } := by
  refine ⟨rfl, rfl, by decide, ?_, by decide⟩
  intro fuel
  refine embedderSlotLoopInt_never_exits sampleObject 8 kMaxInt fuel 8 (by decide) ?_
  intro j hj
  unfold kMaxInt at hj ⊢
  omega

/-- C20, amended: the loops of the body descriptors terminate while the loop counter stays
a value of `int`.  For a positive stride, a first offset in `int` and an exit offset
`first + stride * ceil((limit - first) / stride)` of at most `kMaxInt`, the embedder slot
loop counted in `int` leaves through its exit test after `ceil((limit - first) / stride)`
iterations (none when `limit ≤ first`), with the calls of `embedderSlotLoop`, whatever the
map and object size; when the exit offset lies beyond `kMaxInt` no run leaves through the
exit test.  The loops of `IterateJSObjectBodyImpl` and of
`EmbedderDataArray::BodyDescriptor::IterateBody` are this loop, so they issue at most that
many calls; the ephemeron loop issues one call per entry and the Wasm struct loop at most
one call per field. -/
theorem loops_terminate (c : Layout) (map : Map) (obj : HeapObject)
    (start_offset end_offset object_size : Int) (hs : 0 < c.kEmbedderDataSlotSize) :
    (∀ (limit first : Int) (fuel : Nat),
      kMinInt ≤ first →
      first + c.kEmbedderDataSlotSize *
        (loopTripCount c.kEmbedderDataSlotSize limit first : Int) ≤ kMaxInt →
      loopTripCount c.kEmbedderDataSlotSize limit first ≤ fuel →
      embedderSlotLoopInt obj c.kEmbedderDataSlotSize limit fuel first =
        { calls := embedderSlotLoop obj c.kEmbedderDataSlotSize limit (limit - first).toNat
            first,
          ending := LoopEnding.exited } ∧
      (embedderSlotLoopInt obj c.kEmbedderDataSlotSize limit fuel first).calls =
        (List.range (loopTripCount c.kEmbedderDataSlotSize limit first)).map
          (fun (k : Nat) =>
            VisitPointer obj.address ObjectSlot (first + c.kEmbedderDataSlotSize * (k : Int))) ∧
      (embedderSlotLoopInt obj c.kEmbedderDataSlotSize limit fuel first).calls.length =
        loopTripCount c.kEmbedderDataSlotSize limit first ∧
      (limit ≤ first →
        (embedderSlotLoopInt obj c.kEmbedderDataSlotSize limit fuel first).calls = [])) ∧
    (∀ (limit first : Int) (fuel : Nat),
      0 < loopTripCount c.kEmbedderDataSlotSize limit first →
      kMaxInt < first + c.kEmbedderDataSlotSize *
        (loopTripCount c.kEmbedderDataSlotSize limit first : Int) →
      (embedderSlotLoopInt obj c.kEmbedderDataSlotSize limit fuel first).ending ≠
        LoopEnding.exited) ∧
    (c.V8_COMPRESS_POINTERS = true →
      map.JSObject_GetHeaderSize < map.GetInObjectPropertyOffset_0 →
      IterateJSObjectBodyImpl c map obj start_offset end_offset =
        IteratePointers c obj start_offset map.JSObject_GetHeaderSize ++
        embedderSlotLoop obj c.kEmbedderDataSlotSize map.GetInObjectPropertyOffset_0
          (map.GetInObjectPropertyOffset_0 -
            (map.JSObject_GetHeaderSize + c.EmbedderDataSlot_kTaggedPayloadOffset)).toNat
          (map.JSObject_GetHeaderSize + c.EmbedderDataSlot_kTaggedPayloadOffset) ++
        IteratePointers c obj map.GetInObjectPropertyOffset_0 end_offset) ∧
    (¬ (c.V8_COMPRESS_POINTERS = true ∧
        map.JSObject_GetHeaderSize < map.GetInObjectPropertyOffset_0) →
      IterateJSObjectBodyImpl c map obj start_offset end_offset =
        IteratePointers c obj start_offset end_offset) ∧
    (visitPointerOffsets (IterateJSObjectBodyImpl c map obj start_offset end_offset)).length ≤
      loopTripCount c.kEmbedderDataSlotSize map.GetInObjectPropertyOffset_0
        (map.JSObject_GetHeaderSize + c.EmbedderDataSlot_kTaggedPayloadOffset) ∧
    (c.V8_COMPRESS_POINTERS = true →
      EmbedderDataArray.BodyDescriptor.IterateBody c map obj object_size =
        embedderSlotLoop obj c.kEmbedderDataSlotSize object_size
          (object_size - (c.EmbedderDataArray_OffsetOfElementAt 0 +
            c.EmbedderDataSlot_kTaggedPayloadOffset)).toNat
          (c.EmbedderDataArray_OffsetOfElementAt 0 +
            c.EmbedderDataSlot_kTaggedPayloadOffset) ∧
      (EmbedderDataArray.BodyDescriptor.IterateBody c map obj object_size).length =
        loopTripCount c.kEmbedderDataSlotSize object_size
          (c.EmbedderDataArray_OffsetOfElementAt 0 +
            c.EmbedderDataSlot_kTaggedPayloadOffset)) ∧
    countVisitEphemeron (EphemeronHashTable.BodyDescriptor.IterateBody c map obj object_size) =
      (EphemeronHashTable.IterateEntries obj).length ∧
    (WasmStruct.BodyDescriptor.IterateBody c map obj object_size).length ≤
      map.WasmStruct_GcSafeType.length := by
  refine ⟨?_, ?_, ?_, ?_, ?_, ?_, ?_, ?_⟩
  · intro limit first fuel hmin hmax hfuel
    obtain ⟨_, h2, h3, h4⟩ := loop_iterations_spec c.kEmbedderDataSlotSize limit first hs
    have hrun := embedderSlotLoopInt_exits obj c.kEmbedderDataSlotSize limit hs fuel
      (loopTripCount c.kEmbedderDataSlotSize limit first) first hfuel h2 hmax hmin
    have hA := embedderSlotLoop_eq obj c.kEmbedderDataSlotSize limit
      (loopTripCount c.kEmbedderDataSlotSize limit first) fuel first hfuel h2 h3 hs
    have hB := embedderSlotLoop_closed obj c.kEmbedderDataSlotSize limit first
      (limit - first).toNat hs (le_refl _)
    have hcalls : (embedderSlotLoopInt obj c.kEmbedderDataSlotSize limit fuel first).calls =
        (List.range (loopTripCount c.kEmbedderDataSlotSize limit first)).map
          (fun (k : Nat) =>
            VisitPointer obj.address ObjectSlot
              (first + c.kEmbedderDataSlotSize * (k : Int))) := by
      rw [hrun]
      exact hA
    refine ⟨?_, hcalls, ?_, ?_⟩
    · rw [hrun, hA, hB]
      rfl
    · rw [hcalls]
      simp
    · intro hle
      rw [hcalls]
      have h0 : loopTripCount c.kEmbedderDataSlotSize limit first = 0 := h4 hle
      rw [h0]
      rfl
  · intro limit first fuel hm hover
    obtain ⟨hlt, hall⟩ := below_limit_of_exit_beyond c.kEmbedderDataSlotSize limit first hs
      hm hover
    exact embedderSlotLoopInt_never_exits obj c.kEmbedderDataSlotSize limit fuel first hlt hall
  · intro hc hlt
    unfold IterateJSObjectBodyImpl
    simp only [hc, if_true, if_pos hlt]
  · intro hno
    unfold IterateJSObjectBodyImpl
    by_cases hc : c.V8_COMPRESS_POINTERS = true
    · have hlt : ¬ map.JSObject_GetHeaderSize < map.GetInObjectPropertyOffset_0 :=
        fun h => hno ⟨hc, h⟩
      simp only [hc, if_true, if_neg hlt]
    · simp only [hc]
      rfl
  · unfold IterateJSObjectBodyImpl loopTripCount
    by_cases hc : c.V8_COMPRESS_POINTERS = true
    · simp only [hc, if_true]
      by_cases hlt : map.JSObject_GetHeaderSize < map.GetInObjectPropertyOffset_0
      · rw [if_pos hlt, visitPointerOffsets_append, visitPointerOffsets_append,
          visitPointerOffsets_iteratePointers, visitPointerOffsets_iteratePointers,
          embedderSlotLoop_closed obj _ _ _ _ hs (le_refl _), visitPointerOffsets_map]
        simp
      · rw [if_neg hlt, visitPointerOffsets_iteratePointers]
        simp
    · have hc' : c.V8_COMPRESS_POINTERS = false := by simpa using hc
      simp only [hc', Bool.false_eq_true, if_false, visitPointerOffsets_iteratePointers]
      simp
  · intro hc
    have hbody : EmbedderDataArray.BodyDescriptor.IterateBody c map obj object_size =
        embedderSlotLoop obj c.kEmbedderDataSlotSize object_size
          (object_size - (c.EmbedderDataArray_OffsetOfElementAt 0 +
            c.EmbedderDataSlot_kTaggedPayloadOffset)).toNat
          (c.EmbedderDataArray_OffsetOfElementAt 0 +
            c.EmbedderDataSlot_kTaggedPayloadOffset) := by
      unfold EmbedderDataArray.BodyDescriptor.IterateBody
      simp only [hc, if_true]
    refine ⟨hbody, ?_⟩
    rw [hbody, embedderSlotLoop_closed obj _ _ _ _ hs (le_refl _)]
    unfold loopTripCount
    simp
  · rw [ephemeron_iterateBody_eq, countVisitEphemeron_append,
      countVisitEphemeron_iteratePointers, countVisitEphemeron_map]
    simp
  · unfold WasmStruct.BodyDescriptor.IterateBody
    exact length_flatMap_le _ _ (fun field => by dsimp only; split <;> simp)

/-- C20 (amended) at a concrete input: with stride 8 the loop over `[12, 28)` counted in
`int` leaves through its exit test after two calls, also with spare fuel, and a loop
whose bound is below its first offset makes no call. -/
theorem loops_terminate_witness :
    embedderSlotLoopInt sampleObject 8 28 5 12 =
      { calls := [VisitPointer 4096 ObjectSlot 12, VisitPointer 4096 ObjectSlot 20],
        ending := LoopEnding.exited } ∧
    (embedderSlotLoopInt sampleObject 8 4 0 12).calls = [] := by
  have h := (loops_terminate compressedLayout sampleMap sampleObject 4 36 36 (by decide)).1
  exact ⟨(h 28 12 5 (by decide) (by decide) (by decide)).1.trans (by decide),
    (h 4 12 0 (by decide) (by decide) (by decide)).2.2.2 (by decide)⟩

/-! ## Shape dispatch and the front end -/

theorem findCase_some_mem (cases : List (List Nat × CaseBody)) (type : Nat) (body : CaseBody)
    (h : findCase cases type = some body) :
    ∃ labels, (labels, body) ∈ cases ∧ type ∈ labels := by
  induction cases with
  | nil => simp [findCase] at h
  | cons group rest ih =>
    obtain ⟨labels, b⟩ := group
    simp only [findCase] at h
    by_cases hm : type ∈ labels
    · rw [if_pos hm] at h
      cases h
      exact ⟨labels, List.mem_cons_self _ _, hm⟩
    · rw [if_neg hm] at h
      obtain ⟨l, hl, ht⟩ := ih h
      exact ⟨l, List.mem_cons_of_mem _ hl, ht⟩

theorem findCase_none_of_not_mem (cases : List (List Nat × CaseBody)) (type : Nat)
    (h : type ∉ cases.flatMap (fun group => group.1)) : findCase cases type = none := by
  induction cases with
  | nil => rfl
  | cons group rest ih =>
    obtain ⟨labels, b⟩ := group
    simp only [List.flatMap_cons, List.mem_append, not_or] at h
    simp only [findCase, if_neg h.1]
    exact ih h.2

theorem findCase_of_nodup (cases : List (List Nat × CaseBody)) (type : Nat)
    (labels : List Nat) (body : CaseBody)
    (hnodup : (cases.flatMap (fun group => group.1)).Nodup)
    (hmem : (labels, body) ∈ cases) (htype : type ∈ labels) :
    findCase cases type = some body := by
  induction cases with
  | nil => simp at hmem
  | cons group rest ih =>
    obtain ⟨l0, b0⟩ := group
    simp only [List.flatMap_cons] at hnodup
    rw [List.nodup_append] at hnodup
    obtain ⟨_, hrest, hdisj⟩ := hnodup
    rcases List.mem_cons.mp hmem with heq | hin
    · cases heq
      simp only [findCase, if_pos htype]
    · have hflat : type ∈ rest.flatMap (fun group => group.1) :=
        List.mem_flatMap.mpr ⟨(labels, body), hin, htype⟩
      have hnot : type ∉ l0 := fun h0 => hdisj h0 hflat
      simp only [findCase, if_neg hnot]
      exact ih hrest hin

theorem returnDefault_groups (t : InstanceTypes) (labels : List Nat)
    (h : (labels, CaseBody.returnDefault) ∈ switchCases t) :
    labels = [t.FIXED_DOUBLE_ARRAY_TYPE] ∨
    labels = [t.HEAP_NUMBER_TYPE, t.FILLER_TYPE, t.BYTE_ARRAY_TYPE, t.FREE_SPACE_TYPE,
      t.BIGINT_TYPE] := by
  simp only [switchCases, List.mem_append, List.mem_cons, List.mem_map, Prod.mk.injEq,
    List.mem_singleton, List.not_mem_nil, and_false, or_false, false_or, exists_false,
    reduceCtorEq] at h
  rcases h with h | h
  · tauto
  · tauto

theorem mem_allCaseLabels (t : InstanceTypes) (labels : List Nat) (body : CaseBody)
    (type : Nat) (hmem : (labels, body) ∈ switchCases t) (ht : type ∈ labels) :
    type ∈ allCaseLabels t :=
  List.mem_flatMap.mpr ⟨(labels, body), hmem, ht⟩

theorem bodyDescriptorApply_of_apply_group {R T1 T2 T3 T4 : Type} (t : InstanceTypes)
    (Op_apply : DescriptorClass → T1 → T2 → T3 → T4 → R) (ReturnType_default : R)
    (p1 : T1) (p2 : T2) (p3 : T3) (p4 : T4) (hwf : t.WellFormed)
    (type : Nat) (labels : List Nat) (d : DescriptorClass)
    (hmem : (labels, CaseBody.apply d) ∈ switchCases t) (ht : type ∈ labels) :
    BodyDescriptorApply t Op_apply ReturnType_default type p1 p2 p3 p4 =
      ApplyOutcome.applied d p1 p2 p3 p4 (Op_apply d p1 p2 p3 p4) := by
  obtain ⟨hnodup, hfirst, hapi⟩ := hwf
  have hlabel := mem_allCaseLabels t labels _ type hmem ht
  have hge : ¬ type < t.FIRST_NONSTRING_TYPE := Nat.not_lt.mpr (hfirst type hlabel)
  have hfind := findCase_of_nodup (switchCases t) type labels _ hnodup hmem ht
  unfold BodyDescriptorApply
  simp only [if_neg hge, hfind]
  by_cases hjs : t.IsJSApiObject type = true
  · rw [if_pos hjs]
    by_cases hd : CaseBody.apply d = CaseBody.apply (DescriptorClass.inFile Descriptor.JSObject)
    · cases hd
      rfl
    · have := hapi (labels, CaseBody.apply d) hmem hd type ht
      rw [this] at hjs
      cases hjs
  · rw [if_neg hjs]

theorem bodyDescriptorApply_of_other_group (t : InstanceTypes) (hwf : t.WellFormed)
    (type : Nat) (labels : List Nat) (body : CaseBody)
    (hbody : body ≠ CaseBody.apply (DescriptorClass.inFile Descriptor.JSObject))
    (hmem : (labels, body) ∈ switchCases t) (ht : type ∈ labels) :
    ¬ type < t.FIRST_NONSTRING_TYPE ∧ t.IsJSApiObject type = false ∧
      findCase (switchCases t) type = some body := by
  obtain ⟨hnodup, hfirst, hapi⟩ := hwf
  have hlabel := mem_allCaseLabels t labels _ type hmem ht
  exact ⟨Nat.not_lt.mpr (hfirst type hlabel), hapi (labels, body) hmem hbody type ht,
    findCase_of_nodup (switchCases t) type labels _ hnodup hmem ht⟩

theorem ownDescriptor_group (t : InstanceTypes) :
    ∀ entry ∈ ownDescriptorOfKind t,
      entry.1 ∉ [t.JS_FUNCTION_TYPE, t.JS_FINALIZATION_REGISTRY_TYPE,
        t.FIXED_DOUBLE_ARRAY_TYPE, t.BYTE_ARRAY_TYPE, t.BIGINT_TYPE] →
      entry = (t.PROTOTYPE_INFO_TYPE, Descriptor.PrototypeInfo) ∨
      ∃ labels, (labels, CaseBody.apply (DescriptorClass.inFile entry.2)) ∈ switchCases t ∧
        entry.1 ∈ labels := by
  intro entry hentry hnot
  cases hw : t.V8_ENABLE_WEBASSEMBLY
  · simp only [ownDescriptorOfKind, hw, Bool.false_eq_true, if_false, List.mem_append,
      List.mem_cons, List.not_mem_nil, or_false] at hentry
    rcases hentry with
      h | h | h | h | h | h | h | h | h | h | h | h | h | h | h | h | h | h | h | h | h | h | h | h | h | h | h | h
    · subst h
      exact Or.inr ⟨_, List.getElem?_mem (n := 17) rfl, by simp [hw]⟩
    · subst h
      exact Or.inr ⟨_, List.getElem?_mem (n := 23) rfl, by simp [hw]⟩
    · subst h
      exact Or.inr ⟨_, List.getElem?_mem (n := 24) rfl, by simp [hw]⟩
    · subst h
      simp at hnot
    · subst h
      exact Or.inr ⟨_, List.getElem?_mem (n := 40) rfl, by simp [hw]⟩
    · subst h
      simp at hnot
    · subst h
      exact Or.inr ⟨_, List.getElem?_mem (n := 20) rfl, by simp [hw]⟩
    · subst h
      exact Or.inr ⟨_, List.getElem?_mem (n := 22) rfl, by simp [hw]⟩
    · subst h
      exact Or.inr ⟨_, List.getElem?_mem (n := 21) rfl, by simp [hw]⟩
    · subst h
      exact Or.inr ⟨_, List.getElem?_mem (n := 34) rfl, by simp [hw]⟩
    · subst h
      exact Or.inr ⟨_, List.getElem?_mem (n := 33) rfl, by simp [hw]⟩
    · subst h
      exact Or.inr ⟨_, List.getElem?_mem (n := 35) rfl, by simp [hw]⟩
    · subst h
      exact Or.inr ⟨_, List.getElem?_mem (n := 36) rfl, by simp [hw]⟩
    · subst h
      simp at hnot
    · subst h
      exact Or.inr ⟨_, List.getElem?_mem (n := 32) rfl, by simp [hw]⟩
    · subst h
      simp at hnot
    · subst h
      simp at hnot
    · subst h
      exact Or.inr ⟨_, List.getElem?_mem (n := 6) rfl, by simp [hw]⟩
    · subst h
      exact Or.inr ⟨_, List.getElem?_mem (n := 38) rfl, by simp [hw]⟩
    · exact Or.inl h
    · subst h
      exact Or.inr ⟨_, List.getElem?_mem (n := 26) rfl, by simp [hw]⟩
    · subst h
      exact Or.inr ⟨_, List.getElem?_mem (n := 10) rfl, by simp [hw]⟩
    · subst h
      exact Or.inr ⟨_, List.getElem?_mem (n := 28) rfl, by simp [hw]⟩
    · subst h
      exact Or.inr ⟨_, List.getElem?_mem (n := 27) rfl, by simp [hw]⟩
    · subst h
      exact Or.inr ⟨_, List.getElem?_mem (n := 4) rfl, by simp [hw]⟩
    · subst h
      exact Or.inr ⟨_, List.getElem?_mem (n := 37) rfl, by simp [hw]⟩
    · subst h
      exact Or.inr ⟨_, List.getElem?_mem (n := 0) rfl, by simp [hw]⟩
    · subst h
      exact Or.inr ⟨_, List.getElem?_mem (n := 2) rfl, by simp [hw]⟩
  · simp only [ownDescriptorOfKind, hw, if_true, List.mem_append, List.mem_cons,
      List.not_mem_nil, or_false] at hentry
    rcases hentry with
      (h | h | h | h | h | h | h | h | h | h | h | h | h | h | h | h | h | h | h | h | h | h | h | h | h | h | h | h) |
      (h | h | h | h | h | h | h)
    · subst h
      exact Or.inr ⟨_, List.getElem?_mem (n := 17) rfl, by simp [hw]⟩
    · subst h
      exact Or.inr ⟨_, List.getElem?_mem (n := 23) rfl, by simp [hw]⟩
    · subst h
      exact Or.inr ⟨_, List.getElem?_mem (n := 24) rfl, by simp [hw]⟩
    · subst h
      simp at hnot
    · subst h
      exact Or.inr ⟨_, List.getElem?_mem (n := 40) rfl, by simp [hw]⟩
    · subst h
      simp at hnot
    · subst h
      exact Or.inr ⟨_, List.getElem?_mem (n := 20) rfl, by simp [hw]⟩
    · subst h
      exact Or.inr ⟨_, List.getElem?_mem (n := 22) rfl, by simp [hw]⟩
    · subst h
      exact Or.inr ⟨_, List.getElem?_mem (n := 21) rfl, by simp [hw]⟩
    · subst h
      exact Or.inr ⟨_, List.getElem?_mem (n := 34) rfl, by simp [hw]⟩
    · subst h
      exact Or.inr ⟨_, List.getElem?_mem (n := 33) rfl, by simp [hw]⟩
    · subst h
      exact Or.inr ⟨_, List.getElem?_mem (n := 35) rfl, by simp [hw]⟩
    · subst h
      exact Or.inr ⟨_, List.getElem?_mem (n := 36) rfl, by simp [hw]⟩
    · subst h
      simp at hnot
    · subst h
      exact Or.inr ⟨_, List.getElem?_mem (n := 32) rfl, by simp [hw]⟩
    · subst h
      simp at hnot
    · subst h
      simp at hnot
    · subst h
      exact Or.inr ⟨_, List.getElem?_mem (n := 6) rfl, by simp [hw]⟩
    · subst h
      exact Or.inr ⟨_, List.getElem?_mem (n := 38) rfl, by simp [hw]⟩
    · exact Or.inl h
    · subst h
      exact Or.inr ⟨_, List.getElem?_mem (n := 26) rfl, by simp [hw]⟩
    · subst h
      exact Or.inr ⟨_, List.getElem?_mem (n := 10) rfl, by simp [hw]⟩
    · subst h
      exact Or.inr ⟨_, List.getElem?_mem (n := 28) rfl, by simp [hw]⟩
    · subst h
      exact Or.inr ⟨_, List.getElem?_mem (n := 27) rfl, by simp [hw]⟩
    · subst h
      exact Or.inr ⟨_, List.getElem?_mem (n := 4) rfl, by simp [hw]⟩
    · subst h
      exact Or.inr ⟨_, List.getElem?_mem (n := 37) rfl, by simp [hw]⟩
    · subst h
      exact Or.inr ⟨_, List.getElem?_mem (n := 0) rfl, by simp [hw]⟩
    · subst h
      exact Or.inr ⟨_, List.getElem?_mem (n := 2) rfl, by simp [hw]⟩
    · subst h
      exact Or.inr ⟨_, List.getElem?_mem (n := 16) rfl, by simp [hw]⟩
    · subst h
      exact Or.inr ⟨_, List.getElem?_mem (n := 14) rfl, by simp [hw]⟩
    · subst h
      exact Or.inr ⟨_, List.getElem?_mem (n := 13) rfl, by simp [hw]⟩
    · subst h
      exact Or.inr ⟨_, List.getElem?_mem (n := 12) rfl, by simp [hw]⟩
    · subst h
      exact Or.inr ⟨_, List.getElem?_mem (n := 18) rfl, by simp [hw]⟩
    · subst h
      exact Or.inr ⟨_, List.getElem?_mem (n := 11) rfl, by simp [hw]⟩
    · subst h
      exact Or.inr ⟨_, List.getElem?_mem (n := 15) rfl, by simp [hw]⟩

set_option maxRecDepth 100000 in
theorem sampleInstanceTypes_wellFormed : sampleInstanceTypes.WellFormed :=
  ⟨by decide, by decide, by decide⟩

theorem bodyDescriptorApply_outcome {R T1 T2 T3 T4 : Type} (t : InstanceTypes)
    (Op_apply : DescriptorClass → T1 → T2 → T3 → T4 → R) (ReturnType_default : R)
    (type : Nat) (p1 : T1) (p2 : T2) (p3 : T3) (p4 : T4) :
    (∃ d, BodyDescriptorApply t Op_apply ReturnType_default type p1 p2 p3 p4 =
        ApplyOutcome.applied d p1 p2 p3 p4 (Op_apply d p1 p2 p3 p4)) ∨
    BodyDescriptorApply t Op_apply ReturnType_default type p1 p2 p3 p4 =
      ApplyOutcome.returnedDefault ReturnType_default ∨
    BodyDescriptorApply t Op_apply ReturnType_default type p1 p2 p3 p4 =
      ApplyOutcome.unreachable ∨
    BodyDescriptorApply t Op_apply ReturnType_default type p1 p2 p3 p4 =
      ApplyOutcome.unknownType type := by
  unfold BodyDescriptorApply
  dsimp only
  repeat' split
  all_goals first
    | exact Or.inl ⟨_, rfl⟩
    | exact Or.inr (Or.inl rfl)
    | exact Or.inr (Or.inr (Or.inl rfl))
    | exact Or.inr (Or.inr (Or.inr rfl))

/-- C12, as stated, fails for the instance types whose case returns `ReturnType()`:
for `BYTE_ARRAY_TYPE` the call returns normally, with the default value `0` and not a
result of the operation, and `Op::apply` is invoked zero times. -/
theorem bodyDescriptorApply_once_counterexample :
    BodyDescriptorApply sampleInstanceTypes
      (fun (_ : DescriptorClass) (_ _ _ _ : Unit) => (1 : Nat)) 0
      sampleInstanceTypes.BYTE_ARRAY_TYPE () () () () = ApplyOutcome.returnedDefault 0 ∧
    (BodyDescriptorApply sampleInstanceTypes
      (fun (_ : DescriptorClass) (_ _ _ _ : Unit) => (1 : Nat)) 0
      sampleInstanceTypes.BYTE_ARRAY_TYPE () () () ()).applications = 0 ∧
    (BodyDescriptorApply sampleInstanceTypes
      (fun (_ : DescriptorClass) (_ _ _ _ : Unit) => (1 : Nat)) 0
      sampleInstanceTypes.BYTE_ARRAY_TYPE () () () ()).isFatal = false := by
  refine ⟨?_, ?_, ?_⟩ <;> rfl

/-- C12, amended: for every instance type, `BodyDescriptorApply<Op, ReturnType>(type, p1,
p2, p3, p4)` either returns the result of invoking `Op::apply` exactly once, on one
descriptor, with the four arguments passed through unchanged; or returns `ReturnType()`
without invoking `Op::apply`, which happens only for sequential strings and for
`FIXED_DOUBLE_ARRAY_TYPE`, `HEAP_NUMBER_TYPE`, `FILLER_TYPE`, `BYTE_ARRAY_TYPE`,
`FREE_SPACE_TYPE` and `BIGINT_TYPE`; or is fatal, again without invoking `Op::apply`. -/
theorem bodyDescriptorApply_once {R T1 T2 T3 T4 : Type} (t : InstanceTypes)
    (Op_apply : DescriptorClass → T1 → T2 → T3 → T4 → R) (ReturnType_default : R)
    (type : Nat) (p1 : T1) (p2 : T2) (p3 : T3) (p4 : T4) :
    ∃ outcome, BodyDescriptorApply t Op_apply ReturnType_default type p1 p2 p3 p4 = outcome ∧
      ((∃ d, outcome = ApplyOutcome.applied d p1 p2 p3 p4 (Op_apply d p1 p2 p3 p4) ∧
          outcome.applications = 1 ∧ outcome.isFatal = false) ∨
       (outcome = ApplyOutcome.returnedDefault ReturnType_default ∧
          outcome.applications = 0 ∧ outcome.isFatal = false ∧
          ((type < t.FIRST_NONSTRING_TYPE ∧
              type &&& t.kStringRepresentationMask = t.kSeqStringTag) ∨
           (t.FIRST_NONSTRING_TYPE ≤ type ∧ t.IsJSApiObject type = false ∧
              type ∈ [t.FIXED_DOUBLE_ARRAY_TYPE, t.HEAP_NUMBER_TYPE, t.FILLER_TYPE,
                t.BYTE_ARRAY_TYPE, t.FREE_SPACE_TYPE, t.BIGINT_TYPE]))) ∨
       (outcome.isFatal = true ∧ outcome.applications = 0)) := by
  refine ⟨_, rfl, ?_⟩
  unfold BodyDescriptorApply
  dsimp only
  by_cases hs : type < t.FIRST_NONSTRING_TYPE
  · rw [if_pos hs]
    by_cases h1 : type &&& t.kStringRepresentationMask = t.kSeqStringTag
    · rw [if_pos h1]
      exact Or.inr (Or.inl ⟨rfl, rfl, rfl, Or.inl ⟨hs, h1⟩⟩)
    · rw [if_neg h1]
      repeat' split
      all_goals first
        | exact Or.inl ⟨_, rfl, rfl, rfl⟩
        | exact Or.inr (Or.inr ⟨rfl, rfl⟩)
  · rw [if_neg hs]
    by_cases hjs : t.IsJSApiObject type = true
    · rw [if_pos hjs]
      exact Or.inl ⟨_, rfl, rfl, rfl⟩
    · rw [if_neg hjs]
      cases hfind : findCase (switchCases t) type with
      | none => exact Or.inr (Or.inr ⟨rfl, rfl⟩)
      | some body =>
        cases body with
        | apply d => exact Or.inl ⟨_, rfl, rfl, rfl⟩
        | structList =>
          dsimp only
          repeat' split
          all_goals exact Or.inl ⟨_, rfl, rfl, rfl⟩
        | returnDefault =>
          refine Or.inr (Or.inl ⟨rfl, rfl, rfl, Or.inr ⟨Nat.le_of_not_lt hs, ?_, ?_⟩⟩)
          · simpa using hjs
          · obtain ⟨labels, hmem, ht⟩ := findCase_some_mem _ _ _ hfind
            rcases returnDefault_groups t labels hmem with h | h
            · subst h
              simp only [List.mem_singleton] at ht
              simp [ht]
            · subst h
              exact List.mem_cons_of_mem _ ht

/-- C13, as stated, fails for `JS_FUNCTION_TYPE`: it is a label of the
`JSObject::BodyDescriptor` group, so `BodyDescriptorApply` applies the operation to
`JSObject::BodyDescriptor`, and `IterateBodyFast` of a function object issues the calls of
`JSObject::BodyDescriptor::IterateBody`, which differ from those of
`JSFunction::BodyDescriptor::IterateBody` and contain no `VisitCustomWeakPointer` for the
code slot. -/
theorem bodyDescriptorApply_jsFunction_counterexample :
    BodyDescriptorApply sampleInstanceTypes
      (fun (d : DescriptorClass) (_ _ _ _ : Unit) => d) DescriptorClass.JSProxy
      sampleInstanceTypes.JS_FUNCTION_TYPE () () () () =
      ApplyOutcome.applied (DescriptorClass.inFile Descriptor.JSObject) () () () ()
        (DescriptorClass.inFile Descriptor.JSObject) ∧
    (HeapObject.IterateBodyFast compressedLayout sampleInstanceTypes sampleExternal
        sampleFunctionObject ()).calls =
      JSObject.BodyDescriptor.IterateBody compressedLayout sampleFunctionObject.map
        sampleFunctionObject (sampleFunctionObject.SizeFromMap sampleFunctionObject.map) ∧
    (HeapObject.IterateBodyFast compressedLayout sampleInstanceTypes sampleExternal
        sampleFunctionObject ()).calls ≠
      JSFunction.BodyDescriptor.IterateBody compressedLayout sampleFunctionObject.map
        sampleFunctionObject (sampleFunctionObject.SizeFromMap sampleFunctionObject.map) ∧
    VisitCustomWeakPointer sampleFunctionObject.address compressedLayout.JSFunction_kCodeOffset ∉
      (HeapObject.IterateBodyFast compressedLayout sampleInstanceTypes sampleExternal
        sampleFunctionObject ()).calls ∧
    VisitCustomWeakPointer sampleFunctionObject.address compressedLayout.JSFunction_kCodeOffset ∈
      JSFunction.BodyDescriptor.IterateBody compressedLayout sampleFunctionObject.map
        sampleFunctionObject (sampleFunctionObject.SizeFromMap sampleFunctionObject.map) := by
  refine ⟨rfl, by decide, by decide, by decide, by decide⟩

/-- C13, amended: when the case labels are pairwise distinct non-string types and the API
object types are not labels of another group, `BodyDescriptorApply` applies the operation
to the kind's own descriptor for every instance type whose object kind defines its own
body descriptor in this file, except `JS_FUNCTION_TYPE` and
`JS_FINALIZATION_REGISTRY_TYPE`, for which it applies `JSObject::BodyDescriptor`, and
`FIXED_DOUBLE_ARRAY_TYPE`, `BYTE_ARRAY_TYPE` and `BIGINT_TYPE`, for which it applies no
descriptor and returns `ReturnType()`. -/
theorem bodyDescriptorApply_own_descriptor {R T1 T2 T3 T4 : Type} (t : InstanceTypes)
    (Op_apply : DescriptorClass → T1 → T2 → T3 → T4 → R) (ReturnType_default : R)
    (p1 : T1) (p2 : T2) (p3 : T3) (p4 : T4) (hwf : t.WellFormed)
    (hproto : t.PROTOTYPE_INFO_TYPE ∈ t.STRUCT_LIST) :
    (∀ entry ∈ ownDescriptorOfKind t,
      entry.1 ∉ [t.JS_FUNCTION_TYPE, t.JS_FINALIZATION_REGISTRY_TYPE,
        t.FIXED_DOUBLE_ARRAY_TYPE, t.BYTE_ARRAY_TYPE, t.BIGINT_TYPE] →
      BodyDescriptorApply t Op_apply ReturnType_default entry.1 p1 p2 p3 p4 =
        ApplyOutcome.applied (DescriptorClass.inFile entry.2) p1 p2 p3 p4
          (Op_apply (DescriptorClass.inFile entry.2) p1 p2 p3 p4)) ∧
    (∀ type ∈ [t.JS_FUNCTION_TYPE, t.JS_FINALIZATION_REGISTRY_TYPE],
      BodyDescriptorApply t Op_apply ReturnType_default type p1 p2 p3 p4 =
        ApplyOutcome.applied (DescriptorClass.inFile Descriptor.JSObject) p1 p2 p3 p4
          (Op_apply (DescriptorClass.inFile Descriptor.JSObject) p1 p2 p3 p4)) ∧
    (∀ type ∈ [t.FIXED_DOUBLE_ARRAY_TYPE, t.BYTE_ARRAY_TYPE, t.BIGINT_TYPE],
      BodyDescriptorApply t Op_apply ReturnType_default type p1 p2 p3 p4 =
        ApplyOutcome.returnedDefault ReturnType_default) := by
  refine ⟨?_, ?_, ?_⟩
  · intro entry hentry hnot
    rcases ownDescriptor_group t entry hentry hnot with h | ⟨labels, hmem, ht⟩
    · subst h
      obtain ⟨hge, hjs, hfind⟩ := bodyDescriptorApply_of_other_group t hwf
        t.PROTOTYPE_INFO_TYPE t.STRUCT_LIST CaseBody.structList (by simp)
        (List.getElem?_mem (n := 41) rfl) hproto
      unfold BodyDescriptorApply
      simp [hge, hjs, hfind]
    · exact bodyDescriptorApply_of_apply_group t Op_apply ReturnType_default p1 p2 p3 p4 hwf
        entry.1 labels _ hmem ht
  · intro type ht
    refine bodyDescriptorApply_of_apply_group t Op_apply ReturnType_default p1 p2 p3 p4 hwf
      type _ _ (List.getElem?_mem (n := 17) rfl) ?_
    simp only [List.mem_cons, List.not_mem_nil, or_false] at ht
    rcases ht with h | h <;> subst h <;> simp
  · intro type ht
    have key : ∃ labels, (labels, CaseBody.returnDefault) ∈ switchCases t ∧ type ∈ labels := by
      simp only [List.mem_cons, List.not_mem_nil, or_false] at ht
      rcases ht with h | h | h
      · exact ⟨_, List.getElem?_mem (n := 5) rfl, by simp [h]⟩
      · exact ⟨_, List.getElem?_mem (n := 39) rfl, by simp [h]⟩
      · exact ⟨_, List.getElem?_mem (n := 39) rfl, by simp [h]⟩
    obtain ⟨labels, hmem, hl⟩ := key
    obtain ⟨hge, hjs, hfind⟩ := bodyDescriptorApply_of_other_group t hwf
      type labels CaseBody.returnDefault (by simp) hmem hl
    unfold BodyDescriptorApply
    simp [hge, hjs, hfind]

/-- C13 (amended) at a concrete input: the sample instance type values. -/
theorem bodyDescriptorApply_own_descriptor_witness :
    sampleInstanceTypes.WellFormed ∧
    sampleInstanceTypes.PROTOTYPE_INFO_TYPE ∈ sampleInstanceTypes.STRUCT_LIST ∧
    BodyDescriptorApply sampleInstanceTypes
      (fun (d : DescriptorClass) (_ _ _ _ : Unit) => d) DescriptorClass.JSProxy
      sampleInstanceTypes.CODE_TYPE () () () () =
      ApplyOutcome.applied (DescriptorClass.inFile Descriptor.Code) () () () ()
        (DescriptorClass.inFile Descriptor.Code) :=
  ⟨sampleInstanceTypes_wellFormed, by decide,
    (bodyDescriptorApply_own_descriptor sampleInstanceTypes
      (fun (d : DescriptorClass) (_ _ _ _ : Unit) => d) DescriptorClass.JSProxy () () () ()
      sampleInstanceTypes_wellFormed (by decide)).1
      (sampleInstanceTypes.CODE_TYPE, Descriptor.Code) (by decide) (by decide)⟩

/-- C14: for every instance type that is not a string type, not a JS API object type and
not a case label of the switch, `BodyDescriptorApply` takes the `default:` label (it
prints the unknown type and reaches `UNREACHABLE()`): the call is fatal, returns no value
and applies the operation to no descriptor; and for a string type whose representation bits
are none of seq / cons / thin / sliced / external it reaches `UNREACHABLE()` likewise. -/
theorem bodyDescriptorApply_fatal {R T1 T2 T3 T4 : Type} (t : InstanceTypes)
    (Op_apply : DescriptorClass → T1 → T2 → T3 → T4 → R) (ReturnType_default : R)
    (type : Nat) (p1 : T1) (p2 : T2) (p3 : T3) (p4 : T4) :
    (t.FIRST_NONSTRING_TYPE ≤ type → t.IsJSApiObject type = false →
      type ∉ allCaseLabels t →
      BodyDescriptorApply t Op_apply ReturnType_default type p1 p2 p3 p4 =
        ApplyOutcome.unknownType type ∧
      (BodyDescriptorApply t Op_apply ReturnType_default type p1 p2 p3 p4).isFatal = true ∧
      (BodyDescriptorApply t Op_apply ReturnType_default type p1 p2 p3 p4).applications = 0) ∧
    (type < t.FIRST_NONSTRING_TYPE →
      type &&& t.kStringRepresentationMask ∉ [t.kSeqStringTag, t.kConsStringTag,
        t.kThinStringTag, t.kSlicedStringTag, t.kExternalStringTag] →
      BodyDescriptorApply t Op_apply ReturnType_default type p1 p2 p3 p4 =
        ApplyOutcome.unreachable ∧
      (BodyDescriptorApply t Op_apply ReturnType_default type p1 p2 p3 p4).isFatal = true ∧
      (BodyDescriptorApply t Op_apply ReturnType_default type p1 p2 p3 p4).applications = 0) := by
  constructor
  · intro hge hjs hnot
    have hfind := findCase_none_of_not_mem (switchCases t) type hnot
    have h : BodyDescriptorApply t Op_apply ReturnType_default type p1 p2 p3 p4 =
        ApplyOutcome.unknownType type := by
      unfold BodyDescriptorApply
      simp [Nat.not_lt.mpr hge, hjs, hfind]
    rw [h]
    exact ⟨rfl, rfl, rfl⟩
  · intro hs hnot
    simp only [List.mem_cons, List.not_mem_nil, or_false, not_or] at hnot
    obtain ⟨h1, h2, h3, h4, h5⟩ := hnot
    have h : BodyDescriptorApply t Op_apply ReturnType_default type p1 p2 p3 p4 =
        ApplyOutcome.unreachable := by
      unfold BodyDescriptorApply
      simp [hs, h1, h2, h3, h4, h5]
    rw [h]
    exact ⟨rfl, rfl, rfl⟩

set_option maxRecDepth 100000 in
/-- C14 at concrete inputs: the unlisted instance type 2000 and the string type 4, whose
representation bits are none of the five tags of the sample values. -/
theorem bodyDescriptorApply_fatal_witness :
    BodyDescriptorApply sampleInstanceTypes
      (fun (d : DescriptorClass) (_ _ _ _ : Unit) => d) DescriptorClass.JSProxy
      2000 () () () () = ApplyOutcome.unknownType 2000 ∧
    BodyDescriptorApply sampleInstanceTypes
      (fun (d : DescriptorClass) (_ _ _ _ : Unit) => d) DescriptorClass.JSProxy
      4 () () () () = ApplyOutcome.unreachable :=
  ⟨((bodyDescriptorApply_fatal sampleInstanceTypes
      (fun (d : DescriptorClass) (_ _ _ _ : Unit) => d) DescriptorClass.JSProxy
      2000 () () () ()).1 (by decide) (by decide) (by decide)).1,
   ((bodyDescriptorApply_fatal sampleInstanceTypes
      (fun (d : DescriptorClass) (_ _ _ _ : Unit) => d) DescriptorClass.JSProxy
      4 () () () ()).2 (by decide) (by decide)).1⟩

/-- C15: for every instance type below `FIRST_NONSTRING_TYPE`, `BodyDescriptorApply`
chooses from the representation bits `type & kStringRepresentationMask`, and from the
encoding bits only for external strings: sequential gives `ReturnType()` with no
descriptor applied, cons `ConsString`, thin `ThinString`, sliced `SlicedString`, external
with one-byte encoding `ExternalOneByteString`, external otherwise
`ExternalTwoByteString`.  Hence two string types that agree on the representation bits,
and for external strings on whether the encoding is one-byte, dispatch identically; and
the result does not depend on the switch: it is the same for every set of instance type
values that has the same string constants (whatever its case labels and its API object
types are). -/
theorem bodyDescriptorApply_string {R T1 T2 T3 T4 : Type} (t : InstanceTypes)
    (Op_apply : DescriptorClass → T1 → T2 → T3 → T4 → R) (ReturnType_default : R)
    (type : Nat) (p1 : T1) (p2 : T2) (p3 : T3) (p4 : T4)
    (hstring : type < t.FIRST_NONSTRING_TYPE) (htags : t.StringTagsDistinct) :
    (type &&& t.kStringRepresentationMask = t.kSeqStringTag →
      BodyDescriptorApply t Op_apply ReturnType_default type p1 p2 p3 p4 =
        ApplyOutcome.returnedDefault ReturnType_default) ∧
    (type &&& t.kStringRepresentationMask = t.kConsStringTag →
      BodyDescriptorApply t Op_apply ReturnType_default type p1 p2 p3 p4 =
        ApplyOutcome.applied DescriptorClass.ConsString p1 p2 p3 p4
          (Op_apply DescriptorClass.ConsString p1 p2 p3 p4)) ∧
    (type &&& t.kStringRepresentationMask = t.kThinStringTag →
      BodyDescriptorApply t Op_apply ReturnType_default type p1 p2 p3 p4 =
        ApplyOutcome.applied DescriptorClass.ThinString p1 p2 p3 p4
          (Op_apply DescriptorClass.ThinString p1 p2 p3 p4)) ∧
    (type &&& t.kStringRepresentationMask = t.kSlicedStringTag →
      BodyDescriptorApply t Op_apply ReturnType_default type p1 p2 p3 p4 =
        ApplyOutcome.applied DescriptorClass.SlicedString p1 p2 p3 p4
          (Op_apply DescriptorClass.SlicedString p1 p2 p3 p4)) ∧
    (type &&& t.kStringRepresentationMask = t.kExternalStringTag →
      type &&& t.kStringEncodingMask = t.kOneByteStringTag →
      BodyDescriptorApply t Op_apply ReturnType_default type p1 p2 p3 p4 =
        ApplyOutcome.applied (DescriptorClass.inFile Descriptor.ExternalOneByteString)
          p1 p2 p3 p4
          (Op_apply (DescriptorClass.inFile Descriptor.ExternalOneByteString) p1 p2 p3 p4)) ∧
    (type &&& t.kStringRepresentationMask = t.kExternalStringTag →
      type &&& t.kStringEncodingMask ≠ t.kOneByteStringTag →
      BodyDescriptorApply t Op_apply ReturnType_default type p1 p2 p3 p4 =
        ApplyOutcome.applied (DescriptorClass.inFile Descriptor.ExternalTwoByteString)
          p1 p2 p3 p4
          (Op_apply (DescriptorClass.inFile Descriptor.ExternalTwoByteString) p1 p2 p3 p4)) ∧
    (∀ other : Nat, other < t.FIRST_NONSTRING_TYPE →
      other &&& t.kStringRepresentationMask = type &&& t.kStringRepresentationMask →
      (type &&& t.kStringRepresentationMask = t.kExternalStringTag →
        (other &&& t.kStringEncodingMask = t.kOneByteStringTag ↔
          type &&& t.kStringEncodingMask = t.kOneByteStringTag)) →
      BodyDescriptorApply t Op_apply ReturnType_default other p1 p2 p3 p4 =
        BodyDescriptorApply t Op_apply ReturnType_default type p1 p2 p3 p4) ∧
    (∀ t2 : InstanceTypes,
      t2.FIRST_NONSTRING_TYPE = t.FIRST_NONSTRING_TYPE →
      t2.kStringRepresentationMask = t.kStringRepresentationMask →
      t2.kSeqStringTag = t.kSeqStringTag → t2.kConsStringTag = t.kConsStringTag →
      t2.kThinStringTag = t.kThinStringTag → t2.kSlicedStringTag = t.kSlicedStringTag →
      t2.kExternalStringTag = t.kExternalStringTag →
      t2.kStringEncodingMask = t.kStringEncodingMask →
      t2.kOneByteStringTag = t.kOneByteStringTag →
      BodyDescriptorApply t2 Op_apply ReturnType_default type p1 p2 p3 p4 =
        BodyDescriptorApply t Op_apply ReturnType_default type p1 p2 p3 p4) := by
  simp only [InstanceTypes.StringTagsDistinct, List.nodup_cons, List.mem_cons,
    List.not_mem_nil, or_false, not_or, List.nodup_nil, and_true, not_false_eq_true] at htags
  obtain ⟨⟨h12, h13, h14, h15⟩, ⟨h23, h24, h25⟩, ⟨h34, h35⟩, h45⟩ := htags
  refine ⟨?_, ?_, ?_, ?_, ?_, ?_, ?_, ?_⟩
  · intro h
    unfold BodyDescriptorApply
    simp [hstring, h]
  · intro h
    unfold BodyDescriptorApply
    simp [hstring, h, Ne.symm h12]
  · intro h
    unfold BodyDescriptorApply
    simp [hstring, h, Ne.symm h13, Ne.symm h23]
  · intro h
    unfold BodyDescriptorApply
    simp [hstring, h, Ne.symm h14, Ne.symm h24, Ne.symm h34]
  · intro h he
    unfold BodyDescriptorApply
    simp [hstring, h, he, Ne.symm h15, Ne.symm h25, Ne.symm h35, Ne.symm h45]
  · intro h he
    unfold BodyDescriptorApply
    simp [hstring, h, he, Ne.symm h15, Ne.symm h25, Ne.symm h35, Ne.symm h45]
  · intro other hother hrep henc
    unfold BodyDescriptorApply
    simp only [hstring, hother, if_true, hrep]
    by_cases hx : type &&& t.kStringRepresentationMask = t.kExternalStringTag
    · have := henc hx
      simp only [hx, if_true, this]
    · simp only [hx, if_false]
  · intro t2 e1 e2 e3 e4 e5 e6 e7 e8 e9
    unfold BodyDescriptorApply
    simp only [e1, e2, e3, e4, e5, e6, e7, e8, e9, hstring, if_true]

/-- C15 at a concrete input: the external one-byte string type 10 of the sample values. -/
theorem bodyDescriptorApply_string_witness :
    (10 : Nat) < sampleInstanceTypes.FIRST_NONSTRING_TYPE ∧
    sampleInstanceTypes.StringTagsDistinct ∧
    BodyDescriptorApply sampleInstanceTypes
      (fun (d : DescriptorClass) (_ _ _ _ : Unit) => d) DescriptorClass.JSProxy
      10 () () () () =
      ApplyOutcome.applied (DescriptorClass.inFile Descriptor.ExternalOneByteString)
        () () () () (DescriptorClass.inFile Descriptor.ExternalOneByteString) :=
  ⟨by decide, by unfold InstanceTypes.StringTagsDistinct; decide,
    (bodyDescriptorApply_string sampleInstanceTypes
      (fun (d : DescriptorClass) (_ _ _ _ : Unit) => d) DescriptorClass.JSProxy
      10 () () () () (by decide) (by unfold InstanceTypes.StringTagsDistinct; decide)).2.2.2.2.1
      (by decide) (by decide)⟩

/-- C16: the visitor call sequence of `HeapObject::IterateFast` is `VisitMapPointer(obj)`
followed by exactly the call sequence of `IterateBodyFast`, and `IterateBodyFast(v)` is
`BodyDescriptorApply` of `CallIterateBody` on `map.instance_type()` with the object's own
map and `object_size = SizeFromMap(map)`, where `CallIterateBody::apply` of a descriptor is
that descriptor's `IterateBody(map, obj, object_size, v)`.  So when the dispatch applies a
descriptor of this file the calls are `VisitMapPointer` and then that descriptor's
`IterateBody` calls, when it returns `ReturnType()` the only call is `VisitMapPointer`,
and when it is fatal `VisitMapPointer` was issued and the call does not complete. -/
theorem iterateFast_calls (c : Layout) (t : InstanceTypes)
    (external : DescriptorClass → Map → HeapObject → Int → List VisitorCall)
    (self : HeapObject) (v : ObjectVisitor) :
    (HeapObject.IterateFast c t external self v).calls =
      VisitMapPointer self.address :: (HeapObject.IterateBodyFast c t external self v).calls ∧
    HeapObject.IterateBodyFast c t external self v =
      BodyDescriptorApply t (CallIterateBody.apply c external) [] self.map.instance_type
        self.map self (self.SizeFromMap self.map) v ∧
    (∀ (d : Descriptor) (map : Map) (obj : HeapObject) (object_size : Int),
      CallIterateBody.apply c external (DescriptorClass.inFile d) map obj object_size v =
        d.IterateBody c map obj object_size) ∧
    (∀ d : Descriptor, ∀ result,
      HeapObject.IterateBodyFast c t external self v =
        ApplyOutcome.applied (DescriptorClass.inFile d) self.map self
          (self.SizeFromMap self.map) v result →
      HeapObject.IterateFast c t external self v =
        { calls := VisitMapPointer self.address ::
            d.IterateBody c self.map self (self.SizeFromMap self.map),
          completed := true }) ∧
    (∀ result,
      HeapObject.IterateBodyFast c t external self v = ApplyOutcome.returnedDefault result →
      HeapObject.IterateFast c t external self v =
        { calls := [VisitMapPointer self.address], completed := true }) ∧
    ((HeapObject.IterateBodyFast c t external self v).isFatal = true →
      HeapObject.IterateFast c t external self v =
        { calls := [VisitMapPointer self.address], completed := false }) := by
  refine ⟨rfl, rfl, fun _ _ _ _ => rfl, ?_, ?_, ?_⟩
  · intro d result h
    have hr : result = d.IterateBody c self.map self (self.SizeFromMap self.map) := by
      have h2 := h
      unfold HeapObject.IterateBodyFast HeapObject.IterateBodyFastWithMap at h2
      dsimp only at h2
      rcases bodyDescriptorApply_outcome t (CallIterateBody.apply c external) []
        self.map.instance_type self.map self (self.SizeFromMap self.map) v with
        ⟨d2, h3⟩ | h3 | h3 | h3
      · rw [h3] at h2
        injection h2 with hd _ _ _ _ hres
        subst hd
        exact hres.symm
      · rw [h3] at h2
        cases h2
      · rw [h3] at h2
        cases h2
      · rw [h3] at h2
        cases h2
    subst hr
    unfold HeapObject.IterateFast
    simp only [h]
    rfl
  · intro result h
    have hr : result = [] := by
      have h2 := h
      unfold HeapObject.IterateBodyFast HeapObject.IterateBodyFastWithMap at h2
      dsimp only at h2
      rcases bodyDescriptorApply_outcome t (CallIterateBody.apply c external) []
        self.map.instance_type self.map self (self.SizeFromMap self.map) v with
        ⟨d2, h3⟩ | h3 | h3 | h3
      · rw [h3] at h2
        cases h2
      · rw [h3] at h2
        injection h2 with hres
        exact hres.symm
      · rw [h3] at h2
        cases h2
      · rw [h3] at h2
        cases h2
    subst hr
    unfold HeapObject.IterateFast
    simp only [h]
    rfl
  · intro h
    unfold HeapObject.IterateFast
    dsimp only
    cases hb : HeapObject.IterateBodyFast c t external self v with
    | applied d a1 a2 a3 a4 result => rw [hb] at h; cases h
    | returnedDefault result => rw [hb] at h; cases h
    | unreachable => rfl
    | unknownType ty => rfl

/-- C16 at a concrete input: `sampleObject`, whose instance type is an API object type, so
that the body calls are those of `JSObject::BodyDescriptor`. -/
theorem iterateFast_calls_witness :
    HeapObject.IterateFast compressedLayout sampleInstanceTypes sampleExternal sampleObject () =
      { calls := VisitMapPointer sampleObject.address ::
          Descriptor.JSObject.IterateBody compressedLayout sampleObject.map sampleObject
            (sampleObject.SizeFromMap sampleObject.map),
        completed := true } :=
  (iterateFast_calls compressedLayout sampleInstanceTypes sampleExternal sampleObject
    ()).2.2.2.1 Descriptor.JSObject _ rfl


/-! ## Ascending order of the calls of one body -/

theorem spansAscending_le : ∀ (spans : List (Int × Int)) (lo hi : Int),
    SpansAscending lo spans hi → lo ≤ hi := by
  intro spans
  induction spans with
  | nil => intro lo hi h; exact h
  | cons span rest ih =>
    intro lo hi h
    obtain ⟨h1, h2⟩ := h
    have := ih _ _ h2
    have := le_max_left span.1 span.2
    omega

theorem spansAscending_mono : ∀ (spans : List (Int × Int)) (lo lo2 hi hi2 : Int),
    lo2 ≤ lo → hi ≤ hi2 → SpansAscending lo spans hi → SpansAscending lo2 spans hi2 := by
  intro spans
  induction spans with
  | nil => intro lo lo2 hi hi2 h1 h2 h; exact le_trans h1 (le_trans h h2)
  | cons span rest ih =>
    intro lo lo2 hi hi2 h1 h2 h
    exact ⟨le_trans h1 h.1, ih _ _ _ _ (le_refl _) h2 h.2⟩

theorem spansAscending_append : ∀ (a b : List (Int × Int)) (lo mid hi : Int),
    SpansAscending lo a mid → SpansAscending mid b hi → SpansAscending lo (a ++ b) hi := by
  intro a
  induction a with
  | nil =>
    intro b lo mid hi h1 h2
    exact spansAscending_mono b mid lo hi hi h1 (le_refl _) h2
  | cons span rest ih =>
    intro b lo mid hi h1 h2
    exact ⟨h1.1, ih b _ mid hi h1.2 h2⟩

theorem spansAscending_pairwise : ∀ (spans : List (Int × Int)) (lo hi : Int),
    SpansAscending lo spans hi →
    List.Pairwise (fun a b => a.1 ≤ b.1 ∧ a.2 ≤ b.1) spans ∧
    ∀ span ∈ spans, lo ≤ span.1 ∧ span.1 ≤ hi ∧ span.2 ≤ hi := by
  intro spans
  induction spans with
  | nil => intro lo hi _; exact ⟨List.Pairwise.nil, fun _ h => absurd h (List.not_mem_nil _)⟩
  | cons span rest ih =>
    intro lo hi h
    obtain ⟨h1, h2⟩ := h
    obtain ⟨hp, hb⟩ := ih _ _ h2
    have hle := spansAscending_le _ _ _ h2
    have hm1 := le_max_left span.1 span.2
    have hm2 := le_max_right span.1 span.2
    refine ⟨List.Pairwise.cons ?_ hp, ?_⟩
    · intro b hbmem
      have := (hb b hbmem).1
      exact ⟨by omega, by omega⟩
    · intro s hs
      rcases List.mem_cons.mp hs with rfl | hs
      · exact ⟨h1, by omega, by omega⟩
      · have := hb s hs
        exact ⟨by omega, this.2.1, this.2.2⟩

theorem traceAscending_append (ts lo mid hi : Int) (a b : List VisitorCall)
    (h1 : TraceAscending ts lo a mid) (h2 : TraceAscending ts mid b hi) :
    TraceAscending ts lo (a ++ b) hi := by
  unfold TraceAscending at *
  rw [List.flatMap_append]
  exact spansAscending_append _ _ _ _ _ h1 h2

theorem traceAscending_append_exists (ts lo mid : Int) (a b : List VisitorCall)
    (h1 : TraceAscending ts lo a mid) (h2 : ∃ hi, TraceAscending ts mid b hi) :
    ∃ hi, TraceAscending ts lo (a ++ b) hi := by
  obtain ⟨hi, h2⟩ := h2
  exact ⟨hi, traceAscending_append ts lo mid hi a b h1 h2⟩

theorem traceAscending_nil (ts lo hi : Int) (h : lo ≤ hi) : TraceAscending ts lo [] hi := h

theorem pairwise_lt_rangeSlots (ts s e : Int) : List.Pairwise (· < ·) (rangeSlots ts s e) := by
  unfold rangeSlots
  apply List.Pairwise.filter
  rw [List.pairwise_map]
  refine List.Pairwise.imp ?_ (List.pairwise_lt_range _)
  intro a b hab
  omega

theorem traceAscending_slots (ts : Int) (hts : 0 < ts) :
    ∀ (trace : List VisitorCall) (lo hi : Int), TraceAscending ts lo trace hi →
    List.Pairwise (· < ·) (trace.flatMap (VisitorCall.deliveredSlots ts)) ∧
    ∀ o ∈ trace.flatMap (VisitorCall.deliveredSlots ts), lo ≤ o ∧ o < hi := by
  intro trace
  induction trace with
  | nil =>
    intro lo hi _
    exact ⟨List.Pairwise.nil, fun _ h => absurd h (List.not_mem_nil _)⟩
  | cons call rest ih =>
    intro lo hi h
    unfold TraceAscending at h
    rw [List.flatMap_cons] at h
    rw [List.flatMap_cons, List.pairwise_append]
    have key : ∀ (slots : List Int) (cursor : Int),
        TraceAscending ts cursor rest hi → lo ≤ cursor →
        List.Pairwise (· < ·) slots → (∀ o ∈ slots, lo ≤ o ∧ o < cursor) →
        (List.Pairwise (· < ·) slots ∧
          List.Pairwise (· < ·) (rest.flatMap (VisitorCall.deliveredSlots ts)) ∧
          ∀ a ∈ slots, ∀ b ∈ rest.flatMap (VisitorCall.deliveredSlots ts), a < b) ∧
        ∀ o ∈ slots ++ rest.flatMap (VisitorCall.deliveredSlots ts), lo ≤ o ∧ o < hi := by
      intro slots cursor hrest hlo hpw hslots
      obtain ⟨hp, hb⟩ := ih cursor hi hrest
      have hle := spansAscending_le _ _ _ hrest
      refine ⟨⟨hpw, hp, ?_⟩, ?_⟩
      · intro a ha b hbm
        have := hslots a ha
        have := hb b hbm
        omega
      · intro o ho
        rcases List.mem_append.mp ho with ho | ho
        · have := hslots o ho
          omega
        · have := hb o ho
          omega
    cases call with
    | VisitMapPointer host =>
      obtain ⟨h1, h2⟩ := h
      have hm : max HeapObject.kMapOffset (HeapObject.kMapOffset + ts) =
          HeapObject.kMapOffset + ts := max_eq_right (by omega)
      rw [hm] at h2
      exact key _ _ h2 (by simp only at h1; omega) (List.pairwise_singleton _ _)
        (by intro o ho; simp only [VisitorCall.deliveredSlots, List.mem_singleton] at ho
            subst ho; simp only at h1; omega)
    | VisitPointers host kind s e =>
      obtain ⟨h1, h2⟩ := h
      have hm1 := le_max_left s e
      have hm2 := le_max_right s e
      exact key _ _ h2 (by simp only at h1 hm1; omega) (pairwise_lt_rangeSlots _ _ _)
        (by intro o ho
            simp only [VisitorCall.deliveredSlots, VisitorCall.pointerSlots] at ho
            rw [mem_rangeSlots] at ho
            simp only at h1; omega)
    | VisitPointer host kind off =>
      obtain ⟨h1, h2⟩ := h
      have hm : max off (off + ts) = off + ts := max_eq_right (by omega)
      simp only at h1 h2
      rw [hm] at h2
      exact key _ _ h2 (by omega) (List.pairwise_singleton _ _)
        (by intro o ho
            simp only [VisitorCall.deliveredSlots, VisitorCall.pointerSlots,
              List.mem_singleton] at ho
            omega)
    | VisitCustomWeakPointers host s e =>
      obtain ⟨h1, h2⟩ := h
      have hm1 := le_max_left s e
      have hm2 := le_max_right s e
      exact key _ _ h2 (by simp only at h1 hm1; omega) (pairwise_lt_rangeSlots _ _ _)
        (by intro o ho
            simp only [VisitorCall.deliveredSlots, VisitorCall.pointerSlots] at ho
            rw [mem_rangeSlots] at ho
            simp only at h1; omega)
    | VisitCustomWeakPointer host off =>
      obtain ⟨h1, h2⟩ := h
      have hm : max off (off + ts) = off + ts := max_eq_right (by omega)
      simp only at h1 h2
      rw [hm] at h2
      exact key _ _ h2 (by omega) (List.pairwise_singleton _ _)
        (by intro o ho
            simp only [VisitorCall.deliveredSlots, VisitorCall.pointerSlots,
              List.mem_singleton] at ho
            omega)
    | VisitEphemeron host index k v =>
      obtain ⟨h1, h2, h3⟩ := h
      have hm : max k (k + ts) = k + ts := max_eq_right (by omega)
      have hm2 : max v (v + ts) = v + ts := max_eq_right (by omega)
      simp only at h1 h2 h3
      rw [hm] at h2
      rw [hm2] at h3
      exact key _ _ h3 (by omega)
        (by simp only [VisitorCall.deliveredSlots, VisitorCall.pointerSlots]
            simp only [List.pairwise_cons, List.mem_singleton, List.not_mem_nil,
              List.Pairwise.nil, and_true]
            constructor
            · intro b hb; omega
            · intro b hb; exact absurd hb (by simp))
        (by intro o ho
            simp only [VisitorCall.deliveredSlots, VisitorCall.pointerSlots, List.mem_cons,
              List.mem_singleton, List.not_mem_nil, or_false] at ho
            omega)
    | VisitExternalReference host off =>
      obtain ⟨h1, h2⟩ := h
      simp only [max_self] at h1 h2
      exact key _ _ h2 h1 List.Pairwise.nil
        (by intro o ho; simp [VisitorCall.deliveredSlots, VisitorCall.pointerSlots] at ho)
    | VisitCodePointer host off =>
      obtain ⟨h1, h2⟩ := h
      have hm : max off (off + ts) = off + ts := max_eq_right (by omega)
      simp only at h1 h2
      rw [hm] at h2
      exact key _ _ h2 (by omega) (List.pairwise_singleton _ _)
        (by intro o ho
            simp only [VisitorCall.deliveredSlots, List.mem_singleton] at ho
            omega)
    | VisitRelocInfo host mask =>
      simp only [VisitorCall.spans, List.nil_append] at h
      exact key _ _ h (le_refl _) List.Pairwise.nil
        (by intro o ho; simp [VisitorCall.deliveredSlots, VisitorCall.pointerSlots] at ho)

theorem traceAscending_iteratePointers (c : Layout) (obj : HeapObject) (s e lo hi : Int)
    (hs : 0 < s) (hlo : lo ≤ s) (h1 : s ≤ hi) (h2 : e ≤ hi) :
    TraceAscending c.kTaggedSize lo (IteratePointers c obj s e) hi := by
  have h0 : ¬ s = HeapObject.kMapOffset := by
    unfold HeapObject.kMapOffset
    omega
  unfold IteratePointers
  rw [if_neg h0]
  exact ⟨hlo, max_le h1 h2⟩

theorem traceAscending_range (ts lo hi s e : Int) (call : VisitorCall)
    (hcall : call.spans ts = [(s, e)]) (hlo : lo ≤ s) (h1 : s ≤ hi) (h2 : e ≤ hi) :
    TraceAscending ts lo [call] hi := by
  unfold TraceAscending
  rw [List.flatMap_singleton, hcall]
  exact ⟨hlo, max_le h1 h2⟩

theorem traceAscending_slot (ts lo hi o : Int) (call : VisitorCall) (hts : 0 < ts)
    (hcall : call.spans ts = [(o, o + ts)]) (hlo : lo ≤ o) (h : o + ts ≤ hi) :
    TraceAscending ts lo [call] hi :=
  traceAscending_range ts lo hi o (o + ts) call hcall hlo (by omega) h

theorem traceAscending_embedderSlotLoop (obj : HeapObject) (ts stride limit hi : Int)
    (hts : 0 < ts) (hst : ts ≤ stride) :
    ∀ (fuel : Nat) (first lo : Int), lo ≤ first → lo ≤ hi →
      (∀ k : Nat, first + stride * k < limit → first + stride * k + ts ≤ hi) →
      TraceAscending ts lo (embedderSlotLoop obj stride limit fuel first) hi := by
  intro fuel
  induction fuel with
  | zero =>
    intro first lo _ hlohi _
    exact hlohi
  | succ f ih =>
    intro first lo hlo hlohi hbound
    simp only [embedderSlotLoop]
    by_cases hlt : first < limit
    · rw [if_pos hlt]
      have h0 := hbound 0 (by simpa using hlt)
      simp only [Nat.cast_zero, mul_zero, add_zero] at h0
      refine traceAscending_append ts lo (first + ts) hi _ _ ?_ ?_
      · exact traceAscending_slot ts lo (first + ts) first _ hts rfl hlo (le_refl _)
      · apply ih (first + stride) (first + ts) (by omega) h0
        intro k hk
        have hk2 := hbound (k + 1)
        have e : first + stride * ((k + 1 : Nat) : Int) = first + stride + stride * k := by
          push_cast
          ring
        rw [e] at hk2
        exact hk2 hk
    · rw [if_neg hlt]
      exact hlohi

theorem traceAscending_jsBody (c : Layout) (map : Map) (obj : HeapObject)
    (start_offset end_offset lo : Int) (hb : c.Basic)
    (h : JSBodyOrdered c map start_offset) (hlo : lo ≤ start_offset) :
    ∃ hi, TraceAscending c.kTaggedSize lo
      (IterateJSObjectBodyImpl c map obj start_offset end_offset) hi := by
  obtain ⟨hts, hemb⟩ := hb
  obtain ⟨hstart, hcomp⟩ := h
  have plain : ∃ hi, TraceAscending c.kTaggedSize lo
      (IteratePointers c obj start_offset end_offset) hi :=
    ⟨max start_offset end_offset, traceAscending_iteratePointers c obj _ _ _ _ (by omega) hlo
      (le_max_left _ _) (le_max_right _ _)⟩
  unfold IterateJSObjectBodyImpl
  by_cases hc : c.V8_COMPRESS_POINTERS = true
  · simp only [hc, if_true]
    by_cases hh : map.JSObject_GetHeaderSize < map.GetInObjectPropertyOffset_0
    · rw [if_pos hh]
      obtain ⟨hsh, n, hn⟩ := hcomp hc hh
      obtain ⟨hstride, _, hpay⟩ := hemb hc
      have hpay0 : 0 ≤ c.EmbedderDataSlot_kTaggedPayloadOffset := by omega
      have hpay1 : c.EmbedderDataSlot_kTaggedPayloadOffset + c.kTaggedSize ≤
          c.kEmbedderDataSlotSize := by omega
      have hspos : 0 < c.kEmbedderDataSlotSize := by omega
      refine ⟨max map.GetInObjectPropertyOffset_0 end_offset, ?_⟩
      refine traceAscending_append _ lo map.GetInObjectPropertyOffset_0 _ _ _
        (traceAscending_append _ lo map.JSObject_GetHeaderSize _ _ _ ?_ ?_) ?_
      · exact traceAscending_iteratePointers c obj _ _ _ _ (by omega) hlo hsh (le_refl _)
      · apply traceAscending_embedderSlotLoop obj c.kTaggedSize c.kEmbedderDataSlotSize
          map.GetInObjectPropertyOffset_0 map.GetInObjectPropertyOffset_0 hts (by omega)
        · omega
        · omega
        · intro k hk
          have hkn : (k : Int) < n := by
            by_contra hge
            have hge2 : (n : Int) ≤ k := by omega
            have := Int.mul_le_mul_of_nonneg_right hge2 (le_of_lt hspos)
            have e : c.kEmbedderDataSlotSize * (k : Int) = (k : Int) * c.kEmbedderDataSlotSize :=
              mul_comm _ _
            omega
          have hk1 : (k : Int) + 1 ≤ n := by omega
          have := Int.mul_le_mul_of_nonneg_right hk1 (le_of_lt hspos)
          have e : ((k : Int) + 1) * c.kEmbedderDataSlotSize =
              c.kEmbedderDataSlotSize * (k : Int) + c.kEmbedderDataSlotSize := by ring
          omega
      · exact traceAscending_iteratePointers c obj _ _ _ _ (by omega) (le_refl _)
          (le_max_left _ _) (le_max_right _ _)
    · rw [if_neg hh]
      exact plain
  · simp only [hc]
    exact plain

theorem traceAscending_wasmInstanceFields (obj : HeapObject) (ts hi : Int) (hts : 0 < ts) :
    ∀ (offsets : List Nat) (lo : Int), lo ≤ hi →
      (∀ offset ∈ offsets, lo ≤ (offset : Int) ∧ (offset : Int) + ts ≤ hi) →
      List.Pairwise (fun (a b : Nat) => (a : Int) + ts ≤ (b : Int)) offsets →
      TraceAscending ts lo (offsets.flatMap (fun offset => IteratePointer obj (offset : Int)))
        hi := by
  intro offsets
  induction offsets with
  | nil => intro lo hlo _ _; exact hlo
  | cons o rest ih =>
    intro lo hlo hall hpw
    rw [List.flatMap_cons]
    rw [List.pairwise_cons] at hpw
    have ho := hall o (List.mem_cons_self _ _)
    refine traceAscending_append ts lo ((o : Int) + ts) hi _ _ ?_ ?_
    · exact traceAscending_slot ts lo _ (o : Int) _ hts rfl ho.1 (le_refl _)
    · apply ih _ ho.2 _ hpw.2
      intro b hb
      exact ⟨hpw.1 b hb, (hall b (List.mem_cons_of_mem _ hb)).2⟩

theorem traceAscending_wasmStructFields (c : Layout) (obj : HeapObject) (hts : 0 < c.kTaggedSize) :
    ∀ (fields : List WasmField) (lo : Int),
      (∀ field ∈ fields, field.is_reference = true →
        lo ≤ c.WasmStruct_RawField field.field_offset) →
      List.Pairwise (fun (a b : WasmField) => a.is_reference = true → b.is_reference = true →
        c.WasmStruct_RawField a.field_offset + c.kTaggedSize ≤
          c.WasmStruct_RawField b.field_offset) fields →
      ∃ hi, TraceAscending c.kTaggedSize lo
        (fields.flatMap (fun field =>
          if !field.is_reference then []
          else
            let offset : Int := field.field_offset
            [VisitPointer obj.address ObjectSlot (c.WasmStruct_RawField offset)])) hi := by
  intro fields
  induction fields with
  | nil => intro lo _ _; exact ⟨lo, le_refl _⟩
  | cons f rest ih =>
    intro lo hall hpw
    rw [List.flatMap_cons]
    rw [List.pairwise_cons] at hpw
    cases hf : f.is_reference
    · simp only [Bool.not_false, if_true, List.nil_append]
      exact ih lo (fun g hg => hall g (List.mem_cons_of_mem _ hg)) hpw.2
    · simp only [Bool.not_true, Bool.false_eq_true, if_false]
      have hlo := hall f (List.mem_cons_self _ _) hf
      refine traceAscending_append_exists c.kTaggedSize lo
        (c.WasmStruct_RawField f.field_offset + c.kTaggedSize) _ _ ?_ ?_
      · exact traceAscending_slot _ lo _ (c.WasmStruct_RawField f.field_offset) _ hts rfl hlo
          (le_refl _)
      · exact ih _ (fun g hg hgr => hpw.1 g hg hf hgr) hpw.2

theorem traceAscending_ephemeronEntries (c : Layout) (obj : HeapObject)
    (hts : 0 < c.kTaggedSize) :
    ∀ n : Nat, TraceAscending c.kTaggedSize
      (c.EphemeronHashTable_kHeaderSize +
        c.EphemeronHashTable_kElementsStartIndex * c.kTaggedSize)
      (((List.range n).map Int.ofNat).flatMap (fun i =>
        IterateEphemeron obj i
          (EphemeronHashTable.OffsetOfElementAt c (EphemeronHashTable.EntryToIndex c i))
          (EphemeronHashTable.OffsetOfElementAt c (EphemeronHashTable.EntryToValueIndex c i))))
      (c.EphemeronHashTable_kHeaderSize +
        (c.EphemeronHashTable_kElementsStartIndex + 2 * (n : Int)) * c.kTaggedSize) := by
  intro n
  induction n with
  | zero =>
    show _ ≤ _
    simp
  | succ m ih =>
    rw [List.range_succ, List.map_append, List.flatMap_append]
    refine traceAscending_append _ _ _ _ _ _ ih ?_
    simp only [List.map_cons, List.map_nil, List.flatMap_cons, List.flatMap_nil,
      List.append_nil, IterateEphemeron]
    have e1 : EphemeronHashTable.OffsetOfElementAt c
        (EphemeronHashTable.EntryToIndex c (Int.ofNat m)) =
        c.EphemeronHashTable_kHeaderSize +
          (c.EphemeronHashTable_kElementsStartIndex + 2 * (m : Int)) * c.kTaggedSize := by
      unfold EphemeronHashTable.OffsetOfElementAt EphemeronHashTable.EntryToIndex
      simp only [Int.ofNat_eq_coe]
      ring
    have e2 : EphemeronHashTable.OffsetOfElementAt c
        (EphemeronHashTable.EntryToValueIndex c (Int.ofNat m)) =
        c.EphemeronHashTable_kHeaderSize +
          (c.EphemeronHashTable_kElementsStartIndex + 2 * (m : Int)) * c.kTaggedSize +
          c.kTaggedSize := by
      unfold EphemeronHashTable.OffsetOfElementAt EphemeronHashTable.EntryToValueIndex
        EphemeronHashTable.EntryToIndex
      simp only [Int.ofNat_eq_coe]
      ring
    have e3 : c.EphemeronHashTable_kHeaderSize +
        (c.EphemeronHashTable_kElementsStartIndex + 2 * ((m + 1 : Nat) : Int)) * c.kTaggedSize =
        c.EphemeronHashTable_kHeaderSize +
          (c.EphemeronHashTable_kElementsStartIndex + 2 * (m : Int)) * c.kTaggedSize +
          c.kTaggedSize + c.kTaggedSize := by
      push_cast
      ring
    rw [e1, e2, e3]
    generalize c.EphemeronHashTable_kHeaderSize +
      (c.EphemeronHashTable_kElementsStartIndex + 2 * (m : Int)) * c.kTaggedSize = k
    unfold TraceAscending
    simp only [List.flatMap_cons, List.flatMap_nil, List.append_nil, VisitorCall.spans,
      List.cons_append, List.nil_append, SpansAscending]
    have hm1 : max k (k + c.kTaggedSize) = k + c.kTaggedSize := max_eq_right (by omega)
    have hm2 : max (k + c.kTaggedSize) (k + c.kTaggedSize + c.kTaggedSize) =
        k + c.kTaggedSize + c.kTaggedSize := max_eq_right (by omega)
    rw [hm1, hm2]
    exact ⟨le_refl _, le_refl _, le_refl _⟩

theorem traceAscending_iteratePointers_exists (c : Layout) (obj : HeapObject) (s e lo : Int)
    (hs : 0 < s) (hlo : lo ≤ s) :
    ∃ hi, TraceAscending c.kTaggedSize lo (IteratePointers c obj s e) hi :=
  ⟨max s e, traceAscending_iteratePointers c obj s e lo _ hs hlo (le_max_left _ _)
    (le_max_right _ _)⟩

theorem traceAscending_range_exists (ts lo s e : Int) (call : VisitorCall)
    (hcall : call.spans ts = [(s, e)]) (hlo : lo ≤ s) :
    ∃ hi, TraceAscending ts lo [call] hi :=
  ⟨max s e, traceAscending_range ts lo _ s e call hcall hlo (le_max_left _ _)
    (le_max_right _ _)⟩

theorem traceAscending_iterateBody (d : Descriptor) (c : Layout) (map : Map) (obj : HeapObject)
    (object_size : Int) (hb : c.Basic) (h : d.LayoutOrdered c map obj) :
    ∃ hi, TraceAscending c.kTaggedSize c.kTaggedSize (d.IterateBody c map obj object_size)
      hi := by
  have hts : 0 < c.kTaggedSize := hb.1
  have hnil : ∃ hi, TraceAscending c.kTaggedSize c.kTaggedSize [] hi :=
    ⟨c.kTaggedSize, le_refl _⟩
  cases d with
  | JSObject => exact traceAscending_jsBody c map obj _ _ _ hb h h.1
  | JSObject_Fast =>
    exact traceAscending_iteratePointers_exists c obj _ _ _ (lt_of_lt_of_le hts h) h
  | WeakCell =>
    obtain ⟨h1, h2, h3⟩ := h
    show ∃ hi, TraceAscending _ _ (_ ++ _ ++ _ ++ _) hi
    refine traceAscending_append_exists _ _ (c.WeakCell_kUnregisterTokenOffset + c.kTaggedSize)
      _ _ (traceAscending_append _ _ (c.WeakCell_kTargetOffset + c.kTaggedSize) _ _ _
        (traceAscending_append _ _ c.WeakCell_kTargetOffset _ _ _ ?_ ?_) ?_) ?_
    · exact traceAscending_iteratePointers c obj _ _ _ _ (by omega) h1 h2 (le_refl _)
    · exact traceAscending_slot _ _ _ c.WeakCell_kTargetOffset _ hts rfl (le_refl _) (le_refl _)
    · exact traceAscending_slot _ _ _ c.WeakCell_kUnregisterTokenOffset _ hts rfl h3 (le_refl _)
    · exact traceAscending_iteratePointers_exists c obj _ _ _ (by omega) (le_refl _)
  | JSWeakRef =>
    obtain ⟨h1, h2, h3⟩ := h
    show ∃ hi, TraceAscending _ _ (_ ++ _ ++ _) hi
    refine traceAscending_append_exists _ _ (c.JSWeakRef_kTargetOffset + c.kTaggedSize) _ _
      (traceAscending_append _ _ c.JSWeakRef_kTargetOffset _ _ _ ?_ ?_) ?_
    · exact traceAscending_iteratePointers c obj _ _ _ _ (by omega) h1 h2 (le_refl _)
    · exact traceAscending_slot _ _ _ c.JSWeakRef_kTargetOffset _ hts rfl (le_refl _) (le_refl _)
    · exact traceAscending_jsBody c map obj _ _ _ hb h3 (le_refl _)
  | JSFinalizationRegistry =>
    obtain ⟨h1, h2, h3⟩ := h
    show ∃ hi, TraceAscending _ _ (_ ++ _ ++ _) hi
    refine traceAscending_append_exists _ _
      (c.JSFinalizationRegistry_kNextDirtyOffset + c.kTaggedSize) _ _
      (traceAscending_append _ _ c.JSFinalizationRegistry_kNextDirtyOffset _ _ _ ?_ ?_) ?_
    · exact traceAscending_iteratePointers c obj _ _ _ _ (by omega) h1 h2 (le_refl _)
    · exact traceAscending_slot _ _ _ c.JSFinalizationRegistry_kNextDirtyOffset _ hts rfl
        (le_refl _) (le_refl _)
    · exact traceAscending_jsBody c map obj _ _ _ hb h3 (le_refl _)
  | AllocationSite =>
    obtain ⟨h1, h2, h3⟩ := h
    show ∃ hi, TraceAscending _ _ (_ ++ _) hi
    refine traceAscending_append_exists _ _ c.AllocationSite_kWeakNextOffset _ _ ?_ ?_
    · exact traceAscending_iteratePointers c obj _ _ _ _ (by omega) h1 h2 h3
    · split
      · exact traceAscending_range_exists _ _ c.AllocationSite_kWeakNextOffset
          c.AllocationSite_kSizeWithWeakNext _ rfl (le_refl _)
      · exact ⟨_, le_refl _⟩
  | JSFunction =>
    obtain ⟨h1, h2, h3, h4⟩ := h
    show ∃ hi, TraceAscending _ _ (_ ++ _ ++ _ ++ _) hi
    refine traceAscending_append_exists _ _ (c.JSFunction_GetHeaderSize map.has_prototype_slot)
      _ _ (traceAscending_append _ _ (c.JSFunction_kCodeOffset + c.kTaggedSize) _ _ _
        (traceAscending_append _ _ c.JSFunction_kCodeOffset _ _ _ ?_ ?_) ?_) ?_
    · exact traceAscending_iteratePointers c obj _ _ _ _ (by omega) h1 h2 (le_refl _)
    · exact traceAscending_slot _ _ _ c.JSFunction_kCodeOffset _ hts rfl (le_refl _) (le_refl _)
    · exact traceAscending_iteratePointers c obj _ _ _ _ (by omega) (le_refl _) h3 (le_refl _)
    · exact traceAscending_jsBody c map obj _ _ _ hb h4 (le_refl _)
  | JSArrayBuffer =>
    obtain ⟨h1, h2, h3, h4⟩ := h
    show ∃ hi, TraceAscending _ _ (_ ++ _) hi
    refine traceAscending_append_exists _ _ c.JSArrayBuffer_kHeaderSize _ _ ?_ ?_
    · exact traceAscending_iteratePointers c obj _ _ _ _ (by omega) h1 h2 h3
    · exact traceAscending_jsBody c map obj _ _ _ hb h4 (le_refl _)
  | JSTypedArray =>
    obtain ⟨h1, h2, h3, h4, h5⟩ := h
    show ∃ hi, TraceAscending _ _ (_ ++ _ ++ _) hi
    refine traceAscending_append_exists _ _ c.JSTypedArray_kHeaderSize _ _
      (traceAscending_append _ _ c.JSTypedArray_kBasePointerOffset _ _ _ ?_ ?_) ?_
    · exact traceAscending_iteratePointers c obj _ _ _ _ (by omega) h1 h2 h3
    · exact traceAscending_slot _ _ _ c.JSTypedArray_kBasePointerOffset _ hts rfl (le_refl _) h4
    · exact traceAscending_jsBody c map obj _ _ _ hb h5 (le_refl _)
  | JSDataView =>
    obtain ⟨h1, h2, h3, h4⟩ := h
    show ∃ hi, TraceAscending _ _ (_ ++ _) hi
    refine traceAscending_append_exists _ _ c.JSDataView_kHeaderSize _ _ ?_ ?_
    · exact traceAscending_iteratePointers c obj _ _ _ _ (by omega) h1 h2 h3
    · exact traceAscending_jsBody c map obj _ _ _ hb h4 (le_refl _)
  | SmallOrderedHashTable derived =>
    exact traceAscending_iteratePointers_exists c obj _ _ _ (lt_of_lt_of_le hts h) h
  | SwissNameDictionary =>
    exact traceAscending_iteratePointers_exists c obj _ _ _ (lt_of_lt_of_le hts h) h
  | ByteArray => exact hnil
  | BytecodeArray =>
    obtain ⟨h1, h2, h3⟩ := h
    show ∃ hi, TraceAscending _ _ (_ ++ _ ++ _) hi
    refine ⟨c.BytecodeArray_kSourcePositionTableOffset + c.kTaggedSize,
      traceAscending_append _ _ c.BytecodeArray_kSourcePositionTableOffset _ _ _
        (traceAscending_append _ _ c.BytecodeArray_kHandlerTableOffset _ _ _ ?_ ?_) ?_⟩
    · exact traceAscending_slot _ _ _ c.BytecodeArray_kConstantPoolOffset _ hts rfl h1 h2
    · exact traceAscending_slot _ _ _ c.BytecodeArray_kHandlerTableOffset _ hts rfl (le_refl _) h3
    · exact traceAscending_slot _ _ _ c.BytecodeArray_kSourcePositionTableOffset _ hts rfl
        (le_refl _) (le_refl _)
  | BigInt => exact hnil
  | FixedDoubleArray => exact hnil
  | FeedbackMetadata => exact hnil
  | PreparseData =>
    exact traceAscending_iteratePointers_exists c obj _ _ _ (lt_of_lt_of_le hts h) h
  | PrototypeInfo =>
    obtain ⟨h1, h2⟩ := h
    show ∃ hi, TraceAscending _ _ (_ ++ _ ++ _) hi
    refine traceAscending_append_exists _ _
      (c.PrototypeInfo_kObjectCreateMapOffset + c.kTaggedSize) _ _
      (traceAscending_append _ _ c.PrototypeInfo_kObjectCreateMapOffset _ _ _ ?_ ?_) ?_
    · exact traceAscending_iteratePointers c obj _ _ _ _ (by omega) h1 h2 (le_refl _)
    · exact traceAscending_slot _ _ _ c.PrototypeInfo_kObjectCreateMapOffset _ hts rfl
        (le_refl _) (le_refl _)
    · exact traceAscending_iteratePointers_exists c obj _ _ _ (by omega) (le_refl _)
  | JSWeakCollection => exact traceAscending_jsBody c map obj _ _ _ hb h h.1
  | Foreign =>
    exact ⟨_, traceAscending_range _ _ _ c.Foreign_kForeignAddressOffset
      c.Foreign_kForeignAddressOffset _ rfl h (le_refl _) (le_refl _)⟩
  | WasmTypeInfo =>
    obtain ⟨h1, h2, h3, h4⟩ := h
    show ∃ hi, TraceAscending _ _ (_ ++ _ ++ _ ++ _) hi
    refine ⟨c.WasmTypeInfo_kInstanceOffset + c.kTaggedSize,
      traceAscending_append _ _ c.WasmTypeInfo_kInstanceOffset _ _ _
        (traceAscending_append _ _ c.WasmTypeInfo_kSubtypesOffset _ _ _
          (traceAscending_append _ _ c.WasmTypeInfo_kSupertypesOffset _ _ _ ?_ ?_) ?_) ?_⟩
    · exact traceAscending_range _ _ _ c.Foreign_kForeignAddressOffset
        c.Foreign_kForeignAddressOffset _ rfl h1 h2 h2
    · exact traceAscending_slot _ _ _ c.WasmTypeInfo_kSupertypesOffset _ hts rfl (le_refl _) h3
    · exact traceAscending_slot _ _ _ c.WasmTypeInfo_kSubtypesOffset _ hts rfl (le_refl _) h4
    · exact traceAscending_slot _ _ _ c.WasmTypeInfo_kInstanceOffset _ hts rfl (le_refl _)
        (le_refl _)
  | WasmJSFunctionData =>
    obtain ⟨h1, h2⟩ := h
    show ∃ hi, TraceAscending _ _ (_ ++ _) hi
    refine traceAscending_append_exists _ _ c.WasmFunctionData_kStartOfStrongFieldsOffset _ _
      ?_ ?_
    · exact traceAscending_range _ _ _ c.Foreign_kForeignAddressOffset
        c.Foreign_kForeignAddressOffset _ rfl h1 h2 h2
    · exact traceAscending_iteratePointers_exists c obj _ _ _ (by omega) (le_refl _)
  | WasmExportedFunctionData =>
    obtain ⟨h1, h2⟩ := h
    show ∃ hi, TraceAscending _ _ (_ ++ _) hi
    refine traceAscending_append_exists _ _ c.WasmFunctionData_kStartOfStrongFieldsOffset _ _
      ?_ ?_
    · exact traceAscending_range _ _ _ c.Foreign_kForeignAddressOffset
        c.Foreign_kForeignAddressOffset _ rfl h1 h2 h2
    · exact traceAscending_iteratePointers_exists c obj _ _ _ (by omega) (le_refl _)
  | WasmCapiFunctionData =>
    obtain ⟨h1, h2⟩ := h
    show ∃ hi, TraceAscending _ _ (_ ++ _) hi
    refine traceAscending_append_exists _ _ c.WasmFunctionData_kStartOfStrongFieldsOffset _ _
      ?_ ?_
    · exact traceAscending_range _ _ _ c.Foreign_kForeignAddressOffset
        c.Foreign_kForeignAddressOffset _ rfl h1 h2 h2
    · exact traceAscending_iteratePointers_exists c obj _ _ _ (by omega) (le_refl _)
  | WasmInstanceObject =>
    obtain ⟨h1, h2, h3, h4, h5, h6⟩ := h
    show ∃ hi, TraceAscending _ _ (_ ++ _ ++ _) hi
    refine traceAscending_append_exists _ _ c.WasmInstanceObject_kHeaderSize _ _
      (traceAscending_append _ _
        (max c.JSReceiver_kPropertiesOrHashOffset c.JSObject_kHeaderSize) _ _ _ ?_ ?_) ?_
    · exact traceAscending_iteratePointers c obj _ _ _ _ (by omega) h1 (le_max_left _ _)
        (le_max_right _ _)
    · apply traceAscending_wasmInstanceFields obj _ _ hts _ _ (max_le h2 h3) _ h5
      intro offset hmem
      obtain ⟨ha, hb2, hc⟩ := h4 offset hmem
      exact ⟨max_le ha hb2, hc⟩
    · exact traceAscending_jsBody c map obj _ _ _ hb h6 (le_refl _)
  | WasmArray =>
    show ∃ hi, TraceAscending _ _ (WasmArray.BodyDescriptor.IterateBody c map obj object_size) hi
    unfold WasmArray.BodyDescriptor.IterateBody
    cases hr : map.WasmArray_element_is_reference
    · exact hnil
    · have := h hr
      exact traceAscending_iteratePointers_exists c obj _ _ _ (by omega) this
  | WasmStruct => exact traceAscending_wasmStructFields c obj hts _ _ h.1 h.2
  | ExternalOneByteString => exact hnil
  | ExternalTwoByteString => exact hnil
  | CoverageInfo => exact hnil
  | Code =>
    show ∃ hi, TraceAscending _ _ (_ ++ _) hi
    refine traceAscending_append_exists _ _
      (max c.Code_kRelocationInfoOffset c.Code_kDataStart) _ _ ?_ ?_
    · exact traceAscending_iteratePointers c obj _ _ _ _ (lt_of_lt_of_le hts h) h
        (le_max_left _ _) (le_max_right _ _)
    · split
      · exact ⟨_, le_refl _⟩
      · exact ⟨_, le_refl _⟩
  | Map =>
    obtain ⟨h1, h2, h3⟩ := h
    show ∃ hi, TraceAscending _ _ (_ ++ _) hi
    refine ⟨c.Map_kTransitionsOrPrototypeInfoOffset + c.kTaggedSize,
      traceAscending_append _ _ c.Map_kTransitionsOrPrototypeInfoOffset _ _ _ ?_ ?_⟩
    · exact traceAscending_iteratePointers c obj _ _ _ _ (by omega) h1 h2 h3
    · exact traceAscending_slot _ _ _ c.Map_kTransitionsOrPrototypeInfoOffset _ hts rfl
        (le_refl _) (le_refl _)
  | DataHandler =>
    obtain ⟨h1, h2⟩ := h
    show ∃ hi, TraceAscending _ _ (_ ++ _) hi
    refine traceAscending_append_exists _ _ c.DataHandler_kData1Offset _ _ ?_ ?_
    · exact traceAscending_iteratePointers c obj _ _ _ _ (by omega) h1 h2 (le_refl _)
    · exact traceAscending_range_exists _ _ c.DataHandler_kData1Offset object_size _ rfl
        (le_refl _)
  | NativeContext =>
    obtain ⟨h1, h2, h3⟩ := h
    show ∃ hi, TraceAscending _ _ (_ ++ _) hi
    refine traceAscending_append_exists _ _ c.NativeContext_kStartOfWeakFieldsOffset _ _ ?_ ?_
    · exact traceAscending_iteratePointers c obj _ _ _ _ (by omega) h1 h2 h3
    · exact traceAscending_range_exists _ _ c.NativeContext_kStartOfWeakFieldsOffset
        c.NativeContext_kEndOfWeakFieldsOffset _ rfl (le_refl _)
  | CodeDataContainer =>
    obtain ⟨h1, h2, h3⟩ := h
    show ∃ hi, TraceAscending _ _ (CodeDataContainer.BodyDescriptor.IterateBody c map obj
      object_size) hi
    unfold CodeDataContainer.BodyDescriptor.IterateBody
    cases hx : c.V8_EXTERNAL_CODE_SPACE_BOOL
    · simp only [Bool.false_eq_true, if_false, List.append_nil]
      refine traceAscending_append_exists _ _
        c.CodeDataContainer_kPointerFieldsStrongEndOffset _ _ ?_ ?_
      · exact traceAscending_iteratePointers c obj _ _ _ _ (by omega) h1 h2 (le_refl _)
      · exact traceAscending_range_exists _ _ c.CodeDataContainer_kPointerFieldsStrongEndOffset
          c.CodeDataContainer_kPointerFieldsWeakEndOffset _ rfl (le_refl _)
    · simp only [if_true]
      obtain ⟨h4, h5⟩ := h3 hx
      refine ⟨c.CodeDataContainer_kCodeOffset + c.kTaggedSize,
        traceAscending_append _ _ c.CodeDataContainer_kCodeOffset _ _ _
          (traceAscending_append _ _ c.CodeDataContainer_kPointerFieldsStrongEndOffset _ _ _
            ?_ ?_) ?_⟩
      · exact traceAscending_iteratePointers c obj _ _ _ _ (by omega) h1 h2 (le_refl _)
      · exact traceAscending_range _ _ _ c.CodeDataContainer_kPointerFieldsStrongEndOffset
          c.CodeDataContainer_kPointerFieldsWeakEndOffset _ rfl (le_refl _) h4 h5
      · exact traceAscending_slot _ _ _ c.CodeDataContainer_kCodeOffset _ hts rfl (le_refl _)
          (le_refl _)
  | EmbedderDataArray =>
    obtain ⟨h1, h2⟩ := h
    show ∃ hi, TraceAscending _ _ (EmbedderDataArray.BodyDescriptor.IterateBody c map obj
      object_size) hi
    unfold EmbedderDataArray.BodyDescriptor.IterateBody
    cases hc : c.V8_COMPRESS_POINTERS
    · simp only [Bool.false_eq_true, if_false]
      have := h2 hc
      exact traceAscending_iteratePointers_exists c obj _ _ _ (by omega) this
    · simp only [if_true]
      have := h1 hc
      obtain ⟨hstride, _, hpay⟩ := hb.2 hc
      refine ⟨max c.kTaggedSize (object_size + c.kTaggedSize), ?_⟩
      apply traceAscending_embedderSlotLoop obj c.kTaggedSize c.kEmbedderDataSlotSize
        object_size _ hts (by omega)
      · omega
      · exact le_max_left _ _
      · intro k hk
        have := le_max_right c.kTaggedSize (object_size + c.kTaggedSize)
        omega
  | EphemeronHashTable =>
    obtain ⟨h1, h2⟩ := h
    show ∃ hi, TraceAscending _ _ (_ ++ _) hi
    have hmul : 0 ≤ c.EphemeronHashTable_kElementsStartIndex * c.kTaggedSize :=
      Int.mul_nonneg h2 (le_of_lt hts)
    refine ⟨_, traceAscending_append _ _ (c.EphemeronHashTable_kHeaderSize +
      c.EphemeronHashTable_kElementsStartIndex * c.kTaggedSize) _ _ _ ?_
      (traceAscending_ephemeronEntries c obj hts obj.live_entry_count)⟩
    exact traceAscending_iteratePointers c obj _ _ _ _ (by omega) h1 (by omega) (le_refl _)

theorem traceAscending_spans (ts lo hi : Int) (trace : List VisitorCall)
    (h : TraceAscending ts lo trace hi) :
    ∀ call ∈ trace, ∀ span ∈ call.spans ts, lo ≤ span.1 := by
  intro call hcall span hspan
  exact ((spansAscending_pairwise _ _ _ h).2 span
    (List.mem_flatMap.mpr ⟨call, hcall, hspan⟩)).1

theorem iterateBodyFast_applied (c : Layout) (t : InstanceTypes)
    (external : DescriptorClass → Map → HeapObject → Int → List VisitorCall)
    (self : HeapObject) (v : ObjectVisitor) (d : Descriptor) (map : Map) (obj : HeapObject)
    (object_size : Int) (v2 : ObjectVisitor) (result : List VisitorCall)
    (h : HeapObject.IterateBodyFast c t external self v =
      ApplyOutcome.applied (DescriptorClass.inFile d) map obj object_size v2 result) :
    map = self.map ∧ obj = self ∧ object_size = self.SizeFromMap self.map ∧
      result = d.IterateBody c map obj object_size := by
  unfold HeapObject.IterateBodyFast HeapObject.IterateBodyFastWithMap at h
  dsimp only at h
  rcases bodyDescriptorApply_outcome t (CallIterateBody.apply c external) []
    self.map.instance_type self.map self (self.SizeFromMap self.map) v with
    ⟨d2, hout⟩ | hout | hout | hout
  · rw [hout] at h
    injection h with hd e1 e2 e3 _ hres
    subst hd e1 e2 e3
    exact ⟨rfl, rfl, rfl, hres.symm⟩
  · rw [hout] at h
    cases h
  · rw [hout] at h
    cases h
  · rw [hout] at h
    cases h

theorem layoutOrdered_satisfiable (d : Descriptor) :
    compressedLayout.Basic ∧
    d.LayoutOrdered compressedLayout
      { sampleMap with JSObject_GetHeaderSize := 200,
                       JSObject_GetEmbedderFieldsStartOffset := 200,
                       GetInObjectPropertyOffset_0 := 216 } sampleObject := by
  refine ⟨⟨by decide, fun _ => ⟨rfl, ⟨3, rfl⟩, Or.inl rfl⟩⟩, ?_⟩
  have js : ∀ start : Int, 4 ≤ start → start ≤ 200 →
      JSBodyOrdered compressedLayout
        { sampleMap with JSObject_GetHeaderSize := 200,
                         JSObject_GetEmbedderFieldsStartOffset := 200,
                         GetInObjectPropertyOffset_0 := 216 } start :=
    fun start h1 h2 => ⟨h1, fun _ _ => ⟨h2, 2, by decide⟩⟩
  cases d
  case JSObject => exact js _ (by decide) (by decide)
  case JSWeakRef => exact ⟨by decide, by decide, js _ (by decide) (by decide)⟩
  case JSFinalizationRegistry => exact ⟨by decide, by decide, js _ (by decide) (by decide)⟩
  case JSFunction => exact ⟨by decide, by decide, by decide, js _ (by decide) (by decide)⟩
  case JSArrayBuffer => exact ⟨by decide, by decide, by decide, js _ (by decide) (by decide)⟩
  case JSTypedArray =>
    exact ⟨by decide, by decide, by decide, by decide, js _ (by decide) (by decide)⟩
  case JSDataView => exact ⟨by decide, by decide, by decide, js _ (by decide) (by decide)⟩
  case JSWeakCollection => exact js _ (by decide) (by decide)
  case WasmInstanceObject =>
    exact ⟨by decide, by decide, by decide, by decide, by decide, js _ (by decide) (by decide)⟩
  all_goals (simp only [Descriptor.LayoutOrdered] <;> decide)

/-- C17: for every body descriptor of the file, every layout whose fields lie in the
order in which the descriptor names them, starting after the map word, and every map and
object of that shape, `IterateBody` issues no `VisitMapPointer`, and no range or single
slot it hands over starts at offset 0 (`HeapObject::kMapOffset`) or contains it.
Consequently a `HeapObject::IterateFast` whose dispatch applies the descriptor delivers the
map slot exactly once, through its one `VisitMapPointer` call. -/
theorem iterateBody_avoids_map_slot (d : Descriptor) (c : Layout) (map : Map)
    (obj : HeapObject) (object_size : Int) (hb : c.Basic) (h : d.LayoutOrdered c map obj) :
    (∀ call ∈ d.IterateBody c map obj object_size,
      (∀ host, call ≠ VisitMapPointer host) ∧
      (∀ span ∈ call.spans c.kTaggedSize, HeapObject.kMapOffset < span.1) ∧
      HeapObject.kMapOffset ∉ call.deliveredSlots c.kTaggedSize) ∧
    (∀ (t : InstanceTypes)
      (external : DescriptorClass → Map → HeapObject → Int → List VisitorCall)
      (v : ObjectVisitor) (result : List VisitorCall),
      HeapObject.IterateBodyFast c t external obj v =
        ApplyOutcome.applied (DescriptorClass.inFile d) map obj object_size v result →
      (HeapObject.IterateFast c t external obj v).calls =
        VisitMapPointer obj.address :: d.IterateBody c map obj object_size ∧
      ((HeapObject.IterateFast c t external obj v).calls.flatMap
        (VisitorCall.deliveredSlots c.kTaggedSize)).count HeapObject.kMapOffset = 1 ∧
      (HeapObject.IterateFast c t external obj v).calls.count
        (VisitMapPointer obj.address) = 1) := by
  obtain ⟨hi, hasc⟩ := traceAscending_iterateBody d c map obj object_size hb h
  have hts : 0 < c.kTaggedSize := hb.1
  have hspans := traceAscending_spans _ _ _ _ hasc
  have hslots := (traceAscending_slots c.kTaggedSize hts _ _ _ hasc).2
  have part1 : ∀ call ∈ d.IterateBody c map obj object_size,
      (∀ host, call ≠ VisitMapPointer host) ∧
      (∀ span ∈ call.spans c.kTaggedSize, HeapObject.kMapOffset < span.1) ∧
      HeapObject.kMapOffset ∉ call.deliveredSlots c.kTaggedSize := by
    intro call hcall
    refine ⟨?_, ?_, ?_⟩
    · intro host heq
      subst heq
      have := hspans _ hcall (HeapObject.kMapOffset, HeapObject.kMapOffset + c.kTaggedSize)
        (List.mem_singleton.mpr rfl)
      simp only [HeapObject.kMapOffset] at this
      omega
    · intro span hspan
      have := hspans _ hcall span hspan
      simp only [HeapObject.kMapOffset]
      omega
    · intro hmem
      have := (hslots _ (List.mem_flatMap.mpr ⟨call, hcall, hmem⟩)).1
      simp only [HeapObject.kMapOffset] at this
      omega
  refine ⟨part1, ?_⟩
  intro t external v result hrun
  obtain ⟨_, _, _, hres⟩ := iterateBodyFast_applied c t external obj v d map obj object_size v
    result hrun
  have hcalls : (HeapObject.IterateFast c t external obj v).calls =
      VisitMapPointer obj.address :: d.IterateBody c map obj object_size := by
    unfold HeapObject.IterateFast
    simp only [hrun, ApplyOutcome.calls, hres]
  rw [hcalls]
  refine ⟨rfl, ?_, ?_⟩
  · rw [List.flatMap_cons]
    show (HeapObject.kMapOffset :: _).count HeapObject.kMapOffset = 1
    rw [List.count_cons_self, List.count_eq_zero_of_not_mem]
    intro hmem
    obtain ⟨call, hcall, hin⟩ := List.mem_flatMap.mp hmem
    exact (part1 call hcall).2.2 hin
  · rw [List.count_cons_self, List.count_eq_zero_of_not_mem]
    intro hmem
    exact (part1 _ hmem).1 _ rfl

/-- C17 at a concrete input: the body of `sampleObject` traced by
`JSObject::BodyDescriptor`. -/
theorem iterateBody_avoids_map_slot_witness :
    compressedLayout.Basic ∧
    Descriptor.JSObject.LayoutOrdered compressedLayout sampleMap sampleObject ∧
    ∀ call ∈ Descriptor.JSObject.IterateBody compressedLayout sampleMap sampleObject 36,
      (∀ host, call ≠ VisitMapPointer host) ∧
      (∀ span ∈ call.spans compressedLayout.kTaggedSize, HeapObject.kMapOffset < span.1) ∧
      HeapObject.kMapOffset ∉ call.deliveredSlots compressedLayout.kTaggedSize :=
  ⟨⟨by decide, fun _ => ⟨rfl, ⟨3, rfl⟩, Or.inl rfl⟩⟩,
    ⟨by decide, fun _ _ => ⟨by decide, 2, by decide⟩⟩,
    (iterateBody_avoids_map_slot Descriptor.JSObject compressedLayout sampleMap sampleObject 36
      ⟨by decide, fun _ => ⟨rfl, ⟨3, rfl⟩, Or.inl rfl⟩⟩
      ⟨by decide, fun _ _ => ⟨by decide, 2, by decide⟩⟩).1⟩

/-- C18: for every body descriptor of the file, every layout whose fields lie in the
order in which the descriptor names them, and every map and object of that shape, the
calls of one `IterateBody` walk up the object: each range or single slot starts at or after
the start and the end of every earlier one, so that the slots are delivered in strictly
ascending offset order and none is delivered twice.  The layout order asked for includes
the `JSTypedArray` base pointer between the tagged header fields and the JS object body,
the sorted `WasmInstanceObject::kTaggedFieldOffsets` between the `JSObject` header and the
instance header, and the `CodeDataContainer` code pointer after the weak range. -/
theorem iterateBody_ascending (d : Descriptor) (c : Layout) (map : Map) (obj : HeapObject)
    (object_size : Int) (hb : c.Basic) (h : d.LayoutOrdered c map obj) :
    List.Pairwise (fun (a b : Int × Int) => a.1 ≤ b.1 ∧ a.2 ≤ b.1)
      ((d.IterateBody c map obj object_size).flatMap (VisitorCall.spans c.kTaggedSize)) ∧
    List.Pairwise (fun (a b : Int) => a < b)
      ((d.IterateBody c map obj object_size).flatMap
        (VisitorCall.deliveredSlots c.kTaggedSize)) ∧
    ((d.IterateBody c map obj object_size).flatMap
      (VisitorCall.deliveredSlots c.kTaggedSize)).Nodup := by
  obtain ⟨hi, hasc⟩ := traceAscending_iterateBody d c map obj object_size hb h
  have hsorted := (traceAscending_slots c.kTaggedSize hb.1 _ _ _ hasc).1
  exact ⟨(spansAscending_pairwise _ _ _ hasc).1, hsorted,
    List.Pairwise.imp (fun hlt => ne_of_lt hlt) hsorted⟩

/-- C18 at a concrete input: a typed array whose map has two embedder slots after the
56-byte header; the slots delivered are listed in ascending order. -/
theorem iterateBody_ascending_witness :
    compressedLayout.Basic ∧
    Descriptor.JSTypedArray.LayoutOrdered compressedLayout
      { sampleMap with JSObject_GetHeaderSize := 56,
                       JSObject_GetEmbedderFieldsStartOffset := 56,
                       GetInObjectPropertyOffset_0 := 72 } sampleObject ∧
    (Descriptor.JSTypedArray.IterateBody compressedLayout
      { sampleMap with JSObject_GetHeaderSize := 56,
                       JSObject_GetEmbedderFieldsStartOffset := 56,
                       GetInObjectPropertyOffset_0 := 72 } sampleObject 80).flatMap
      (VisitorCall.deliveredSlots compressedLayout.kTaggedSize) =
      [4, 8, 12, 48, 56, 64, 72, 76] ∧
    List.Pairwise (fun (a b : Int) => a < b)
      ((Descriptor.JSTypedArray.IterateBody compressedLayout
        { sampleMap with JSObject_GetHeaderSize := 56,
                         JSObject_GetEmbedderFieldsStartOffset := 56,
                         GetInObjectPropertyOffset_0 := 72 } sampleObject 80).flatMap
        (VisitorCall.deliveredSlots compressedLayout.kTaggedSize)) :=
  ⟨⟨by decide, fun _ => ⟨rfl, ⟨3, rfl⟩, Or.inl rfl⟩⟩,
    ⟨by decide, by decide, by decide, by decide, by decide,
      fun _ _ => ⟨by decide, 2, by decide⟩⟩,
    by decide,
    (iterateBody_ascending Descriptor.JSTypedArray compressedLayout
      { sampleMap with JSObject_GetHeaderSize := 56,
                       JSObject_GetEmbedderFieldsStartOffset := 56,
                       GetInObjectPropertyOffset_0 := 72 } sampleObject 80
      ⟨by decide, fun _ => ⟨rfl, ⟨3, rfl⟩, Or.inl rfl⟩⟩
      ⟨by decide, by decide, by decide, by decide, by decide,
        fun _ _ => ⟨by decide, 2, by decide⟩⟩).2.1⟩

/-! ## Determinism of the body trace -/

theorem embedderSlotLoop_congr (obj1 obj2 : HeapObject) (stride limit : Int)
    (haddr : obj1.address = obj2.address) :
    ∀ (fuel : Nat) (first : Int),
      embedderSlotLoop obj1 stride limit fuel first =
        embedderSlotLoop obj2 stride limit fuel first := by
  intro fuel
  induction fuel with
  | zero => intro first; rfl
  | succ f ih =>
    intro first
    simp only [embedderSlotLoop, IteratePointer, haddr, ih]

theorem iteratePointers_congr (c : Layout) (obj1 obj2 : HeapObject) (s e : Int)
    (haddr : obj1.address = obj2.address) :
    IteratePointers c obj1 s e = IteratePointers c obj2 s e := by
  simp only [IteratePointers, haddr]

theorem iterateJSObjectBodyImpl_congr (c : Layout) (map1 map2 : Map) (obj1 obj2 : HeapObject)
    (s e : Int) (haddr : obj1.address = obj2.address) (h : JSBodySameInputs map1 map2) :
    IterateJSObjectBodyImpl c map1 obj1 s e = IterateJSObjectBodyImpl c map2 obj2 s e := by
  obtain ⟨h1, h2⟩ := h
  simp only [IterateJSObjectBodyImpl, h1, h2, iteratePointers_congr c obj1 obj2 _ _ haddr,
    embedderSlotLoop_congr obj1 obj2 _ _ haddr]

/-- C21: the visitor call sequence of `IterateBody` is a function of its inputs: for every
descriptor of the file, two calls with the same `object_size` on (map, object) pairs that
name the same object and agree on every value the descriptor reads from the map and the
object issue identical call sequences; in particular two calls with the same map, object and
`object_size` do, also through `CallIterateBody::apply`.  (The body calls only accessors
and the visitor: the trace is all it produces.) -/
theorem iterateBody_deterministic (d : Descriptor) (c : Layout) (map1 map2 : Map)
    (obj1 obj2 : HeapObject) (object_size : Int)
    (h : d.SameBodyInputs map1 obj1 map2 obj2) :
    d.IterateBody c map1 obj1 object_size = d.IterateBody c map2 obj2 object_size ∧
    (∀ (external : DescriptorClass → Map → HeapObject → Int → List VisitorCall)
      (v : ObjectVisitor),
      CallIterateBody.apply c external (DescriptorClass.inFile d) map1 obj1 object_size v =
        CallIterateBody.apply c external (DescriptorClass.inFile d) map2 obj2 object_size v) := by
  have key : d.IterateBody c map1 obj1 object_size = d.IterateBody c map2 obj2 object_size := by
    obtain ⟨haddr, h⟩ := h
    have hp := fun s e => iteratePointers_congr c obj1 obj2 s e haddr
    have hj := fun s e hh => iterateJSObjectBodyImpl_congr c map1 map2 obj1 obj2 s e haddr hh
    cases d
    case JSObject => exact hj _ _ h
    case JSObject_Fast => exact hp _ _
    case WeakCell =>
      simp only [Descriptor.IterateBody, WeakCell.BodyDescriptor.IterateBody, hp,
        IterateCustomWeakPointer, haddr]
    case JSWeakRef =>
      simp only [Descriptor.IterateBody, JSWeakRef.BodyDescriptor.IterateBody, hp, hj _ _ h,
        IterateCustomWeakPointer, haddr]
    case JSFinalizationRegistry =>
      simp only [Descriptor.IterateBody, JSFinalizationRegistry.BodyDescriptor.IterateBody, hp,
        hj _ _ h, IterateCustomWeakPointer, haddr]
    case AllocationSite =>
      simp only [Descriptor.IterateBody, AllocationSite.BodyDescriptor.IterateBody, hp,
        IterateCustomWeakPointers, haddr]
    case JSFunction =>
      simp only [Descriptor.IterateBody, JSFunction.BodyDescriptor.IterateBody, hp, hj _ _ h.2,
        IterateCustomWeakPointer, haddr, h.1]
    case JSArrayBuffer =>
      simp only [Descriptor.IterateBody, JSArrayBuffer.BodyDescriptor.IterateBody, hp, hj _ _ h]
    case JSTypedArray =>
      simp only [Descriptor.IterateBody, JSTypedArray.BodyDescriptor.IterateBody, hp, hj _ _ h,
        IteratePointer, haddr]
    case JSDataView =>
      simp only [Descriptor.IterateBody, JSDataView.BodyDescriptor.IterateBody, hp, hj _ _ h]
    case SmallOrderedHashTable derived =>
      simp only [Descriptor.IterateBody, SmallOrderedHashTable.BodyDescriptor.IterateBody, hp, h]
    case SwissNameDictionary =>
      simp only [Descriptor.IterateBody, SwissNameDictionary.BodyDescriptor.IterateBody, hp, h]
    case ByteArray => rfl
    case BytecodeArray =>
      simp only [Descriptor.IterateBody, BytecodeArray.BodyDescriptor.IterateBody,
        IteratePointer, haddr]
    case BigInt => rfl
    case FixedDoubleArray => rfl
    case FeedbackMetadata => rfl
    case PreparseData =>
      simp only [Descriptor.IterateBody, PreparseData.BodyDescriptor.IterateBody, hp, h.1, h.2]
    case PrototypeInfo =>
      simp only [Descriptor.IterateBody, PrototypeInfo.BodyDescriptor.IterateBody, hp,
        IterateMaybeWeakPointer, haddr]
    case JSWeakCollection => exact hj _ _ h
    case Foreign =>
      simp only [Descriptor.IterateBody, Foreign.BodyDescriptor.IterateBody, haddr]
    case WasmTypeInfo =>
      simp only [Descriptor.IterateBody, WasmTypeInfo.BodyDescriptor.IterateBody,
        Foreign.BodyDescriptor.IterateBody, IteratePointer, haddr]
    case WasmJSFunctionData =>
      simp only [Descriptor.IterateBody, WasmJSFunctionData.BodyDescriptor.IterateBody,
        Foreign.BodyDescriptor.IterateBody, hp, haddr]
    case WasmExportedFunctionData =>
      simp only [Descriptor.IterateBody, WasmExportedFunctionData.BodyDescriptor.IterateBody,
        Foreign.BodyDescriptor.IterateBody, hp, haddr]
    case WasmCapiFunctionData =>
      simp only [Descriptor.IterateBody, WasmCapiFunctionData.BodyDescriptor.IterateBody,
        Foreign.BodyDescriptor.IterateBody, hp, haddr]
    case WasmInstanceObject =>
      simp only [Descriptor.IterateBody, WasmInstanceObject.BodyDescriptor.IterateBody, hp,
        hj _ _ h, IteratePointer, haddr]
    case WasmArray =>
      simp only [Descriptor.IterateBody, WasmArray.BodyDescriptor.IterateBody, hp, h]
    case WasmStruct =>
      simp only [Descriptor.IterateBody, WasmStruct.BodyDescriptor.IterateBody, h, haddr]
    case ExternalOneByteString => rfl
    case ExternalTwoByteString => rfl
    case CoverageInfo => rfl
    case Code =>
      simp only [Descriptor.IterateBody, Code.BodyDescriptor.IterateBody,
        Code.BodyDescriptor.IterateBodyNoSize, hp, h, haddr]
    case Map =>
      simp only [Descriptor.IterateBody, Map.BodyDescriptor.IterateBody, hp,
        IterateMaybeWeakPointer, haddr]
    case DataHandler =>
      simp only [Descriptor.IterateBody, DataHandler.BodyDescriptor.IterateBody, hp,
        IterateMaybeWeakPointers, haddr]
    case NativeContext =>
      simp only [Descriptor.IterateBody, NativeContext.BodyDescriptor.IterateBody, hp,
        IterateCustomWeakPointers, haddr]
    case CodeDataContainer =>
      simp only [Descriptor.IterateBody, CodeDataContainer.BodyDescriptor.IterateBody, hp,
        IterateCustomWeakPointers, haddr]
    case EmbedderDataArray =>
      simp only [Descriptor.IterateBody, EmbedderDataArray.BodyDescriptor.IterateBody, hp,
        embedderSlotLoop_congr obj1 obj2 _ _ haddr]
    case EphemeronHashTable =>
      simp only [Descriptor.IterateBody, EphemeronHashTable.BodyDescriptor.IterateBody, hp,
        EphemeronHashTable.IterateEntries, IterateEphemeron, h, haddr]
  exact ⟨key, fun _ _ => key⟩

/-- C21 at a concrete input: `sampleObject` and a copy of it with another length and
capacity, under maps that differ in their instance size only, traced by
`JSObject::BodyDescriptor`. -/
theorem iterateBody_deterministic_witness :
    Descriptor.JSObject.IterateBody compressedLayout sampleMap sampleObject 36 =
      Descriptor.JSObject.IterateBody compressedLayout
        { sampleMap with instance_size := 100 }
        { sampleObject with length := 99, Capacity := 7 } 36 :=
  (iterateBody_deterministic Descriptor.JSObject compressedLayout sampleMap
    { sampleMap with instance_size := 100 } sampleObject
    { sampleObject with length := 99, Capacity := 7 } 36 ⟨rfl, rfl, rfl⟩).1

/-! ## Memory order of the size reads -/

/-- C22, as stated, fails for the shapes named after "and also": the `SizeOf` of
`CoverageInfo::BodyDescriptor` reads `slot_count()` without `kAcquireLoad`, and so do
those of `PreparseData`, `WasmArray`, `SmallOrderedHashTable` and `SwissNameDictionary`
with their length and capacity accessors. -/
theorem sizeOf_loads_counterexample :
    (¬ ∀ load ∈ Descriptor.CoverageInfo.SizeOfLoads, load.tag = LoadTag.kAcquireLoad) ∧
    (∀ d ∈ [Descriptor.CoverageInfo, Descriptor.PreparseData, Descriptor.WasmArray,
        Descriptor.SmallOrderedHashTable SmallOrderedDerived.SmallOrderedHashMap,
        Descriptor.SwissNameDictionary],
      ∃ load ∈ d.SizeOfLoads, load.tag ≠ LoadTag.kAcquireLoad) := by
  decide

/-- C22, amended: the `SizeOf` of ByteArray, BytecodeArray, BigInt and FixedDoubleArray
reads `length(kAcquireLoad)` and that of FeedbackMetadata `slot_count(kAcquireLoad)`;
the `SizeOf` of CoverageInfo (`slot_count()`), PreparseData (`data_length()`,
`children_length()`), WasmArray (`length()`), SmallOrderedHashTable and
SwissNameDictionary (`Capacity()`) calls the accessor without a memory-order argument.
These are all the reads: the value of `SizeOf` is the same for two objects on which the
listed accessors return the same values. -/
theorem sizeOf_loads (c : Layout) (map : Map) (obj1 obj2 : HeapObject) :
    (∀ d ∈ [Descriptor.ByteArray, Descriptor.BytecodeArray, Descriptor.BigInt,
        Descriptor.FixedDoubleArray],
      d.SizeOfLoads = [⟨"length", LoadTag.kAcquireLoad⟩]) ∧
    Descriptor.FeedbackMetadata.SizeOfLoads = [⟨"slot_count", LoadTag.kAcquireLoad⟩] ∧
    Descriptor.CoverageInfo.SizeOfLoads = [⟨"slot_count", LoadTag.untagged⟩] ∧
    Descriptor.PreparseData.SizeOfLoads =
      [⟨"data_length", LoadTag.untagged⟩, ⟨"children_length", LoadTag.untagged⟩] ∧
    Descriptor.WasmArray.SizeOfLoads = [⟨"length", LoadTag.untagged⟩] ∧
    (∀ derived, (Descriptor.SmallOrderedHashTable derived).SizeOfLoads =
      [⟨"Capacity", LoadTag.untagged⟩]) ∧
    Descriptor.SwissNameDictionary.SizeOfLoads = [⟨"Capacity", LoadTag.untagged⟩] ∧
    (∀ d : Descriptor,
      (∀ load ∈ d.SizeOfLoads,
        obj1.loadValue map load.accessor = obj2.loadValue map load.accessor) →
      d.SizeOf c map obj1 = d.SizeOf c map obj2) := by
  refine ⟨by decide, rfl, rfl, rfl, rfl, fun _ => rfl, rfl, ?_⟩
  intro d h
  cases d <;>
    first
    | rfl
    | (simp only [Descriptor.SizeOfLoads, List.mem_cons, List.mem_singleton, List.not_mem_nil,
        or_false, forall_eq_or_imp, forall_eq, HeapObject.loadValue] at h
       simp only [Descriptor.SizeOf, SmallOrderedHashTable.BodyDescriptor.SizeOf,
        SwissNameDictionary.BodyDescriptor.SizeOf, ByteArray.BodyDescriptor.SizeOf,
        BytecodeArray.BodyDescriptor.SizeOf, BigInt.BodyDescriptor.SizeOf,
        FixedDoubleArray.BodyDescriptor.SizeOf, FeedbackMetadata.BodyDescriptor.SizeOf,
        PreparseData.BodyDescriptor.SizeOf, PrototypeInfo.BodyDescriptor.SizeOf,
        WasmArray.BodyDescriptor.SizeOf, CoverageInfo.BodyDescriptor.SizeOf,
        Code.BodyDescriptor.SizeOf, DataHandler.BodyDescriptor.SizeOf,
        EmbedderDataArray.BodyDescriptor.SizeOf, EphemeronHashTable.BodyDescriptor.SizeOf]
       simp at h
       simp [h])

/-! ## Enumeration and validation of single shapes -/

/-- Membership in a slot range whose start is tagged-aligned, for a tagged-aligned
offset. -/
theorem mem_rangeSlots_of_aligned (ts s e o : Int) (hs : ts ∣ s) (ho : ts ∣ o) :
    o ∈ rangeSlots ts s e ↔ s ≤ o ∧ o < e := by
  rw [mem_rangeSlots]
  constructor
  · rintro ⟨h1, h2, _⟩
    exact ⟨h1, h2⟩
  · rintro ⟨h1, h2⟩
    exact ⟨h1, h2, Int.emod_eq_zero_of_dvd (Int.dvd_sub ho hs)⟩

/-- A member of a slot range with tagged-aligned start is tagged-aligned. -/
theorem dvd_of_mem_rangeSlots (ts s e o : Int) (hs : ts ∣ s) (ho : o ∈ rangeSlots ts s e) :
    ts ∣ o := by
  rw [mem_rangeSlots] at ho
  have hd := Int.dvd_of_emod_eq_zero ho.2.2
  have := Int.dvd_add hd hs
  simpa using this

/-- C23: with `object_size = map.instance_size()`, `AllocationSite::BodyDescriptor::
IterateBody` issues the strong range `[kStartOffset, kCommonPointerFieldEndOffset)` and,
exactly when the size is `kSizeWithWeakNext`, one custom-weak range `[kWeakNextOffset,
kSizeWithWeakNext)`; no byte of the two `Int32` pretenure fields (the bytes from
`kPretenureDataOffset` up to `kWeakNextOffset`) is visited or valid; and, the weak range
being the one slot before `kSizeWithWeakNext`, the tagged-aligned offsets accepted by
`IsValidSlot` are exactly the offsets visited.  The three `STATIC_ASSERT`s of the source
are hypotheses. -/
theorem allocationSite_bodyDescriptor (c : Layout) (map : Map) (obj : HeapObject)
    (offset kInt32Size : Int) (hts : 0 < c.kTaggedSize)
    (hstart : c.AllocationSite_kStartOffset ≠ HeapObject.kMapOffset)
    (hassert1 : c.AllocationSite_kCommonPointerFieldEndOffset =
      c.AllocationSite_kPretenureDataOffset)
    (hassert2 : c.AllocationSite_kPretenureDataOffset + kInt32Size =
      c.AllocationSite_kPretenureCreateCountOffset)
    (hassert3 : c.AllocationSite_kPretenureCreateCountOffset + kInt32Size =
      c.AllocationSite_kWeakNextOffset)
    (hint : 0 < kInt32Size)
    (hsize : c.AllocationSite_kSizeWithWeakNext =
      c.AllocationSite_kWeakNextOffset + c.kTaggedSize)
    (hal1 : c.kTaggedSize ∣ c.AllocationSite_kStartOffset)
    (hal2 : c.kTaggedSize ∣ c.AllocationSite_kWeakNextOffset) :
    AllocationSite.BodyDescriptor.IterateBody c map obj map.instance_size =
      VisitPointers obj.address ObjectSlot c.AllocationSite_kStartOffset
          c.AllocationSite_kCommonPointerFieldEndOffset ::
        (if map.instance_size = c.AllocationSite_kSizeWithWeakNext then
          [VisitCustomWeakPointers obj.address c.AllocationSite_kWeakNextOffset
            c.AllocationSite_kSizeWithWeakNext]
         else []) ∧
    (∀ b : Int, c.AllocationSite_kPretenureDataOffset ≤ b →
      b < c.AllocationSite_kWeakNextOffset →
      AllocationSite.BodyDescriptor.IsValidSlot c map obj b = false ∧
      ∀ call ∈ AllocationSite.BodyDescriptor.IterateBody c map obj map.instance_size,
        call.coversByte c.kTaggedSize b = false) ∧
    (c.AllocationSite_kPretenureDataOffset < c.AllocationSite_kPretenureCreateCountOffset ∧
      c.AllocationSite_kPretenureCreateCountOffset < c.AllocationSite_kWeakNextOffset) ∧
    ((c.kTaggedSize ∣ offset ∧
        AllocationSite.BodyDescriptor.IsValidSlot c map obj offset = true) ↔
      offset ∈ (AllocationSite.BodyDescriptor.IterateBody c map obj map.instance_size).flatMap
        (VisitorCall.pointerSlots c.kTaggedSize)) := by
  have htrace : AllocationSite.BodyDescriptor.IterateBody c map obj map.instance_size =
      VisitPointers obj.address ObjectSlot c.AllocationSite_kStartOffset
          c.AllocationSite_kCommonPointerFieldEndOffset ::
        (if map.instance_size = c.AllocationSite_kSizeWithWeakNext then
          [VisitCustomWeakPointers obj.address c.AllocationSite_kWeakNextOffset
            c.AllocationSite_kSizeWithWeakNext]
         else []) := by
    unfold AllocationSite.BodyDescriptor.IterateBody IteratePointers IterateCustomWeakPointers
    rw [if_neg hstart]
    rfl
  refine ⟨htrace, ?_, ⟨by omega, by omega⟩, ?_⟩
  · intro b hb1 hb2
    constructor
    · unfold AllocationSite.BodyDescriptor.IsValidSlot
      rw [if_neg (by omega), if_neg (by omega)]
    · intro call hcall
      rw [htrace] at hcall
      rcases List.mem_cons.mp hcall with rfl | hcall
      · simp only [VisitorCall.coversByte, decide_eq_false_iff_not]
        omega
      · split at hcall
        · rw [List.mem_singleton] at hcall
          subst hcall
          simp only [VisitorCall.coversByte, decide_eq_false_iff_not]
          omega
        · exact absurd hcall (List.not_mem_nil _)
  · rw [htrace]
    unfold AllocationSite.BodyDescriptor.IsValidSlot
    by_cases hw : map.instance_size = c.AllocationSite_kSizeWithWeakNext
    · simp only [hw, if_true, true_and, List.flatMap_cons, List.flatMap_nil, List.append_nil,
        VisitorCall.pointerSlots, List.mem_append]
      constructor
      · rintro ⟨hal, hv⟩
        by_cases h1 : offset ≥ c.AllocationSite_kStartOffset ∧
            offset < c.AllocationSite_kCommonPointerFieldEndOffset
        · exact Or.inl ((mem_rangeSlots_of_aligned _ _ _ _ hal1 hal).mpr h1)
        · rw [if_neg h1] at hv
          by_cases h2 : offset = c.AllocationSite_kWeakNextOffset
          · right
            rw [mem_rangeSlots_of_aligned _ _ _ _ hal2 hal]
            omega
          · rw [if_neg h2] at hv
            cases hv
      · rintro (h | h)
        · have hd := dvd_of_mem_rangeSlots _ _ _ _ hal1 h
          rw [mem_rangeSlots_of_aligned _ _ _ _ hal1 hd] at h
          exact ⟨hd, by rw [if_pos ⟨by omega, h.2⟩]⟩
        · have hd := dvd_of_mem_rangeSlots _ _ _ _ hal2 h
          rw [mem_rangeSlots_of_aligned _ _ _ _ hal2 hd] at h
          refine ⟨hd, ?_⟩
          have heq : offset = c.AllocationSite_kWeakNextOffset := by
            obtain ⟨k, hk⟩ := hd
            obtain ⟨j, hj⟩ := hal2
            have h1 : c.kTaggedSize * j ≤ c.kTaggedSize * k := by omega
            have h2 : c.kTaggedSize * k < c.kTaggedSize * j + c.kTaggedSize := by omega
            have h3 : j ≤ k := le_of_mul_le_mul_left h1 hts
            have h4 : k < j + 1 := by
              by_contra hge
              have : j + 1 ≤ k := by omega
              have := Int.mul_le_mul_of_nonneg_left this (le_of_lt hts)
              have e : c.kTaggedSize * (j + 1) = c.kTaggedSize * j + c.kTaggedSize := by ring
              omega
            have : k = j := by omega
            rw [hk, hj, this]
          simp [heq]
    · simp only [hw, if_false, false_and, List.flatMap_cons, List.flatMap_nil, List.append_nil,
        VisitorCall.pointerSlots]
      constructor
      · rintro ⟨hal, hv⟩
        by_cases h1 : offset ≥ c.AllocationSite_kStartOffset ∧
            offset < c.AllocationSite_kCommonPointerFieldEndOffset
        · exact (mem_rangeSlots_of_aligned _ _ _ _ hal1 hal).mpr h1
        · rw [if_neg h1] at hv
          cases hv
      · intro h
        have hd := dvd_of_mem_rangeSlots _ _ _ _ hal1 h
        rw [mem_rangeSlots_of_aligned _ _ _ _ hal1 hd] at h
        exact ⟨hd, by rw [if_pos ⟨by omega, h.2⟩]⟩

/-- C23 at a concrete input: an allocation site with a weak-next field in the sample
layout (`kInt32Size = 4`). -/
theorem allocationSite_bodyDescriptor_witness :
    AllocationSite.BodyDescriptor.IterateBody compressedLayout
        { sampleMap with instance_size := 28 } sampleObject 28 =
      [VisitPointers 4096 ObjectSlot 4 16, VisitCustomWeakPointers 4096 24 28] ∧
    AllocationSite.BodyDescriptor.IsValidSlot compressedLayout
        { sampleMap with instance_size := 28 } sampleObject 20 = false :=
  ⟨(allocationSite_bodyDescriptor compressedLayout { sampleMap with instance_size := 28 }
      sampleObject 24 4 (by decide) (by decide) rfl rfl rfl (by decide) rfl ⟨1, rfl⟩
      ⟨6, rfl⟩).1,
   ((allocationSite_bodyDescriptor compressedLayout { sampleMap with instance_size := 28 }
      sampleObject 24 4 (by decide) (by decide) rfl rfl rfl (by decide) rfl ⟨1, rfl⟩
      ⟨6, rfl⟩).2.1 20 (by decide) (by decide)).1⟩

/-- C24, as stated, fails in a build without an external code space: the bound of
`CodeDataContainer::BodyDescriptor::IsValidSlot` is `offset <= kPointerFieldsWeakEndOffset`,
so the tagged-aligned offset `kPointerFieldsWeakEndOffset` (8 in the sample layout) is
accepted, while `IterateBody` delivers the ranges below it only. -/
theorem codeDataContainer_slots_counterexample :
    compressedLayout.V8_EXTERNAL_CODE_SPACE_BOOL = false ∧
    compressedLayout.CodeDataContainer_kPointerFieldsWeakEndOffset = 8 ∧
    compressedLayout.kTaggedSize ∣ (8 : Int) ∧
    CodeDataContainer.BodyDescriptor.IsValidSlot compressedLayout sampleMap sampleObject 8 =
      true ∧
    (8 : Int) ∉ (CodeDataContainer.BodyDescriptor.IterateBody compressedLayout sampleMap
      sampleObject 16).flatMap (VisitorCall.deliveredSlots compressedLayout.kTaggedSize) := by
  refine ⟨rfl, rfl, ⟨2, rfl⟩, by decide, by decide⟩

/-- C24, amended: for `CodeDataContainer::BodyDescriptor`, with the strong range
`[kHeaderSize, kPointerFieldsStrongEndOffset)`, the custom-weak range
`[kPointerFieldsStrongEndOffset, kPointerFieldsWeakEndOffset)` and, when
`V8_EXTERNAL_CODE_SPACE_BOOL` is true, the code-pointer slot at `kCodeOffset`: every
delivered slot is accepted by `IsValidSlot` in every build; when
`V8_EXTERNAL_CODE_SPACE_BOOL` is true and `kCodeOffset = kPointerFieldsWeakEndOffset`, a
tagged-aligned offset is accepted exactly when it is delivered; when it is false, the
tagged-aligned offsets accepted are the delivered ones and `kPointerFieldsWeakEndOffset`,
which is not delivered. -/
theorem codeDataContainer_slots (c : Layout) (map : Map) (obj : HeapObject)
    (object_size offset : Int) (hh : 0 < c.CodeDataContainer_kHeaderSize)
    (h1 : c.CodeDataContainer_kHeaderSize ≤ c.CodeDataContainer_kPointerFieldsStrongEndOffset)
    (h2 : c.CodeDataContainer_kPointerFieldsStrongEndOffset ≤
      c.CodeDataContainer_kPointerFieldsWeakEndOffset)
    (hal1 : c.kTaggedSize ∣ c.CodeDataContainer_kHeaderSize)
    (hal2 : c.kTaggedSize ∣ c.CodeDataContainer_kPointerFieldsStrongEndOffset)
    (hal3 : c.kTaggedSize ∣ c.CodeDataContainer_kPointerFieldsWeakEndOffset) :
    ((c.V8_EXTERNAL_CODE_SPACE_BOOL = true →
        c.CodeDataContainer_kHeaderSize ≤ c.CodeDataContainer_kCodeOffset ∧
        c.CodeDataContainer_kCodeOffset ≤ c.CodeDataContainer_kPointerFieldsWeakEndOffset) →
      ∀ o ∈ (CodeDataContainer.BodyDescriptor.IterateBody c map obj object_size).flatMap
          (VisitorCall.deliveredSlots c.kTaggedSize),
        CodeDataContainer.BodyDescriptor.IsValidSlot c map obj o = true) ∧
    (c.V8_EXTERNAL_CODE_SPACE_BOOL = true →
      c.CodeDataContainer_kCodeOffset = c.CodeDataContainer_kPointerFieldsWeakEndOffset →
      ((c.kTaggedSize ∣ offset ∧
          CodeDataContainer.BodyDescriptor.IsValidSlot c map obj offset = true) ↔
        offset ∈ (CodeDataContainer.BodyDescriptor.IterateBody c map obj object_size).flatMap
          (VisitorCall.deliveredSlots c.kTaggedSize))) ∧
    (c.V8_EXTERNAL_CODE_SPACE_BOOL = false →
      CodeDataContainer.BodyDescriptor.IsValidSlot c map obj
        c.CodeDataContainer_kPointerFieldsWeakEndOffset = true ∧
      c.CodeDataContainer_kPointerFieldsWeakEndOffset ∉
        (CodeDataContainer.BodyDescriptor.IterateBody c map obj object_size).flatMap
          (VisitorCall.deliveredSlots c.kTaggedSize) ∧
      ((c.kTaggedSize ∣ offset ∧
          CodeDataContainer.BodyDescriptor.IsValidSlot c map obj offset = true) ↔
        (offset ∈ (CodeDataContainer.BodyDescriptor.IterateBody c map obj object_size).flatMap
          (VisitorCall.deliveredSlots c.kTaggedSize) ∨
         offset = c.CodeDataContainer_kPointerFieldsWeakEndOffset))) := by
  have h0 : ¬ c.CodeDataContainer_kHeaderSize = HeapObject.kMapOffset := by
    unfold HeapObject.kMapOffset
    omega
  have hvalid : ∀ o, CodeDataContainer.BodyDescriptor.IsValidSlot c map obj o = true ↔
      c.CodeDataContainer_kHeaderSize ≤ o ∧
        o ≤ c.CodeDataContainer_kPointerFieldsWeakEndOffset := by
    intro o
    unfold CodeDataContainer.BodyDescriptor.IsValidSlot
    simp only [Bool.and_eq_true, decide_eq_true_eq, ge_iff_le]
  have hslots : ∀ o, o ∈ (CodeDataContainer.BodyDescriptor.IterateBody c map obj
        object_size).flatMap (VisitorCall.deliveredSlots c.kTaggedSize) ↔
      (o ∈ rangeSlots c.kTaggedSize c.CodeDataContainer_kHeaderSize
          c.CodeDataContainer_kPointerFieldsStrongEndOffset ∨
        o ∈ rangeSlots c.kTaggedSize c.CodeDataContainer_kPointerFieldsStrongEndOffset
          c.CodeDataContainer_kPointerFieldsWeakEndOffset) ∨
      (c.V8_EXTERNAL_CODE_SPACE_BOOL = true ∧ o = c.CodeDataContainer_kCodeOffset) := by
    intro o
    unfold CodeDataContainer.BodyDescriptor.IterateBody IteratePointers
      IterateCustomWeakPointers
    rw [if_neg h0]
    cases hx : c.V8_EXTERNAL_CODE_SPACE_BOOL <;>
      simp [VisitorCall.deliveredSlots, VisitorCall.pointerSlots, or_assoc]
  have haccept : ∀ o, c.kTaggedSize ∣ o → c.CodeDataContainer_kHeaderSize ≤ o →
      o < c.CodeDataContainer_kPointerFieldsWeakEndOffset →
      o ∈ rangeSlots c.kTaggedSize c.CodeDataContainer_kHeaderSize
          c.CodeDataContainer_kPointerFieldsStrongEndOffset ∨
        o ∈ rangeSlots c.kTaggedSize c.CodeDataContainer_kPointerFieldsStrongEndOffset
          c.CodeDataContainer_kPointerFieldsWeakEndOffset := by
    intro o hal hlo hhi
    by_cases hlt : o < c.CodeDataContainer_kPointerFieldsStrongEndOffset
    · exact Or.inl ((mem_rangeSlots_of_aligned _ _ _ _ hal1 hal).mpr ⟨hlo, hlt⟩)
    · exact Or.inr ((mem_rangeSlots_of_aligned _ _ _ _ hal2 hal).mpr ⟨by omega, hhi⟩)
  have hranges : ∀ o,
      (o ∈ rangeSlots c.kTaggedSize c.CodeDataContainer_kHeaderSize
          c.CodeDataContainer_kPointerFieldsStrongEndOffset ∨
        o ∈ rangeSlots c.kTaggedSize c.CodeDataContainer_kPointerFieldsStrongEndOffset
          c.CodeDataContainer_kPointerFieldsWeakEndOffset) →
      c.kTaggedSize ∣ o ∧ c.CodeDataContainer_kHeaderSize ≤ o ∧
        o < c.CodeDataContainer_kPointerFieldsWeakEndOffset := by
    rintro o (h | h)
    · have hd := dvd_of_mem_rangeSlots _ _ _ _ hal1 h
      rw [mem_rangeSlots] at h
      exact ⟨hd, by omega, by omega⟩
    · have hd := dvd_of_mem_rangeSlots _ _ _ _ hal2 h
      rw [mem_rangeSlots] at h
      exact ⟨hd, by omega, by omega⟩
  refine ⟨?_, ?_, ?_⟩
  · intro hcode o ho
    rw [hvalid]
    rcases (hslots o).mp ho with h | ⟨hx, rfl⟩
    · have := hranges o h
      omega
    · exact hcode hx
  · intro hx hcode
    rw [hvalid, hslots]
    constructor
    · rintro ⟨hal, hlo, hhi⟩
      by_cases hlt : offset < c.CodeDataContainer_kPointerFieldsWeakEndOffset
      · exact Or.inl (haccept offset hal hlo hlt)
      · exact Or.inr ⟨hx, by omega⟩
    · rintro (h | ⟨_, rfl⟩)
      · have := hranges offset h
        exact ⟨this.1, by omega, by omega⟩
      · rw [hcode]
        exact ⟨hal3, by omega, le_refl _⟩
  · intro hx
    refine ⟨(hvalid _).mpr ⟨by omega, le_refl _⟩, ?_, ?_⟩
    · rw [hslots]
      rintro (h | ⟨hx2, _⟩)
      · have := hranges _ h
        omega
      · rw [hx] at hx2
        cases hx2
    · rw [hvalid, hslots]
      constructor
      · rintro ⟨hal, hlo, hhi⟩
        by_cases hlt : offset < c.CodeDataContainer_kPointerFieldsWeakEndOffset
        · exact Or.inl (Or.inl (haccept offset hal hlo hlt))
        · exact Or.inr (by omega)
      · rintro ((h | ⟨hx2, _⟩) | rfl)
        · have := hranges offset h
          exact ⟨this.1, by omega, by omega⟩
        · rw [hx] at hx2
          cases hx2
        · exact ⟨hal3, by omega, le_refl _⟩

/-- C24 (amended) at a concrete input: the sample layout, built without an external code
space; offset 4 is accepted and delivered, offset 8 is accepted and not delivered. -/
theorem codeDataContainer_slots_witness :
    (4 : Int) ∈ (CodeDataContainer.BodyDescriptor.IterateBody compressedLayout sampleMap
      sampleObject 16).flatMap (VisitorCall.deliveredSlots compressedLayout.kTaggedSize) ∧
    (8 : Int) ∉ (CodeDataContainer.BodyDescriptor.IterateBody compressedLayout sampleMap
      sampleObject 16).flatMap (VisitorCall.deliveredSlots compressedLayout.kTaggedSize) :=
  ⟨(((codeDataContainer_slots compressedLayout sampleMap sampleObject 16 4 (by decide)
      (by decide) (by decide) ⟨1, rfl⟩ ⟨1, rfl⟩ ⟨2, rfl⟩).2.2 rfl).2.2.mp
      ⟨⟨1, rfl⟩, by decide⟩).resolve_right (by decide),
   ((codeDataContainer_slots compressedLayout sampleMap sampleObject 16 4 (by decide)
      (by decide) (by decide) ⟨1, rfl⟩ ⟨1, rfl⟩ ⟨2, rfl⟩).2.2 rfl).2.1⟩

/-- A tagged-aligned offset strictly between two offsets one tagged slot apart does not
exist: from `a ≤ o < a + ts` with `ts` dividing both, `o = a`. -/
theorem eq_of_aligned_between (ts a o : Int) (ha : ts ∣ a) (ho : ts ∣ o)
    (h1 : a ≤ o) (h2 : o < a + ts) : o = a := by
  have hd : ts ∣ o - a := Int.dvd_sub ho ha
  have hm := Int.emod_eq_zero_of_dvd hd
  have hm2 := Int.emod_eq_of_lt (show 0 ≤ o - a by omega) (show o - a < ts by omega)
  omega

/-- C25: `WeakCell::BodyDescriptor::IterateBody` issues the strong range
`[HeapObject::kHeaderSize, kTargetOffset)`, `VisitCustomWeakPointer` at `kTargetOffset`
and at `kUnregisterTokenOffset`, and the strong range `[kUnregisterTokenOffset +
kTaggedSize, object_size)`.  When the unregister token is the slot after the target
(`kUnregisterTokenOffset = kTargetOffset + kTaggedSize`) and `object_size ≥
kUnregisterTokenOffset + kTaggedSize`, every tagged-aligned offset in
`[HeapObject::kHeaderSize, object_size)` is delivered exactly once: the target and the
unregister token by the custom-weak calls and not by a strong range, every other one by a
strong range.  When the two slots are further apart, the slot after the target is not
delivered. -/
theorem weakCell_slots (c : Layout) (map : Map) (obj : HeapObject) (object_size offset : Int)
    (hts : 0 < c.kTaggedSize) (hh : 0 < c.HeapObject_kHeaderSize)
    (hal1 : c.kTaggedSize ∣ c.HeapObject_kHeaderSize)
    (hal2 : c.kTaggedSize ∣ c.WeakCell_kTargetOffset)
    (hle : c.HeapObject_kHeaderSize ≤ c.WeakCell_kTargetOffset)
    (hle2 : c.WeakCell_kTargetOffset + c.kTaggedSize ≤ c.WeakCell_kUnregisterTokenOffset) :
    WeakCell.BodyDescriptor.IterateBody c map obj object_size =
      [VisitPointers obj.address ObjectSlot c.HeapObject_kHeaderSize c.WeakCell_kTargetOffset,
       VisitCustomWeakPointer obj.address c.WeakCell_kTargetOffset,
       VisitCustomWeakPointer obj.address c.WeakCell_kUnregisterTokenOffset,
       VisitPointers obj.address ObjectSlot (c.WeakCell_kUnregisterTokenOffset + c.kTaggedSize)
         object_size] ∧
    (c.WeakCell_kUnregisterTokenOffset = c.WeakCell_kTargetOffset + c.kTaggedSize →
      c.WeakCell_kUnregisterTokenOffset + c.kTaggedSize ≤ object_size →
      c.kTaggedSize ∣ offset → c.HeapObject_kHeaderSize ≤ offset → offset < object_size →
        ((WeakCell.BodyDescriptor.IterateBody c map obj object_size).flatMap
          (VisitorCall.pointerSlots c.kTaggedSize)).count offset = 1 ∧
        ((offset = c.WeakCell_kTargetOffset ∨ offset = c.WeakCell_kUnregisterTokenOffset) ↔
          ¬ (offset ∈ rangeSlots c.kTaggedSize c.HeapObject_kHeaderSize
                c.WeakCell_kTargetOffset ∨
             offset ∈ rangeSlots c.kTaggedSize
                (c.WeakCell_kUnregisterTokenOffset + c.kTaggedSize) object_size))) ∧
    (c.WeakCell_kTargetOffset + c.kTaggedSize < c.WeakCell_kUnregisterTokenOffset →
      c.WeakCell_kTargetOffset + c.kTaggedSize ∉
        (WeakCell.BodyDescriptor.IterateBody c map obj object_size).flatMap
          (VisitorCall.pointerSlots c.kTaggedSize)) := by
  have h0 : ¬ c.HeapObject_kHeaderSize = HeapObject.kMapOffset := by
    unfold HeapObject.kMapOffset
    omega
  have hu : ¬ c.WeakCell_kUnregisterTokenOffset + c.kTaggedSize = HeapObject.kMapOffset := by
    unfold HeapObject.kMapOffset
    omega
  have htrace : WeakCell.BodyDescriptor.IterateBody c map obj object_size =
      [VisitPointers obj.address ObjectSlot c.HeapObject_kHeaderSize c.WeakCell_kTargetOffset,
       VisitCustomWeakPointer obj.address c.WeakCell_kTargetOffset,
       VisitCustomWeakPointer obj.address c.WeakCell_kUnregisterTokenOffset,
       VisitPointers obj.address ObjectSlot (c.WeakCell_kUnregisterTokenOffset + c.kTaggedSize)
         object_size] := by
    unfold WeakCell.BodyDescriptor.IterateBody IteratePointers IterateCustomWeakPointer
    rw [if_neg h0, if_neg hu]
    rfl
  have hslots : (WeakCell.BodyDescriptor.IterateBody c map obj object_size).flatMap
      (VisitorCall.pointerSlots c.kTaggedSize) =
      rangeSlots c.kTaggedSize c.HeapObject_kHeaderSize c.WeakCell_kTargetOffset ++
        (c.WeakCell_kTargetOffset :: c.WeakCell_kUnregisterTokenOffset ::
          rangeSlots c.kTaggedSize (c.WeakCell_kUnregisterTokenOffset + c.kTaggedSize)
            object_size) := by
    rw [htrace]
    simp [VisitorCall.pointerSlots]
  have hasc : TraceAscending c.kTaggedSize c.HeapObject_kHeaderSize
      (WeakCell.BodyDescriptor.IterateBody c map obj object_size)
      (max (c.WeakCell_kUnregisterTokenOffset + c.kTaggedSize) object_size) := by
    rw [htrace]
    refine traceAscending_append _ _ c.WeakCell_kTargetOffset _ [_] [_, _, _] ?_
      (traceAscending_append _ _ (c.WeakCell_kTargetOffset + c.kTaggedSize) _ [_] [_, _] ?_
        (traceAscending_append _ _ (c.WeakCell_kUnregisterTokenOffset + c.kTaggedSize) _ [_]
          [_] ?_ ?_))
    · exact traceAscending_range _ _ _ _ _ _ rfl (le_refl _) hle (le_refl _)
    · exact traceAscending_slot _ _ _ _ _ hts rfl (le_refl _) (le_refl _)
    · exact traceAscending_slot _ _ _ _ _ hts rfl hle2 (le_refl _)
    · exact traceAscending_range _ _ _ _ _ _ rfl (le_refl _) (le_max_left _ _)
        (le_max_right _ _)
  have hnodup : ((WeakCell.BodyDescriptor.IterateBody c map obj object_size).flatMap
      (VisitorCall.pointerSlots c.kTaggedSize)).Nodup := by
    have hp := (traceAscending_slots c.kTaggedSize hts _ _ _ hasc).1
    have e : (WeakCell.BodyDescriptor.IterateBody c map obj object_size).flatMap
        (VisitorCall.deliveredSlots c.kTaggedSize) =
        (WeakCell.BodyDescriptor.IterateBody c map obj object_size).flatMap
          (VisitorCall.pointerSlots c.kTaggedSize) := by
      rw [htrace]
      rfl
    rw [e] at hp
    exact List.Pairwise.imp (fun hlt => ne_of_lt hlt) hp
  have hal3 : c.kTaggedSize ∣ c.WeakCell_kTargetOffset + c.kTaggedSize :=
    Int.dvd_add hal2 (dvd_refl _)
  refine ⟨htrace, ?_, ?_⟩
  · intro hadj hsize hal hlo hhi
    have hal4 : c.kTaggedSize ∣ c.WeakCell_kUnregisterTokenOffset + c.kTaggedSize := by
      rw [hadj]
      exact Int.dvd_add hal3 (dvd_refl _)
    have hcases : offset < c.WeakCell_kTargetOffset ∨ offset = c.WeakCell_kTargetOffset ∨
        offset = c.WeakCell_kUnregisterTokenOffset ∨
        c.WeakCell_kUnregisterTokenOffset + c.kTaggedSize ≤ offset := by
      by_cases ha : offset < c.WeakCell_kTargetOffset
      · exact Or.inl ha
      · by_cases hb : offset < c.WeakCell_kTargetOffset + c.kTaggedSize
        · exact Or.inr (Or.inl (eq_of_aligned_between _ _ _ hal2 hal (by omega) hb))
        · by_cases hc : offset < c.WeakCell_kUnregisterTokenOffset + c.kTaggedSize
          · have := eq_of_aligned_between _ _ _ hal3 hal (by omega) (by omega)
            exact Or.inr (Or.inr (Or.inl (by omega)))
          · exact Or.inr (Or.inr (Or.inr (by omega)))
    have hr1 := mem_rangeSlots_of_aligned c.kTaggedSize c.HeapObject_kHeaderSize
      c.WeakCell_kTargetOffset offset hal1 hal
    have hr2 := mem_rangeSlots_of_aligned c.kTaggedSize
      (c.WeakCell_kUnregisterTokenOffset + c.kTaggedSize) object_size offset hal4 hal
    constructor
    · apply List.count_eq_one_of_mem hnodup
      rw [hslots]
      simp only [List.mem_append, List.mem_cons]
      rcases hcases with h | h | h | h
      · exact Or.inl (hr1.mpr ⟨hlo, h⟩)
      · exact Or.inr (Or.inl h)
      · exact Or.inr (Or.inr (Or.inl h))
      · exact Or.inr (Or.inr (Or.inr (hr2.mpr ⟨h, hhi⟩)))
    · rw [hr1, hr2]
      constructor
      · rintro (h | h) <;> omega
      · intro hn
        rcases hcases with h | h | h | h
        · exact absurd (Or.inl ⟨hlo, h⟩) hn
        · exact Or.inl h
        · exact Or.inr h
        · exact absurd (Or.inr ⟨h, hhi⟩) hn
  · intro hgap
    rw [hslots]
    simp only [List.mem_append, List.mem_cons, mem_rangeSlots]
    omega

/-- C25 at a concrete input: the sample layout, where the target is at 8 and the
unregister token at 12, and a weak cell of 28 bytes. -/
theorem weakCell_slots_witness :
    WeakCell.BodyDescriptor.IterateBody compressedLayout sampleMap sampleObject 28 =
      [VisitPointers 4096 ObjectSlot 4 8, VisitCustomWeakPointer 4096 8,
       VisitCustomWeakPointer 4096 12, VisitPointers 4096 ObjectSlot 16 28] ∧
    ((WeakCell.BodyDescriptor.IterateBody compressedLayout sampleMap sampleObject 28).flatMap
      (VisitorCall.pointerSlots compressedLayout.kTaggedSize)).count 12 = 1 :=
  ⟨(weakCell_slots compressedLayout sampleMap sampleObject 28 12 (by decide) (by decide)
      ⟨1, rfl⟩ ⟨2, rfl⟩ (by decide) (by decide)).1,
   ((weakCell_slots compressedLayout sampleMap sampleObject 28 12 (by decide) (by decide)
      ⟨1, rfl⟩ ⟨2, rfl⟩ (by decide) (by decide)).2.1 rfl (by decide) ⟨3, rfl⟩ (by decide)
      (by decide)).1⟩

/-- Every slot delivered by the JS object body lies at or after the offset at which the
body is entered. -/
theorem jsBody_slots_ge (c : Layout) (map : Map) (obj : HeapObject)
    (start_offset end_offset : Int) (hb : c.Basic) (h : JSBodyOrdered c map start_offset) :
    (∀ o ∈ (IterateJSObjectBodyImpl c map obj start_offset end_offset).flatMap
        (VisitorCall.deliveredSlots c.kTaggedSize), start_offset ≤ o) ∧
    (∀ call ∈ IterateJSObjectBodyImpl c map obj start_offset end_offset,
      ∀ span ∈ call.spans c.kTaggedSize, start_offset ≤ span.1) := by
  obtain ⟨hi, hasc⟩ := traceAscending_jsBody c map obj start_offset end_offset start_offset hb h
    (le_refl _)
  exact ⟨fun o ho => ((traceAscending_slots c.kTaggedSize hb.1 _ _ _ hasc).2 o ho).1,
    traceAscending_spans _ _ _ _ hasc⟩

/-- C26: with `header_size = JSFunction::GetHeaderSize(map.has_prototype_slot())`,
`JSFunction::BodyDescriptor::IterateBody` issues the strong range `[kStartOffset,
kCodeOffset)`, one `VisitCustomWeakPointer` at `kCodeOffset`, the strong range
`[kCodeOffset + kTaggedSize, header_size)`, and then the calls of
`IterateJSObjectBodyImpl` from `header_size` to `object_size`; no `VisitPointers` range
of the trace holds the code slot; and every tagged-aligned offset in `[kStartOffset,
header_size)` is delivered exactly once. -/
theorem jsFunction_iterateBody (c : Layout) (map : Map) (obj : HeapObject)
    (object_size offset : Int) (hb : c.Basic)
    (hord : Descriptor.JSFunction.LayoutOrdered c map obj)
    (hal1 : c.kTaggedSize ∣ JSFunction.BodyDescriptor.kStartOffset c)
    (hal2 : c.kTaggedSize ∣ c.JSFunction_kCodeOffset) :
    JSFunction.BodyDescriptor.IterateBody c map obj object_size =
      [VisitPointers obj.address ObjectSlot (JSFunction.BodyDescriptor.kStartOffset c)
         c.JSFunction_kCodeOffset,
       VisitCustomWeakPointer obj.address c.JSFunction_kCodeOffset,
       VisitPointers obj.address ObjectSlot (c.JSFunction_kCodeOffset + c.kTaggedSize)
         (c.JSFunction_GetHeaderSize map.has_prototype_slot)] ++
      IterateJSObjectBodyImpl c map obj (c.JSFunction_GetHeaderSize map.has_prototype_slot)
        object_size ∧
    (∀ call ∈ JSFunction.BodyDescriptor.IterateBody c map obj object_size,
      ∀ (host : Address) (kind : SlotKind) (s e : Int),
        call = VisitPointers host kind s e →
        c.JSFunction_kCodeOffset ∉ rangeSlots c.kTaggedSize s e) ∧
    (c.kTaggedSize ∣ offset → JSFunction.BodyDescriptor.kStartOffset c ≤ offset →
      offset < c.JSFunction_GetHeaderSize map.has_prototype_slot →
      ((JSFunction.BodyDescriptor.IterateBody c map obj object_size).flatMap
        (VisitorCall.deliveredSlots c.kTaggedSize)).count offset = 1) := by
  have hts : 0 < c.kTaggedSize := hb.1
  obtain ⟨h1, h2, h3, h4⟩ := hord
  have h0 : ¬ JSFunction.BodyDescriptor.kStartOffset c = HeapObject.kMapOffset := by
    unfold HeapObject.kMapOffset
    omega
  have hc : ¬ c.JSFunction_kCodeOffset + c.kTaggedSize = HeapObject.kMapOffset := by
    unfold HeapObject.kMapOffset
    omega
  have htrace : JSFunction.BodyDescriptor.IterateBody c map obj object_size =
      [VisitPointers obj.address ObjectSlot (JSFunction.BodyDescriptor.kStartOffset c)
         c.JSFunction_kCodeOffset,
       VisitCustomWeakPointer obj.address c.JSFunction_kCodeOffset,
       VisitPointers obj.address ObjectSlot (c.JSFunction_kCodeOffset + c.kTaggedSize)
         (c.JSFunction_GetHeaderSize map.has_prototype_slot)] ++
      IterateJSObjectBodyImpl c map obj (c.JSFunction_GetHeaderSize map.has_prototype_slot)
        object_size := by
    unfold JSFunction.BodyDescriptor.IterateBody
    simp only [IteratePointers, IterateCustomWeakPointer, if_neg h0, if_neg hc]
    rfl
  obtain ⟨hjs1, hjs2⟩ := jsBody_slots_ge c map obj
    (c.JSFunction_GetHeaderSize map.has_prototype_slot) object_size hb h4
  refine ⟨htrace, ?_, ?_⟩
  · intro call hcall host kind s e heq hmem
    rw [mem_rangeSlots] at hmem
    rw [htrace] at hcall
    simp only [List.cons_append, List.nil_append, List.mem_cons] at hcall
    rcases hcall with hx | hx | hx | hx
    · rw [heq] at hx
      injection hx with _ _ es ee
      omega
    · rw [heq] at hx
      cases hx
    · rw [heq] at hx
      injection hx with _ _ es ee
      omega
    · have := hjs2 call hx (s, e) (by rw [heq]; exact List.mem_singleton.mpr rfl)
      simp only at this
      omega
  · intro hal hlo hhi
    obtain ⟨hi, hasc⟩ := traceAscending_iterateBody Descriptor.JSFunction c map obj
      object_size hb ⟨h1, h2, h3, h4⟩
    have hp := (traceAscending_slots c.kTaggedSize hts _ _ _ hasc).1
    have hnodup : ((JSFunction.BodyDescriptor.IterateBody c map obj object_size).flatMap
        (VisitorCall.deliveredSlots c.kTaggedSize)).Nodup :=
      List.Pairwise.imp (fun hlt => ne_of_lt hlt) hp
    apply List.count_eq_one_of_mem hnodup
    rw [htrace]
    simp only [List.cons_append, List.nil_append, List.flatMap_cons,
      VisitorCall.deliveredSlots, VisitorCall.pointerSlots, List.mem_append, List.mem_cons,
      List.mem_singleton, List.not_mem_nil, or_false]
    by_cases ha : offset < c.JSFunction_kCodeOffset
    · exact Or.inl ((mem_rangeSlots_of_aligned _ _ _ _ hal1 hal).mpr ⟨hlo, ha⟩)
    · by_cases hb2 : offset < c.JSFunction_kCodeOffset + c.kTaggedSize
      · exact Or.inr (Or.inl (eq_of_aligned_between _ _ _ hal2 hal (by omega) hb2))
      · exact Or.inr (Or.inr (Or.inl ((mem_rangeSlots_of_aligned _ _ _ _
          (Int.dvd_add hal2 (dvd_refl _)) hal).mpr ⟨by omega, hhi⟩)))

/-- C26 at a concrete input: a function without prototype slot in the sample layout
(code slot at 24, header size 28), under a map whose header is those 28 bytes. -/
theorem jsFunction_iterateBody_witness :
    compressedLayout.Basic ∧
    ((JSFunction.BodyDescriptor.IterateBody compressedLayout
        { sampleMap with JSObject_GetHeaderSize := 28,
                         JSObject_GetEmbedderFieldsStartOffset := 28,
                         GetInObjectPropertyOffset_0 := 44 } sampleObject 52).flatMap
      (VisitorCall.deliveredSlots compressedLayout.kTaggedSize)).count 24 = 1 ∧
    (∀ call ∈ JSFunction.BodyDescriptor.IterateBody compressedLayout
        { sampleMap with JSObject_GetHeaderSize := 28,
                         JSObject_GetEmbedderFieldsStartOffset := 28,
                         GetInObjectPropertyOffset_0 := 44 } sampleObject 52,
      ∀ (host : Address) (kind : SlotKind) (s e : Int),
        call = VisitPointers host kind s e →
        compressedLayout.JSFunction_kCodeOffset ∉
          rangeSlots compressedLayout.kTaggedSize s e) :=
  have h := jsFunction_iterateBody compressedLayout
    { sampleMap with JSObject_GetHeaderSize := 28,
                     JSObject_GetEmbedderFieldsStartOffset := 28,
                     GetInObjectPropertyOffset_0 := 44 } sampleObject 52 24
    ⟨by decide, fun _ => ⟨rfl, ⟨3, rfl⟩, Or.inl rfl⟩⟩
    ⟨by decide, by decide, by decide, by decide, fun _ _ => ⟨by decide, 2, by decide⟩⟩
    ⟨1, rfl⟩ ⟨6, rfl⟩
  ⟨⟨by decide, fun _ => ⟨rfl, ⟨3, rfl⟩, Or.inl rfl⟩⟩,
    h.2.2 ⟨6, rfl⟩ (by decide) (by decide), h.2.1⟩

/-- C27: under pointer compression, `EmbedderDataArray::BodyDescriptor::IterateBody`
issues one `VisitPointer` for each offset `OffsetOfElementAt(0) + kTaggedPayloadOffset +
k * kEmbedderDataSlotSize` below `object_size`, in ascending order of `k`, and nothing
else; each delivered offset sits at `kTaggedPayloadOffset` in its embedder slot, never in
the raw half; and when `OffsetOfElementAt(0) = kHeaderSize`, `IsValidSlot` accepts every
delivered offset and rejects every offset at or above `kHeaderSize` that does not sit at
`kTaggedPayloadOffset` in its slot.  Without pointer compression `IterateBody` is the
single strong range `[kHeaderSize, object_size)` and `IsValidSlot` is true everywhere. -/
theorem embedderDataArray_bodyDescriptor (c : Layout) (map : Map) (obj : HeapObject)
    (object_size offset : Int) (hb : c.Basic) :
    (c.V8_COMPRESS_POINTERS = true →
      EmbedderDataArray.BodyDescriptor.IterateBody c map obj object_size =
        (List.range ((object_size - (c.EmbedderDataArray_OffsetOfElementAt 0 +
            c.EmbedderDataSlot_kTaggedPayloadOffset) + c.kEmbedderDataSlotSize - 1) /
            c.kEmbedderDataSlotSize).toNat).map
          (fun (k : Nat) => VisitPointer obj.address ObjectSlot
            (c.EmbedderDataArray_OffsetOfElementAt 0 +
              c.EmbedderDataSlot_kTaggedPayloadOffset + c.kEmbedderDataSlotSize * (k : Int))) ∧
      (∀ k : Nat,
        k < ((object_size - (c.EmbedderDataArray_OffsetOfElementAt 0 +
            c.EmbedderDataSlot_kTaggedPayloadOffset) + c.kEmbedderDataSlotSize - 1) /
            c.kEmbedderDataSlotSize).toNat ↔
        c.EmbedderDataArray_OffsetOfElementAt 0 + c.EmbedderDataSlot_kTaggedPayloadOffset +
          c.kEmbedderDataSlotSize * (k : Int) < object_size) ∧
      (∀ call ∈ EmbedderDataArray.BodyDescriptor.IterateBody c map obj object_size,
        ∀ o ∈ call.pointerSlots c.kTaggedSize,
          (o - c.EmbedderDataArray_OffsetOfElementAt 0) % c.kEmbedderDataSlotSize =
            c.EmbedderDataSlot_kTaggedPayloadOffset) ∧
      (c.EmbedderDataArray_OffsetOfElementAt 0 = c.EmbedderDataArray_kHeaderSize →
        (∀ call ∈ EmbedderDataArray.BodyDescriptor.IterateBody c map obj object_size,
          ∀ o ∈ call.pointerSlots c.kTaggedSize,
            EmbedderDataArray.BodyDescriptor.IsValidSlot c map obj o = true) ∧
        (c.EmbedderDataArray_kHeaderSize ≤ offset →
          (offset - c.EmbedderDataArray_kHeaderSize) % c.kEmbedderDataSlotSize ≠
            c.EmbedderDataSlot_kTaggedPayloadOffset →
          EmbedderDataArray.BodyDescriptor.IsValidSlot c map obj offset = false))) ∧
    (c.V8_COMPRESS_POINTERS = false →
      (c.EmbedderDataArray_kHeaderSize ≠ HeapObject.kMapOffset →
        EmbedderDataArray.BodyDescriptor.IterateBody c map obj object_size =
          [VisitPointers obj.address ObjectSlot c.EmbedderDataArray_kHeaderSize object_size]) ∧
      EmbedderDataArray.BodyDescriptor.IsValidSlot c map obj offset = true) := by
  obtain ⟨hts, hemb⟩ := hb
  constructor
  · intro hc
    obtain ⟨hstride, ⟨m, hm⟩, hpay⟩ := hemb hc
    have hS : 0 < c.kEmbedderDataSlotSize := by omega
    have hpay0 : 0 ≤ c.EmbedderDataSlot_kTaggedPayloadOffset := by omega
    have hpay1 : c.EmbedderDataSlot_kTaggedPayloadOffset < c.kEmbedderDataSlotSize := by omega
    have htrace : EmbedderDataArray.BodyDescriptor.IterateBody c map obj object_size =
        (List.range ((object_size - (c.EmbedderDataArray_OffsetOfElementAt 0 +
            c.EmbedderDataSlot_kTaggedPayloadOffset) + c.kEmbedderDataSlotSize - 1) /
            c.kEmbedderDataSlotSize).toNat).map
          (fun (k : Nat) => VisitPointer obj.address ObjectSlot
            (c.EmbedderDataArray_OffsetOfElementAt 0 +
              c.EmbedderDataSlot_kTaggedPayloadOffset +
              c.kEmbedderDataSlotSize * (k : Int))) := by
      unfold EmbedderDataArray.BodyDescriptor.IterateBody
      simp only [hc, if_true]
      exact embedderSlotLoop_closed obj _ _ _ _ hS (le_refl _)
    have hmem : ∀ call ∈ EmbedderDataArray.BodyDescriptor.IterateBody c map obj object_size,
        ∀ o ∈ call.pointerSlots c.kTaggedSize, ∃ k : Nat,
          o = c.EmbedderDataArray_OffsetOfElementAt 0 +
            c.EmbedderDataSlot_kTaggedPayloadOffset + c.kEmbedderDataSlotSize * (k : Int) := by
      intro call hcall o ho
      rw [htrace] at hcall
      obtain ⟨k, _, rfl⟩ := List.mem_map.mp hcall
      simp only [VisitorCall.pointerSlots, List.mem_singleton] at ho
      exact ⟨k, ho⟩
    have hmod : ∀ k : Nat,
        (c.EmbedderDataSlot_kTaggedPayloadOffset + c.kEmbedderDataSlotSize * (k : Int)) %
          c.kEmbedderDataSlotSize = c.EmbedderDataSlot_kTaggedPayloadOffset := by
      intro k
      rw [Int.add_mul_emod_self_left]
      exact Int.emod_eq_of_lt hpay0 hpay1
    have hl : ∀ x : Int, 0 ≤ x →
        Int.land x (c.kEmbedderDataSlotSize - 1) = x % c.kEmbedderDataSlotSize := by
      intro x hx
      rw [hm]
      exact land_mask_eq_emod x m hx
    refine ⟨htrace, ?_, ?_, ?_⟩
    · intro k
      have hspec := loop_iterations_spec c.kEmbedderDataSlotSize object_size
        (c.EmbedderDataArray_OffsetOfElementAt 0 + c.EmbedderDataSlot_kTaggedPayloadOffset) hS
      dsimp only at hspec
      obtain ⟨_, h2, h3, _⟩ := hspec
      generalize ((object_size - (c.EmbedderDataArray_OffsetOfElementAt 0 +
        c.EmbedderDataSlot_kTaggedPayloadOffset) + c.kEmbedderDataSlotSize - 1) /
        c.kEmbedderDataSlotSize).toNat = n at h2 h3 ⊢
      constructor
      · intro hk
        rcases h3 with h3 | h3
        · omega
        · have hle : (k : Int) ≤ ((n - 1 : Nat) : Int) := by omega
          have := Int.mul_le_mul_of_nonneg_left hle (le_of_lt hS)
          omega
      · intro hk
        by_contra hge
        have hle : (n : Int) ≤ (k : Int) := by omega
        have := Int.mul_le_mul_of_nonneg_left hle (le_of_lt hS)
        omega
    · intro call hcall o ho
      obtain ⟨k, rfl⟩ := hmem call hcall o ho
      have e : c.EmbedderDataArray_OffsetOfElementAt 0 +
          c.EmbedderDataSlot_kTaggedPayloadOffset + c.kEmbedderDataSlotSize * (k : Int) -
          c.EmbedderDataArray_OffsetOfElementAt 0 =
          c.EmbedderDataSlot_kTaggedPayloadOffset + c.kEmbedderDataSlotSize * (k : Int) := by
        ring
      rw [e]
      exact hmod k
    · intro hE
      constructor
      · intro call hcall o ho
        obtain ⟨k, rfl⟩ := hmem call hcall o ho
        have hk : 0 ≤ c.kEmbedderDataSlotSize * (k : Int) :=
          Int.mul_nonneg (le_of_lt hS) (Int.ofNat_nonneg k)
        unfold EmbedderDataArray.BodyDescriptor.IsValidSlot
        simp only [hc, if_true, Bool.or_eq_true, decide_eq_true_eq]
        right
        rw [hE, hl _ (by omega)]
        have e : c.EmbedderDataArray_kHeaderSize +
            c.EmbedderDataSlot_kTaggedPayloadOffset + c.kEmbedderDataSlotSize * (k : Int) -
            c.EmbedderDataArray_kHeaderSize =
            c.EmbedderDataSlot_kTaggedPayloadOffset + c.kEmbedderDataSlotSize * (k : Int) := by
          ring
        rw [e]
        exact hmod k
      · intro hge hne
        unfold EmbedderDataArray.BodyDescriptor.IsValidSlot
        simp only [hc, if_true, Bool.or_eq_false_iff, decide_eq_false_iff_not]
        refine ⟨by omega, ?_⟩
        rw [hl _ (by omega)]
        exact hne
  · intro hc
    constructor
    · intro h0
      unfold EmbedderDataArray.BodyDescriptor.IterateBody IteratePointers
      simp only [hc, Bool.false_eq_true, if_false, if_neg h0]
    · unfold EmbedderDataArray.BodyDescriptor.IsValidSlot
      simp only [hc, Bool.false_eq_true, if_false]

/-- C27 at a concrete input: an embedder data array of two slots (24 bytes) in the sample
pointer-compression layout. -/
theorem embedderDataArray_bodyDescriptor_witness :
    EmbedderDataArray.BodyDescriptor.IterateBody compressedLayout sampleMap sampleObject 24 =
      [VisitPointer 4096 ObjectSlot 8, VisitPointer 4096 ObjectSlot 16] ∧
    EmbedderDataArray.BodyDescriptor.IsValidSlot compressedLayout sampleMap sampleObject 12 =
      false :=
  ⟨(((embedderDataArray_bodyDescriptor compressedLayout sampleMap sampleObject 24 12
      ⟨by decide, fun _ => ⟨rfl, ⟨3, rfl⟩, Or.inl rfl⟩⟩).1 rfl).1).trans (by decide),
   (((embedderDataArray_bodyDescriptor compressedLayout sampleMap sampleObject 24 12
      ⟨by decide, fun _ => ⟨rfl, ⟨3, rfl⟩, Or.inl rfl⟩⟩).1 rfl).2.2.2 rfl).2 (by decide)
      (by decide)⟩

/-- The slots delivered by a strong range that does not start at the map word. -/
theorem deliveredSlots_iteratePointers (c : Layout) (obj : HeapObject) (s e : Int)
    (hs : s ≠ HeapObject.kMapOffset) :
    (IteratePointers c obj s e).flatMap (VisitorCall.deliveredSlots c.kTaggedSize) =
      rangeSlots c.kTaggedSize s e := by
  unfold IteratePointers
  rw [if_neg hs]
  simp [VisitorCall.deliveredSlots, VisitorCall.pointerSlots]

/-- C29: for the `JSArrayBuffer`, `JSDataView` and `JSTypedArray` descriptors, every
offset of the raw header region `[kEndOfTaggedFieldsOffset, kHeaderSize)` is rejected by
`IsValidSlot` and not delivered by `IterateBody`, except `JSTypedArray`'s
`kBasePointerOffset`, which is accepted and delivered exactly once, by a `VisitPointer`
call; and at or above `kHeaderSize`, `IsValidSlot` is `IsValidJSObjectSlotImpl` and the
slots delivered are those of `IterateJSObjectBodyImpl(map, obj, kHeaderSize,
object_size)`. -/
theorem jsArrayBufferLike_rawHeader (c : Layout) (map : Map) (obj : HeapObject)
    (object_size offset : Int) (hb : c.Basic) :
    (Descriptor.JSArrayBuffer.LayoutOrdered c map obj →
      (c.JSArrayBuffer_kEndOfTaggedFieldsOffset ≤ offset →
        offset < c.JSArrayBuffer_kHeaderSize →
        JSArrayBuffer.BodyDescriptor.IsValidSlot c map obj offset = false ∧
        offset ∉ (JSArrayBuffer.BodyDescriptor.IterateBody c map obj object_size).flatMap
          (VisitorCall.deliveredSlots c.kTaggedSize)) ∧
      (c.JSArrayBuffer_kHeaderSize ≤ offset →
        JSArrayBuffer.BodyDescriptor.IsValidSlot c map obj offset =
          IsValidJSObjectSlotImpl c map obj offset ∧
        (offset ∈ (JSArrayBuffer.BodyDescriptor.IterateBody c map obj object_size).flatMap
            (VisitorCall.deliveredSlots c.kTaggedSize) ↔
          offset ∈ (IterateJSObjectBodyImpl c map obj c.JSArrayBuffer_kHeaderSize
            object_size).flatMap (VisitorCall.deliveredSlots c.kTaggedSize)))) ∧
    (Descriptor.JSDataView.LayoutOrdered c map obj →
      (c.JSDataView_kEndOfTaggedFieldsOffset ≤ offset →
        offset < c.JSDataView_kHeaderSize →
        JSDataView.BodyDescriptor.IsValidSlot c map obj offset = false ∧
        offset ∉ (JSDataView.BodyDescriptor.IterateBody c map obj object_size).flatMap
          (VisitorCall.deliveredSlots c.kTaggedSize)) ∧
      (c.JSDataView_kHeaderSize ≤ offset →
        JSDataView.BodyDescriptor.IsValidSlot c map obj offset =
          IsValidJSObjectSlotImpl c map obj offset ∧
        (offset ∈ (JSDataView.BodyDescriptor.IterateBody c map obj object_size).flatMap
            (VisitorCall.deliveredSlots c.kTaggedSize) ↔
          offset ∈ (IterateJSObjectBodyImpl c map obj c.JSDataView_kHeaderSize
            object_size).flatMap (VisitorCall.deliveredSlots c.kTaggedSize)))) ∧
    (Descriptor.JSTypedArray.LayoutOrdered c map obj →
      (c.JSTypedArray_kEndOfTaggedFieldsOffset ≤ offset →
        offset < c.JSTypedArray_kHeaderSize → offset ≠ c.JSTypedArray_kBasePointerOffset →
        JSTypedArray.BodyDescriptor.IsValidSlot c map obj offset = false ∧
        offset ∉ (JSTypedArray.BodyDescriptor.IterateBody c map obj object_size).flatMap
          (VisitorCall.deliveredSlots c.kTaggedSize)) ∧
      (JSTypedArray.BodyDescriptor.IsValidSlot c map obj c.JSTypedArray_kBasePointerOffset =
          true ∧
        VisitPointer obj.address ObjectSlot c.JSTypedArray_kBasePointerOffset ∈
          JSTypedArray.BodyDescriptor.IterateBody c map obj object_size ∧
        ((JSTypedArray.BodyDescriptor.IterateBody c map obj object_size).flatMap
          (VisitorCall.deliveredSlots c.kTaggedSize)).count
            c.JSTypedArray_kBasePointerOffset = 1) ∧
      (c.JSTypedArray_kHeaderSize ≤ offset →
        JSTypedArray.BodyDescriptor.IsValidSlot c map obj offset =
          IsValidJSObjectSlotImpl c map obj offset ∧
        (offset ∈ (JSTypedArray.BodyDescriptor.IterateBody c map obj object_size).flatMap
            (VisitorCall.deliveredSlots c.kTaggedSize) ↔
          offset ∈ (IterateJSObjectBodyImpl c map obj c.JSTypedArray_kHeaderSize
            object_size).flatMap (VisitorCall.deliveredSlots c.kTaggedSize)))) := by
  have hts : 0 < c.kTaggedSize := hb.1
  refine ⟨?_, ?_, ?_⟩
  · rintro ⟨h1, h2, h3, h4⟩
    have h0 : c.JSReceiver_kPropertiesOrHashOffset ≠ HeapObject.kMapOffset := by
      unfold HeapObject.kMapOffset
      omega
    have hjs := (jsBody_slots_ge c map obj c.JSArrayBuffer_kHeaderSize object_size hb h4).1
    have hslots : ∀ o, o ∈ (JSArrayBuffer.BodyDescriptor.IterateBody c map obj
          object_size).flatMap (VisitorCall.deliveredSlots c.kTaggedSize) ↔
        o ∈ rangeSlots c.kTaggedSize c.JSReceiver_kPropertiesOrHashOffset
            c.JSArrayBuffer_kEndOfTaggedFieldsOffset ∨
          o ∈ (IterateJSObjectBodyImpl c map obj c.JSArrayBuffer_kHeaderSize
            object_size).flatMap (VisitorCall.deliveredSlots c.kTaggedSize) := by
      intro o
      unfold JSArrayBuffer.BodyDescriptor.IterateBody
      rw [List.flatMap_append, List.mem_append, deliveredSlots_iteratePointers c obj _ _ h0]
    constructor
    · intro ha hb2
      constructor
      · unfold JSArrayBuffer.BodyDescriptor.IsValidSlot
        rw [if_neg (by omega), if_pos hb2]
      · rw [hslots, mem_rangeSlots]
        rintro (h | h)
        · omega
        · have := hjs offset h
          omega
    · intro ha
      constructor
      · unfold JSArrayBuffer.BodyDescriptor.IsValidSlot
        rw [if_neg (by omega), if_neg (by omega)]
      · rw [hslots, mem_rangeSlots]
        constructor
        · rintro (h | h)
          · omega
          · exact h
        · exact fun h => Or.inr h
  · rintro ⟨h1, h2, h3, h4⟩
    have h0 : c.JSReceiver_kPropertiesOrHashOffset ≠ HeapObject.kMapOffset := by
      unfold HeapObject.kMapOffset
      omega
    have hjs := (jsBody_slots_ge c map obj c.JSDataView_kHeaderSize object_size hb h4).1
    have hslots : ∀ o, o ∈ (JSDataView.BodyDescriptor.IterateBody c map obj
          object_size).flatMap (VisitorCall.deliveredSlots c.kTaggedSize) ↔
        o ∈ rangeSlots c.kTaggedSize c.JSReceiver_kPropertiesOrHashOffset
            c.JSDataView_kEndOfTaggedFieldsOffset ∨
          o ∈ (IterateJSObjectBodyImpl c map obj c.JSDataView_kHeaderSize
            object_size).flatMap (VisitorCall.deliveredSlots c.kTaggedSize) := by
      intro o
      unfold JSDataView.BodyDescriptor.IterateBody
      rw [List.flatMap_append, List.mem_append, deliveredSlots_iteratePointers c obj _ _ h0]
    constructor
    · intro ha hb2
      constructor
      · unfold JSDataView.BodyDescriptor.IsValidSlot
        rw [if_neg (by omega), if_pos hb2]
      · rw [hslots, mem_rangeSlots]
        rintro (h | h)
        · omega
        · have := hjs offset h
          omega
    · intro ha
      constructor
      · unfold JSDataView.BodyDescriptor.IsValidSlot
        rw [if_neg (by omega), if_neg (by omega)]
      · rw [hslots, mem_rangeSlots]
        constructor
        · rintro (h | h)
          · omega
          · exact h
        · exact fun h => Or.inr h
  · rintro ⟨h1, h2, h3, h4, h5⟩
    have h0 : c.JSReceiver_kPropertiesOrHashOffset ≠ HeapObject.kMapOffset := by
      unfold HeapObject.kMapOffset
      omega
    have hjs := (jsBody_slots_ge c map obj c.JSTypedArray_kHeaderSize object_size hb h5).1
    have hslots : ∀ o, o ∈ (JSTypedArray.BodyDescriptor.IterateBody c map obj
          object_size).flatMap (VisitorCall.deliveredSlots c.kTaggedSize) ↔
        (o ∈ rangeSlots c.kTaggedSize c.JSReceiver_kPropertiesOrHashOffset
            c.JSTypedArray_kEndOfTaggedFieldsOffset ∨
          o = c.JSTypedArray_kBasePointerOffset) ∨
          o ∈ (IterateJSObjectBodyImpl c map obj c.JSTypedArray_kHeaderSize
            object_size).flatMap (VisitorCall.deliveredSlots c.kTaggedSize) := by
      intro o
      unfold JSTypedArray.BodyDescriptor.IterateBody
      rw [List.flatMap_append, List.flatMap_append, List.mem_append, List.mem_append,
        deliveredSlots_iteratePointers c obj _ _ h0]
      simp [IteratePointer, VisitorCall.deliveredSlots, VisitorCall.pointerSlots]
    refine ⟨?_, ⟨?_, ?_, ?_⟩, ?_⟩
    · intro ha hb2 hne
      constructor
      · unfold JSTypedArray.BodyDescriptor.IsValidSlot
        rw [if_neg (by omega), if_neg hne, if_pos hb2]
      · rw [hslots, mem_rangeSlots]
        rintro ((h | h) | h)
        · omega
        · exact hne h
        · have := hjs offset h
          omega
    · unfold JSTypedArray.BodyDescriptor.IsValidSlot
      rw [if_neg (by omega), if_pos rfl]
    · unfold JSTypedArray.BodyDescriptor.IterateBody IteratePointer
      simp
    · obtain ⟨hi, hasc⟩ := traceAscending_iterateBody Descriptor.JSTypedArray c map obj
        object_size hb ⟨h1, h2, h3, h4, h5⟩
      have hp := (traceAscending_slots c.kTaggedSize hts _ _ _ hasc).1
      apply List.count_eq_one_of_mem (List.Pairwise.imp (fun hlt => ne_of_lt hlt) hp)
      exact (hslots _).mpr (Or.inl (Or.inr rfl))
    · intro ha
      constructor
      · unfold JSTypedArray.BodyDescriptor.IsValidSlot
        rw [if_neg (by omega), if_neg (by omega), if_neg (by omega)]
      · rw [hslots, mem_rangeSlots]
        constructor
        · rintro ((h | h) | h)
          · omega
          · omega
          · exact h
        · exact fun h => Or.inr h

/-- C29 at a concrete input: a typed array in the sample layout (tagged header fields
end at 16, base pointer at 48, header size 56); offset 20 of the raw header is rejected
and not delivered. -/
theorem jsArrayBufferLike_rawHeader_witness :
    JSTypedArray.BodyDescriptor.IsValidSlot compressedLayout
      { sampleMap with JSObject_GetHeaderSize := 56,
                       JSObject_GetEmbedderFieldsStartOffset := 56,
                       GetInObjectPropertyOffset_0 := 72 } sampleObject 20 = false ∧
    (20 : Int) ∉ (JSTypedArray.BodyDescriptor.IterateBody compressedLayout
      { sampleMap with JSObject_GetHeaderSize := 56,
                       JSObject_GetEmbedderFieldsStartOffset := 56,
                       GetInObjectPropertyOffset_0 := 72 } sampleObject 80).flatMap
      (VisitorCall.deliveredSlots compressedLayout.kTaggedSize) :=
  ((jsArrayBufferLike_rawHeader compressedLayout
    { sampleMap with JSObject_GetHeaderSize := 56,
                     JSObject_GetEmbedderFieldsStartOffset := 56,
                     GetInObjectPropertyOffset_0 := 72 } sampleObject 80 20
    ⟨by decide, fun _ => ⟨rfl, ⟨3, rfl⟩, Or.inl rfl⟩⟩).2.2
    ⟨by decide, by decide, by decide, by decide, by decide,
      fun _ _ => ⟨by decide, 2, by decide⟩⟩).1 (by decide) (by decide) (by decide)

/-! ## Ranges of the JS object body -/

/-- The calls of the JS object body entered after the map word: no `VisitMapPointer`,
no inverted span, every delivered offset in `[start_offset, end_offset)`. -/
theorem jsBody_ranges (c : Layout) (map : Map) (obj : HeapObject)
    (start_offset end_offset : Int) (hb : c.Basic)
    (hpos : HeapObject.kMapOffset < start_offset)
    (h1 : map.GetInObjectPropertyOffset_0 ≤ end_offset)
    (h2 : start_offset ≤ map.JSObject_GetHeaderSize)
    (h3 : ¬ map.JSObject_GetHeaderSize < map.GetInObjectPropertyOffset_0 →
      start_offset ≤ end_offset) :
    ∀ call ∈ IterateJSObjectBodyImpl c map obj start_offset end_offset,
      (∀ host, call ≠ VisitMapPointer host) ∧
      (∀ span ∈ call.spans c.kTaggedSize, span.1 ≤ span.2) ∧
      (∀ o ∈ call.deliveredSlots c.kTaggedSize, start_offset ≤ o ∧ o < end_offset) := by
  obtain ⟨hts, hemb⟩ := hb
  unfold HeapObject.kMapOffset at hpos
  have hle : start_offset ≤ end_offset := by
    by_cases hh : map.JSObject_GetHeaderSize < map.GetInObjectPropertyOffset_0
    · omega
    · exact h3 hh
  have hrange : ∀ (s e : Int), 0 < s → s ≤ e → start_offset ≤ s → e ≤ end_offset →
      ∀ call ∈ IteratePointers c obj s e,
        (∀ host, call ≠ VisitMapPointer host) ∧
        (∀ span ∈ call.spans c.kTaggedSize, span.1 ≤ span.2) ∧
        (∀ o ∈ call.deliveredSlots c.kTaggedSize, start_offset ≤ o ∧ o < end_offset) := by
    intro s e hs hse hlo hhi call hcall
    have h0 : ¬ s = HeapObject.kMapOffset := by
      unfold HeapObject.kMapOffset
      omega
    unfold IteratePointers at hcall
    rw [if_neg h0, List.mem_singleton] at hcall
    subst hcall
    refine ⟨fun host h => (nomatch h), ?_, ?_⟩
    · intro span hspan
      simp only [VisitorCall.spans, List.mem_singleton] at hspan
      subst hspan
      exact hse
    · intro o ho
      simp only [VisitorCall.deliveredSlots, VisitorCall.pointerSlots, mem_rangeSlots] at ho
      omega
  intro call hcall
  unfold IterateJSObjectBodyImpl at hcall
  by_cases hc : c.V8_COMPRESS_POINTERS = true
  · simp only [hc, if_true] at hcall
    by_cases hh : map.JSObject_GetHeaderSize < map.GetInObjectPropertyOffset_0
    · rw [if_pos hh] at hcall
      obtain ⟨hstride, _, hpay⟩ := hemb hc
      rcases List.mem_append.mp hcall with hcall | hcall
      · rcases List.mem_append.mp hcall with hcall | hcall
        · exact hrange _ _ hpos h2 (le_refl _) (by omega) call hcall
        · obtain ⟨k, rfl, hk⟩ := mem_embedderSlotLoop obj _ _ _ _ call hcall
          have hk0 : 0 ≤ c.kEmbedderDataSlotSize * (k : Int) :=
            Int.mul_nonneg (by omega) (Int.ofNat_nonneg k)
          refine ⟨fun host h => (nomatch h), ?_, ?_⟩
          · intro span hspan
            simp only [VisitorCall.spans, List.mem_singleton] at hspan
            subst hspan
            simp only
            omega
          · intro o ho
            simp only [VisitorCall.deliveredSlots, VisitorCall.pointerSlots,
              List.mem_singleton] at ho
            omega
      · exact hrange _ _ (by omega) h1 (by omega) (le_refl _) call hcall
    · rw [if_neg hh] at hcall
      exact hrange _ _ hpos hle (le_refl _) (le_refl _) call hcall
  · simp only [hc] at hcall
    exact hrange _ _ hpos hle (le_refl _) (le_refl _) call hcall

/-- C31 as stated fails: with `header_size = kCodeOffset = 24` and `object_size = 32`
both asserted preconditions hold (`32 ≥ 24`, `24 ≥ 24`), and `IterateBody` passes the
strong range `[28, 24)`, whose start lies after its end. -/
theorem jsFunction_ranges_counterexample :
    codeHeaderLayout.JSFunction_GetHeaderSize codeHeaderMap.has_prototype_slot ≤ (32 : Int) ∧
    codeHeaderLayout.JSFunction_kCodeOffset ≤
      codeHeaderLayout.JSFunction_GetHeaderSize codeHeaderMap.has_prototype_slot ∧
    JSFunction.BodyDescriptor.IterateBody codeHeaderLayout codeHeaderMap sampleObject 32 =
      [VisitPointers 4096 ObjectSlot 4 24, VisitCustomWeakPointer 4096 24,
       VisitPointers 4096 ObjectSlot 28 24, VisitPointers 4096 ObjectSlot 24 32] ∧
    ¬ ((28 : Int) ≤ 24) := by
  decide

/-- C31, amended: when the header reaches past the code slot (`header_size ≥ kCodeOffset +
kTaggedSize`), `object_size ≥ header_size`, the header fields start after the map word and
at or before the code slot, and the map meets the preconditions of
`IterateJSObjectBodyImpl` entered at `header_size`, then
`JSFunction::BodyDescriptor::IterateBody` passes the range `[kCodeOffset + kTaggedSize,
header_size)`, and every range it passes to the visitor has start ≤ end. -/
theorem jsFunction_ranges (c : Layout) (map : Map) (obj : HeapObject) (object_size : Int)
    (hb : c.Basic)
    (hstart : HeapObject.kMapOffset < JSFunction.BodyDescriptor.kStartOffset c)
    (hcode : JSFunction.BodyDescriptor.kStartOffset c ≤ c.JSFunction_kCodeOffset)
    (hheader : c.JSFunction_kCodeOffset + c.kTaggedSize ≤
      c.JSFunction_GetHeaderSize map.has_prototype_slot)
    (hsize : c.JSFunction_GetHeaderSize map.has_prototype_slot ≤ object_size)
    (hmap : c.JSFunction_GetHeaderSize map.has_prototype_slot ≤ map.JSObject_GetHeaderSize)
    (hin : map.GetInObjectPropertyOffset_0 ≤ object_size) :
    VisitPointers obj.address ObjectSlot (c.JSFunction_kCodeOffset + c.kTaggedSize)
        (c.JSFunction_GetHeaderSize map.has_prototype_slot) ∈
      JSFunction.BodyDescriptor.IterateBody c map obj object_size ∧
    (∀ (host : Address) (kind : SlotKind) (s e : Int),
      VisitPointers host kind s e ∈ JSFunction.BodyDescriptor.IterateBody c map obj
        object_size → s ≤ e) ∧
    (∀ call ∈ JSFunction.BodyDescriptor.IterateBody c map obj object_size,
      (∀ host, call ≠ VisitMapPointer host) ∧
      ∀ span ∈ call.spans c.kTaggedSize, span.1 ≤ span.2) := by
  have hts : 0 < c.kTaggedSize := hb.1
  unfold HeapObject.kMapOffset at hstart
  have h0 : ¬ JSFunction.BodyDescriptor.kStartOffset c = HeapObject.kMapOffset := by
    unfold HeapObject.kMapOffset
    omega
  have hc : ¬ c.JSFunction_kCodeOffset + c.kTaggedSize = HeapObject.kMapOffset := by
    unfold HeapObject.kMapOffset
    omega
  have htrace : JSFunction.BodyDescriptor.IterateBody c map obj object_size =
      [VisitPointers obj.address ObjectSlot (JSFunction.BodyDescriptor.kStartOffset c)
         c.JSFunction_kCodeOffset,
       VisitCustomWeakPointer obj.address c.JSFunction_kCodeOffset,
       VisitPointers obj.address ObjectSlot (c.JSFunction_kCodeOffset + c.kTaggedSize)
         (c.JSFunction_GetHeaderSize map.has_prototype_slot)] ++
      IterateJSObjectBodyImpl c map obj (c.JSFunction_GetHeaderSize map.has_prototype_slot)
        object_size := by
    unfold JSFunction.BodyDescriptor.IterateBody
    simp only [IteratePointers, IterateCustomWeakPointer, if_neg h0, if_neg hc]
    rfl
  have hbody := jsBody_ranges c map obj (c.JSFunction_GetHeaderSize map.has_prototype_slot)
    object_size hb (by unfold HeapObject.kMapOffset; omega) hin hmap (fun _ => hsize)
  have hall : ∀ call ∈ JSFunction.BodyDescriptor.IterateBody c map obj object_size,
      (∀ host, call ≠ VisitMapPointer host) ∧
      ∀ span ∈ call.spans c.kTaggedSize, span.1 ≤ span.2 := by
    intro call hcall
    rw [htrace] at hcall
    simp only [List.cons_append, List.nil_append, List.mem_cons] at hcall
    rcases hcall with hx | hx | hx | hx
    · subst hx
      refine ⟨fun host h => (nomatch h), ?_⟩
      intro span hspan
      simp only [VisitorCall.spans, List.mem_singleton] at hspan
      subst hspan
      exact hcode
    · subst hx
      refine ⟨fun host h => (nomatch h), ?_⟩
      intro span hspan
      simp only [VisitorCall.spans, List.mem_singleton] at hspan
      subst hspan
      simp only
      omega
    · subst hx
      refine ⟨fun host h => (nomatch h), ?_⟩
      intro span hspan
      simp only [VisitorCall.spans, List.mem_singleton] at hspan
      subst hspan
      exact hheader
    · exact ⟨(hbody call hx).1, (hbody call hx).2.1⟩
  refine ⟨?_, ?_, hall⟩
  · rw [htrace]
    simp
  · intro host kind s e hmem
    exact (hall _ hmem).2 (s, e) (by simp [VisitorCall.spans])

/-- C31 (amended) at a concrete input: a function without prototype slot in the sample
layout (code slot at 24, header size 28) with in-object properties from 44 and size 52. -/
theorem jsFunction_ranges_witness :
    compressedLayout.JSFunction_kCodeOffset + compressedLayout.kTaggedSize ≤
      compressedLayout.JSFunction_GetHeaderSize functionMap.has_prototype_slot ∧
    VisitPointers 4096 ObjectSlot 28 28 ∈
      JSFunction.BodyDescriptor.IterateBody compressedLayout functionMap sampleObject 52 ∧
    (∀ (host : Address) (kind : SlotKind) (s e : Int),
      VisitPointers host kind s e ∈
        JSFunction.BodyDescriptor.IterateBody compressedLayout functionMap sampleObject 52 →
      s ≤ e) :=
  have h := jsFunction_ranges compressedLayout functionMap sampleObject 52
    ⟨by decide, fun _ => ⟨rfl, ⟨3, rfl⟩, Or.inl rfl⟩⟩
    (by decide) (by decide) (by decide) (by decide) (by decide) (by decide)
  ⟨by decide, h.1, h.2.1⟩

/-! ## The tagged field table of the Wasm instance object -/

/-- C33: `IterateMaybeWeakPointers`, `IterateCustomWeakPointers`, `IterateMaybeWeakPointer`
and `IterateCustomWeakPointer` each issue exactly one call, with the offsets they were
given, also at start offset 0 (`HeapObject::kMapOffset`); none of them issues
`VisitMapPointer`; and when `s` is not 0 the maybe-weak range delivers the same slots as
the strong range `IteratePointers(obj, s, e)`. -/
theorem weakPrimitives_forward (c : Layout) (obj : HeapObject) (s e offset : Int) :
    IterateMaybeWeakPointers obj s e = [VisitPointers obj.address MaybeObjectSlot s e] ∧
    IterateCustomWeakPointers obj s e = [VisitCustomWeakPointers obj.address s e] ∧
    IterateMaybeWeakPointer obj offset = [VisitPointer obj.address MaybeObjectSlot offset] ∧
    IterateCustomWeakPointer obj offset = [VisitCustomWeakPointer obj.address offset] ∧
    IterateMaybeWeakPointers obj HeapObject.kMapOffset e =
      [VisitPointers obj.address MaybeObjectSlot HeapObject.kMapOffset e] ∧
    IterateCustomWeakPointers obj HeapObject.kMapOffset e =
      [VisitCustomWeakPointers obj.address HeapObject.kMapOffset e] ∧
    (∀ call ∈ IterateMaybeWeakPointers obj s e ++ IterateCustomWeakPointers obj s e ++
        IterateMaybeWeakPointer obj offset ++ IterateCustomWeakPointer obj offset,
      ∀ host, call ≠ VisitMapPointer host) ∧
    ((IterateMaybeWeakPointers obj s e).flatMap (VisitorCall.pointerSlots c.kTaggedSize) =
      rangeSlots c.kTaggedSize s e) ∧
    (s ≠ HeapObject.kMapOffset →
      (IterateMaybeWeakPointers obj s e).flatMap
          (VisitorCall.deliveredSlots c.kTaggedSize) =
        (IteratePointers c obj s e).flatMap (VisitorCall.deliveredSlots c.kTaggedSize) ∧
      ∀ b, ((IterateMaybeWeakPointers obj s e).any
          (fun call => call.coversByte c.kTaggedSize b)) =
        ((IteratePointers c obj s e).any (fun call => call.coversByte c.kTaggedSize b))) := by
  refine ⟨rfl, rfl, rfl, rfl, rfl, rfl, ?_, ?_, ?_⟩
  · intro call hcall host
    simp only [IterateMaybeWeakPointers, IterateCustomWeakPointers, IterateMaybeWeakPointer,
      IterateCustomWeakPointer, List.cons_append, List.nil_append, List.mem_cons,
      List.not_mem_nil, or_false] at hcall
    rcases hcall with h | h | h | h <;> subst h <;> exact fun h => (nomatch h)
  · simp [IterateMaybeWeakPointers, VisitorCall.pointerSlots]
  · intro hs
    unfold IteratePointers
    rw [if_neg hs]
    exact ⟨rfl, fun b => rfl⟩

/-- C33 at concrete inputs: the maybe-weak range entered at offset 0 is forwarded as
`[0, 12)` with no `VisitMapPointer`, where the strong primitive splits off the map slot;
entered at offset 4 both deliver the slots 4 and 8. -/
theorem weakPrimitives_forward_witness :
    IterateMaybeWeakPointers sampleObject 0 12 = [VisitPointers 4096 MaybeObjectSlot 0 12] ∧
    IteratePointers compressedLayout sampleObject 0 12 =
      [VisitMapPointer 4096, VisitPointers 4096 ObjectSlot 4 12] ∧
    (IterateMaybeWeakPointers sampleObject 4 12).flatMap
        (VisitorCall.deliveredSlots compressedLayout.kTaggedSize) = [4, 8] ∧
    (IterateMaybeWeakPointers sampleObject 4 12).flatMap
        (VisitorCall.deliveredSlots compressedLayout.kTaggedSize) =
      (IteratePointers compressedLayout sampleObject 4 12).flatMap
        (VisitorCall.deliveredSlots compressedLayout.kTaggedSize) :=
  ⟨(weakPrimitives_forward compressedLayout sampleObject 0 12 0).1, by decide, by decide,
    ((weakPrimitives_forward compressedLayout sampleObject 4 12 0).2.2.2.2.2.2.2.2
      (by decide)).1⟩

/-! ## The fast descriptor of JS objects -/

/-- C34: for a map without embedder fields (`JSObject::GetHeaderSize(map) =
GetEmbedderFieldsStartOffset(map) ≥ GetInObjectPropertyOffset(0)`), and for every map in a
build without pointer compression, `JSObject::BodyDescriptor` and
`JSObject::FastBodyDescriptor` issue the same calls in `IterateBody`, the single strong
range `[kStartOffset, object_size)` when `kStartOffset` is not the map offset, return the
same `IsValidSlot` on every offset, and the same `SizeOf`. -/
theorem jsObject_fastBodyDescriptor_equivalent (c : Layout) (map : Map) (obj : HeapObject)
    (object_size : Int)
    (h : c.V8_COMPRESS_POINTERS = false ∨
      (map.JSObject_GetHeaderSize = map.JSObject_GetEmbedderFieldsStartOffset ∧
        map.GetInObjectPropertyOffset_0 ≤ map.JSObject_GetEmbedderFieldsStartOffset)) :
    JSObject.BodyDescriptor.IterateBody c map obj object_size =
      JSObject.FastBodyDescriptor.IterateBody c map obj object_size ∧
    (JSObject.BodyDescriptor.kStartOffset c ≠ HeapObject.kMapOffset →
      JSObject.BodyDescriptor.IterateBody c map obj object_size =
        [VisitPointers obj.address ObjectSlot (JSObject.BodyDescriptor.kStartOffset c)
          object_size]) ∧
    (∀ offset : Int, JSObject.BodyDescriptor.IsValidSlot c map obj offset =
      JSObject.FastBodyDescriptor.IsValidSlot c map obj offset) ∧
    JSObject.BodyDescriptor.SizeOf map obj = JSObject.FastBodyDescriptor.SizeOf map obj ∧
    Descriptor.JSObject.IterateBody c map obj object_size =
      Descriptor.JSObject_Fast.IterateBody c map obj object_size ∧
    (∀ offset : Int, Descriptor.JSObject.IsValidSlot c map obj offset =
      Descriptor.JSObject_Fast.IsValidSlot c map obj offset) := by
  have hbody : ∀ (s e : Int), IterateJSObjectBodyImpl c map obj s e =
      IteratePointers c obj s e := by
    intro s e
    unfold IterateJSObjectBodyImpl
    rcases h with hc | ⟨h1, h2⟩
    · simp [hc]
    · have hno : ¬ map.JSObject_GetHeaderSize < map.GetInObjectPropertyOffset_0 := by omega
      simp only [if_neg hno, ite_self]
  have hvalid : ∀ offset : Int, IsValidJSObjectSlotImpl c map obj offset = true := by
    intro offset
    unfold IsValidJSObjectSlotImpl
    rcases h with hc | ⟨h1, h2⟩
    · simp [hc]
    · have hno : ¬ (map.JSObject_GetEmbedderFieldsStartOffset ≤ offset ∧
          offset < map.GetInObjectPropertyOffset_0) := by omega
      simp only [if_neg hno, ite_self]
  have hiter : JSObject.BodyDescriptor.IterateBody c map obj object_size =
      JSObject.FastBodyDescriptor.IterateBody c map obj object_size := by
    unfold JSObject.BodyDescriptor.IterateBody JSObject.FastBodyDescriptor.IterateBody
    rw [hbody]
    rfl
  have hslot : ∀ offset : Int, JSObject.BodyDescriptor.IsValidSlot c map obj offset =
      JSObject.FastBodyDescriptor.IsValidSlot c map obj offset := by
    intro offset
    unfold JSObject.BodyDescriptor.IsValidSlot JSObject.FastBodyDescriptor.IsValidSlot
    rw [hvalid]
    unfold JSObject.BodyDescriptor.kStartOffset JSObject.FastBodyDescriptor.kStartOffset
    by_cases hlt : offset < c.JSReceiver_kPropertiesOrHashOffset
    · rw [if_pos hlt]
      exact (decide_eq_false (by omega)).symm
    · rw [if_neg hlt]
      exact (decide_eq_true (by omega)).symm
  refine ⟨hiter, ?_, hslot, rfl, hiter, fun offset => congrArg some (hslot offset)⟩
  intro hstart
  unfold JSObject.BodyDescriptor.IterateBody
  rw [hbody]
  unfold IteratePointers
  rw [if_neg hstart]

/-- C34 at concrete inputs: a map without embedder fields under pointer compression, and
the sample map, which has embedder fields, in the build without pointer compression. -/
theorem jsObject_fastBodyDescriptor_equivalent_witness :
    JSObject.BodyDescriptor.IterateBody compressedLayout plainObjectMap sampleObject 36 =
      JSObject.FastBodyDescriptor.IterateBody compressedLayout plainObjectMap sampleObject
        36 ∧
    JSObject.BodyDescriptor.IterateBody compressedLayout plainObjectMap sampleObject 36 =
      [VisitPointers 4096 ObjectSlot 4 36] ∧
    JSObject.BodyDescriptor.IterateBody fullPointerLayout sampleMap sampleObject 36 =
      JSObject.FastBodyDescriptor.IterateBody fullPointerLayout sampleMap sampleObject 36 ∧
    (∀ offset : Int,
      JSObject.BodyDescriptor.IsValidSlot fullPointerLayout sampleMap sampleObject offset =
        JSObject.FastBodyDescriptor.IsValidSlot fullPointerLayout sampleMap sampleObject
          offset) :=
  have h1 := jsObject_fastBodyDescriptor_equivalent compressedLayout plainObjectMap
    sampleObject 36 (Or.inr ⟨by decide, by decide⟩)
  have h2 := jsObject_fastBodyDescriptor_equivalent fullPointerLayout sampleMap
    sampleObject 36 (Or.inl rfl)
  ⟨h1.1, h1.2.1 (by decide), h2.1, h2.2.2.1⟩

/-! ## The types that the dispatch answers without a descriptor -/

/-- C35: for a map whose instance type is `BYTE_ARRAY_TYPE`, `BIGINT_TYPE` or
`FIXED_DOUBLE_ARRAY_TYPE`, `HeapObject::IterateBodyFast` returns `ReturnType()` without
applying a descriptor, and the calls it makes, none, are the calls of the `IterateBody`
of `ByteArray`, `BigInt`, `FixedDoubleArray::BodyDescriptor`, for every object and
`object_size`; the same holds for the entry point that reads the map from the object. -/
theorem iterateBodyFast_shortcut (c : Layout) (t : InstanceTypes)
    (external : DescriptorClass → Map → HeapObject → Int → List VisitorCall)
    (self : HeapObject) (map : Map) (object_size : Int) (v : ObjectVisitor)
    (hwf : t.WellFormed) :
    ∀ entry ∈ [(t.BYTE_ARRAY_TYPE, Descriptor.ByteArray), (t.BIGINT_TYPE, Descriptor.BigInt),
        (t.FIXED_DOUBLE_ARRAY_TYPE, Descriptor.FixedDoubleArray)],
      (map.instance_type = entry.1 →
        HeapObject.IterateBodyFastWithMap c t external self map object_size v =
          ApplyOutcome.returnedDefault [] ∧
        (HeapObject.IterateBodyFastWithMap c t external self map object_size v).calls =
          entry.2.IterateBody c map self object_size ∧
        (HeapObject.IterateBodyFastWithMap c t external self map object_size v).calls =
          CallIterateBody.apply c external (DescriptorClass.inFile entry.2) map self
            object_size v ∧
        entry.2.IterateBody c map self object_size = []) ∧
      (self.map.instance_type = entry.1 →
        HeapObject.IterateBodyFast c t external self v = ApplyOutcome.returnedDefault [] ∧
        (HeapObject.IterateBodyFast c t external self v).calls =
          entry.2.IterateBody c self.map self (self.SizeFromMap self.map)) := by
  have hdefault : ∀ type ∈ [t.BYTE_ARRAY_TYPE, t.BIGINT_TYPE, t.FIXED_DOUBLE_ARRAY_TYPE],
      ∀ (m : Map) (size : Int),
      BodyDescriptorApply t (CallIterateBody.apply c external) [] type m self size v =
        ApplyOutcome.returnedDefault [] := by
    intro type htype m size
    have hgroup : ∃ labels, (labels, CaseBody.returnDefault) ∈ switchCases t ∧
        type ∈ labels := by
      simp only [List.mem_cons, List.not_mem_nil, or_false] at htype
      rcases htype with h | h | h
      · subst h
        exact ⟨_, List.getElem?_mem (n := 39) rfl, by simp⟩
      · subst h
        exact ⟨_, List.getElem?_mem (n := 39) rfl, by simp⟩
      · subst h
        exact ⟨_, List.getElem?_mem (n := 5) rfl, by simp⟩
    obtain ⟨labels, hmem, hin⟩ := hgroup
    obtain ⟨hge, hjs, hfind⟩ := bodyDescriptorApply_of_other_group t hwf type labels
      CaseBody.returnDefault (fun h => (nomatch h)) hmem hin
    unfold BodyDescriptorApply
    simp only [if_neg hge, hjs, hfind]
    rfl
  have hempty : ∀ entry ∈ [(t.BYTE_ARRAY_TYPE, Descriptor.ByteArray),
      (t.BIGINT_TYPE, Descriptor.BigInt),
      (t.FIXED_DOUBLE_ARRAY_TYPE, Descriptor.FixedDoubleArray)],
      entry.1 ∈ [t.BYTE_ARRAY_TYPE, t.BIGINT_TYPE, t.FIXED_DOUBLE_ARRAY_TYPE] ∧
      ∀ (m : Map) (size : Int), entry.2.IterateBody c m self size = [] := by
    intro entry hentry
    simp only [List.mem_cons, List.not_mem_nil, or_false] at hentry
    rcases hentry with h | h | h <;> subst h <;> exact ⟨by simp, fun m size => rfl⟩
  intro entry hentry
  obtain ⟨hin, hnil⟩ := hempty entry hentry
  constructor
  · intro htype
    have hrun : HeapObject.IterateBodyFastWithMap c t external self map object_size v =
        ApplyOutcome.returnedDefault [] := by
      unfold HeapObject.IterateBodyFastWithMap
      rw [htype]
      exact hdefault entry.1 hin map object_size
    refine ⟨hrun, ?_, ?_, hnil map object_size⟩
    · rw [hrun, hnil]
      rfl
    · rw [hrun]
      show [] = entry.2.IterateBody c map self object_size
      rw [hnil]
  · intro htype
    have hrun : HeapObject.IterateBodyFast c t external self v =
        ApplyOutcome.returnedDefault [] := by
      unfold HeapObject.IterateBodyFast HeapObject.IterateBodyFastWithMap
      simp only [htype]
      exact hdefault entry.1 hin self.map _
    refine ⟨hrun, ?_⟩
    rw [hrun, hnil]
    rfl

/-- C35 at a concrete input: for the sample object under a map of instance type
`BYTE_ARRAY_TYPE`, `IterateBodyFast` returns the default and makes the calls of
`ByteArray::BodyDescriptor::IterateBody`, none. -/
theorem iterateBodyFast_shortcut_witness :
    sampleInstanceTypes.WellFormed ∧
    HeapObject.IterateBodyFastWithMap compressedLayout sampleInstanceTypes sampleExternal
        sampleObject byteArrayMap 36 () = ApplyOutcome.returnedDefault [] ∧
    (HeapObject.IterateBodyFastWithMap compressedLayout sampleInstanceTypes sampleExternal
        sampleObject byteArrayMap 36 ()).calls =
      ByteArray.BodyDescriptor.IterateBody compressedLayout byteArrayMap sampleObject 36 :=
  have h := (iterateBodyFast_shortcut compressedLayout sampleInstanceTypes sampleExternal
    sampleObject byteArrayMap 36 () sampleInstanceTypes_wellFormed
    (sampleInstanceTypes.BYTE_ARRAY_TYPE, Descriptor.ByteArray)
    (List.mem_cons_self _ _)).1 rfl
  ⟨sampleInstanceTypes_wellFormed, h.1, h.2.1⟩

end V8
